import Mathlib

/-!
# Present/VBlank scheduler of the SNA driver

A shallow embedding of `src/src/sna/sna_present.c`.

* Machine integers are `Nat`/`Int` with explicit wrap-around.
* Every call that leaves the file (the kernel, the X server, the rest of the
  driver) appends an `Effect` to the trace of the `World`; what such a call
  answers is read from an `Env`.
* The build modelled is the one with `assert` and `DBG` compiled out.
* A function that can divide by zero or dereference a NULL CRTC returns an
  `Option`; `none` is the crash.
-/

namespace SnaPresent

/-! ## Machine integers -/

/-- Number of values of a `uint64_t`. -/
def U64 : Nat := 2 ^ 64

/-- Number of values of a `uint32_t`. -/
def U32 : Nat := 2 ^ 32

/-- Subtraction of two `uint64_t` values. -/
def sub64 (a b : Nat) : Nat := (((a : Int) - (b : Int)) % (U64 : Int)).toNat

/-- Multiplication of two `uint64_t` values. -/
def mul64 (a b : Nat) : Nat := (a * b) % U64

/-- The cast `(int64_t)x` of a `uint64_t` value. -/
def toI64 (x : Nat) : Int :=
  if x % U64 < 2 ^ 63 then ((x % U64 : Nat) : Int) else ((x % U64 : Nat) : Int) - (U64 : Int)

/-- The conversion of a signed integer to `uint64_t`. -/
def ofInt64 (x : Int) : Nat := (x % (U64 : Int)).toNat

/-- The conversion of a signed integer to `uint32_t`. -/
def ofInt32 (x : Int) : Nat := (x % (U32 : Int)).toNat

/-- The `&= ~mask` of a `uint32_t`. -/
def clear32 (x mask : Nat) : Nat := x &&& ((U32 - 1) ^^^ (mask % U32))

/-! ## Constants of headers that are not among the sources -/

/-- The values of the macros this file takes from `sna.h`, `kgem.h` and the
headers of the Present extension and of the kernel: flag masks of
`sna->flags`, the async bit of the capability word, the scanout pin and the
tiling modes. Their values are parameters of the model. -/
structure Consts where
  SNA_NO_FLIP : Nat
  SNA_TEAR_FREE : Nat
  SNA_HAS_FLIP : Nat
  SNA_HAS_ASYNC_FLIP : Nat
  SNA_LINEAR_FB : Nat
  PresentCapabilityAsync : Nat
  PIN_SCANOUT : Nat
  I915_TILING_NONE : Nat
  I915_TILING_X : Nat
  I915_TILING_Y : Nat

/-- The `Success` of the core protocol (`X.h`). -/
def Success : Nat := 0

/-- The `BadAlloc` of the core protocol (`X.h`). -/
def BadAlloc : Nat := 11

/-- The `TRUE` of the X server's `Bool`, an `int`. -/
def TRUE : Nat := 1

/-- The `FALSE` of the X server's `Bool`, an `int`. -/
def FALSE : Nat := 0

/-- The `DRM_VBLANK_ABSOLUTE` request type of `drm.h`. -/
def DRM_VBLANK_ABSOLUTE : Nat := 0x0

/-- The `DRM_VBLANK_RELATIVE` request type of `drm.h`. -/
def DRM_VBLANK_RELATIVE : Nat := 0x1

/-- The `DRM_VBLANK_EVENT` request flag of `drm.h`. -/
def DRM_VBLANK_EVENT : Nat := 0x4000000

/-- The `DRM_VBLANK_NEXTONMISS` request flag of `drm.h`. -/
def DRM_VBLANK_NEXTONMISS : Nat := 0x10000000

/-- The `DRM_VBLANK_SECONDARY` request flag of `drm.h`. -/
def DRM_VBLANK_SECONDARY : Nat := 0x20000000

/-- The `DRM_VBLANK_HIGH_CRTC_SHIFT` of `drm.h`. -/
def DRM_VBLANK_HIGH_CRTC_SHIFT : Nat := 1

/-! ## Data model -/

/-- The `struct ust_msc` of a CRTC: the last recorded swap. -/
structure ust_msc where
  msc : Nat
  tv_sec : Int
  tv_usec : Int
deriving DecidableEq, Repr

/-- The fields of `DisplayModeRec` that `msc_to_delay` reads. -/
structure DisplayModeRec where
  Clock : Int
  HTotal : Int
  VTotal : Int
deriving DecidableEq, Repr

/-- An `xf86CrtcPtr` as this file sees it. -/
structure xf86Crtc where
  pipe : Int
  is_on : Bool
  swap : ust_msc
  desiredMode : DisplayModeRec
deriving DecidableEq, Repr

/-- The `struct sna_present_event`; `crtc` is an index into the CRTC table,
`none` being the NULL pointer. -/
structure sna_present_event where
  crtc : Option Nat
  event_id : Nat
  target_msc : Nat
deriving DecidableEq, Repr

/-- The reply half of `union drm_wait_vblank`. -/
structure drm_wait_vblank_reply where
  sequence : Nat
  tval_sec : Int
  tval_usec : Int
deriving DecidableEq, Repr

/-- A `struct drm_event_vblank` delivered by the kernel. -/
structure drm_event_vblank where
  sequence : Nat
  tv_sec : Int
  tv_usec : Int
deriving DecidableEq, Repr

/-- A `PixmapPtr` as this file sees it. -/
structure Pixmap where
  serialNumber : Nat
  width : Nat
  height : Nat
deriving DecidableEq, Repr

/-- The fields of `struct sna_pixmap` that this file reads or writes;
`gpu_bo` is the handle of the buffer object, `tiling` its tiling,
`static_ptr` the value of `IS_STATIC_PTR(ptr)`. -/
structure struct_sna_pixmap where
  gpu_bo : Nat
  tiling : Nat
  cpu_bo : Bool
  static_ptr : Bool
deriving DecidableEq, Repr

/-- What is stored in the `func` of a `struct notifier`. -/
inductive notifier_func where
  | xchg_handler
  | other (id : Nat)
deriving DecidableEq, Repr

/-- A `struct notifier` with a non-NULL `func`. -/
structure notifier where
  func : notifier_func
  data : sna_present_event
deriving DecidableEq, Repr

/-- The `BoxRec` extents of the shadow damage. -/
structure BoxRec where
  x1 : Nat
  y1 : Nat
  x2 : Nat
  y2 : Nat
deriving DecidableEq, Repr

/-- The part of `sna->mode` this file reads, with the CRTC table. -/
structure sna_mode where
  front_active : Nat
  rr_active : Nat
  flip_active : Nat
  num_real_crtc : Nat
  primary : Nat
  crtc : Nat → xf86Crtc
  shadow_damage : BoxRec

/-- The part of `struct sna` this file reads or writes. -/
structure sna where
  flags : Nat
  vtSema : Bool
  mode : sna_mode
  present_unflip : Nat
  front : Pixmap
  screen_pixmap : Pixmap
  hook0 : Option notifier
  hook1 : Option notifier

/-- A call that leaves the file, with what it answered. -/
inductive Effect where
  | present_event_notify (event_id ust msc : Nat)
  | malloc (ok : Bool)
  | free_info (info : sna_present_event)
  | free_timer
  | drmIoctl_wait_vblank (type sequence : Nat) (signal : Option sna_present_event) (ok : Bool)
  | TimerSet (millis : Nat) (info : sna_present_event) (ok : Bool)
  | sna_page_flip (bo : Nat) (data : Option sna_present_event) (ret : Nat)
  | xf86SetDesiredModes
  | discard_shadow_damage
  | notifier_call (id : Nat) (data : sna_present_event)
  | move_to_gpu (pixmap : Pixmap) (ok : Bool)
  | change_tiling (pixmap : Pixmap) (tiling : Nat) (ok : Bool)
  | pin (pixmap : Pixmap) (mask : Nat)
  | kgem_scanout_flush (bo : Nat)
  | present_screen_init
deriving DecidableEq, Repr

/-- The driver state, the file-static `present_info.capabilities`, and the
trace of the calls made so far. -/
structure World where
  sna : sna
  capabilities : Nat
  trace : List Effect

/-- One reading of the clocks used by `gettime_ust64`: the answer of
`clock_gettime(CLOCK_MONOTONIC)` (`none` when it fails) and of
`GetTimeInMicros`. -/
structure clock_reading where
  monotonic : Option (Int × Int)
  micros : Nat

/-- The answers of the code outside the file during one entry into it; none
of these functions is among the sources.

* `ust64`, `swap_ust`: the helpers of `sna.h` that turn a time into
  microseconds.
* `malloc`: whether the one allocation of the entry succeeds.
* `drmIoctl_wait_vblank`: the kernel's answer to a vblank request of the
  given type and sequence, `none` for a non-zero return.
* `sna_crtc_record_vblank`, `sna_crtc_record_event`: the sequence returned
  and the CRTC after the call.
* `clock_delay`, `clock_notify`: what the clocks read in `msc_to_delay` and
  when a notification is stamped; each is read at most once in an entry.
* `TimerSet`: whether the timer is created.
* `sna_page_flip`: the value returned (0 for a failure) and `sna->mode`
  after the call, from `sna->mode` before it, the buffer object and the
  event record handed over with the handler (`none` without handler).
* `xf86SetDesiredModes`: `sna->mode` after the call.
* `sna_pixmap`, `sna_pixmap_move_to_gpu`, `sna_pixmap_change_tiling`: the
  private of a pixmap, `none` for NULL.
* `notifier_other`: the driver state after a tearfree notifier that is not
  `xchg_handler` has run.
* `present_screen_init`: its return value. -/
structure Env where
  ust64 : Int → Int → Nat
  swap_ust : ust_msc → Nat
  malloc : Bool
  drmIoctl_wait_vblank : Nat → Nat → Option drm_wait_vblank_reply
  sna_crtc_record_vblank : xf86Crtc → drm_wait_vblank_reply → Nat × xf86Crtc
  sna_crtc_record_event : xf86Crtc → drm_event_vblank → Nat × xf86Crtc
  clock_delay : clock_reading
  clock_notify : clock_reading
  TimerSet : Bool
  sna_page_flip : sna_mode → Nat → Option sna_present_event → Nat × sna_mode
  xf86SetDesiredModes : sna_mode → sna_mode
  sna_pixmap : Pixmap → Option struct_sna_pixmap
  sna_pixmap_move_to_gpu : Pixmap → Option struct_sna_pixmap
  sna_pixmap_change_tiling : Pixmap → struct_sna_pixmap → Nat → Option struct_sna_pixmap
  notifier_other : Nat → sna → sna
  present_screen_init : Bool

/-! ## The functions of `sna_present.c` -/

/-- Append one call to the trace. -/
def World.emit (w : World) (e : Effect) : World :=
  { w with trace := w.trace ++ [e] }

/-- Replace `sna->mode`. -/
def World.set_mode (w : World) (m : sna_mode) : World :=
  { w with sna := { w.sna with mode := m } }

/-- Replace one entry of the CRTC table. -/
def World.set_crtc (w : World) (c : Nat) (x : xf86Crtc) : World :=
  w.set_mode { w.sna.mode with crtc := Function.update w.sna.mode.crtc c x }

/-- `pipe_from_crtc`, for an `RRCrtcPtr` given as an optional table index. -/
def pipe_from_crtc (s : sna) (crtc : Option Nat) : Int :=
  match crtc with
  | some c => (s.mode.crtc c).pipe
  | none => -1

/-- `pipe_select`. -/
def pipe_select (pipe : Int) : Nat :=
  if pipe > 1 then ofInt32 (pipe * 2 ^ DRM_VBLANK_HIGH_CRTC_SHIFT)
  else if pipe > 0 then DRM_VBLANK_SECONDARY
  else 0

/-- `sna_wait_vblank`: the request `type` gets the pipe bits and goes to the
kernel; `none` is a non-zero return of `drmIoctl`. -/
def sna_wait_vblank (E : Env) (w : World) (type sequence : Nat)
    (signal : Option sna_present_event) (pipe : Int) :
    Option drm_wait_vblank_reply × World :=
  let ty := type ||| pipe_select pipe
  let r := E.drmIoctl_wait_vblank ty sequence
  (r, w.emit (.drmIoctl_wait_vblank ty sequence signal r.isSome))

/-- `gettime_ust64`, on one reading of the clocks. -/
def gettime_ust64 (E : Env) (r : clock_reading) : Nat :=
  match r.monotonic with
  | none => r.micros
  | some (tv_sec, tv_nsec) => E.ust64 tv_sec (Int.tdiv tv_nsec 1000)

/-- `msc_to_delay`; `none` when `mode->Clock` is zero (division by zero).
The subtraction `delay -= subframe` is followed by the truncation to
`uint32_t`, which makes its wrap-around at 64 bits invisible. -/
def msc_to_delay (E : Env) (crtc : xf86Crtc) (target : Nat) : Option Nat :=
  let mode := crtc.desiredMode
  let swap := crtc.swap
  if ofInt64 mode.Clock = 0 then none
  else
    let delay : Int :=
      toI64 (mul64 (mul64 (sub64 target swap.msc) (ofInt64 mode.VTotal)) (ofInt64 mode.HTotal)
        / ofInt64 mode.Clock)
    let subframe : Int :=
      Int.tdiv (toI64 (sub64 (gettime_ust64 E E.clock_delay) (E.swap_ust swap))) 1000
    let delay : Int := if subframe < delay then delay - subframe else 0
    some (ofInt32 delay)

/-- The tail of `sna_fake_vblank_handler`: notify, free, return 0. -/
def fake_vblank_complete (info : sna_present_event) (ust msc : Nat) (w : World) : Nat × World :=
  (0, ((w.emit (.present_event_notify info.event_id ust msc)).emit (.free_info info)).emit
    .free_timer)

/-- `sna_fake_vblank_handler`: one firing of the software timer. The value
returned is the new delay of the timer, 0 for a timer that is not re-armed. -/
def sna_fake_vblank_handler (E : Env) (info : sna_present_event) (w : World) :
    Option (Nat × World) :=
  match info.crtc with
  | none => none
  | some c =>
    let crtc := w.sna.mode.crtc c
    match sna_wait_vblank E w DRM_VBLANK_RELATIVE 0 none crtc.pipe with
    | (some reply, w) =>
      let ust := E.ust64 reply.tval_sec reply.tval_usec
      let rec_ := E.sna_crtc_record_vblank crtc reply
      let msc := rec_.1
      let w := w.set_crtc c rec_.2
      if msc < info.target_msc then
        match msc_to_delay E rec_.2 info.target_msc with
        | none => none
        | some delay =>
          if delay ≠ 0 then some (delay, w)
          else some (fake_vblank_complete info ust msc w)
      else some (fake_vblank_complete info ust msc w)
    | (none, w) =>
      let swap := crtc.swap
      some (fake_vblank_complete info (E.swap_ust swap) swap.msc w)

/-- `sna_fake_vblank`. -/
def sna_fake_vblank (E : Env) (info : sna_present_event) (w : World) :
    Option (Bool × World) :=
  match info.crtc with
  | none => none
  | some c =>
    let crtc := w.sna.mode.crtc c
    let msc := crtc.swap.msc
    match (if msc < info.target_msc then msc_to_delay E crtc info.target_msc else some 0) with
    | none => none
    | some delay =>
      if delay = 0 then
        let swap := crtc.swap
        some (true, (w.emit (.present_event_notify info.event_id (E.swap_ust swap) swap.msc)).emit
          (.free_info info))
      else
        some (E.TimerSet, w.emit (.TimerSet delay info E.TimerSet))

/-- The result of `sna_present_get_ust_msc`. -/
structure ust_msc_result where
  ret : Nat
  ust : Nat
  msc : Nat
  world : World

/-- `sna_present_get_ust_msc`. -/
def sna_present_get_ust_msc (E : Env) (crtc : Nat) (w : World) : ust_msc_result :=
  let pipe := pipe_from_crtc w.sna (some crtc)
  match sna_wait_vblank E w DRM_VBLANK_RELATIVE 0 none pipe with
  | (some reply, w) =>
    let rec_ := E.sna_crtc_record_vblank (w.sna.mode.crtc crtc) reply
    { ret := Success, ust := E.ust64 reply.tval_sec reply.tval_usec, msc := rec_.1,
      world := w.set_crtc crtc rec_.2 }
  | (none, w) =>
    let swap := (w.sna.mode.crtc crtc).swap
    { ret := Success, ust := E.swap_ust swap, msc := swap.msc, world := w }

/-- `sna_present_vblank_handler`. -/
def sna_present_vblank_handler (E : Env) (event : drm_event_vblank) (info : sna_present_event)
    (w : World) : Option World :=
  match info.crtc with
  | none => none
  | some c =>
    let rec_ := E.sna_crtc_record_event (w.sna.mode.crtc c) event
    some (((w.set_crtc c rec_.2).emit
      (.present_event_notify info.event_id (E.ust64 event.tv_sec event.tv_usec) rec_.1)).emit
      (.free_info info))

/-- `sna_present_queue_vblank`. -/
def sna_present_queue_vblank (E : Env) (crtc : Nat) (event_id msc : Nat) (w : World) :
    Option (Nat × World) :=
  let swap := (w.sna.mode.crtc crtc).swap
  if toI64 (sub64 msc swap.msc) ≤ 0 then
    some (Success, w.emit (.present_event_notify event_id (E.swap_ust swap) swap.msc))
  else if E.malloc = false then some (BadAlloc, w.emit (.malloc false))
  else
    let w := w.emit (.malloc true)
    let info : sna_present_event := { crtc := some crtc, event_id := event_id, target_msc := msc }
    match sna_wait_vblank E w (DRM_VBLANK_ABSOLUTE ||| DRM_VBLANK_EVENT) (msc % U32) (some info)
        (w.sna.mode.crtc crtc).pipe with
    | (some _, w) => some (Success, w)
    | (none, w) =>
      match sna_fake_vblank E info w with
      | none => none
      | some (true, w) => some (Success, w)
      | some (false, w) => some (BadAlloc, w.emit (.free_info info))

/-- `sna_present_abort_vblank`. -/
def sna_present_abort_vblank (_crtc : Option Nat) (_event_id _msc : Nat) (w : World) : World := w

/-- `sna_present_flush`. -/
def sna_present_flush (E : Env) (pixmap : Pixmap) (w : World) : World :=
  match E.sna_pixmap_move_to_gpu pixmap with
  | none => w.emit (.move_to_gpu pixmap false)
  | some priv => (w.emit (.move_to_gpu pixmap true)).emit (.kgem_scanout_flush priv.gpu_bo)

/-- `check_flip__crtc`. -/
def check_flip__crtc (s : sna) (crtc : Nat) : Bool :=
  if (s.mode.crtc crtc).is_on = false then false
  else if s.mode.front_active = 0 then false
  else if s.mode.rr_active ≠ 0 then false
  else true

/-- `sna_present_check_flip`. -/
def sna_present_check_flip (K : Consts) (E : Env) (s : sna) (crtc : Nat) (pixmap : Pixmap)
    (sync_flip : Nat) : Nat :=
  if s.vtSema = false then FALSE
  else if s.flags &&& K.SNA_NO_FLIP ≠ 0 then FALSE
  else if sync_flip ≠ 0 ∧ s.flags &&& K.SNA_HAS_FLIP = 0 then FALSE
  else if sync_flip = 0 ∧ s.flags &&& K.SNA_HAS_ASYNC_FLIP = 0 then FALSE
  else if check_flip__crtc s crtc = false then FALSE
  else
    match E.sna_pixmap pixmap with
    | none => FALSE
    | some flip => if flip.cpu_bo = true ∧ flip.static_ptr = true then FALSE else TRUE

/-- `flip__async`. The page flip is asked for with a NULL handler and NULL
data, which the trace shows as `none`. -/
def flip__async (K : Consts) (E : Env) (_crtc : Option Nat) (event_id target_msc bo : Nat)
    (w : World) : Nat × World :=
  let r := E.sna_page_flip w.sna.mode bo none
  let w := (w.set_mode r.2).emit (.sna_page_flip bo none r.1)
  if r.1 = 0 then
    (FALSE, { w with capabilities := clear32 w.capabilities K.PresentCapabilityAsync })
  else
    (TRUE, w.emit (.present_event_notify event_id (gettime_ust64 E E.clock_notify) target_msc))

/-- `flip`. The page flip is asked for with `present_flip_handler` and the
event record, which the trace shows as `some info`. -/
def flip (E : Env) (crtc : Option Nat) (event_id target_msc bo : Nat) (w : World) :
    Nat × World :=
  if E.malloc = false then (FALSE, w.emit (.malloc false))
  else
    let w := w.emit (.malloc true)
    let info : sna_present_event := { crtc := crtc, event_id := event_id, target_msc := target_msc }
    let r := E.sna_page_flip w.sna.mode bo (some info)
    let w := (w.set_mode r.2).emit (.sna_page_flip bo (some info) r.1)
    if r.1 = 0 then (FALSE, w.emit (.free_info info))
    else (TRUE, w)

/-- The second half of `get_flip_bo`: the Y-tiling test and the pin. -/
def get_flip_bo_tail (K : Consts) (E : Env) (pixmap : Pixmap) (priv : struct_sna_pixmap)
    (w : World) : Option Nat × World :=
  if priv.tiling = K.I915_TILING_Y then
    match E.sna_pixmap_change_tiling pixmap priv K.I915_TILING_X with
    | none => (none, w.emit (.change_tiling pixmap K.I915_TILING_X false))
    | some priv =>
      (some priv.gpu_bo,
        (w.emit (.change_tiling pixmap K.I915_TILING_X true)).emit (.pin pixmap K.PIN_SCANOUT))
  else (some priv.gpu_bo, w.emit (.pin pixmap K.PIN_SCANOUT))

/-- `get_flip_bo`; `none` is the NULL buffer object. -/
def get_flip_bo (K : Consts) (E : Env) (pixmap : Pixmap) (w : World) : Option Nat × World :=
  match E.sna_pixmap_move_to_gpu pixmap with
  | none => (none, w.emit (.move_to_gpu pixmap false))
  | some priv =>
    let w := w.emit (.move_to_gpu pixmap true)
    if w.sna.flags &&& K.SNA_LINEAR_FB ≠ 0 ∧ priv.tiling ≠ 0 then
      match E.sna_pixmap_change_tiling pixmap priv K.I915_TILING_NONE with
      | none => (none, w.emit (.change_tiling pixmap K.I915_TILING_NONE false))
      | some priv =>
        get_flip_bo_tail K E pixmap priv (w.emit (.change_tiling pixmap K.I915_TILING_NONE true))
    else get_flip_bo_tail K E pixmap priv w

/-- `set_front`. -/
def set_front (pixmap : Pixmap) (w : World) : Bool × World :=
  if pixmap = w.sna.front then (false, w)
  else
    let w := w.emit .discard_shadow_damage
    (true, { w with sna := { w.sna with
      front := pixmap
      mode := { w.sna.mode with
        shadow_damage := { x1 := 0, y1 := 0, x2 := pixmap.width, y2 := pixmap.height } } } })

/-- `xchg_handler`. -/
def xchg_handler (E : Env) (info : sna_present_event) (w : World) : Option World :=
  match info.crtc with
  | none => none
  | some c =>
    let swap := (w.sna.mode.crtc c).swap
    some ((w.emit (.present_event_notify info.event_id (E.swap_ust swap) swap.msc)).emit
      (.free_info info))

/-- The call `nb->func(sna, nb->data)` of an installed notifier. -/
def run_notifier (E : Env) (nb : notifier) (w : World) : Option World :=
  match nb.func with
  | .xchg_handler => xchg_handler E nb.data w
  | .other id => some ({ w with sna := E.notifier_other id w.sna }.emit (.notifier_call id nb.data))

/-- The `notify:` label of `xchg`. -/
def xchg_notify (E : Env) (event_id target_msc : Nat) (w : World) : Nat × World :=
  (TRUE, w.emit (.present_event_notify event_id (gettime_ust64 E E.clock_notify) target_msc))

/-- `xchg`. -/
def xchg (E : Env) (crtc : Nat) (event_id target_msc : Nat) (pixmap : Pixmap) (_sync_flip : Nat)
    (w : World) : Option (Nat × World) :=
  match set_front pixmap w with
  | (queued, w) =>
    if E.malloc = false then some (BadAlloc, w.emit (.malloc false))
    else
      let w := w.emit (.malloc true)
      let info : sna_present_event :=
        { crtc := some crtc, event_id := event_id, target_msc := target_msc }
      let nb : notifier := { func := .xchg_handler, data := info }
      if queued = true then
        match w.sna.hook0 with
        | none => some (TRUE, { w with sna := { w.sna with hook0 := some nb } })
        | some _ =>
          match w.sna.hook1 with
          | none => some (TRUE, { w with sna := { w.sna with hook1 := some nb } })
          | some old =>
            match run_notifier E old w with
            | none => none
            | some w => some (TRUE, { w with sna := { w.sna with hook1 := some nb } })
      else
        match sna_wait_vblank E w
            (DRM_VBLANK_ABSOLUTE ||| DRM_VBLANK_EVENT ||| DRM_VBLANK_NEXTONMISS)
            (target_msc % U32) (some info) (w.sna.mode.crtc crtc).pipe with
        | (some _, w) => some (TRUE, w)
        | (none, w) =>
          match sna_fake_vblank E info w with
          | none => none
          | some (true, w) => some (TRUE, w)
          | some (false, w) => some (xchg_notify E event_id target_msc (w.emit (.free_info info)))

/-- `sna_present_flip`. -/
def sna_present_flip (K : Consts) (E : Env) (crtc : Nat) (event_id target_msc : Nat)
    (pixmap : Pixmap) (sync_flip : Nat) (w : World) : Option (Nat × World) :=
  if check_flip__crtc w.sna crtc = false then some (FALSE, w)
  else
    match get_flip_bo K E pixmap w with
    | (none, w) => some (FALSE, w)
    | (some bo, w) =>
      if w.sna.flags &&& K.SNA_TEAR_FREE ≠ 0 then
        xchg E crtc event_id target_msc pixmap sync_flip w
      else if w.sna.mode.flip_active ≠ 0 then some (FALSE, w)
      else if sync_flip ≠ 0 then some (flip E (some crtc) event_id target_msc bo w)
      else some (flip__async K E (some crtc) event_id target_msc bo w)

/-- The `notify:` label of `sna_present_unflip`. -/
def unflip_notify (E : Env) (event_id : Nat) (w : World) : World :=
  let swap := (w.sna.mode.crtc w.sna.mode.primary).swap
  w.emit (.present_event_notify event_id (E.swap_ust swap) swap.msc)

/-- The `reset_mode:` label of `sna_present_unflip`. -/
def unflip_reset_mode (E : Env) (event_id : Nat) (w : World) : World :=
  unflip_notify E event_id
    ((w.set_mode (E.xf86SetDesiredModes w.sna.mode)).emit .xf86SetDesiredModes)

/-- `sna_present_unflip`. -/
def sna_present_unflip (K : Consts) (E : Env) (event_id : Nat) (w : World) : World :=
  if w.sna.mode.front_active = 0 ∨ w.sna.mode.rr_active ≠ 0 then unflip_notify E event_id w
  else if w.sna.flags &&& K.SNA_TEAR_FREE ≠ 0 then
    unflip_notify E event_id (set_front w.sna.screen_pixmap w).2
  else if w.sna.mode.flip_active ≠ 0 then
    { w with sna := { w.sna with present_unflip := event_id } }
  else
    match get_flip_bo K E w.sna.screen_pixmap w with
    | (none, w) => unflip_reset_mode E event_id w
    | (some bo, w) =>
      let a : Nat × World :=
        if w.sna.flags &&& K.SNA_HAS_ASYNC_FLIP ≠ 0 then flip__async K E none event_id 0 bo w
        else (FALSE, w)
      if a.1 ≠ 0 then a.2
      else
        let f := flip E none event_id 0 bo a.2
        if f.1 = 0 then unflip_reset_mode E event_id f.2 else f.2

/-- `present_flip_handler`. -/
def present_flip_handler (K : Consts) (E : Env) (event : drm_event_vblank)
    (info : sna_present_event) (w : World) : World :=
  let swap : ust_msc :=
    match info.crtc with
    | none => { msc := event.sequence, tv_sec := event.tv_sec, tv_usec := event.tv_usec }
    | some c => (w.sna.mode.crtc c).swap
  let w := w.emit (.present_event_notify info.event_id (E.swap_ust swap) swap.msc)
  let w :=
    if w.sna.present_unflip ≠ 0 then
      let w := sna_present_unflip K E w.sna.present_unflip w
      { w with sna := { w.sna with present_unflip := 0 } }
    else w
  w.emit (.free_info info)

/-- `sna_present_update`. -/
def sna_present_update (K : Consts) (w : World) : World :=
  if w.sna.flags &&& K.SNA_HAS_ASYNC_FLIP ≠ 0 then
    { w with capabilities := (w.capabilities ||| K.PresentCapabilityAsync) % U32 }
  else
    { w with capabilities := clear32 w.capabilities K.PresentCapabilityAsync }

/-- `sna_present_open`. -/
def sna_present_open (K : Consts) (E : Env) (w : World) : Bool × World :=
  if w.sna.mode.num_real_crtc = 0 then (false, w)
  else (E.present_screen_init, (sna_present_update K w).emit .present_screen_init)

/-- `sna_present_close`. -/
def sna_present_close (w : World) : World := w

/-! ## Reading a trace and a state -/

/-- The notifications of a trace, in order: event id, ust, msc. -/
def notifs (t : List Effect) : List (Nat × Nat × Nat) :=
  t.filterMap fun e =>
    match e with
    | .present_event_notify id ust msc => some (id, ust, msc)
    | _ => none

/-- The `sna_page_flip` calls of a trace, in order: buffer object, event
record passed with `present_flip_handler` (`none` for a call without handler)
and value returned. -/
def flips (t : List Effect) : List (Nat × Option sna_present_event × Nat) :=
  t.filterMap fun e =>
    match e with
    | .sna_page_flip bo data ret => some (bo, data, ret)
    | _ => none

/-- Number of `present_event_notify` calls for `event_id`. -/
def notified (event_id : Nat) (t : List Effect) : Nat :=
  t.countP fun e =>
    match e with
    | .present_event_notify id _ _ => id == event_id
    | _ => false

/-- Number of `present_event_notify` calls, whatever the event. -/
def notifications (t : List Effect) : Nat :=
  t.countP fun e =>
    match e with
    | .present_event_notify _ _ _ => true
    | _ => false

/-- Number of vblank requests the kernel accepted that carry the record of
`event_id` as their signal: the hardware events that are now pending. -/
def hw_pending (event_id : Nat) (t : List Effect) : Nat :=
  t.countP fun e =>
    match e with
    | .drmIoctl_wait_vblank _ _ (some info) true => info.event_id == event_id
    | _ => false

/-- Number of vblank requests the kernel accepted. -/
def hw_accepted (t : List Effect) : Nat :=
  t.countP fun e =>
    match e with
    | .drmIoctl_wait_vblank _ _ _ true => true
    | _ => false

/-- Number of timers armed for the record of `event_id`. -/
def timer_pending (event_id : Nat) (t : List Effect) : Nat :=
  t.countP fun e =>
    match e with
    | .TimerSet _ info true => info.event_id == event_id
    | _ => false

/-- Number of timers armed. -/
def timers_armed (t : List Effect) : Nat :=
  t.countP fun e =>
    match e with
    | .TimerSet _ _ true => true
    | _ => false

/-- Number of vblank ioctls issued. -/
def vblank_ioctls (t : List Effect) : Nat :=
  t.countP fun e =>
    match e with
    | .drmIoctl_wait_vblank _ _ _ _ => true
    | _ => false

/-- Number of vblank ioctls the kernel rejected. -/
def vblank_rejected (t : List Effect) : Nat :=
  t.countP fun e =>
    match e with
    | .drmIoctl_wait_vblank _ _ _ false => true
    | _ => false

/-- Number of `TimerSet` calls. -/
def timer_calls (t : List Effect) : Nat :=
  t.countP fun e =>
    match e with
    | .TimerSet _ _ _ => true
    | _ => false

/-- Number of `malloc` calls. -/
def mallocs (t : List Effect) : Nat :=
  t.countP fun e =>
    match e with
    | .malloc _ => true
    | _ => false

/-- Number of `sna_page_flip` calls. -/
def page_flips (t : List Effect) : Nat :=
  t.countP fun e =>
    match e with
    | .sna_page_flip _ _ _ => true
    | _ => false

/-- Number of `sna_page_flip` calls made without a handler (async flips). -/
def async_page_flips (t : List Effect) : Nat :=
  t.countP fun e =>
    match e with
    | .sna_page_flip _ none _ => true
    | _ => false

/-- Number of `xf86SetDesiredModes` calls. -/
def mode_restores (t : List Effect) : Nat :=
  t.countP fun e =>
    match e with
    | .xf86SetDesiredModes => true
    | _ => false

/-- A trace without notification, page flip, allocation or mode restore. -/
def quiet (t : List Effect) : Prop :=
  notifications t = 0 ∧ page_flips t = 0 ∧ mallocs t = 0 ∧ mode_restores t = 0

/-- The vblank request of `sna_present_queue_vblank` as it shows in the
trace: absolute, with an event, for the pipe of the CRTC, tagged with the
event record. -/
def queue_request (w : World) (crtc event_id msc : Nat) (ok : Bool) : Effect :=
  .drmIoctl_wait_vblank
    (DRM_VBLANK_ABSOLUTE ||| DRM_VBLANK_EVENT ||| pipe_select (w.sna.mode.crtc crtc).pipe)
    (msc % U32) (some { crtc := some crtc, event_id := event_id, target_msc := msc }) ok

/-- The notification `present_flip_handler` issues for the completed flip:
the last recorded swap of the CRTC of the record, or the time and sequence
of the flip event when the record has no CRTC. -/
def flip_completion (E : Env) (event : drm_event_vblank) (info : sna_present_event)
    (w : World) : Effect :=
  .present_event_notify info.event_id
    (E.swap_ust (match info.crtc with
      | none => { msc := event.sequence, tv_sec := event.tv_sec, tv_usec := event.tv_usec }
      | some c => (w.sna.mode.crtc c).swap))
    (match info.crtc with
      | none => { msc := event.sequence, tv_sec := event.tv_sec, tv_usec := event.tv_usec }
      | some c => (w.sna.mode.crtc c).swap : ust_msc).msc

/-- No capability bit is set in `w'` that was not set in `w`. -/
def caps_not_raised (w w' : World) : Prop :=
  ∀ i, w'.capabilities.testBit i = true → w.capabilities.testBit i = true

/-- The world with `sna->present.unflip` replaced. -/
def World.with_unflip (w : World) (u : Nat) : World :=
  { w with sna := { w.sna with present_unflip := u } }

/-! ## The timer's delay in the specification's words -/

/-- Sample values for the flag masks. -/
def sample_consts : Consts :=
  { SNA_NO_FLIP := 0x20, SNA_TEAR_FREE := 0x100, SNA_HAS_FLIP := 0x10000,
    SNA_HAS_ASYNC_FLIP := 0x20000, SNA_LINEAR_FB := 0x40000, PresentCapabilityAsync := 1,
    PIN_SCANOUT := 1, I915_TILING_NONE := 0, I915_TILING_X := 1, I915_TILING_Y := 2 }

/-- A sample CRTC: pipe 0, on, last swap at sequence 150 and time 2.5 s,
a 1280x1024 mode at 60 Hz (1688 x 1066 total, 108 MHz). -/
def sample_crtc : xf86Crtc :=
  { pipe := 0, is_on := true, swap := { msc := 150, tv_sec := 2, tv_usec := 500000 },
    desiredMode := { Clock := 108000, HTotal := 1688, VTotal := 1066 } }

/-- A sample pixmap. -/
def sample_pixmap : Pixmap := { serialNumber := 1, width := 1280, height := 1024 }

/-- A second sample pixmap, the screen pixmap. -/
def sample_screen_pixmap : Pixmap := { serialNumber := 2, width := 1280, height := 1024 }

/-- A sample driver state: flips supported, sync and async, no TearFree,
front active, no flip outstanding, no unflip queued. -/
def sample_sna : sna :=
  { flags := 0x30000, vtSema := true,
    mode := { front_active := 1, rr_active := 0, flip_active := 0, num_real_crtc := 1,
              primary := 0, crtc := fun _ => sample_crtc,
              shadow_damage := { x1 := 0, y1 := 0, x2 := 0, y2 := 0 } },
    present_unflip := 0, front := sample_screen_pixmap, screen_pixmap := sample_screen_pixmap,
    hook0 := none, hook1 := none }

/-- A sample world: the sample state, the async capability advertised,
nothing called yet. -/
def sample_world : World := { sna := sample_sna, capabilities := 1, trace := [] }

/-- A sample environment: the kernel accepts every vblank request and
answers sequence 151 at 2.516 s, every page flip succeeds on one CRTC and
counts as outstanding when it has a handler, allocation and timers succeed,
the clock reads 2.52 s. -/
def sample_env : Env :=
  { ust64 := fun s u => ofInt64 (s * 1000000 + u),
    swap_ust := fun swap => ofInt64 (swap.tv_sec * 1000000 + swap.tv_usec),
    malloc := true,
    drmIoctl_wait_vblank := fun _ _ => some { sequence := 151, tval_sec := 2, tval_usec := 516000 },
    sna_crtc_record_vblank := fun c r =>
      (r.sequence, { c with swap := { msc := r.sequence, tv_sec := r.tval_sec, tv_usec := r.tval_usec } }),
    sna_crtc_record_event := fun c e =>
      (e.sequence, { c with swap := { msc := e.sequence, tv_sec := e.tv_sec, tv_usec := e.tv_usec } }),
    clock_delay := { monotonic := some (2, 520000000), micros := 0 },
    clock_notify := { monotonic := some (2, 520000000), micros := 0 },
    TimerSet := true,
    sna_page_flip := fun m _ data =>
      (1, { m with flip_active := if data.isSome then m.flip_active + 1 else m.flip_active }),
    xf86SetDesiredModes := fun m => m,
    sna_pixmap := fun _ => some { gpu_bo := 9, tiling := 1, cpu_bo := false, static_ptr := false },
    sna_pixmap_move_to_gpu := fun _ =>
      some { gpu_bo := 9, tiling := 1, cpu_bo := false, static_ptr := false },
    sna_pixmap_change_tiling := fun _ priv tiling => some { priv with tiling := tiling },
    notifier_other := fun _ s => s,
    present_screen_init := true }

/-- The sample environment with a kernel that rejects every vblank request
(the pipe is off). -/
def pipe_off_env : Env := { sample_env with drmIoctl_wait_vblank := fun _ _ => none }

/-- The sample environment with an allocator that is out of memory. -/
def no_memory_env : Env := { sample_env with malloc := false }

/-- The sample environment with a kernel that refuses every page flip. -/
def no_flip_env : Env := { sample_env with sna_page_flip := fun m _ _ => (0, m) }

/-- The sample world with one flip outstanding. -/
def busy_world : World :=
  { sample_world with
    sna := { sample_sna with mode := { sample_sna.mode with flip_active := 1 } } }

/-- The sample world after the revocation: the capability word is 0. -/
def revoked_world : World := { sample_world with capabilities := 0 }

end SnaPresent

/-!
# Reference counts of the device node

A shallow embedding of the reference counting of `src/src/intel_device.c`:
`intel_get_device`, `intel_put_device`, `intel_get_master` and
`intel_put_master`.

* The counters are C `int`s; `++` and `--` wrap at 32 bits.
* Every call into libdrm or libc appends a `Call` to the trace of the screen;
  what the kernel answers is read from a `Kernel`.
* The build modelled is the one with `assert` compiled out.
* A function that dereferences a NULL device returns `none`.
-/

namespace IntelDevice

/-- The value of a C `int` after an operation whose exact result is `x`. -/
def int32 (x : Int) : Int := (x + 2 ^ 31) % 2 ^ 32 - 2 ^ 31

/-- The `struct intel_device`; the two node names are the addresses of the
strings. -/
structure intel_device where
  master_node : Nat
  render_node : Nat
  fd : Int
  open_count : Int
  master_count : Int
deriving DecidableEq, Repr

/-- A call that leaves the file, with what it was given and what it answered. -/
inductive Call where
  | drmIoctl_set_version (fd : Int) (ret : Int)
  | drmSetMaster (fd : Int) (ret : Int)
  | drmDropMaster (fd : Int) (ret : Int)
  | drmClose (fd : Int)
  | usleep (usec : Nat)
  | xf86DrvMsg_error
  | free_node (ptr : Nat)
  | free_dev
deriving DecidableEq, Repr

/-- What the kernel answers during one call into the file: the result of the
`k`-th `DRM_IOCTL_SET_VERSION`, of the `k`-th `drmSetMaster`, and of
`drmDropMaster`. -/
structure Kernel where
  set_version : Nat → Int
  drmSetMaster : Nat → Int
  drmDropMaster : Int

/-- The `ScrnInfoPtr` as this file sees it: whether `entityList` is non-NULL,
the pointer kept in the entity's private (`none` is NULL, otherwise the record
it points to), and the calls made so far. -/
structure Scrn where
  entityList : Bool
  ptr : Option intel_device
  trace : List Call

/-- Append one call to the trace. -/
def Scrn.emit (s : Scrn) (c : Call) : Scrn := { s with trace := s.trace ++ [c] }

/-- Write through the device pointer. -/
def Scrn.store (s : Scrn) (dev : intel_device) : Scrn := { s with ptr := some dev }

/-- The inline `intel_device(scrn)`. -/
def intel_device_of (s : Scrn) : Option intel_device :=
  if s.entityList = false then none else s.ptr

/-- The inline `intel_set_device(scrn, NULL)`. -/
def intel_set_device_null (s : Scrn) : Scrn := { s with ptr := none }

/-- The `do { ... } while (--retry)` of `intel_get_device`, entered with
`retry + 1` in `retry`; `k` counts the ioctls already made. -/
def set_version_loop (K : Kernel) (fd : Int) : Nat → Nat → Scrn → Int × Scrn
  | 0, k, s =>
    let ret := K.set_version k
    let s := s.emit (.drmIoctl_set_version fd ret)
    if ret = 0 then (ret, s) else (ret, s.emit (.usleep 1000))
  | retry + 1, k, s =>
    let ret := K.set_version k
    let s := s.emit (.drmIoctl_set_version fd ret)
    if ret = 0 then (ret, s) else set_version_loop K fd retry (k + 1) (s.emit (.usleep 1000))

/-- `intel_get_device`. -/
def intel_get_device (K : Kernel) (s : Scrn) : Option (Int × Scrn) :=
  match intel_device_of s with
  | none => none
  | some dev =>
    let old := dev.open_count
    let dev := { dev with open_count := int32 (dev.open_count + 1) }
    let s := s.store dev
    if old = 0 then
      let (ret, s) := set_version_loop K dev.fd 1999 0 s
      if ret ≠ 0 then
        let s := s.emit .xf86DrvMsg_error
        some (-1, s.store { dev with open_count := int32 (dev.open_count - 1) })
      else some (dev.fd, s)
    else some (dev.fd, s)

/-- The `do { ... } while (--retry)` of `intel_get_master`, entered with
`retry + 1` in `retry`; `k` counts the attempts already made. -/
def set_master_loop (K : Kernel) (fd : Int) : Nat → Nat → Scrn → Int × Scrn
  | 0, k, s =>
    let ret := K.drmSetMaster k
    let s := s.emit (.drmSetMaster fd ret)
    if ret = 0 then (ret, s) else (ret, s.emit (.usleep 1000))
  | retry + 1, k, s =>
    let ret := K.drmSetMaster k
    let s := s.emit (.drmSetMaster fd ret)
    if ret = 0 then (ret, s) else set_master_loop K fd retry (k + 1) (s.emit (.usleep 1000))

/-- `intel_get_master`. -/
def intel_get_master (K : Kernel) (s : Scrn) : Option (Int × Scrn) :=
  match intel_device_of s with
  | none => none
  | some dev =>
    let old := dev.master_count
    let dev := { dev with master_count := int32 (dev.master_count + 1) }
    let s := s.store dev
    if old = 0 then some (set_master_loop K dev.fd 1999 0 s)
    else some (0, s)

/-- `intel_put_master`. -/
def intel_put_master (K : Kernel) (s : Scrn) : Option (Int × Scrn) :=
  match intel_device_of s with
  | none => none
  | some dev =>
    let dev := { dev with master_count := int32 (dev.master_count - 1) }
    let s := s.store dev
    if dev.master_count = 0 then
      let ret := K.drmDropMaster
      some (ret, s.emit (.drmDropMaster dev.fd ret))
    else some (0, s)

/-- `intel_put_device`. -/
def intel_put_device (s : Scrn) : Option Scrn :=
  match intel_device_of s with
  | none => none
  | some dev =>
    let dev := { dev with open_count := int32 (dev.open_count - 1) }
    let s := s.store dev
    if dev.open_count ≠ 0 then some s
    else
      let s := intel_set_device_null s
      let s := s.emit (.drmClose dev.fd)
      let s := if dev.render_node ≠ dev.master_node then s.emit (.free_node dev.render_node) else s
      let s := s.emit (.free_node dev.master_node)
      some (s.emit .free_dev)

/-- One call of the master pair. -/
inductive MasterOp where
  | get
  | put
deriving DecidableEq, Repr

/-- Run one call of the master pair, dropping the value returned. -/
def master_step (s : Scrn) (c : MasterOp × Kernel) : Option Scrn :=
  match c.1 with
  | .get => (intel_get_master c.2 s).map Prod.snd
  | .put => (intel_put_master c.2 s).map Prod.snd

/-- Run a sequence of calls of the master pair, each against its own kernel. -/
def master_run : List (MasterOp × Kernel) → Scrn → Option Scrn
  | [], s => some s
  | c :: cs, s => (master_step s c).bind (master_run cs)

/-- `drmSetMaster` is among the calls. -/
def set_master_attempted (t : List Call) : Bool :=
  t.any fun c => match c with
    | .drmSetMaster _ _ => true
    | _ => false

/-- `drmDropMaster` is among the calls. -/
def master_dropped (t : List Call) : Bool :=
  t.any fun c => match c with
    | .drmDropMaster _ _ => true
    | _ => false

/-- `drmClose` is among the calls. -/
def fd_closed (t : List Call) : Bool :=
  t.any fun c => match c with
    | .drmClose _ => true
    | _ => false

/-- The device record is freed by one of the calls. -/
def dev_freed (t : List Call) : Bool := t.contains .free_dev

/-- A sample device: opened twice, master held once. -/
def sample_dev : intel_device :=
  { master_node := 0x1000, render_node := 0x2000, fd := 7, open_count := 2, master_count := 1 }

/-- A sample screen holding the sample device. -/
def sample_scrn : Scrn := { entityList := true, ptr := some sample_dev, trace := [] }

/-- A kernel that grants everything. -/
def willing_kernel : Kernel :=
  { set_version := fun _ => 0, drmSetMaster := fun _ => 0, drmDropMaster := 0 }

end IntelDevice

/-!
# The i830 driver

A shallow embedding of parts of `src/src/i830_driver.c`: the memory checks
of `I830PreInit` with `I830ReduceMMSize`, the state saving of `I830EnterVT`,
and `SaveHWState` with `RestoreHWState`.

* The build modelled defines `XF86DRI` and `I830_XV`, and leaves
  `USE_PITCHES` at 1.
* Every call that leaves the file appends an event to the trace of the
  state; what such a call answers is read from an oracle.
* The macros and constants of `i830.h` and `i810_reg.h`, which are not
  among the sources, are parameters, or are written out where the doc comment
  says so.
-/

namespace I830

/-! ## The memory checks of `I830PreInit` -/

/-- The constants `I830_MM_MINPAGES` and `GTT_PAGE_SIZE` of `i830.h`; their
values are parameters of the model, taken to be non-negative `int` constants
whose product fits an `int`. `GTT_PAGE_SIZE` is a divisor and has to be
positive. -/
structure Params where
  I830_MM_MINPAGES : Nat
  GTT_PAGE_SIZE : Nat

/-- Modelled from the spec: the macro `KB` of `i830.h`, kibibytes to bytes. -/
def KB (x : Int) : Int := x * 1024

/-- Modelled from the spec: the macro `ROUND_DOWN_TO` of `i830.h`, the
largest multiple of `y` that is at most `x`. -/
def ROUND_DOWN_TO (x y : Nat) : Nat := x / y * y

/-- The conversion of an `unsigned long` to `int`. -/
def to_int (x : Nat) : Int := ((x : Int) + 2 ^ 31) % 2 ^ 32 - 2 ^ 31

/-- The flags of the allocator, constants of `i830.h`; a flag word is the list
of the flags or-ed together. -/
inductive alloc_flag where
  | ALLOCATE_DRY_RUN
  | ALLOC_INITIAL
  | ALLOC_NO_TILING
deriving DecidableEq, Repr

/-- What one dry run of the allocator, which is not among the sources,
answers: the value of `I830Allocate2DMemory`, the value of
`I830Allocate3DMemory` (asked only after the former succeeded), the value of
`I830GetExcessMemoryAllocations`, and the `MemoryAperture.Size` the run
leaves. -/
structure dry_run where
  Allocate2D : Bool
  Allocate3D : Bool
  excess : Int
  aperture : Int
deriving DecidableEq, Repr

/-- The messages of `xf86DrvMsg` in this part of the file. -/
inductive Msg where
  | mm_reduced (kib : Int)
  | mm_disabled
  | tiling_needs (kbytes : Int)
  | tiling_exceeds_aperture
  | increasing_pitch (from_width to_width : Int)
  | unexpected_failure_1
  | dri_needs (kbytes : Int)
  | dri_exceeds_aperture
  | disabling_dri
  | unexpected_failure_2
  | stride_too_large
  | too_many_lines
deriving DecidableEq, Repr

/-- A call that leaves the file: a message, or one dry run
(`I830ResetAllocations`, `I830Allocate2DMemory` with the first flag word,
`I830Allocate3DMemory` with the second, `I830GetExcessMemoryAllocations`)
with what it answered. -/
inductive Event where
  | xf86DrvMsg (m : Msg)
  | dry_run (flags2D flags3D : List alloc_flag) (r : dry_run)
deriving DecidableEq, Repr

/-- The fields of `ScrnInfoRec` and `I830Rec` that the memory checks read or
write, and the calls made so far. -/
structure PreInit where
  displayWidth : Int
  virtualY : Int
  cpp : Int
  mmSize : Int
  MemoryAperture_Size : Int
  disableTiling : Bool
  allowPageFlip : Bool
  directRenderingDisabled : Bool
  noAccel : Bool
  XvDisabled : Bool
  XvEnabled : Bool
  trace : List Event

/-- The dry-run allocator: what a run answers in a given state (the trace
included, so that successive runs may answer differently) for the two flag
words. It writes `MemoryAperture.Size` and nothing else of `PreInit`. -/
structure Allocator where
  run : PreInit → List alloc_flag → List alloc_flag → dry_run

/-- Append one event to the trace. -/
def PreInit.emit (s : PreInit) (e : Event) : PreInit := { s with trace := s.trace ++ [e] }

/-- `I830ReduceMMSize`. -/
def I830ReduceMMSize (P : Params) (newSize : Nat) (s : PreInit) : PreInit :=
  let newSize := ROUND_DOWN_TO newSize P.GTT_PAGE_SIZE
  if newSize / P.GTT_PAGE_SIZE > P.I830_MM_MINPAGES then
    let s := { s with mmSize := to_int (newSize / 1024) }
    s.emit (.xf86DrvMsg (.mm_reduced s.mmSize))
  else
    let s := s.emit (.xf86DrvMsg .mm_disabled)
    { s with mmSize := 0 }

/-- The table `pitches` of `I830PreInit`. -/
def pitches : List Int := [128 * 8, 128 * 16, 128 * 32, 128 * 64, 0]

/-- The `for` loop over `pitches` from index `i` on, `ps` being the rest of
the table: the index at which it stops and the `displayWidth` it leaves. -/
def pitch_loop (displayWidth : Int) : List Int → Nat → Nat × Int
  | [], i => (i, displayWidth)
  | p :: ps, i =>
    if p = 0 then (i, displayWidth)
    else if p ≥ displayWidth then (i, p)
    else pitch_loop displayWidth ps (i + 1)

/-- The statements from the label `retry_dryrun` to the end of the `if`
around them; `fuel` bounds the number of times the label is reached, `none`
is running out of it. The value is `memNeeded` and the state. -/
def retry_dryrun (P : Params) (A : Allocator) (savedDisplayWidth : Int) :
    Nat → PreInit → Option (Int × PreInit)
  | 0, _ => none
  | fuel + 1, s =>
    let r := A.run s [.ALLOCATE_DRY_RUN, .ALLOC_INITIAL] [.ALLOCATE_DRY_RUN]
    let s := ({ s with MemoryAperture_Size := r.aperture }).emit
      (.dry_run [.ALLOCATE_DRY_RUN, .ALLOC_INITIAL] [.ALLOCATE_DRY_RUN] r)
    if r.Allocate2D && r.Allocate3D then
      let memNeeded := r.excess
      if memNeeded > 0 ∨ s.MemoryAperture_Size < 0 then
        let s := if memNeeded > 0
          then s.emit (.xf86DrvMsg (.tiling_needs (Int.tdiv (memNeeded + 1023) 1024)))
          else s
        if s.MemoryAperture_Size < 0 then
          if KB s.mmSize > (P.I830_MM_MINPAGES * P.GTT_PAGE_SIZE : Nat) then
            retry_dryrun P A savedDisplayWidth fuel
              (I830ReduceMMSize P (P.I830_MM_MINPAGES * P.GTT_PAGE_SIZE) s)
          else
            let s := s.emit (.xf86DrvMsg .tiling_exceeds_aperture)
            some (memNeeded, { s with displayWidth := savedDisplayWidth, allowPageFlip := false })
        else
          some (memNeeded, { s with displayWidth := savedDisplayWidth, allowPageFlip := false })
      else if s.displayWidth ≠ savedDisplayWidth then
        some (memNeeded, s.emit (.xf86DrvMsg (.increasing_pitch savedDisplayWidth s.displayWidth)))
      else some (memNeeded, s)
    else
      some (0, s.emit (.xf86DrvMsg .unexpected_failure_1))

/-- The statements from the label `retry_dryrun2` to the end of the `if`
around them; `fuel` as in `retry_dryrun`. -/
def retry_dryrun2 (P : Params) (A : Allocator) : Nat → PreInit → Option PreInit
  | 0, _ => none
  | fuel + 1, s =>
    let r := A.run s [.ALLOCATE_DRY_RUN, .ALLOC_INITIAL] [.ALLOCATE_DRY_RUN, .ALLOC_NO_TILING]
    let s := ({ s with MemoryAperture_Size := r.aperture }).emit
      (.dry_run [.ALLOCATE_DRY_RUN, .ALLOC_INITIAL] [.ALLOCATE_DRY_RUN, .ALLOC_NO_TILING] r)
    if r.Allocate2D && r.Allocate3D then
      let memNeeded := r.excess
      if memNeeded > 0 ∨ s.MemoryAperture_Size < 0 then
        let s := if memNeeded > 0
          then s.emit (.xf86DrvMsg (.dri_needs (Int.tdiv (memNeeded + 1023) 1024)))
          else s
        if s.MemoryAperture_Size < 0 then
          if KB s.mmSize > (P.I830_MM_MINPAGES * P.GTT_PAGE_SIZE : Nat) then
            retry_dryrun2 P A fuel (I830ReduceMMSize P (P.I830_MM_MINPAGES * P.GTT_PAGE_SIZE) s)
          else
            let s := s.emit (.xf86DrvMsg .dri_exceeds_aperture)
            let s := { s with mmSize := 0, directRenderingDisabled := true }
            some (s.emit (.xf86DrvMsg .disabling_dri))
        else
          let s := { s with mmSize := 0, directRenderingDisabled := true }
          some (s.emit (.xf86DrvMsg .disabling_dri))
      else some s
    else
      some (s.emit (.xf86DrvMsg .unexpected_failure_2))

/-- The part of `I830PreInit` from the test of `I830IsPrimary` to the `else`
that disables tiling without DRI; `primary` is what `I830IsPrimary` answers,
`fuel` bounds each of the two loops. -/
def I830PreInit_dry_runs (P : Params) (A : Allocator) (primary : Bool) (fuel : Nat)
    (s : PreInit) : Option PreInit :=
  if primary && !s.directRenderingDisabled then
    let savedDisplayWidth := s.displayWidth
    let memNeeded : Int := 0
    let s := { s with XvEnabled := !s.XvDisabled }
    let stop := pitch_loop s.displayWidth pitches 0
    let i := stop.1
    let s := { s with displayWidth := stop.2 }
    let savedMMSize := s.mmSize
    let first : Option (Int × PreInit) :=
      if s.displayWidth = pitches.getD i 0 then retry_dryrun P A savedDisplayWidth fuel s
      else some (memNeeded, s)
    match first with
    | none => none
    | some (memNeeded, s) =>
      if memNeeded > 0 ∨ s.MemoryAperture_Size < 0 then
        let s := { s with mmSize := savedMMSize, disableTiling := true }
        retry_dryrun2 P A fuel s
      else some s
  else some { s with disableTiling := true }

/-- The tests of the stride and of the number of lines that follow. -/
def I830PreInit_limits (s : PreInit) : PreInit :=
  let s := if s.displayWidth * s.cpp > 8192
    then { s.emit (.xf86DrvMsg .stride_too_large) with disableTiling := true }
    else s
  if s.virtualY > 2048
    then { s.emit (.xf86DrvMsg .too_many_lines) with noAccel := true }
    else s

/-- The part of `I830PreInit` from the test of `I830IsPrimary` to the test of
the number of lines. -/
def I830PreInit_memory (P : Params) (A : Allocator) (primary : Bool) (fuel : Nat)
    (s : PreInit) : Option PreInit :=
  (I830PreInit_dry_runs P A primary fuel s).map I830PreInit_limits

/-- The dry runs with tiling among the events. -/
def tiled_runs : List Event → List dry_run
  | [] => []
  | .dry_run _ f r :: t => if f = [.ALLOCATE_DRY_RUN] then r :: tiled_runs t else tiled_runs t
  | _ :: t => tiled_runs t

/-- The dry runs without tiling among the events. -/
def untiled_runs : List Event → List dry_run
  | [] => []
  | .dry_run _ f r :: t =>
    if f = [.ALLOCATE_DRY_RUN, .ALLOC_NO_TILING] then r :: untiled_runs t else untiled_runs t
  | _ :: t => untiled_runs t

/-- The allocation of a dry run succeeded. -/
def dry_run.allocated (r : dry_run) : Bool := r.Allocate2D && r.Allocate3D

/-- A dry run reports excess memory or a negative aperture size. -/
def dry_run.over (r : dry_run) : Bool := decide (r.excess > 0) || decide (r.aperture < 0)

/-- The test of the backward jumps: `KB(mmSize) > I830_MM_MINPAGES * GTT_PAGE_SIZE`. -/
def above_floor (P : Params) (s : PreInit) : Prop :=
  KB s.mmSize > (P.I830_MM_MINPAGES * P.GTT_PAGE_SIZE : Nat)

/-- Sample constants: 32 pages of 4096 bytes. -/
def sample_params : Params := { I830_MM_MINPAGES := 32, GTT_PAGE_SIZE := 4096 }

/-- A sample state: 1300 pixels wide at 4 bytes, 32 MiB reserved for the
memory manager, nothing disabled yet. -/
def sample_pre_init : PreInit :=
  { displayWidth := 1300, virtualY := 1024, cpp := 4, mmSize := 32768, MemoryAperture_Size := 0,
    disableTiling := false, allowPageFlip := true, directRenderingDisabled := false,
    noAccel := false, XvDisabled := false, XvEnabled := false, trace := [] }

/-- An allocator for which everything fits. -/
def roomy_allocator : Allocator :=
  { run := fun _ _ _ => { Allocate2D := true, Allocate3D := true, excess := 0, aperture := 4096 } }

/-- An allocator whose 2D allocation fails. -/
def failing_allocator : Allocator :=
  { run := fun _ _ _ => { Allocate2D := false, Allocate3D := false, excess := 0, aperture := 4096 } }

/-- An allocator whose 2D allocation fails and leaves a negative aperture
size. -/
def stuck_allocator : Allocator :=
  { run := fun _ _ _ =>
      { Allocate2D := false, Allocate3D := false, excess := 0, aperture := -4096 } }

/-- An allocator for which nothing fits: the aperture is exceeded whatever
the reservation. -/
def cramped_allocator : Allocator :=
  { run := fun _ _ _ => { Allocate2D := true, Allocate3D := true, excess := 0, aperture := -4096 } }

/-! ## `SaveHWState` and `RestoreHWState` -/

/-- The register offsets and bit masks of `i810_reg.h` that `SaveHWState`
and `RestoreHWState` use; their values are parameters of the model. A register
is its offset into the MMIO window. -/
structure RegMap where
  DSPACNTR : Nat
  DSPBCNTR : Nat
  PIPEACONF : Nat
  PIPEBCONF : Nat
  PIPEASRC : Nat
  PIPEBSRC : Nat
  FPA0 : Nat
  FPA1 : Nat
  FPB0 : Nat
  FPB1 : Nat
  DPLL_A : Nat
  DPLL_B : Nat
  DPLL_A_MD : Nat
  DPLL_B_MD : Nat
  HTOTAL_A : Nat
  HBLANK_A : Nat
  HSYNC_A : Nat
  VTOTAL_A : Nat
  VBLANK_A : Nat
  VSYNC_A : Nat
  HTOTAL_B : Nat
  HBLANK_B : Nat
  HSYNC_B : Nat
  VTOTAL_B : Nat
  VBLANK_B : Nat
  VSYNC_B : Nat
  DSPASTRIDE : Nat
  DSPASIZE : Nat
  DSPAPOS : Nat
  DSPABASE : Nat
  DSPBSTRIDE : Nat
  DSPBSIZE : Nat
  DSPBPOS : Nat
  DSPBBASE : Nat
  DSPASURF : Nat
  DSPBSURF : Nat
  PALETTE_A : Nat
  PALETTE_B : Nat
  VCLK_DIVISOR_VGA0 : Nat
  VCLK_DIVISOR_VGA1 : Nat
  VCLK_POST_DIV : Nat
  VGACNTRL : Nat
  SWF0 : Nat
  SWF00 : Nat
  SWF30 : Nat
  SWF31 : Nat
  SWF32 : Nat
  PFIT_CONTROL : Nat
  DISPLAY_PLANE_ENABLE : Nat
  PIPEACONF_ENABLE : Nat
  PIPEBCONF_ENABLE : Nat

/-- The `x & ~mask` of two `CARD32`. -/
def and_not (x mask : Nat) : Nat := x &&& ((2 ^ 32 - 1) ^^^ (mask % 2 ^ 32))

/-- What `SaveHWState` and `RestoreHWState` read of the device:
`pI830->num_pipes`, `IS_I965G(pI830)` and `pI830->num_outputs`. -/
structure Device where
  num_pipes : Nat
  is_i965g : Bool
  num_outputs : Nat

/-- The save fields of `I830Rec`; an array is a function of the index. -/
structure Saved where
  saveDSPACNTR : Nat
  saveDSPBCNTR : Nat
  savePIPEACONF : Nat
  savePIPEBCONF : Nat
  savePIPEASRC : Nat
  savePIPEBSRC : Nat
  saveFPA0 : Nat
  saveFPA1 : Nat
  saveDPLL_A : Nat
  saveDPLL_A_MD : Nat
  saveHTOTAL_A : Nat
  saveHBLANK_A : Nat
  saveHSYNC_A : Nat
  saveVTOTAL_A : Nat
  saveVBLANK_A : Nat
  saveVSYNC_A : Nat
  saveDSPASTRIDE : Nat
  saveDSPASIZE : Nat
  saveDSPAPOS : Nat
  saveDSPABASE : Nat
  saveDSPASURF : Nat
  saveFPB0 : Nat
  saveFPB1 : Nat
  saveDPLL_B : Nat
  saveDPLL_B_MD : Nat
  saveHTOTAL_B : Nat
  saveHBLANK_B : Nat
  saveHSYNC_B : Nat
  saveVTOTAL_B : Nat
  saveVBLANK_B : Nat
  saveVSYNC_B : Nat
  saveDSPBSTRIDE : Nat
  saveDSPBSIZE : Nat
  saveDSPBPOS : Nat
  saveDSPBBASE : Nat
  saveDSPBSURF : Nat
  saveVCLK_DIVISOR_VGA0 : Nat
  saveVCLK_DIVISOR_VGA1 : Nat
  saveVCLK_POST_DIV : Nat
  saveVGACNTRL : Nat
  saveSWF : Nat → Nat
  savePaletteA : Nat → Nat
  savePaletteB : Nat → Nat
  savePFIT_CONTROL : Nat

/-- A hardware action: a register write of this file, or a call of a helper
or of a hook of an output, none of which is among the sources. -/
inductive HwEvent where
  | xf86DrvMsg_PIPEACONF (value : Nat)
  | xf86DrvMsg_PIPEBCONF (value : Nat)
  | i830TakeRegSnapshot
  | output_save (i : Nat)
  | vgaHWUnlock
  | vgaHWSave
  | I830DRISetVBlankInterrupt (enable : Bool)
  | vgaHWRestore
  | vgaHWLock
  | OUTREG (addr value : Nat)
  | output_pre_set_mode (i : Nat) (mode_is_null : Bool)
  | i830WaitForVblank
  | output_restore (i : Nat)
  | i830CompareRegsToSnapshot
deriving DecidableEq, Repr

/-- What the helpers and the hooks of the outputs do to the register file.
`output_save i` is `none` when the `save` pointer of output `i` is NULL. -/
structure Helpers where
  i830TakeRegSnapshot : (Nat → Nat) → Nat → Nat
  output_save : Nat → Option ((Nat → Nat) → Nat → Nat)
  vgaHWUnlock : (Nat → Nat) → Nat → Nat
  vgaHWSave : (Nat → Nat) → Nat → Nat
  I830DRISetVBlankInterrupt : Bool → (Nat → Nat) → Nat → Nat
  vgaHWRestore : (Nat → Nat) → Nat → Nat
  vgaHWLock : (Nat → Nat) → Nat → Nat
  output_pre_set_mode : Nat → (Nat → Nat) → Nat → Nat
  i830WaitForVblank : (Nat → Nat) → Nat → Nat
  output_restore : Nat → (Nat → Nat) → Nat → Nat
  i830CompareRegsToSnapshot : (Nat → Nat) → Nat → Nat

/-- The register file, in which a read returns the last value written, the
save fields, and the hardware actions so far. -/
structure HW where
  regs : Nat → Nat
  saved : Saved
  trace : List HwEvent

/-- The macro `INREG`. -/
def INREG (h : HW) (addr : Nat) : Nat := h.regs addr

/-- The macro `OUTREG`. -/
def OUTREG (h : HW) (addr value : Nat) : HW :=
  { h with regs := Function.update h.regs addr value, trace := h.trace ++ [.OUTREG addr value] }

/-- A call of a helper or of a hook. -/
def HW.call (h : HW) (e : HwEvent) (f : (Nat → Nat) → Nat → Nat) : HW :=
  { h with regs := f h.regs, trace := h.trace ++ [e] }

/-- A run of `OUTREG` statements, in order. -/
def OUTREGs (h : HW) (ws : List (Nat × Nat)) : HW :=
  ws.foldl (fun h w => OUTREG h w.1 w.2) h

/-- The loop over the outputs of `SaveHWState`. -/
def save_outputs (H : Helpers) (D : Device) (h : HW) : HW :=
  (List.range D.num_outputs).foldl
    (fun h i => match H.output_save i with
      | some f => h.call (.output_save i) f
      | none => h) h

/-- `SaveHWState`. -/
def SaveHWState (R : RegMap) (H : Helpers) (D : Device) (h : HW) : HW :=
  let h := { h with trace := h.trace ++ [HwEvent.xf86DrvMsg_PIPEACONF (INREG h R.PIPEACONF)] }
  let h := if D.num_pipes = 2
    then { h with trace := h.trace ++ [HwEvent.xf86DrvMsg_PIPEBCONF (INREG h R.PIPEBCONF)] }
    else h
  let h := h.call .i830TakeRegSnapshot H.i830TakeRegSnapshot
  let s := h.saved
  let s := { s with
    saveDSPACNTR := INREG h R.DSPACNTR,
    savePIPEACONF := INREG h R.PIPEACONF,
    savePIPEASRC := INREG h R.PIPEASRC,
    saveFPA0 := INREG h R.FPA0,
    saveFPA1 := INREG h R.FPA1,
    saveDPLL_A := INREG h R.DPLL_A }
  let s := if D.is_i965g then { s with saveDPLL_A_MD := INREG h R.DPLL_A_MD } else s
  let s := { s with
    saveHTOTAL_A := INREG h R.HTOTAL_A,
    saveHBLANK_A := INREG h R.HBLANK_A,
    saveHSYNC_A := INREG h R.HSYNC_A,
    saveVTOTAL_A := INREG h R.VTOTAL_A,
    saveVBLANK_A := INREG h R.VBLANK_A,
    saveVSYNC_A := INREG h R.VSYNC_A,
    saveDSPASTRIDE := INREG h R.DSPASTRIDE,
    saveDSPASIZE := INREG h R.DSPASIZE,
    saveDSPAPOS := INREG h R.DSPAPOS,
    saveDSPABASE := INREG h R.DSPABASE,
    savePaletteA := fun i => if i < 256 then INREG h (R.PALETTE_A + (i <<< 2))
      else s.savePaletteA i }
  let s := if D.num_pipes = 2 then
      let s := { s with
        savePIPEBCONF := INREG h R.PIPEBCONF,
        savePIPEBSRC := INREG h R.PIPEBSRC,
        saveDSPBCNTR := INREG h R.DSPBCNTR,
        saveFPB0 := INREG h R.FPB0,
        saveFPB1 := INREG h R.FPB1,
        saveDPLL_B := INREG h R.DPLL_B }
      let s := if D.is_i965g then { s with saveDPLL_B_MD := INREG h R.DPLL_B_MD } else s
      { s with
        saveHTOTAL_B := INREG h R.HTOTAL_B,
        saveHBLANK_B := INREG h R.HBLANK_B,
        saveHSYNC_B := INREG h R.HSYNC_B,
        saveVTOTAL_B := INREG h R.VTOTAL_B,
        saveVBLANK_B := INREG h R.VBLANK_B,
        saveVSYNC_B := INREG h R.VSYNC_B,
        saveDSPBSTRIDE := INREG h R.DSPBSTRIDE,
        saveDSPBSIZE := INREG h R.DSPBSIZE,
        saveDSPBPOS := INREG h R.DSPBPOS,
        saveDSPBBASE := INREG h R.DSPBBASE,
        savePaletteB := fun i => if i < 256 then INREG h (R.PALETTE_B + (i <<< 2))
          else s.savePaletteB i }
    else s
  let s := if D.is_i965g
    then { s with saveDSPASURF := INREG h R.DSPASURF, saveDSPBSURF := INREG h R.DSPBSURF }
    else s
  let s := { s with
    saveVCLK_DIVISOR_VGA0 := INREG h R.VCLK_DIVISOR_VGA0,
    saveVCLK_DIVISOR_VGA1 := INREG h R.VCLK_DIVISOR_VGA1,
    saveVCLK_POST_DIV := INREG h R.VCLK_POST_DIV,
    saveVGACNTRL := INREG h R.VGACNTRL }
  let s := { s with
    saveSWF := fun j =>
      if j < 7 then INREG h (R.SWF0 + (j <<< 2))
      else if j < 14 then INREG h (R.SWF00 + ((j - 7) <<< 2))
      else if j = 14 then INREG h R.SWF30
      else if j = 15 then INREG h R.SWF31
      else if j = 16 then INREG h R.SWF32
      else s.saveSWF j }
  let s := { s with savePFIT_CONTROL := INREG h R.PFIT_CONTROL }
  let h := { h with saved := s }
  let h := save_outputs H D h
  let h := h.call .vgaHWUnlock H.vgaHWUnlock
  h.call .vgaHWSave H.vgaHWSave

/-- The `OUTREG` statements of `RestoreHWState` for pipe A, from `FPA0` to
the palette. -/
def restore_pipe_A (R : RegMap) (D : Device) (s : Saved) : List (Nat × Nat) :=
  [(R.FPA0, s.saveFPA0), (R.FPA1, s.saveFPA1), (R.DPLL_A, s.saveDPLL_A)]
  ++ (if D.is_i965g then [(R.DPLL_A_MD, s.saveDPLL_A_MD)] else [])
  ++ [(R.HTOTAL_A, s.saveHTOTAL_A), (R.HBLANK_A, s.saveHBLANK_A), (R.HSYNC_A, s.saveHSYNC_A),
      (R.VTOTAL_A, s.saveVTOTAL_A), (R.VBLANK_A, s.saveVBLANK_A), (R.VSYNC_A, s.saveVSYNC_A),
      (R.DSPASTRIDE, s.saveDSPASTRIDE), (R.DSPASIZE, s.saveDSPASIZE),
      (R.DSPAPOS, s.saveDSPAPOS), (R.DSPABASE, s.saveDSPABASE), (R.PIPEASRC, s.savePIPEASRC)]
  ++ (List.range 256).map fun i => (R.PALETTE_A + (i <<< 2), s.savePaletteA i)

/-- The `OUTREG` statements of `RestoreHWState` for pipe B, from `FPB0` to
the palette. -/
def restore_pipe_B (R : RegMap) (D : Device) (s : Saved) : List (Nat × Nat) :=
  [(R.FPB0, s.saveFPB0), (R.FPB1, s.saveFPB1), (R.DPLL_B, s.saveDPLL_B)]
  ++ (if D.is_i965g then [(R.DPLL_B_MD, s.saveDPLL_B_MD)] else [])
  ++ [(R.HTOTAL_B, s.saveHTOTAL_B), (R.HBLANK_B, s.saveHBLANK_B), (R.HSYNC_B, s.saveHSYNC_B),
      (R.VTOTAL_B, s.saveVTOTAL_B), (R.VBLANK_B, s.saveVBLANK_B), (R.VSYNC_B, s.saveVSYNC_B),
      (R.DSPBSTRIDE, s.saveDSPBSTRIDE), (R.DSPBSIZE, s.saveDSPBSIZE),
      (R.DSPBPOS, s.saveDSPBPOS), (R.DSPBBASE, s.saveDSPBBASE), (R.PIPEBSRC, s.savePIPEBSRC)]
  ++ (List.range 256).map fun i => (R.PALETTE_B + (i <<< 2), s.savePaletteB i)

/-- The `OUTREG` statements of `RestoreHWState` after the loop over the
`restore` hooks, from `DSPASURF` to `SWF32`. -/
def restore_tail (R : RegMap) (D : Device) (s : Saved) : List (Nat × Nat) :=
  (if D.is_i965g then [(R.DSPASURF, s.saveDSPASURF), (R.DSPBSURF, s.saveDSPBSURF)] else [])
  ++ [(R.VCLK_DIVISOR_VGA0, s.saveVCLK_DIVISOR_VGA0),
      (R.VCLK_DIVISOR_VGA1, s.saveVCLK_DIVISOR_VGA1),
      (R.VCLK_POST_DIV, s.saveVCLK_POST_DIV),
      (R.PIPEACONF, s.savePIPEACONF), (R.PIPEBCONF, s.savePIPEBCONF),
      (R.VGACNTRL, s.saveVGACNTRL),
      (R.DSPACNTR, s.saveDSPACNTR), (R.DSPBCNTR, s.saveDSPBCNTR)]
  ++ ([0, 1, 2, 3, 4, 5, 6].flatMap fun i =>
      [(R.SWF0 + (i <<< 2), s.saveSWF i), (R.SWF00 + (i <<< 2), s.saveSWF (i + 7))])
  ++ [(R.SWF30, s.saveSWF 14), (R.SWF31, s.saveSWF 15), (R.SWF32, s.saveSWF 16)]

/-- The first loop over the outputs of `RestoreHWState`: `pre_set_mode` with a
NULL mode. -/
def pre_set_mode_outputs (H : Helpers) (D : Device) (h : HW) : HW :=
  (List.range D.num_outputs).foldl
    (fun h i => h.call (.output_pre_set_mode i true) (H.output_pre_set_mode i)) h

/-- The second loop over the outputs of `RestoreHWState`: `restore`. -/
def restore_outputs (H : Helpers) (D : Device) (h : HW) : HW :=
  (List.range D.num_outputs).foldl
    (fun h i => h.call (.output_restore i) (H.output_restore i)) h

/-- The first part of `RestoreHWState`, down to `i830WaitForVblank`: the
helpers, the four writes that clear the enable bits, `pre_set_mode` for every
output, the wait. -/
def restore_disable (R : RegMap) (H : Helpers) (D : Device) (h : HW) : HW :=
  let h := h.call (.I830DRISetVBlankInterrupt false) (H.I830DRISetVBlankInterrupt false)
  let h := h.call .vgaHWRestore H.vgaHWRestore
  let h := h.call .vgaHWLock H.vgaHWLock
  let temp := INREG h R.DSPACNTR
  let h := OUTREG h R.DSPACNTR (and_not temp R.DISPLAY_PLANE_ENABLE)
  let temp := INREG h R.DSPBCNTR
  let h := OUTREG h R.DSPBCNTR (and_not temp R.DISPLAY_PLANE_ENABLE)
  let temp := INREG h R.PIPEACONF
  let h := OUTREG h R.PIPEACONF (and_not temp R.PIPEACONF_ENABLE)
  let temp := INREG h R.PIPEBCONF
  let h := OUTREG h R.PIPEBCONF (and_not temp R.PIPEBCONF_ENABLE)
  let h := pre_set_mode_outputs H D h
  h.call .i830WaitForVblank H.i830WaitForVblank

/-- `RestoreHWState`. -/
def RestoreHWState (R : RegMap) (H : Helpers) (D : Device) (h : HW) : HW :=
  let h := restore_disable R H D h
  let h := OUTREGs h (restore_pipe_A R D h.saved)
  let h := if D.num_pipes = 2 then OUTREGs h (restore_pipe_B R D h.saved) else h
  let h := OUTREG h R.PFIT_CONTROL h.saved.savePFIT_CONTROL
  let h := restore_outputs H D h
  let h := OUTREGs h (restore_tail R D h.saved)
  h.call .i830CompareRegsToSnapshot H.i830CompareRegsToSnapshot

/-- The `OUTREG` statements of `RestoreHWState` between `i830WaitForVblank`
and the loop over the `restore` hooks. -/
def restore_timings (R : RegMap) (D : Device) (s : Saved) : List (Nat × Nat) :=
  restore_pipe_A R D s ++ (if D.num_pipes = 2 then restore_pipe_B R D s else [])
    ++ [(R.PFIT_CONTROL, s.savePFIT_CONTROL)]

/-- The registers that `SaveHWState` reads into a save field on a device. -/
def captured (R : RegMap) (D : Device) : List Nat :=
  [R.DSPACNTR, R.PIPEACONF, R.PIPEASRC, R.FPA0, R.FPA1, R.DPLL_A,
    R.HTOTAL_A, R.HBLANK_A, R.HSYNC_A, R.VTOTAL_A, R.VBLANK_A, R.VSYNC_A,
    R.DSPASTRIDE, R.DSPASIZE, R.DSPAPOS, R.DSPABASE]
  ++ ((List.range 256).map fun i => R.PALETTE_A + (i <<< 2))
  ++ (if D.num_pipes = 2 then
      [R.PIPEBCONF, R.PIPEBSRC, R.DSPBCNTR, R.FPB0, R.FPB1, R.DPLL_B,
        R.HTOTAL_B, R.HBLANK_B, R.HSYNC_B, R.VTOTAL_B, R.VBLANK_B, R.VSYNC_B,
        R.DSPBSTRIDE, R.DSPBSIZE, R.DSPBPOS, R.DSPBBASE]
      ++ ((List.range 256).map fun i => R.PALETTE_B + (i <<< 2))
    else [])
  ++ (if D.is_i965g then
      [R.DPLL_A_MD] ++ (if D.num_pipes = 2 then [R.DPLL_B_MD] else [])
        ++ [R.DSPASURF, R.DSPBSURF]
    else [])
  ++ [R.VCLK_DIVISOR_VGA0, R.VCLK_DIVISOR_VGA1, R.VCLK_POST_DIV, R.VGACNTRL]
  ++ ([0, 1, 2, 3, 4, 5, 6].flatMap fun i => [R.SWF0 + (i <<< 2), R.SWF00 + (i <<< 2)])
  ++ [R.SWF30, R.SWF31, R.SWF32, R.PFIT_CONTROL]

/-- The snapshot helpers and the `restore` hooks of the outputs write no
register of the list. The other helpers and hooks run before the registers are
rewritten, or after they were read, and may write anything. -/
def Helpers.keep (H : Helpers) (S : List Nat) : Prop :=
  ∀ (regs : Nat → Nat) (a : Nat), a ∈ S →
    H.i830TakeRegSnapshot regs a = regs a ∧
    (∀ i, H.output_restore i regs a = regs a) ∧
    H.i830CompareRegsToSnapshot regs a = regs a

/-- A sample register map. -/
def sample_regmap : RegMap :=
  { DSPACNTR := 0x70180, DSPBCNTR := 0x71180, PIPEACONF := 0x70008, PIPEBCONF := 0x71008,
    PIPEASRC := 0x6001c, PIPEBSRC := 0x6101c, FPA0 := 0x6040, FPA1 := 0x6044, FPB0 := 0x6048,
    FPB1 := 0x604c, DPLL_A := 0x6014, DPLL_B := 0x6018, DPLL_A_MD := 0x601c,
    DPLL_B_MD := 0x6020, HTOTAL_A := 0x60000, HBLANK_A := 0x60004, HSYNC_A := 0x60008,
    VTOTAL_A := 0x6000c, VBLANK_A := 0x60010, VSYNC_A := 0x60014, HTOTAL_B := 0x61000,
    HBLANK_B := 0x61004, HSYNC_B := 0x61008, VTOTAL_B := 0x6100c, VBLANK_B := 0x61010,
    VSYNC_B := 0x61014, DSPASTRIDE := 0x70188, DSPASIZE := 0x70190, DSPAPOS := 0x7018c,
    DSPABASE := 0x70184, DSPBSTRIDE := 0x71188, DSPBSIZE := 0x71190, DSPBPOS := 0x7118c,
    DSPBBASE := 0x71184, DSPASURF := 0x7019c, DSPBSURF := 0x7119c, PALETTE_A := 0xa000,
    PALETTE_B := 0xa800, VCLK_DIVISOR_VGA0 := 0x6000, VCLK_DIVISOR_VGA1 := 0x6004,
    VCLK_POST_DIV := 0x6010, VGACNTRL := 0x71400, SWF0 := 0x71410, SWF00 := 0x70410,
    SWF30 := 0x72414, SWF31 := 0x72418, SWF32 := 0x7241c, PFIT_CONTROL := 0x61230,
    DISPLAY_PLANE_ENABLE := 0x80000000, PIPEACONF_ENABLE := 0x80000000,
    PIPEBCONF_ENABLE := 0x80000000 }

/-- A sample device: two pipes, not an I965G, one output. -/
def sample_device : Device := { num_pipes := 2, is_i965g := false, num_outputs := 1 }

/-- Helpers and hooks that leave the register file alone. -/
def sample_helpers : Helpers :=
  { i830TakeRegSnapshot := fun r => r, output_save := fun _ => some fun r => r,
    vgaHWUnlock := fun r => r, vgaHWSave := fun r => r,
    I830DRISetVBlankInterrupt := fun _ r => r, vgaHWRestore := fun r => r,
    vgaHWLock := fun r => r, output_pre_set_mode := fun _ r => r,
    i830WaitForVblank := fun r => r, output_restore := fun _ r => r,
    i830CompareRegsToSnapshot := fun r => r }

/-- Save fields that hold zero. -/
def zero_saved : Saved :=
  { saveDSPACNTR := 0, saveDSPBCNTR := 0, savePIPEACONF := 0, savePIPEBCONF := 0,
    savePIPEASRC := 0, savePIPEBSRC := 0, saveFPA0 := 0, saveFPA1 := 0, saveDPLL_A := 0,
    saveDPLL_A_MD := 0, saveHTOTAL_A := 0, saveHBLANK_A := 0, saveHSYNC_A := 0,
    saveVTOTAL_A := 0, saveVBLANK_A := 0, saveVSYNC_A := 0, saveDSPASTRIDE := 0,
    saveDSPASIZE := 0, saveDSPAPOS := 0, saveDSPABASE := 0, saveDSPASURF := 0, saveFPB0 := 0,
    saveFPB1 := 0, saveDPLL_B := 0, saveDPLL_B_MD := 0, saveHTOTAL_B := 0, saveHBLANK_B := 0,
    saveHSYNC_B := 0, saveVTOTAL_B := 0, saveVBLANK_B := 0, saveVSYNC_B := 0,
    saveDSPBSTRIDE := 0, saveDSPBSIZE := 0, saveDSPBPOS := 0, saveDSPBBASE := 0,
    saveDSPBSURF := 0, saveVCLK_DIVISOR_VGA0 := 0, saveVCLK_DIVISOR_VGA1 := 0,
    saveVCLK_POST_DIV := 0, saveVGACNTRL := 0, saveSWF := fun _ => 0,
    savePaletteA := fun _ => 0, savePaletteB := fun _ => 0, savePFIT_CONTROL := 0 }

/-- A sample state of the hardware: every register holds its own offset with
bit 31 set, nothing saved, nothing done. -/
def sample_hw : HW := { regs := fun a => 0x80000000 + a, saved := zero_saved, trace := [] }

/-! ## The state saving of `I830EnterVT` -/

/-- Modelled from the spec: `pI830->SaveGeneration`, declared in `i830.h`, is
taken to be an `int`, which its initial value -1 suggests, and
`serverGeneration` is the `unsigned long` of the X server; this is the
conversion of the `int` in the comparison of the two. -/
def int_to_ulong (x : Int) : Nat := (x % 2 ^ 64).toNat

/-- The fields of `I830Rec` that the head of `I830EnterVT` reads or writes,
and the hardware. -/
structure VT where
  SaveGeneration : Int
  leaving : Bool
  hw : HW

/-- The statement `pI830->SaveGeneration = -1` of `I830PreInit`. -/
def I830PreInit_SaveGeneration (v : VT) : VT := { v with SaveGeneration := -1 }

/-- `I830EnterVT`. Of the statements after `pI830->leaving = FALSE`, which
call into the rest of the driver and neither write `SaveGeneration` nor call
`SaveHWState`, the model keeps what they do to the register file and the value
they make the function return: that is `rest`. -/
def I830EnterVT (R : RegMap) (H : Helpers) (D : Device) (serverGeneration : Nat)
    (rest : (Nat → Nat) → Bool × (Nat → Nat)) (v : VT) : Bool × VT :=
  let v := if int_to_ulong v.SaveGeneration ≠ serverGeneration then
      let v := { v with SaveGeneration := to_int serverGeneration }
      { v with hw := SaveHWState R H D v.hw }
    else v
  let v := { v with leaving := false }
  let r := rest v.hw.regs
  (r.1, { v with hw := { v.hw with regs := r.2 } })

/-- A sequence of `I830EnterVT` calls in one server generation, each with its
own `rest`. -/
def enter_run (R : RegMap) (H : Helpers) (D : Device) (serverGeneration : Nat) :
    List ((Nat → Nat) → Bool × (Nat → Nat)) → VT → VT
  | [], v => v
  | rest :: rests, v =>
    enter_run R H D serverGeneration rests (I830EnterVT R H D serverGeneration rest v).2

/-- The number of `SaveHWState` calls among the hardware actions: each makes
exactly one call of `i830TakeRegSnapshot`, which nothing else calls. -/
def saves (t : List HwEvent) : Nat := t.count .i830TakeRegSnapshot

/-- A sample state before `I830PreInit`. -/
def sample_vt : VT := { SaveGeneration := 0, leaving := true, hw := sample_hw }

/-- A `rest` that succeeds and leaves the register file alone. -/
def sample_rest : (Nat → Nat) → Bool × (Nat → Nat) := fun r => (true, r)

end I830

namespace IntelDevice

/-- A kernel that refuses every `drmSetMaster` and grants the rest. -/
def refusing_kernel : Kernel :=
  { set_version := fun _ => 0, drmSetMaster := fun _ => -1, drmDropMaster := 0 }

/-- A sample device that is open once and holds no master. -/
def idle_dev : intel_device :=
  { master_node := 0x1000, render_node := 0x2000, fd := 7, open_count := 1, master_count := 0 }

/-- A sample screen holding the idle device. -/
def idle_scrn : Scrn := { entityList := true, ptr := some idle_dev, trace := [] }

end IntelDevice

namespace I915XvMC

/-! ## The status of a subpicture -/

/-- The constants of the X11 and XvMC headers that the two functions use:
`BadValue`, `XvMCBadSubpicture` and the status bit `XVMC_RENDERING`. -/
structure XConsts where
  BadValue : Int
  XvMCBadSubpicture : Int
  XVMC_RENDERING : Int

/-- `Success` of `X.h`; the loop of `XvMCSyncSubpicture` tests it as `!ret`. -/
def Success : Int := 0

/-- The part of `i915XvMCContext` read here: `sarea->last_dispatch`. -/
structure i915XvMCContext where
  sarea_last_dispatch : Nat
deriving DecidableEq, Repr

/-- The part of `i915XvMCSubpicture` read here; `none` is a NULL pointer. -/
structure i915XvMCSubpicture where
  last_render : Nat
  privContext : Option i915XvMCContext
deriving DecidableEq, Repr

/-- The part of `XvMCSubpicture` read here; `none` is a NULL pointer. -/
structure XvMCSubpicture where
  privData : Option i915XvMCSubpicture
deriving DecidableEq, Repr

/-- `XvMCGetSubpictureStatus`. `display` tells whether the pointer is
non-NULL; `stat` is `none` for a NULL pointer and otherwise holds the `int` it
points to. The value is the status returned with the `int` behind `stat`
afterwards; `none` is the store through a NULL pointer. The mutex calls of
`PPTHREAD_MUTEX_LOCK` and `PPTHREAD_MUTEX_UNLOCK` change nothing that is
read here. -/
def XvMCGetSubpictureStatus (K : XConsts) (error_base : Int) (display : Bool)
    (subpicture : Option XvMCSubpicture) (stat : Option Int) : Option (Int × Option Int) :=
  if display = false ∨ subpicture.isNone = true ∨ stat.isSome = true then
    some (K.BadValue, stat)
  else
    match stat with
    | none => none
    | some _ =>
      let stat : Int := 0
      match subpicture with
      | none => none
      | some sp =>
        match sp.privData with
        | none => some (error_base + K.XvMCBadSubpicture, some stat)
        | some pI915Subpicture =>
          match pI915Subpicture.privContext with
          | none => some (error_base + K.XvMCBadSubpicture, some stat)
          | some pI915XvMC =>
            let stat :=
              if pI915Subpicture.last_render ≠ 0 ∧
                  pI915Subpicture.last_render > pI915XvMC.sarea_last_dispatch then
                Int.lor stat K.XVMC_RENDERING
              else stat
            some (Success, some stat)

/-- The `do ... while` of `XvMCSyncSubpicture` with `stat` holding the local
variable; `fuel` bounds the number of passes, and `none` is running out of it
or a crash of the call. -/
def sync_loop (K : XConsts) (error_base : Int) (display : Bool)
    (subpicture : Option XvMCSubpicture) : Nat → Int → Option Int
  | 0, _ => none
  | fuel + 1, stat =>
    match XvMCGetSubpictureStatus K error_base display subpicture (some stat) with
    | none => none
    | some (ret, stat') =>
      if ret = 0 ∧ Int.land (stat'.getD 0) K.XVMC_RENDERING ≠ 0 then
        sync_loop K error_base display subpicture fuel (stat'.getD 0)
      else some ret

/-- `XvMCSyncSubpicture`. -/
def XvMCSyncSubpicture (K : XConsts) (error_base : Int) (display : Bool)
    (subpicture : Option XvMCSubpicture) (fuel : Nat) : Option Int :=
  if display = false ∨ subpicture.isNone = true then some K.BadValue
  else sync_loop K error_base display subpicture fuel 0

/-- The values of `X.h`, `XvMC.h` and `XvMClib.h`. -/
def sample_xconsts : XConsts := { BadValue := 2, XvMCBadSubpicture := 2, XVMC_RENDERING := 1 }

/-- A subpicture whose last rendering, number 9, is not completed: the
hardware has dispatched up to number 3. -/
def rendering_subpicture : XvMCSubpicture :=
  { privData := some { last_render := 9, privContext := some { sarea_last_dispatch := 3 } } }

/-- A subpicture whose last rendering, number 9, is completed. -/
def idle_subpicture : XvMCSubpicture :=
  { privData := some { last_render := 9, privContext := some { sarea_last_dispatch := 9 } } }

end I915XvMC

namespace I830

/-! ## The default `videoRam` of `I830PreInit` -/

/-- The constants `I830_DEFAULT_VIDEOMEM_2D`, `I830_DEFAULT_VIDEOMEM_3D` and
`I830_MAXIMUM_VBIOS_MEM` of `i830.h`, in kilobytes; the comment in
`I830PreInit` gives 8192 and 32768 for the first two. -/
structure VideoMem where
  I830_DEFAULT_VIDEOMEM_2D : Int
  I830_DEFAULT_VIDEOMEM_3D : Int
  I830_MAXIMUM_VBIOS_MEM : Int

/-- Modelled from the spec: the macro `ROUND_TO` of `i830.h`, `x` rounded up
to a multiple of `y`. -/
def ROUND_TO (x y : Int) : Int := Int.tdiv (x + y - 1) y * y

/-- The value of a C `int` that is assigned the exact result `x`. -/
def as_int (x : Int) : Int := (x + 2 ^ 31) % 2 ^ 32 - 2 ^ 31

/-- The branch `if (!pI830->pEnt->device->videoRam)` of `I830PreInit`: the
value of `pScrn->videoRam` it leaves. `XF86DRI` tells whether the macro is
defined, `shared` is `xf86IsEntityShared(pScrn->entityList[0])`, `primary` is
`I830IsPrimary(pScrn)`, `StolenMemory_Size` is in bytes. -/
def default_videoRam (D : VideoMem) (XF86DRI directRenderingDisabled shared primary : Bool)
    (StolenMemory_Size : Int) : Int :=
  let videoRam :=
    if XF86DRI = true ∧ directRenderingDisabled = false then D.I830_DEFAULT_VIDEOMEM_3D
    else D.I830_DEFAULT_VIDEOMEM_2D
  let videoRam :=
    if shared = true then
      if primary = true then as_int (videoRam + D.I830_DEFAULT_VIDEOMEM_2D)
      else D.I830_MAXIMUM_VBIOS_MEM
    else videoRam
  if Int.tdiv StolenMemory_Size 1024 > videoRam then
    as_int (ROUND_TO (Int.tdiv StolenMemory_Size 1024) 1024)
  else videoRam

/-- The values the comment in `I830PreInit` gives, with 4096 kB for
`I830_MAXIMUM_VBIOS_MEM`. -/
def sample_video_mem : VideoMem :=
  { I830_DEFAULT_VIDEOMEM_2D := 8192, I830_DEFAULT_VIDEOMEM_3D := 32768,
    I830_MAXIMUM_VBIOS_MEM := 4096 }

/-! ## The stolen-memory range of `I830PreInit` -/

/-- The fields `Start`, `End` and `Size` of an `I830MemRange`, each a `long`. -/
structure MemRange where
  Start : Int
  End : Int
  Size : Int
deriving DecidableEq, Repr

/-- The assignments to `pI830->StolenMemory` after the pipe count:
`detected` is what `I830DetectMemory` returned, `mem_skip` is an `int`. -/
def StolenMemory_init (is_i965g : Bool) (FbMapSize : Nat) (detected : Int) : MemRange :=
  let mem_skip : Int := 0
  let mem_skip : Int := if is_i965g = true then as_int ((FbMapSize >>> 10 : Nat) : Int) else mem_skip
  let Size := as_int (detected - mem_skip)
  { Size := Size, Start := mem_skip, End := Size }

/-- The clamp of `pI830->StolenMemory` to `TotalVideoRam`. -/
def StolenMemory_clamp (TotalVideoRam : Int) (m : MemRange) : MemRange :=
  if m.Size > TotalVideoRam then { m with Size := TotalVideoRam, End := TotalVideoRam }
  else m

/-! ## The Rotate option -/

/-- `RR_Rotate_0` of the X server's `randr.h`. -/
def RR_Rotate_0 : Nat := 1

/-- `RR_Rotate_90` of the X server's `randr.h`. -/
def RR_Rotate_90 : Nat := 2

/-- `RR_Rotate_180` of the X server's `randr.h`. -/
def RR_Rotate_180 : Nat := 4

/-- `RR_Rotate_270` of the X server's `randr.h`. -/
def RR_Rotate_270 : Nat := 8

/-- The messages of the rotation code. -/
inductive RotMsg where
  | randr_enabled
  | libshadow_too_old
  | rotating (degrees : Nat)
  | bad_rotation
deriving DecidableEq, Repr

/-- A call of the rotation code that leaves the file. -/
inductive RotEvent where
  | xf86DrvMsg (m : RotMsg)
  | xf86DisableRandR
  | shadowSetup
  | I830RandRInit (rotations : Nat)
deriving DecidableEq, Repr

/-- The fields of `I830Rec` the rotation code writes, and its calls. -/
structure Rotation where
  rotation : Nat
  InitialRotation : Int
  trace : List RotEvent
deriving DecidableEq, Repr

/-- The X server's name comparison `xf86NameCmp`, which is 0 for names that
are equal up to case, blanks and underscores. -/
structure XServer where
  xf86NameCmp : String → String → Int

/-- The `OPTION_ROTATE` lines of `I830PreInit`; `opt` is what
`xf86GetOptValString` returned, `none` for NULL. -/
def I830PreInit_rotate (X : XServer) (opt : Option String) (s : Rotation) : Rotation :=
  let s := { s with rotation := RR_Rotate_0 }
  match opt with
  | none => s
  | some str =>
    let s := { s with InitialRotation := 0 }
    let s :=
      if X.xf86NameCmp str "CW" = 0 ∨ X.xf86NameCmp str "270" = 0 then
        { s with InitialRotation := 270 }
      else s
    let s :=
      if X.xf86NameCmp str "CCW" = 0 ∨ X.xf86NameCmp str "90" = 0 then
        { s with InitialRotation := 90 }
      else s
    if X.xf86NameCmp str "180" = 0 then { s with InitialRotation := 180 } else s

/-- The rotation lines at the end of `I830ScreenInit`: the RandR set-up under
`shadowReq.minorversion >= 1` and the `switch (pI830->InitialRotation)`. The
statements between them and the hook assignments write no field of
`Rotation`. -/
def I830ScreenInit_rotation (is_i965g : Bool) (shadowReq_minorversion : Int) (s : Rotation) :
    Rotation :=
  let s :=
    if shadowReq_minorversion ≥ 1 then
      let s := { s with trace := s.trace ++
        [RotEvent.xf86DrvMsg RotMsg.randr_enabled, RotEvent.xf86DisableRandR,
          RotEvent.shadowSetup] }
      if is_i965g = true then { s with trace := s.trace ++ [RotEvent.I830RandRInit RR_Rotate_0] }
      else
        { s with trace := s.trace ++
          [RotEvent.I830RandRInit (RR_Rotate_0 ||| RR_Rotate_90 ||| RR_Rotate_180 ||| RR_Rotate_270)] }
    else { s with trace := s.trace ++ [RotEvent.xf86DrvMsg RotMsg.libshadow_too_old] }
  if s.InitialRotation = 0 then
    { s with trace := s.trace ++ [RotEvent.xf86DrvMsg (RotMsg.rotating 0)], rotation := RR_Rotate_0 }
  else if s.InitialRotation = 90 then
    { s with trace := s.trace ++ [RotEvent.xf86DrvMsg (RotMsg.rotating 90)], rotation := RR_Rotate_90 }
  else if s.InitialRotation = 180 then
    { s with trace := s.trace ++ [RotEvent.xf86DrvMsg (RotMsg.rotating 180)], rotation := RR_Rotate_180 }
  else if s.InitialRotation = 270 then
    { s with trace := s.trace ++ [RotEvent.xf86DrvMsg (RotMsg.rotating 270)], rotation := RR_Rotate_270 }
  else
    { s with trace := s.trace ++ [RotEvent.xf86DrvMsg RotMsg.bad_rotation], rotation := RR_Rotate_0 }

/-- The rotation sets offered to RandR, in call order. -/
def advertised (t : List RotEvent) : List Nat :=
  t.filterMap fun e =>
    match e with
    | .I830RandRInit r => some r
    | _ => none

/-- A name comparison that is 0 for equal strings only. -/
def exact_names : XServer := { xf86NameCmp := fun a b => if a = b then 0 else 1 }

/-- The record as `I830GetRec` allocates it: all fields zero. -/
def fresh_rotation : Rotation := { rotation := 0, InitialRotation := 0, trace := [] }

end I830

namespace I830

/-! ## The pipe assignment of `I830PreInit` -/

/-- The output types of `i830.h` that the assignment tells apart; `other` is
any value without a `case` of its own. -/
inductive output_type where
  | I830_OUTPUT_ANALOG
  | I830_OUTPUT_DVO
  | I830_OUTPUT_SDVO
  | I830_OUTPUT_LVDS
  | I830_OUTPUT_TVOUT
  | other
deriving DecidableEq, Repr

/-- The values of `enum detect_status` of `i830.h`. -/
inductive detect_status where
  | OUTPUT_STATUS_CONNECTED
  | OUTPUT_STATUS_DISCONNECTED
  | OUTPUT_STATUS_UNKNOWN
deriving DecidableEq, Repr

/-- The fields of one `pI830->output[i]` that the assignment reads or writes. -/
structure Output where
  type : output_type
  pipe : Int
  enabled : Bool
deriving DecidableEq, Repr

/-- A call of the assignment that leaves the file. -/
inductive PipeEvent where
  | detect (i : Nat) (status : detect_status)
  | unhandled_output_type
deriving DecidableEq, Repr

/-- The fields of `I830Rec` that the assignment reads or writes: `num_pipes`,
`num_outputs`, the array `output`, `pipes[i].enabled`, and the calls made. -/
structure Pipes where
  num_pipes : Nat
  num_outputs : Nat
  output : Nat → Output
  pipes_enabled : Nat → Bool
  trace : List PipeEvent

/-- The choice of `pI830->num_pipes` in `I830PreInit`. -/
def choose_num_pipes (is_E7221_G is_mobile is_i9xx : Bool) : Nat :=
  if is_E7221_G = true then 1
  else if is_mobile = true ∨ is_i9xx = true then 2
  else 1

/-- Modelled from the spec: `i830PipeInUse`, which is not among the sources:
some enabled output is assigned to the pipe. -/
def i830PipeInUse (s : Pipes) (pipe : Int) : Bool :=
  (List.range s.num_outputs).any fun j =>
    (s.output j).enabled && decide ((s.output j).pipe = pipe)

/-- Store `o` as `output[i]`. -/
def Pipes.set (s : Pipes) (i : Nat) (o : Output) : Pipes :=
  { s with output := fun j => if j = i then o else s.output j }

/-- The body of the loop over the outputs, for output `i`; `detect i` is what
the `detect` hook of output `i` answers. -/
def assign_output (detect : Nat → detect_status) (i : Nat) (s : Pipes) : Pipes :=
  let s := s.set i { s.output i with enabled := false }
  match (s.output i).type with
  | .I830_OUTPUT_LVDS =>
    s.set i { s.output i with pipe := (s.num_pipes : Int) - 1, enabled := true }
  | .I830_OUTPUT_ANALOG | .I830_OUTPUT_DVO | .I830_OUTPUT_SDVO =>
    let s := { s with trace := s.trace ++ [PipeEvent.detect i (detect i)] }
    if detect i ≠ .OUTPUT_STATUS_DISCONNECTED then
      if i830PipeInUse s 0 = false then s.set i { s.output i with pipe := 0, enabled := true }
      else if i830PipeInUse s 1 = false then
        s.set i { s.output i with pipe := 1, enabled := true }
      else s
    else s
  | .I830_OUTPUT_TVOUT =>
    if i830PipeInUse s 0 = false then s.set i { s.output i with pipe := 0, enabled := true }
    else s
  | .other => { s with trace := s.trace ++ [PipeEvent.unhandled_output_type] }

/-- The loop over the outputs, up to output `n`. -/
def assign_outputs (detect : Nat → detect_status) (n : Nat) (s : Pipes) : Pipes :=
  (List.range n).foldl (fun s i => assign_output detect i s) s

/-- The pipe assignment of `I830PreInit`: the loop over the outputs and the
loop over the pipes after it. -/
def I830PreInit_pipes (detect : Nat → detect_status) (s : Pipes) : Pipes :=
  let s := assign_outputs detect s.num_outputs s
  { s with pipes_enabled := fun i =>
      if i < s.num_pipes then i830PipeInUse s (i : Int) else s.pipes_enabled i }

/-- Some output before output `i` is enabled on the pipe. -/
def claimed (s : Pipes) (i : Nat) (pipe : Int) : Bool :=
  (List.range i).any fun j => (s.output j).enabled && decide ((s.output j).pipe = pipe)

/-- A record with the given outputs, none enabled yet. -/
def pipes_of (num_pipes : Nat) (types : List output_type) : Pipes :=
  { num_pipes := num_pipes, num_outputs := types.length,
    output := fun j => { type := types.getD j .other, pipe := 0, enabled := false },
    pipes_enabled := fun _ => false, trace := [] }

/-- Every output answers that it is connected. -/
def all_connected : Nat → detect_status := fun _ => .OUTPUT_STATUS_CONNECTED

end I830

namespace I830

/-- What the body of the loop leaves in `output[i]`, from the record `o` it
finds there, the answer `status` of the `detect` hook, and whether pipe 0 and
pipe 1 are in use (`c0`, `c1`). -/
def assign_value (num_pipes : Nat) (o : Output) (status : detect_status) (c0 c1 : Bool) :
    Output :=
  match o.type with
  | .I830_OUTPUT_LVDS => { o with pipe := (num_pipes : Int) - 1, enabled := true }
  | .I830_OUTPUT_ANALOG | .I830_OUTPUT_DVO | .I830_OUTPUT_SDVO =>
    if status ≠ .OUTPUT_STATUS_DISCONNECTED then
      if c0 = false then { o with pipe := 0, enabled := true }
      else if c1 = false then { o with pipe := 1, enabled := true }
      else { o with enabled := false }
    else { o with enabled := false }
  | .I830_OUTPUT_TVOUT =>
    if c0 = false then { o with pipe := 0, enabled := true } else { o with enabled := false }
  | .other => { o with enabled := false }

end I830

namespace I830

/-! ## `I830DisplayPowerManagementSet` -/

/-- `DPMSModeOn` of the X server's `dpms.h`. -/
def DPMSModeOn : Int := 0

/-- The register offsets `DSPACNTR`, `DSPABASE`, `DSPBCNTR`, `DSPBADDR` and
the mask `DISPLAY_PLANE_ENABLE` of `i810_reg.h`. -/
structure PlaneRegs where
  DSPACNTR : Nat
  DSPABASE : Nat
  DSPBCNTR : Nat
  DSPBADDR : Nat
  DISPLAY_PLANE_ENABLE : Nat

/-- An action of `I830DisplayPowerManagementSet`: a register write, or a call
of a hook of an output or of the cursor. -/
inductive DpmsEvent where
  | output_dpms (i : Nat) (mode : Int)
  | OUTREG (addr value : Nat)
  | ShowCursor
  | HideCursor
deriving DecidableEq, Repr

/-- What the hooks, none of which is among the sources, do to the register
file. -/
structure DpmsHooks where
  output_dpms : Nat → Int → (Nat → Nat) → Nat → Nat
  ShowCursor : (Nat → Nat) → Nat → Nat
  HideCursor : (Nat → Nat) → Nat → Nat

/-- The fields of `I830Rec` that the function reads or writes
(`CursorInfoRec` tells whether the pointer is non-NULL), the register file, in
which a read returns the last value written, and the actions so far. -/
structure Dpms where
  num_outputs : Nat
  num_pipes : Nat
  pipes_enabled : Nat → Bool
  CursorInfoRec : Bool
  SWCursor : Bool
  cursorOn : Bool
  regs : Nat → Nat
  trace : List DpmsEvent

/-- The macro `OUTREG`. -/
def Dpms.OUTREG (s : Dpms) (addr value : Nat) : Dpms :=
  { s with regs := Function.update s.regs addr value,
           trace := s.trace ++ [DpmsEvent.OUTREG addr value] }

/-- A call of a hook. -/
def Dpms.call (s : Dpms) (e : DpmsEvent) (f : (Nat → Nat) → Nat → Nat) : Dpms :=
  { s with regs := f s.regs, trace := s.trace ++ [e] }

/-- The plane control register chosen for pipe `i`. -/
def plane_ctrl (R : PlaneRegs) (i : Nat) : Nat := if i = 0 then R.DSPACNTR else R.DSPBCNTR

/-- The plane base register chosen for pipe `i`. -/
def plane_base (R : PlaneRegs) (i : Nat) : Nat := if i = 0 then R.DSPABASE else R.DSPBADDR

/-- The `CARD32` written to the plane control register that held `temp`. -/
def plane_value (R : PlaneRegs) (PowerManagementMode : Int) (temp : Nat) : Nat :=
  if PowerManagementMode = DPMSModeOn then (temp ||| R.DISPLAY_PLANE_ENABLE) % 2 ^ 32
  else and_not temp R.DISPLAY_PLANE_ENABLE

/-- The body of the loop over the pipes. -/
def dpms_pipe (R : PlaneRegs) (PowerManagementMode : Int) (s : Dpms) (i : Nat) : Dpms :=
  let ctrl := plane_ctrl R i
  let base := plane_base R i
  if s.pipes_enabled i = true then
    let temp := s.regs ctrl
    let temp := plane_value R PowerManagementMode temp
    let s := s.OUTREG ctrl temp
    let temp := s.regs base
    s.OUTREG base temp
  else s

/-- The loop over the outputs of `I830DisplayPowerManagementSet`. -/
def dpms_outputs (H : DpmsHooks) (PowerManagementMode : Int) (s : Dpms) : Dpms :=
  (List.range s.num_outputs).foldl
    (fun s i => s.call (.output_dpms i PowerManagementMode)
      (H.output_dpms i PowerManagementMode)) s

/-- The loop over the pipes of `I830DisplayPowerManagementSet`. -/
def dpms_pipes (R : PlaneRegs) (PowerManagementMode : Int) (s : Dpms) : Dpms :=
  (List.range s.num_pipes).foldl (dpms_pipe R PowerManagementMode) s

/-- The cursor statement that ends `I830DisplayPowerManagementSet`. -/
def dpms_cursor (H : DpmsHooks) (PowerManagementMode : Int) (s : Dpms) : Dpms :=
  if s.CursorInfoRec = true ∧ s.SWCursor = false ∧ s.cursorOn = true then
    let s :=
      if PowerManagementMode = DPMSModeOn then s.call .ShowCursor H.ShowCursor
      else s.call .HideCursor H.HideCursor
    { s with cursorOn := true }
  else s

/-- `I830DisplayPowerManagementSet`; the argument `flags` is not used. -/
def I830DisplayPowerManagementSet (R : PlaneRegs) (H : DpmsHooks) (PowerManagementMode : Int)
    (s : Dpms) : Dpms :=
  dpms_cursor H PowerManagementMode
    (dpms_pipes R PowerManagementMode (dpms_outputs H PowerManagementMode s))

/-- The hooks leave register `a` as they find it. -/
def DpmsHooks.keep (H : DpmsHooks) (a : Nat) : Prop :=
  (∀ i m regs, H.output_dpms i m regs a = regs a) ∧
  (∀ regs, H.ShowCursor regs a = regs a) ∧ (∀ regs, H.HideCursor regs a = regs a)

/-- The actions of a call that starts in `s` and ends in `r`. -/
def dpms_actions (s r : Dpms) : List DpmsEvent := r.trace.drop s.trace.length

/-- The offsets and the mask of `i810_reg.h`. -/
def sample_plane_regs : PlaneRegs :=
  { DSPACNTR := 0x70180, DSPABASE := 0x70184, DSPBCNTR := 0x71180, DSPBADDR := 0x71184,
    DISPLAY_PLANE_ENABLE := 0x80000000 }

/-- Hooks that leave the register file alone. -/
def quiet_hooks : DpmsHooks :=
  { output_dpms := fun _ _ r => r, ShowCursor := fun r => r, HideCursor := fun r => r }

/-- A device with two outputs and two pipes, pipe A enabled and pipe B
disabled, a hardware cursor that is on, and both planes enabled in the
registers. -/
def sample_dpms : Dpms :=
  { num_outputs := 2, num_pipes := 2, pipes_enabled := fun i => decide (i = 0),
    CursorInfoRec := true, SWCursor := false, cursorOn := true,
    regs := fun a => if a = 0x70180 ∨ a = 0x71180 then 0x81000000 else 0, trace := [] }

end I830

namespace MemoryAllocator

/-! ## The memory allocator, which is not among the sources -/

/-- Modelled from the spec: the record MemoryRange of the allocator in
`i830_memory.c`, a contiguous allocation from `start` up to, not including,
`finish` (the `end` of the spec), for one purpose. -/
structure MemoryRange where
  purpose : Nat
  start : Nat
  finish : Nat
  size : Nat
  alignment : Nat
deriving DecidableEq, Repr

/-- Modelled from the spec: one memory request of the allocator,
`(purpose, size, required_alignment)`; a flexible consumer (the texture pool)
takes what is left, with `size` as its cap. -/
structure Request where
  purpose : Nat
  size : Nat
  alignment : Nat
  flexible : Bool
deriving DecidableEq, Repr

/-- Modelled from the spec: a pool of the allocator, its capacity and its
live ranges, the newest first. -/
structure Pool where
  capacity : Nat
  live : List MemoryRange
deriving DecidableEq, Repr

/-- Modelled from the spec: the two pools of the allocator, stolen memory and
dynamically mapped aperture memory. -/
structure Pools where
  stolen : Pool
  aperture : Pool
deriving DecidableEq, Repr

/-- Modelled from the spec: the mode bits of `allocate`. -/
structure Mode where
  DRY_RUN : Bool
  INITIAL : Bool
  NO_TILING : Bool
deriving DecidableEq, Repr

/-- Modelled from the spec: what `allocate` returns, success or failure with
the exact deficit in bytes. -/
inductive Outcome where
  | success
  | failure (deficit : Nat)
deriving DecidableEq, Repr

/-- Modelled from the spec: the rounding of an offset up to an alignment in
the allocator; an alignment of 0 asks for none. -/
def round_up (x a : Nat) : Nat := if a = 0 then x else (x + a - 1) / a * a

/-- Modelled from the spec: the first offset of the allocator's pool above
every live range. -/
def top : List MemoryRange → Nat
  | [] => 0
  | r :: _ => r.finish

/-- Modelled from the spec: the placement of one fixed-purpose request of the
allocator, at the first free offset rounded up to its alignment. -/
def place (live : List MemoryRange) (q : Request) : List MemoryRange :=
  { purpose := q.purpose, start := round_up (top live) q.alignment,
    finish := round_up (top live) q.alignment + q.size, size := q.size,
    alignment := q.alignment } :: live

/-- Modelled from the spec: the offer of the remaining capacity of the
allocator's pool to a flexible consumer, up to its cap. -/
def place_flexible (capacity : Nat) (live : List MemoryRange) (q : Request) :
    List MemoryRange :=
  let start := round_up (top live) q.alignment
  let granted := min q.size (capacity - start)
  if granted = 0 then live
  else
    { purpose := q.purpose, start := start, finish := start + granted, size := granted,
      alignment := q.alignment } :: live

/-- Modelled from the spec: `allocate` of the allocator on one pool. The
fixed-purpose requests are placed first, in the order of the list, then the
flexible ones; when the fixed-purpose requests exceed the capacity nothing is
committed and the deficit is returned; with `DRY_RUN` nothing is committed. -/
def allocate (p : Pool) (reqs : List Request) (mode : Mode) : Outcome × Pool :=
  let fixed := (reqs.filter fun q => !q.flexible).foldl place p.live
  if top fixed ≤ p.capacity then
    let live := (reqs.filter fun q => q.flexible).foldl (place_flexible p.capacity) fixed
    if mode.DRY_RUN = true then (.success, p) else (.success, { p with live := live })
  else (.failure (top fixed - p.capacity), p)

/-- Modelled from the spec: `free` of the allocator, which returns a range
to its pool. -/
def free (p : Pool) (r : MemoryRange) : Pool := { p with live := p.live.erase r }

/-- Modelled from the spec: `reset_allocations` of the allocator, which
clears the live ranges of both pools. -/
def reset_allocations (s : Pools) : Pools :=
  { stolen := { s.stolen with live := [] }, aperture := { s.aperture with live := [] } }

/-- Modelled from the spec: one call of the allocator; `in_stolen` selects
the pool. -/
inductive Op where
  | reset_allocations
  | allocate (in_stolen : Bool) (reqs : List Request) (mode : Mode)
  | free (in_stolen : Bool) (r : MemoryRange)
deriving DecidableEq, Repr

/-- Modelled from the spec: the allocator's state after one call. -/
def step (s : Pools) : Op → Pools
  | .reset_allocations => reset_allocations s
  | .allocate true reqs mode => { s with stolen := (allocate s.stolen reqs mode).2 }
  | .allocate false reqs mode => { s with aperture := (allocate s.aperture reqs mode).2 }
  | .free true r => { s with stolen := free s.stolen r }
  | .free false r => { s with aperture := free s.aperture r }

/-- Modelled from the spec: the allocator's state after a sequence of calls. -/
def run (ops : List Op) (s : Pools) : Pools := ops.foldl step s

/-- Two ranges share no byte. -/
def disjoint (a b : MemoryRange) : Prop := a.finish ≤ b.start ∨ b.finish ≤ a.start

/-- The well-formedness of a pool: each live range has `size = end - start`,
no two live ranges overlap, and the sizes of the live ranges sum to at most
the capacity. -/
def Pool.well_formed (p : Pool) : Prop :=
  (∀ r, r ∈ p.live → r.start ≤ r.finish ∧ r.size = r.finish - r.start) ∧
  p.live.Pairwise disjoint ∧
  (p.live.map fun r => r.size).sum ≤ p.capacity

/-- The allocator before any call: two empty pools. -/
def fresh (stolen_capacity aperture_capacity : Nat) : Pools :=
  { stolen := { capacity := stolen_capacity, live := [] },
    aperture := { capacity := aperture_capacity, live := [] } }

/-- The requests of the scenario: a tiled 1920x1080x32bpp front buffer at a
pitch of 8192 bytes, a 64x64x32bpp cursor and a ring buffer of 128 KB, each
aligned to a page. -/
def scenario : List Request :=
  [{ purpose := 0, size := 8192 * 1080, alignment := 4096, flexible := false },
   { purpose := 1, size := 64 * 64 * 4, alignment := 4096, flexible := false },
   { purpose := 2, size := 128 * 1024, alignment := 4096, flexible := false }]

end MemoryAllocator

namespace SnaPresent

end SnaPresent

namespace SnaPresent

/-! ## Traces -/

/-- The empty trace has no notification. -/
theorem notifs_nil : notifs [] = [] := rfl

/-- The notifications of a trace, one call at a time. -/
theorem notifs_cons (e : Effect) (t : List Effect) :
    notifs (e :: t) =
      (match e with
        | .present_event_notify id ust msc => [(id, ust, msc)]
        | _ => []) ++ notifs t := by
  cases e <;> simp [notifs, List.filterMap_cons]

/-- The notifications of a concatenation. -/
theorem notifs_append (a b : List Effect) : notifs (a ++ b) = notifs a ++ notifs b := by
  simp [notifs, List.filterMap_append]

/-- There are as many entries in `notifs` as `notifications` counts. -/
theorem notifs_length (t : List Effect) : (notifs t).length = notifications t := by
  induction t with
  | nil => rfl
  | cons e t ih =>
    cases e <;> simp_all [notifs, notifications, List.filterMap_cons, List.countP_cons]

/-- The empty trace has no page flip. -/
theorem flips_nil : flips [] = [] := rfl

/-- The page flips of a trace, one call at a time. -/
theorem flips_cons (e : Effect) (t : List Effect) :
    flips (e :: t) =
      (match e with
        | .sna_page_flip bo data ret => [(bo, data, ret)]
        | _ => []) ++ flips t := by
  cases e <;> simp [flips, List.filterMap_cons]

/-- The page flips of a concatenation. -/
theorem flips_append (a b : List Effect) : flips (a ++ b) = flips a ++ flips b := by
  simp [flips, List.filterMap_append]

/-- There are as many entries in `flips` as `page_flips` counts. -/
theorem flips_length (t : List Effect) : (flips t).length = page_flips t := by
  induction t with
  | nil => rfl
  | cons e t ih =>
    cases e <;> simp_all [flips, page_flips, List.filterMap_cons, List.countP_cons]

/-- The number of notifications of a concatenation. -/
theorem notifications_append (a b : List Effect) :
    notifications (a ++ b) = notifications a + notifications b := by
  simp [notifications, List.countP_append]

/-- The number of page flips of a concatenation. -/
theorem page_flips_append (a b : List Effect) :
    page_flips (a ++ b) = page_flips a + page_flips b := by
  simp [page_flips, List.countP_append]

/-- The empty trace has no page flip without handler. -/
theorem async_page_flips_nil : async_page_flips [] = 0 := rfl

/-- The page flips without handler of a trace, one call at a time. -/
theorem async_page_flips_cons (e : Effect) (t : List Effect) :
    async_page_flips (e :: t) =
      (match e with
        | .sna_page_flip _ none _ => 1
        | _ => 0) + async_page_flips t := by
  cases e with
  | sna_page_flip bo data ret =>
    cases data <;> simp [async_page_flips, List.countP_cons, Nat.add_comm]
  | _ => simp [async_page_flips, List.countP_cons]

/-- The number of page flips without handler of a concatenation. -/
theorem async_page_flips_append (a b : List Effect) :
    async_page_flips (a ++ b) = async_page_flips a + async_page_flips b := by
  simp [async_page_flips, List.countP_append]

/-- The page flips without handler are page flips. -/
theorem async_le_page_flips (t : List Effect) : async_page_flips t ≤ page_flips t := by
  unfold async_page_flips page_flips
  apply List.countP_mono_left
  intro e _ he
  cases e <;> simp_all

/-- The empty trace has no allocation. -/
theorem mallocs_nil : mallocs [] = 0 := rfl

/-- The allocations of a trace, one call at a time. -/
theorem mallocs_cons (e : Effect) (t : List Effect) :
    mallocs (e :: t) =
      (match e with
        | .malloc _ => 1
        | _ => 0) + mallocs t := by
  cases e <;> simp [mallocs, List.countP_cons, Nat.add_comm]

/-- The number of allocations of a concatenation. -/
theorem mallocs_append (a b : List Effect) : mallocs (a ++ b) = mallocs a + mallocs b := by
  simp [mallocs, List.countP_append]

/-- The empty trace has no mode restore. -/
theorem mode_restores_nil : mode_restores [] = 0 := rfl

/-- The mode restores of a trace, one call at a time. -/
theorem mode_restores_cons (e : Effect) (t : List Effect) :
    mode_restores (e :: t) =
      (match e with
        | .xf86SetDesiredModes => 1
        | _ => 0) + mode_restores t := by
  cases e <;> simp [mode_restores, List.countP_cons, Nat.add_comm]

/-- The number of mode restores of a concatenation. -/
theorem mode_restores_append (a b : List Effect) :
    mode_restores (a ++ b) = mode_restores a + mode_restores b := by
  simp [mode_restores, List.countP_append]

/-- A quiet trace has no notification. -/
theorem notifs_of_quiet (t : List Effect) (h : quiet t) : notifs t = [] := by
  have := notifs_length t
  rw [h.1] at this
  exact List.length_eq_zero.mp this

/-- A quiet trace has no page flip. -/
theorem flips_of_quiet (t : List Effect) (h : quiet t) : flips t = [] := by
  have := flips_length t
  rw [h.2.1] at this
  exact List.length_eq_zero.mp this

/-- A quiet trace has no page flip without handler. -/
theorem quiet_async (t : List Effect) (h : quiet t) : async_page_flips t = 0 := by
  have := async_le_page_flips t
  have := h.2.1
  omega

/-- Two quiet traces make a quiet trace. -/
theorem quiet_append (a b : List Effect) (ha : quiet a) (hb : quiet b) : quiet (a ++ b) := by
  obtain ⟨a1, a2, a3, a4⟩ := ha
  obtain ⟨b1, b2, b3, b4⟩ := hb
  refine ⟨?_, ?_, ?_, ?_⟩
  · rw [notifications_append, a1, b1]
  · rw [page_flips_append, a2, b2]
  · rw [mallocs_append, a3, b3]
  · rw [mode_restores_append, a4, b4]

/-! ## Vblank requests -/

/-- C1: when the requested msc is not after the last recorded swap sequence
(the signed 64-bit difference is not positive), `sna_present_queue_vblank`
returns `Success` after exactly one call, `present_event_notify` with the
event id and the timestamp and sequence of the last recorded swap (not the
requested sequence): no vblank ioctl, no timer, no allocation, and the
driver state is untouched. -/
theorem queue_vblank_immediate (E : Env) (crtc event_id msc : Nat) (w : World)
    (h : toI64 (sub64 msc (w.sna.mode.crtc crtc).swap.msc) ≤ 0) :
    ∃ t, sna_present_queue_vblank E crtc event_id msc w =
        some (Success, { w with trace := w.trace ++ t }) ∧
      t = [Effect.present_event_notify event_id (E.swap_ust (w.sna.mode.crtc crtc).swap)
        (w.sna.mode.crtc crtc).swap.msc] ∧
      notifs t = [(event_id, E.swap_ust (w.sna.mode.crtc crtc).swap,
        (w.sna.mode.crtc crtc).swap.msc)] ∧
      vblank_ioctls t = 0 ∧ timer_calls t = 0 ∧ mallocs t = 0 := by
  refine ⟨_, ?_, rfl, ?_, ?_, ?_, ?_⟩
  · unfold sna_present_queue_vblank
    rw [if_pos h]
    rfl
  · simp [notifs_cons, notifs_nil]
  · simp [vblank_ioctls]
  · simp [timer_calls]
  · simp [mallocs_cons, mallocs_nil]

/-- C1, the scenario of the specification: target 100 with last recorded
sequence 150 completes at once with sequence 150, not 100. -/
theorem queue_vblank_immediate_witness :
    toI64 (sub64 100 (sample_world.sna.mode.crtc 0).swap.msc) ≤ 0 ∧
    (sna_present_queue_vblank sample_env 0 7 100 sample_world).map (fun r => (r.1, r.2.trace)) =
      some (Success, [Effect.present_event_notify 7 2500000 150]) ∧
    ∃ t, sna_present_queue_vblank sample_env 0 7 100 sample_world =
        some (Success, { sample_world with trace := sample_world.trace ++ t }) ∧
      t = [Effect.present_event_notify 7 (sample_env.swap_ust (sample_world.sna.mode.crtc 0).swap)
        (sample_world.sna.mode.crtc 0).swap.msc] ∧
      notifs t = [(7, sample_env.swap_ust (sample_world.sna.mode.crtc 0).swap,
        (sample_world.sna.mode.crtc 0).swap.msc)] ∧
      vblank_ioctls t = 0 ∧ timer_calls t = 0 ∧ mallocs t = 0 :=
  ⟨by decide, by decide, queue_vblank_immediate sample_env 0 7 100 sample_world (by decide)⟩

/-- The three ways `sna_fake_vblank` ends for a record with a CRTC. -/
theorem sna_fake_vblank_cases (E : Env) (info : sna_present_event) (w : World) (c : Nat)
    (hc : info.crtc = some c) :
    (sna_fake_vblank E info w = none ∧
      ofInt64 (w.sna.mode.crtc c).desiredMode.Clock = 0) ∨
    sna_fake_vblank E info w = some (true,
      { w with trace := w.trace ++
        [Effect.present_event_notify info.event_id (E.swap_ust (w.sna.mode.crtc c).swap)
          (w.sna.mode.crtc c).swap.msc, Effect.free_info info] }) ∨
    ∃ delay, delay ≠ 0 ∧ sna_fake_vblank E info w = some (E.TimerSet,
      { w with trace := w.trace ++ [Effect.TimerSet delay info E.TimerSet] }) := by
  unfold sna_fake_vblank
  rw [hc]
  simp only [World.emit, List.append_assoc, List.singleton_append]
  by_cases hlt : (w.sna.mode.crtc c).swap.msc < info.target_msc
  · rw [if_pos hlt]
    cases hd : msc_to_delay E (w.sna.mode.crtc c) info.target_msc with
    | none =>
      left
      refine ⟨rfl, ?_⟩
      unfold msc_to_delay at hd
      by_contra hne
      simp [hne] at hd
    | some delay =>
      right
      by_cases h0 : delay = 0
      · left; simp [h0]
      · right; exact ⟨delay, h0, by simp [h0]⟩
  · rw [if_neg hlt]
    right; left; simp

/-- The ways `sna_present_queue_vblank` ends when the target is after the
last recorded sequence, with the calls made in each. -/
theorem queue_vblank_cases (E : Env) (crtc event_id msc : Nat) (w : World)
    (h : ¬ toI64 (sub64 msc (w.sna.mode.crtc crtc).swap.msc) ≤ 0) :
    sna_present_queue_vblank E crtc event_id msc w =
        some (BadAlloc, { w with trace := w.trace ++ [Effect.malloc false] }) ∨
    sna_present_queue_vblank E crtc event_id msc w =
        some (Success, { w with trace := w.trace ++ [Effect.malloc true,
          queue_request w crtc event_id msc true] }) ∨
    (sna_present_queue_vblank E crtc event_id msc w = none ∧
      ofInt64 (w.sna.mode.crtc crtc).desiredMode.Clock = 0) ∨
    sna_present_queue_vblank E crtc event_id msc w =
        some (Success, { w with trace := w.trace ++ [Effect.malloc true,
          queue_request w crtc event_id msc false,
          Effect.present_event_notify event_id (E.swap_ust (w.sna.mode.crtc crtc).swap)
            (w.sna.mode.crtc crtc).swap.msc,
          Effect.free_info ⟨some crtc, event_id, msc⟩] }) ∨
    (∃ delay, delay ≠ 0 ∧ sna_present_queue_vblank E crtc event_id msc w =
        some (Success, { w with trace := w.trace ++ [Effect.malloc true,
          queue_request w crtc event_id msc false,
          Effect.TimerSet delay ⟨some crtc, event_id, msc⟩ true] })) ∨
    (∃ delay, delay ≠ 0 ∧ sna_present_queue_vblank E crtc event_id msc w =
        some (BadAlloc, { w with trace := w.trace ++ [Effect.malloc true,
          queue_request w crtc event_id msc false,
          Effect.TimerSet delay ⟨some crtc, event_id, msc⟩ false,
          Effect.free_info ⟨some crtc, event_id, msc⟩] })) := by
  unfold sna_present_queue_vblank
  rw [if_neg h]
  cases hm : E.malloc
  · left; simp [World.emit]
  · right
    simp only [sna_wait_vblank, World.emit, queue_request]
    cases hk : E.drmIoctl_wait_vblank _ _ with
    | some reply =>
      left
      simp
    | none =>
      right
      rcases sna_fake_vblank_cases E ⟨some crtc, event_id, msc⟩
        { w with trace := w.trace ++ [Effect.malloc true] ++
          [Effect.drmIoctl_wait_vblank
            (DRM_VBLANK_ABSOLUTE ||| DRM_VBLANK_EVENT ||| pipe_select (w.sna.mode.crtc crtc).pipe)
            (msc % U32) (some ⟨some crtc, event_id, msc⟩) false] } crtc rfl
        with ⟨hn, hz⟩ | hs | ⟨d, hd, hs⟩
      · left
        simp only [Option.isSome_none, Bool.false_eq_true, if_false]
        rw [hn]
        exact ⟨by simp, hz⟩
      · right; left
        simp only [Option.isSome_none, Bool.false_eq_true, if_false]
        rw [hs]
        simp
      · right; right
        simp only [Option.isSome_none, Bool.false_eq_true, if_false]
        rw [hs]
        cases ht : E.TimerSet
        · right; exact ⟨d, hd, by simp [World.emit]⟩
        · left; exact ⟨d, hd, by simp⟩

/-- Every firing of `sna_fake_vblank_handler` that returns either re-arms the
timer without a notification or notifies once and returns 0. -/
theorem fake_vblank_handler_outcome (E : Env) (info : sna_present_event) (w : World)
    (ret : Nat) (w' : World) (hr : sna_fake_vblank_handler E info w = some (ret, w')) :
    ∃ t, w'.trace = w.trace ++ t ∧
      ((ret ≠ 0 ∧ notifications t = 0) ∨
       (ret = 0 ∧ notifications t = 1 ∧ notified info.event_id t = 1)) := by
  unfold sna_fake_vblank_handler at hr
  cases hc : info.crtc with
  | none => simp [hc] at hr
  | some c =>
    simp only [hc, sna_wait_vblank, World.emit, fake_vblank_complete, World.set_crtc,
      World.set_mode] at hr
    cases hk : E.drmIoctl_wait_vblank (DRM_VBLANK_RELATIVE ||| pipe_select (w.sna.mode.crtc c).pipe) 0 with
    | none =>
      simp only [hk] at hr
      cases hr
      exact ⟨_, by simp only [List.append_assoc]; rfl, Or.inr (by simp [notifications, notified])⟩
    | some reply =>
      simp only [hk] at hr
      split at hr
      · split at hr
        · simp at hr
        · split at hr
          · cases hr
            exact ⟨_, rfl, Or.inl ⟨by assumption, by simp [notifications]⟩⟩
          · cases hr
            exact ⟨_, by simp only [List.append_assoc]; rfl, Or.inr (by simp [notifications, notified])⟩
      · cases hr
        exact ⟨_, by simp only [List.append_assoc]; rfl, Or.inr (by simp [notifications, notified])⟩

/-- A firing of `sna_fake_vblank_handler` returns when the record has a CRTC
and the mode of the CRTC has a clock. -/
theorem fake_vblank_handler_returns (E : Env) (info : sna_present_event) (w : World) (c : Nat)
    (hc : info.crtc = some c)
    (hclock : ∀ reply,
      ofInt64 (E.sna_crtc_record_vblank (w.sna.mode.crtc c) reply).2.desiredMode.Clock ≠ 0) :
    (sna_fake_vblank_handler E info w).isSome = true := by
  unfold sna_fake_vblank_handler
  simp only [hc, sna_wait_vblank, World.emit]
  cases hk : E.drmIoctl_wait_vblank (DRM_VBLANK_RELATIVE ||| pipe_select (w.sna.mode.crtc c).pipe) 0 with
  | none => simp
  | some reply =>
    obtain ⟨d, hd⟩ : ∃ d, msc_to_delay E (E.sna_crtc_record_vblank (w.sna.mode.crtc c) reply).2
        info.target_msc = some d := by
      unfold msc_to_delay
      simp [hclock reply]
    simp only [hd]
    by_cases hlt : (E.sna_crtc_record_vblank (w.sna.mode.crtc c) reply).1 < info.target_msc
    · by_cases h0 : d = 0 <;> simp [hlt, h0]
    · simp [hlt]

/-- C2: exactly-once completion for `sna_present_queue_vblank` when the
requested msc is after the last recorded sequence. The call returns unless
the clock of the mode is zero. (a) When it returns `Success`, exactly one of
three things holds for the event: it was notified synchronously, or one
vblank request tagged with its record was accepted by the kernel (the
absolute event request `queue_request`), or one timer is armed for it.
(b) When it returns `BadAlloc`, nothing was notified and nothing is pending.
The software fallback (a synchronous notification or a `TimerSet` call) is
entered exactly when the kernel rejected the request. (c) Every firing of
`sna_fake_vblank_handler` that returns either re-arms the timer with a
non-zero delay and notifies nothing, or notifies the event exactly once and
returns 0; a firing returns when the record has a CRTC whose mode has a
clock. -/
theorem queue_vblank_exactly_once (E : Env) (crtc event_id msc : Nat) (w : World)
    (h : 0 < toI64 (sub64 msc (w.sna.mode.crtc crtc).swap.msc)) :
    (ofInt64 (w.sna.mode.crtc crtc).desiredMode.Clock ≠ 0 →
      (sna_present_queue_vblank E crtc event_id msc w).isSome = true) ∧
    (∀ ret w', sna_present_queue_vblank E crtc event_id msc w = some (ret, w') →
      ∃ t, w'.trace = w.trace ++ t ∧ (ret = Success ∨ ret = BadAlloc) ∧
        (ret = Success →
          notified event_id t + hw_pending event_id t + timer_pending event_id t = 1 ∧
          notifications t + hw_accepted t + timers_armed t = 1) ∧
        (ret = BadAlloc → notifications t + hw_accepted t + timers_armed t = 0) ∧
        (0 < hw_accepted t → queue_request w crtc event_id msc true ∈ t) ∧
        (0 < timer_calls t + notifications t ↔ 0 < vblank_rejected t)) ∧
    (∀ info w0 ret w', sna_fake_vblank_handler E info w0 = some (ret, w') →
      ∃ t, w'.trace = w0.trace ++ t ∧
        ((ret ≠ 0 ∧ notifications t = 0) ∨
         (ret = 0 ∧ notifications t = 1 ∧ notified info.event_id t = 1))) ∧
    (∀ info w0 c, info.crtc = some c →
      (∀ reply,
        ofInt64 (E.sna_crtc_record_vblank (w0.sna.mode.crtc c) reply).2.desiredMode.Clock ≠ 0) →
      (sna_fake_vblank_handler E info w0).isSome = true) := by
  have h' : ¬ toI64 (sub64 msc (w.sna.mode.crtc crtc).swap.msc) ≤ 0 := by omega
  refine ⟨?_, ?_, fun info w0 ret w' hr => fake_vblank_handler_outcome E info w0 ret w' hr,
    fun info w0 c hc hclock => fake_vblank_handler_returns E info w0 c hc hclock⟩
  · intro hc
    rcases queue_vblank_cases E crtc event_id msc w h' with
      hr | hr | ⟨_, hz⟩ | hr | ⟨d, _, hr⟩ | ⟨d, _, hr⟩
    · rw [hr]; rfl
    · rw [hr]; rfl
    · exact absurd hz hc
    · rw [hr]; rfl
    · rw [hr]; rfl
    · rw [hr]; rfl
  · intro ret w' hw
    rcases queue_vblank_cases E crtc event_id msc w h' with
      hr | hr | ⟨hr, _⟩ | hr | ⟨d, _, hr⟩ | ⟨d, _, hr⟩
    all_goals rw [hr] at hw
    all_goals cases hw
    all_goals refine ⟨_, rfl, ?_⟩
    all_goals simp [Success, BadAlloc, notified, hw_pending, timer_pending, notifications,
      hw_accepted, timers_armed, timer_calls, vblank_rejected, queue_request]

/-- C2 on the sample device with the pipe off: target 200 is after the last
recorded sequence 150, the call returns, and what it returns is `Success`
with one timer of 813 ms armed for the event. -/
theorem queue_vblank_exactly_once_witness :
    0 < toI64 (sub64 200 (sample_world.sna.mode.crtc 0).swap.msc) ∧
    (sna_present_queue_vblank pipe_off_env 0 7 200 sample_world).isSome = true ∧
    (sna_present_queue_vblank pipe_off_env 0 7 200 sample_world).map (fun r => (r.1, r.2.trace)) =
      some (Success, [Effect.malloc true, queue_request sample_world 0 7 200 false,
        Effect.TimerSet 813 { crtc := some 0, event_id := 7, target_msc := 200 } true]) :=
  ⟨by decide,
   (queue_vblank_exactly_once pipe_off_env 0 7 200 sample_world (by decide)).1 (by decide),
   by decide⟩

/-- C5: `sna_present_get_ust_msc` returns `Success` for every input; when the
zero-frame relative query fails the pair returned is the timestamp and the
sequence of the last recorded swap, with the driver state untouched, and
when it succeeds the pair is the timestamp of the reply and the sequence
recorded from the reply. -/
theorem get_ust_msc_total (E : Env) (crtc : Nat) (w : World) :
    (sna_present_get_ust_msc E crtc w).ret = Success ∧
    (E.drmIoctl_wait_vblank (DRM_VBLANK_RELATIVE ||| pipe_select (w.sna.mode.crtc crtc).pipe) 0 =
        none →
      (sna_present_get_ust_msc E crtc w).ust = E.swap_ust (w.sna.mode.crtc crtc).swap ∧
      (sna_present_get_ust_msc E crtc w).msc = (w.sna.mode.crtc crtc).swap.msc ∧
      (sna_present_get_ust_msc E crtc w).world.sna.mode.crtc crtc = w.sna.mode.crtc crtc) ∧
    (∀ reply,
      E.drmIoctl_wait_vblank (DRM_VBLANK_RELATIVE ||| pipe_select (w.sna.mode.crtc crtc).pipe) 0 =
        some reply →
      (sna_present_get_ust_msc E crtc w).ust = E.ust64 reply.tval_sec reply.tval_usec ∧
      (sna_present_get_ust_msc E crtc w).msc =
        (E.sna_crtc_record_vblank (w.sna.mode.crtc crtc) reply).1) ∧
    (∃ ok, (sna_present_get_ust_msc E crtc w).world.trace =
      w.trace ++ [Effect.drmIoctl_wait_vblank
        (DRM_VBLANK_RELATIVE ||| pipe_select (w.sna.mode.crtc crtc).pipe) 0 none ok]) := by
  unfold sna_present_get_ust_msc
  simp only [sna_wait_vblank, pipe_from_crtc, World.emit]
  cases hk : E.drmIoctl_wait_vblank (DRM_VBLANK_RELATIVE ||| pipe_select (w.sna.mode.crtc crtc).pipe) 0 with
  | none => exact ⟨rfl, fun _ => ⟨rfl, rfl, rfl⟩, fun r hr => (by cases hr), ⟨_, rfl⟩⟩
  | some reply =>
    refine ⟨rfl, fun h => (by cases h), fun r hr => ?_, ⟨_, rfl⟩⟩
    cases hr
    exact ⟨rfl, rfl⟩

/-- C5 on the sample device with the pipe off: the pair returned is the
last recorded swap, 2.5 s and sequence 150. -/
theorem get_ust_msc_total_witness :
    pipe_off_env.drmIoctl_wait_vblank
        (DRM_VBLANK_RELATIVE ||| pipe_select (sample_world.sna.mode.crtc 0).pipe) 0 = none ∧
    (sna_present_get_ust_msc pipe_off_env 0 sample_world).ret = Success ∧
    (sna_present_get_ust_msc pipe_off_env 0 sample_world).ust = 2500000 ∧
    (sna_present_get_ust_msc pipe_off_env 0 sample_world).msc = 150 :=
  ⟨rfl, (get_ust_msc_total pipe_off_env 0 sample_world).1,
   ((get_ust_msc_total pipe_off_env 0 sample_world).2.1 rfl).1.trans (by decide),
   ((get_ust_msc_total pipe_off_env 0 sample_world).2.1 rfl).2.1.trans (by decide)⟩

/-! ## Flips -/

/-- The second half of `get_flip_bo` leaves the driver state and the
capabilities alone and makes no call of interest. -/
theorem get_flip_bo_tail_trace (K : Consts) (E : Env) (pixmap : Pixmap)
    (priv : struct_sna_pixmap) (w : World) :
    (get_flip_bo_tail K E pixmap priv w).2.sna = w.sna ∧
    (get_flip_bo_tail K E pixmap priv w).2.capabilities = w.capabilities ∧
    ∃ t, (get_flip_bo_tail K E pixmap priv w).2.trace = w.trace ++ t ∧ quiet t := by
  unfold get_flip_bo_tail
  by_cases hy : priv.tiling = K.I915_TILING_Y
  · rw [if_pos hy]
    cases E.sna_pixmap_change_tiling pixmap priv K.I915_TILING_X with
    | none => exact ⟨rfl, rfl, _, rfl, by simp [quiet, notifications, page_flips, mallocs, mode_restores]⟩
    | some p =>
      refine ⟨rfl, rfl, [Effect.change_tiling pixmap K.I915_TILING_X true,
        Effect.pin pixmap K.PIN_SCANOUT], by simp [World.emit], ?_⟩
      simp [quiet, notifications, page_flips, mallocs, mode_restores]
  · rw [if_neg hy]
    exact ⟨rfl, rfl, _, rfl, by simp [quiet, notifications, page_flips, mallocs, mode_restores]⟩

/-- `get_flip_bo` leaves the driver state and the capabilities alone and
makes no call of interest. -/
theorem get_flip_bo_trace (K : Consts) (E : Env) (pixmap : Pixmap) (w : World) :
    (get_flip_bo K E pixmap w).2.sna = w.sna ∧
    (get_flip_bo K E pixmap w).2.capabilities = w.capabilities ∧
    ∃ t, (get_flip_bo K E pixmap w).2.trace = w.trace ++ t ∧ quiet t := by
  unfold get_flip_bo
  cases E.sna_pixmap_move_to_gpu pixmap with
  | none => exact ⟨rfl, rfl, _, rfl, by simp [quiet, notifications, page_flips, mallocs, mode_restores]⟩
  | some priv =>
    simp only
    split
    · cases E.sna_pixmap_change_tiling pixmap priv K.I915_TILING_NONE with
      | none =>
        refine ⟨rfl, rfl, [Effect.move_to_gpu pixmap true,
          Effect.change_tiling pixmap K.I915_TILING_NONE false], by simp [World.emit], ?_⟩
        simp [quiet, notifications, page_flips, mallocs, mode_restores]
      | some p =>
        simp only
        obtain ⟨h1, h2, t, h3, h4⟩ := get_flip_bo_tail_trace K E pixmap p
          ((w.emit (Effect.move_to_gpu pixmap true)).emit
            (Effect.change_tiling pixmap K.I915_TILING_NONE true))
        refine ⟨h1, h2, Effect.move_to_gpu pixmap true ::
          Effect.change_tiling pixmap K.I915_TILING_NONE true :: t, by rw [h3]; simp [World.emit], ?_⟩
        simpa [quiet, notifications, page_flips, mallocs, mode_restores] using h4
    · obtain ⟨h1, h2, t, h3, h4⟩ := get_flip_bo_tail_trace K E pixmap priv
        (w.emit (Effect.move_to_gpu pixmap true))
      refine ⟨h1, h2, Effect.move_to_gpu pixmap true :: t, by rw [h3]; simp [World.emit], ?_⟩
      simpa [quiet, notifications, page_flips, mallocs, mode_restores] using h4

/-- `sna_present_flip` without TearFree, once the CRTC check has passed and a
buffer object is in hand: the test for outstanding flips comes before the
choice between `flip` and `flip__async`. -/
theorem sna_present_flip_eq (K : Consts) (E : Env) (crtc event_id target_msc : Nat)
    (pixmap : Pixmap) (sync_flip : Nat) (w : World) (bo : Nat)
    (htf : w.sna.flags &&& K.SNA_TEAR_FREE = 0)
    (hcheck : check_flip__crtc w.sna crtc = true)
    (hbo : (get_flip_bo K E pixmap w).1 = some bo) :
    sna_present_flip K E crtc event_id target_msc pixmap sync_flip w =
      if w.sna.mode.flip_active ≠ 0 then some (FALSE, (get_flip_bo K E pixmap w).2)
      else if sync_flip ≠ 0 then
        some (flip E (some crtc) event_id target_msc bo (get_flip_bo K E pixmap w).2)
      else some (flip__async K E (some crtc) event_id target_msc bo (get_flip_bo K E pixmap w).2) := by
  have hs := (get_flip_bo_trace K E pixmap w).1
  unfold sna_present_flip
  rw [hcheck]
  simp only [Bool.true_eq_false, if_false]
  rcases hg : get_flip_bo K E pixmap w with ⟨b, w1⟩
  rw [hg] at hbo hs
  simp only at hbo hs
  subst hbo
  simp only [hs, htf, ne_eq, not_true_eq_false, if_false]

/-- `sna_present_flip` returns `FALSE` with a quiet trace when the CRTC check
fails or no buffer object is obtained. -/
theorem sna_present_flip_rejected (K : Consts) (E : Env) (crtc event_id target_msc : Nat)
    (pixmap : Pixmap) (sync_flip : Nat) (w : World)
    (h : check_flip__crtc w.sna crtc = false ∨ (get_flip_bo K E pixmap w).1 = none) :
    ∃ w' t, sna_present_flip K E crtc event_id target_msc pixmap sync_flip w = some (FALSE, w') ∧
      w'.trace = w.trace ++ t ∧ quiet t := by
  unfold sna_present_flip
  by_cases hc : check_flip__crtc w.sna crtc = false
  · rw [if_pos hc]
    exact ⟨w, [], rfl, by simp, by simp [quiet, notifications, page_flips, mallocs, mode_restores]⟩
  · rw [if_neg hc]
    have hb : (get_flip_bo K E pixmap w).1 = none := by
      rcases h with h | h
      · exact absurd h hc
      · exact h
    obtain ⟨-, -, t, ht, hq⟩ := get_flip_bo_trace K E pixmap w
    rcases hg : get_flip_bo K E pixmap w with ⟨b, w1⟩
    rw [hg] at hb ht
    simp only at hb ht
    subst hb
    exact ⟨w1, t, rfl, ht, hq⟩

/-- What `flip__async` notifies: nothing when the page flip fails, otherwise
the event once, stamped with the clock and with the `target_msc` argument. -/
theorem flip__async_notifications (K : Consts) (E : Env) (crtc : Option Nat)
    (event_id target_msc bo : Nat) (w : World) :
    ∃ t, (flip__async K E crtc event_id target_msc bo w).2.trace = w.trace ++ t ∧
      notifs t =
        if (E.sna_page_flip w.sna.mode bo none).1 = 0 then []
        else [(event_id, gettime_ust64 E E.clock_notify, target_msc)] := by
  unfold flip__async
  by_cases h : (E.sna_page_flip w.sna.mode bo none).1 = 0 <;>
    simp [h, World.emit, World.set_mode, notifs_cons, notifs_nil]

/-- What `sna_present_unflip` notifies: nothing (the unflip is queued or a
flip with a handler was submitted), or the event once with the last recorded
swap of the primary CRTC, or the event once with the clock and sequence 0
(the `target_msc` it gives `flip__async`). -/
theorem unflip_notifications (K : Consts) (E : Env) (event_id : Nat) (w : World) :
    ∃ t, (sna_present_unflip K E event_id w).trace = w.trace ++ t ∧
      (notifs t = [] ∨
       notifs t = [(event_id,
          E.swap_ust ((sna_present_unflip K E event_id w).sna.mode.crtc
            (sna_present_unflip K E event_id w).sna.mode.primary).swap,
          ((sna_present_unflip K E event_id w).sna.mode.crtc
            (sna_present_unflip K E event_id w).sna.mode.primary).swap.msc)] ∨
       notifs t = [(event_id, gettime_ust64 E E.clock_notify, 0)]) := by
  unfold sna_present_unflip
  split_ifs with h1 h2 h3
  · simp [unflip_notify, World.emit, notifs_cons, notifs_nil]
  · unfold set_front
    split_ifs <;> simp [unflip_notify, World.emit, notifs_cons, notifs_nil]
  · simp [notifs_nil]
  · obtain ⟨hsna, -, t, ht, hq⟩ := get_flip_bo_trace K E w.sna.screen_pixmap w
    have hn := notifs_of_quiet t hq
    rcases hg : get_flip_bo K E w.sna.screen_pixmap w with ⟨b, w1⟩
    rw [hg] at hsna ht
    simp only at hsna ht
    cases b with
    | none =>
      simp [unflip_reset_mode, unflip_notify, World.emit, World.set_mode, ht, notifs_append, hn,
        notifs_cons, notifs_nil]
    | some bo =>
      simp only
      by_cases hm : E.malloc = true <;>
      by_cases hf : w1.sna.flags &&& K.SNA_HAS_ASYNC_FLIP = 0 <;>
      by_cases hr1 : (E.sna_page_flip w1.sna.mode bo none).1 = 0 <;>
      by_cases hr2 : (E.sna_page_flip w1.sna.mode bo (some ⟨none, event_id, 0⟩)).1 = 0 <;>
      by_cases hr3 : (E.sna_page_flip (E.sna_page_flip w1.sna.mode bo none).2 bo
          (some ⟨none, event_id, 0⟩)).1 = 0 <;>
      simp [flip__async, flip, unflip_reset_mode, unflip_notify, World.emit, World.set_mode, ht,
        notifs_append, hn, notifs_cons, notifs_nil, hm, hf, hr1, hr2, hr3, FALSE, TRUE]

/-- The first call of `present_flip_handler` is the notification of the
completed flip, with the last recorded swap of the CRTC of the record, or
with the time and sequence of the flip event when the record has no CRTC. -/
theorem present_flip_handler_first (K : Consts) (E : Env) (event : drm_event_vblank)
    (info : sna_present_event) (w : World) :
    ∃ t, (present_flip_handler K E event info w).trace =
      w.trace ++ Effect.present_event_notify info.event_id
        (E.swap_ust (match info.crtc with
          | none => { msc := event.sequence, tv_sec := event.tv_sec, tv_usec := event.tv_usec }
          | some c => (w.sna.mode.crtc c).swap))
        (match info.crtc with
          | none => { msc := event.sequence, tv_sec := event.tv_sec, tv_usec := event.tv_usec }
          | some c => (w.sna.mode.crtc c).swap : ust_msc).msc :: t := by
  unfold present_flip_handler
  simp only [World.emit]
  split_ifs with hu
  · obtain ⟨t, ht, -⟩ := unflip_notifications K E w.sna.present_unflip
      { w with trace := w.trace ++ [Effect.present_event_notify info.event_id
        (E.swap_ust (match info.crtc with
          | none => { msc := event.sequence, tv_sec := event.tv_sec, tv_usec := event.tv_usec }
          | some c => (w.sna.mode.crtc c).swap))
        (match info.crtc with
          | none => { msc := event.sequence, tv_sec := event.tv_sec, tv_usec := event.tv_usec }
          | some c => (w.sna.mode.crtc c).swap : ust_msc).msc] }
    refine ⟨t ++ [Effect.free_info info], ?_⟩
    simp only [ht, List.append_assoc, List.singleton_append, List.cons_append, List.nil_append]
  · exact ⟨[Effect.free_info info], by simp⟩

/-- What `xchg` notifies when it returns: nothing, or the event once with the
clock and the `target_msc` argument (the `notify:` label), or the event once
with the last recorded swap of its CRTC (`sna_fake_vblank`), or the event of
the notifier it replaces with the last recorded swap of that event's CRTC. -/
theorem xchg_notifications (E : Env) (crtc event_id target_msc : Nat) (pixmap : Pixmap)
    (sync_flip : Nat) (w : World) (ret : Nat) (w' : World)
    (h : xchg E crtc event_id target_msc pixmap sync_flip w = some (ret, w')) :
    ∃ t, w'.trace = w.trace ++ t ∧
      (notifs t = [] ∨
       notifs t = [(event_id, gettime_ust64 E E.clock_notify, target_msc)] ∨
       notifs t = [(event_id, E.swap_ust (w.sna.mode.crtc crtc).swap,
          (w.sna.mode.crtc crtc).swap.msc)] ∨
       ∃ old c, w.sna.hook1 = some old ∧ old.data.crtc = some c ∧
         notifs t = [(old.data.event_id, E.swap_ust (w.sna.mode.crtc c).swap,
            (w.sna.mode.crtc c).swap.msc)]) := by
  unfold xchg at h
  by_cases hq : pixmap = w.sna.front
  · -- the pixmap is the front already: vblank request
    simp only [set_front, if_pos hq] at h
    cases hm : E.malloc
    · simp only [hm, if_true] at h
      cases h
      simp [World.emit, notifs_cons, notifs_nil]
    · simp only [hm, Bool.true_eq_false, if_false, sna_wait_vblank, World.emit] at h
      cases hk : E.drmIoctl_wait_vblank
          (DRM_VBLANK_ABSOLUTE ||| DRM_VBLANK_EVENT ||| DRM_VBLANK_NEXTONMISS |||
            pipe_select (w.sna.mode.crtc crtc).pipe) (target_msc % U32) with
      | some reply =>
        simp only [hk] at h
        cases h
        simp [notifs_cons, notifs_nil]
      | none =>
        simp only [hk, Option.isSome_none] at h
        rcases sna_fake_vblank_cases E ⟨some crtc, event_id, target_msc⟩
          { w with trace := w.trace ++ [Effect.malloc true] ++
            [Effect.drmIoctl_wait_vblank
              (DRM_VBLANK_ABSOLUTE ||| DRM_VBLANK_EVENT ||| DRM_VBLANK_NEXTONMISS |||
                pipe_select (w.sna.mode.crtc crtc).pipe)
              (target_msc % U32) (some ⟨some crtc, event_id, target_msc⟩) false] } crtc rfl
          with ⟨hn, -⟩ | hs | ⟨d, hd, hs⟩
        · rw [hn] at h
          cases h
        · rw [hs] at h
          cases h
          simp [notifs_cons, notifs_nil]
        · rw [hs] at h
          cases ht : E.TimerSet
          · simp only [ht, xchg_notify, World.emit] at h
            cases h
            simp [notifs_cons, notifs_nil]
          · simp only [ht] at h
            cases h
            simp [notifs_cons, notifs_nil]
  · -- the pixmap becomes the front: tearfree notifier
    simp only [set_front, if_neg hq, World.emit] at h
    cases hm : E.malloc
    · simp only [hm, if_true] at h
      cases h
      simp [notifs_cons, notifs_nil]
    · simp only [hm, Bool.true_eq_false, if_false, if_true] at h
      cases h0 : w.sna.hook0 with
      | none =>
        simp only [h0] at h
        cases h
        simp [notifs_cons, notifs_nil]
      | some nb0 =>
        cases h1 : w.sna.hook1 with
        | none =>
          simp only [h0, h1] at h
          cases h
          simp [notifs_cons, notifs_nil]
        | some old =>
          simp only [h0, h1, run_notifier] at h
          cases hf : old.func with
          | other id =>
            simp only [hf, World.emit] at h
            cases h
            simp [notifs_cons, notifs_nil]
          | xchg_handler =>
            simp only [hf, xchg_handler] at h
            cases hc : old.data.crtc with
            | none => simp [hc] at h
            | some c =>
              simp only [hc, World.emit] at h
              cases h
              simp only [notifs_cons, notifs_nil, List.append_assoc, List.append_cancel_left_eq,
                exists_eq_left', List.nil_append, List.append_nil, List.singleton_append]
              exact Or.inr (Or.inr (Or.inr ⟨old, c, rfl, hc, rfl⟩))

/-- C4, as amended: the sequence each flip path passes to
`present_event_notify`. `flip__async` passes its `target_msc` argument
unchanged (with the clock as timestamp), and nothing when the page flip
fails. `present_flip_handler` first notifies the completed flip with the
last recorded swap of the CRTC of the record, or with the time and sequence
of the flip event when the record has no CRTC. `sna_present_unflip` notifies
nothing, or the last recorded swap of the primary CRTC, or sequence 0 (what
it hands to `flip__async`). `xchg`, when it returns, notifies nothing, or
its `target_msc` argument (the `notify:` label), or the last recorded swap of
the CRTC, or completes the event of the notifier it replaces with the last
recorded swap of that event's CRTC. -/
theorem flip_completion_msc (K : Consts) (E : Env) (crtc : Option Nat) (c : Nat)
    (event_id target_msc bo : Nat) (pixmap : Pixmap) (sync_flip : Nat)
    (event : drm_event_vblank) (info : sna_present_event) (w : World) :
    (∃ t, (flip__async K E crtc event_id target_msc bo w).2.trace = w.trace ++ t ∧
      notifs t =
        if (E.sna_page_flip w.sna.mode bo none).1 = 0 then []
        else [(event_id, gettime_ust64 E E.clock_notify, target_msc)]) ∧
    (∃ t, (present_flip_handler K E event info w).trace =
      w.trace ++ Effect.present_event_notify info.event_id
        (E.swap_ust (match info.crtc with
          | none => { msc := event.sequence, tv_sec := event.tv_sec, tv_usec := event.tv_usec }
          | some c => (w.sna.mode.crtc c).swap))
        (match info.crtc with
          | none => { msc := event.sequence, tv_sec := event.tv_sec, tv_usec := event.tv_usec }
          | some c => (w.sna.mode.crtc c).swap : ust_msc).msc :: t) ∧
    (∃ t, (sna_present_unflip K E event_id w).trace = w.trace ++ t ∧
      (notifs t = [] ∨
       notifs t = [(event_id,
          E.swap_ust ((sna_present_unflip K E event_id w).sna.mode.crtc
            (sna_present_unflip K E event_id w).sna.mode.primary).swap,
          ((sna_present_unflip K E event_id w).sna.mode.crtc
            (sna_present_unflip K E event_id w).sna.mode.primary).swap.msc)] ∨
       notifs t = [(event_id, gettime_ust64 E E.clock_notify, 0)])) ∧
    (∀ ret w', xchg E c event_id target_msc pixmap sync_flip w = some (ret, w') →
      ∃ t, w'.trace = w.trace ++ t ∧
        (notifs t = [] ∨
         notifs t = [(event_id, gettime_ust64 E E.clock_notify, target_msc)] ∨
         notifs t = [(event_id, E.swap_ust (w.sna.mode.crtc c).swap,
            (w.sna.mode.crtc c).swap.msc)] ∨
         ∃ old c', w.sna.hook1 = some old ∧ old.data.crtc = some c' ∧
           notifs t = [(old.data.event_id, E.swap_ust (w.sna.mode.crtc c').swap,
              (w.sna.mode.crtc c').swap.msc)])) :=
  ⟨flip__async_notifications K E crtc event_id target_msc bo w,
   present_flip_handler_first K E event info w,
   unflip_notifications K E event_id w,
   fun ret w' h => xchg_notifications E c event_id target_msc pixmap sync_flip w ret w' h⟩

/-- C4 on the sample device: the unflip of the sample world is completed by
`flip__async` with sequence 0, while the last recorded sequence is 150. -/
theorem flip_completion_msc_witness :
    (sample_world.sna.mode.crtc 0).swap.msc = 150 ∧
    notifs (sna_present_unflip sample_consts sample_env 7 sample_world).trace =
      [(7, 2520000, 0)] ∧
    ∃ t, (sna_present_unflip sample_consts sample_env 7 sample_world).trace =
        sample_world.trace ++ t ∧
      (notifs t = [] ∨
       notifs t = [(7,
          sample_env.swap_ust ((sna_present_unflip sample_consts sample_env 7 sample_world).sna.mode.crtc
            (sna_present_unflip sample_consts sample_env 7 sample_world).sna.mode.primary).swap,
          ((sna_present_unflip sample_consts sample_env 7 sample_world).sna.mode.crtc
            (sna_present_unflip sample_consts sample_env 7 sample_world).sna.mode.primary).swap.msc)] ∨
       notifs t = [(7, gettime_ust64 sample_env sample_env.clock_notify, 0)]) :=
  ⟨rfl, by decide,
   (flip_completion_msc sample_consts sample_env none 0 7 0 9 sample_pixmap 1
      { sequence := 151, tv_sec := 2, tv_usec := 516000 }
      { crtc := some 0, event_id := 7, target_msc := 151 } sample_world).2.2.1⟩

/-- C4 as stated fails: on the sample device, whose last recorded sequence
is 150 before and after the call, an asynchronous flip with `target_msc` 100
is completed with sequence 100, the caller's argument. -/
theorem async_flip_target_counterexample :
    (sample_world.sna.mode.crtc 0).swap.msc = 150 ∧
    (sna_present_flip sample_consts sample_env 0 7 100 sample_pixmap 0 sample_world).map
        (fun r => (r.1, notifs r.2.trace, (r.2.sna.mode.crtc 0).swap.msc)) =
      some (TRUE, [(7, 2520000, 100)], 150) ∧
    ¬ (150 ≤ 100) :=
  ⟨rfl, by decide, by decide⟩

/-- A synchronous flip with no flip outstanding, the CRTC check passed and a
buffer object obtained: one page flip with the handler when the event record
is allocated, none otherwise; never a page flip without handler. -/
theorem sync_flip_idle (K : Consts) (E : Env) (crtc event_id target_msc : Nat)
    (pixmap : Pixmap) (sync_flip : Nat) (w : World) (bo : Nat)
    (hs : sync_flip ≠ 0) (htf : w.sna.flags &&& K.SNA_TEAR_FREE = 0)
    (hfa : w.sna.mode.flip_active = 0) (hc : check_flip__crtc w.sna crtc = true)
    (hb : (get_flip_bo K E pixmap w).1 = some bo) :
    ∃ ret w' t,
      sna_present_flip K E crtc event_id target_msc pixmap sync_flip w = some (ret, w') ∧
      w'.trace = w.trace ++ t ∧ notifs t = [] ∧ async_page_flips t = 0 ∧
      (E.malloc = true →
        flips t = [(bo, some ⟨some crtc, event_id, target_msc⟩,
          (E.sna_page_flip w.sna.mode bo (some ⟨some crtc, event_id, target_msc⟩)).1)] ∧
        (ret = TRUE ↔
          (E.sna_page_flip w.sna.mode bo (some ⟨some crtc, event_id, target_msc⟩)).1 ≠ 0) ∧
        (ret = FALSE ↔
          (E.sna_page_flip w.sna.mode bo (some ⟨some crtc, event_id, target_msc⟩)).1 = 0)) ∧
      (E.malloc = false → flips t = [] ∧ ret = FALSE) := by
  obtain ⟨hsna, -, t, ht, hq⟩ := get_flip_bo_trace K E pixmap w
  have ha := quiet_async t hq
  have hn := notifs_of_quiet t hq
  have hf := flips_of_quiet t hq
  rw [sna_present_flip_eq K E crtc event_id target_msc pixmap sync_flip w bo htf hc hb,
    if_neg (by simp [hfa]), if_pos hs]
  refine ⟨(flip E (some crtc) event_id target_msc bo (get_flip_bo K E pixmap w).2).1,
    (flip E (some crtc) event_id target_msc bo (get_flip_bo K E pixmap w).2).2, ?_⟩
  by_cases hm : E.malloc = true <;>
  by_cases hr : (E.sna_page_flip w.sna.mode bo (some ⟨some crtc, event_id, target_msc⟩)).1 = 0 <;>
  simp [flip, World.emit, World.set_mode, hsna, ht, hm, hr, notifs_append, flips_append,
    async_page_flips_append, ha, hn, hf, notifs_cons, notifs_nil, flips_cons, flips_nil,
    async_page_flips_cons, async_page_flips_nil, FALSE, TRUE]

/-- An asynchronous flip with no flip outstanding, the CRTC check passed and
a buffer object obtained: it is `flip__async`, one page flip without handler,
`TRUE` iff the page flip succeeds, and then one notification with the
`target_msc` argument. -/
theorem async_flip_idle (K : Consts) (E : Env) (crtc event_id target_msc : Nat)
    (pixmap : Pixmap) (w : World) (bo : Nat)
    (htf : w.sna.flags &&& K.SNA_TEAR_FREE = 0)
    (hcheck : check_flip__crtc w.sna crtc = true)
    (hbo : (get_flip_bo K E pixmap w).1 = some bo)
    (hfa : w.sna.mode.flip_active = 0) :
    sna_present_flip K E crtc event_id target_msc pixmap 0 w =
      some (flip__async K E (some crtc) event_id target_msc bo (get_flip_bo K E pixmap w).2) ∧
    ∃ ret w' t, sna_present_flip K E crtc event_id target_msc pixmap 0 w = some (ret, w') ∧
      w'.trace = w.trace ++ t ∧
      flips t = [(bo, none, (E.sna_page_flip w.sna.mode bo none).1)] ∧
      async_page_flips t = 1 ∧
      (ret = TRUE ↔ (E.sna_page_flip w.sna.mode bo none).1 ≠ 0) ∧
      notifs t =
        if (E.sna_page_flip w.sna.mode bo none).1 = 0 then []
        else [(event_id, gettime_ust64 E E.clock_notify, target_msc)] := by
  obtain ⟨hsna, -, t, ht, hq⟩ := get_flip_bo_trace K E pixmap w
  have hn := notifs_of_quiet t hq
  have hf := flips_of_quiet t hq
  have ha := quiet_async t hq
  rw [sna_present_flip_eq K E crtc event_id target_msc pixmap 0 w bo htf hcheck hbo,
    if_neg (by simp [hfa])]
  refine ⟨by simp, (flip__async K E (some crtc) event_id target_msc bo
    (get_flip_bo K E pixmap w).2).1, (flip__async K E (some crtc) event_id target_msc bo
    (get_flip_bo K E pixmap w).2).2, ?_⟩
  by_cases hr : (E.sna_page_flip w.sna.mode bo none).1 = 0 <;>
  simp [flip__async, World.emit, World.set_mode, hsna, ht, hr, notifs_append, flips_append,
    async_page_flips_append, hn, hf, ha, notifs_cons, notifs_nil, flips_cons, flips_nil,
    async_page_flips_cons, async_page_flips_nil, FALSE, TRUE]

/-- C6, as amended: `sna_present_flip` with `sync_flip` set on a device
without TearFree. With a flip outstanding it returns `FALSE` having submitted
no page flip, allocated no event record and notified nothing. With no flip
outstanding, the CRTC check passed and a buffer object obtained, it notifies
nothing and makes no page flip without handler; when the event record is
allocated it submits exactly one page flip, with `present_flip_handler` and
the record, and returns `TRUE` iff that submission succeeds; when the
allocation fails it submits no page flip and returns `FALSE`. -/
theorem sync_flip_serialized (K : Consts) (E : Env) (crtc event_id target_msc : Nat)
    (pixmap : Pixmap) (sync_flip : Nat) (w : World)
    (hs : sync_flip ≠ 0) (htf : w.sna.flags &&& K.SNA_TEAR_FREE = 0) :
    (w.sna.mode.flip_active ≠ 0 →
      ∃ w' t, sna_present_flip K E crtc event_id target_msc pixmap sync_flip w = some (FALSE, w') ∧
        w'.trace = w.trace ++ t ∧ flips t = [] ∧ mallocs t = 0 ∧ notifs t = []) ∧
    (w.sna.mode.flip_active = 0 → check_flip__crtc w.sna crtc = true →
      ∀ bo, (get_flip_bo K E pixmap w).1 = some bo →
        ∃ ret w' t,
          sna_present_flip K E crtc event_id target_msc pixmap sync_flip w = some (ret, w') ∧
          w'.trace = w.trace ++ t ∧ notifs t = [] ∧ async_page_flips t = 0 ∧
          (E.malloc = true →
            flips t = [(bo, some ⟨some crtc, event_id, target_msc⟩,
              (E.sna_page_flip w.sna.mode bo (some ⟨some crtc, event_id, target_msc⟩)).1)] ∧
            (ret = TRUE ↔
              (E.sna_page_flip w.sna.mode bo (some ⟨some crtc, event_id, target_msc⟩)).1 ≠ 0) ∧
            (ret = FALSE ↔
              (E.sna_page_flip w.sna.mode bo (some ⟨some crtc, event_id, target_msc⟩)).1 = 0)) ∧
          (E.malloc = false → flips t = [] ∧ ret = FALSE)) := by
  refine ⟨?_, ?_⟩
  · intro hfa
    by_cases hc : check_flip__crtc w.sna crtc = true
    · cases hb : (get_flip_bo K E pixmap w).1 with
      | none =>
        obtain ⟨w', t, h1, h2, h3⟩ := sna_present_flip_rejected K E crtc event_id target_msc pixmap
          sync_flip w (Or.inr hb)
        exact ⟨w', t, h1, h2, flips_of_quiet t h3, h3.2.2.1, notifs_of_quiet t h3⟩
      | some bo =>
        obtain ⟨-, -, t, ht, hq⟩ := get_flip_bo_trace K E pixmap w
        rw [sna_present_flip_eq K E crtc event_id target_msc pixmap sync_flip w bo htf hc hb,
          if_pos hfa]
        exact ⟨_, t, rfl, ht, flips_of_quiet t hq, hq.2.2.1, notifs_of_quiet t hq⟩
    · obtain ⟨w', t, h1, h2, h3⟩ := sna_present_flip_rejected K E crtc event_id target_msc pixmap
        sync_flip w (Or.inl (by simpa using hc))
      exact ⟨w', t, h1, h2, flips_of_quiet t h3, h3.2.2.1, notifs_of_quiet t h3⟩
  · exact fun hfa hc bo hb =>
      sync_flip_idle K E crtc event_id target_msc pixmap sync_flip w bo hs htf hfa hc hb

/-- C6 on the sample device: a synchronous flip of the sample pixmap with no
flip outstanding submits one page flip with the handler and returns `TRUE`. -/
theorem sync_flip_serialized_witness :
    (1 : Nat) ≠ 0 ∧ sample_world.sna.flags &&& sample_consts.SNA_TEAR_FREE = 0 ∧
    sample_world.sna.mode.flip_active = 0 ∧ check_flip__crtc sample_world.sna 0 = true ∧
    (get_flip_bo sample_consts sample_env sample_pixmap sample_world).1 = some 9 ∧
    (sna_present_flip sample_consts sample_env 0 7 151 sample_pixmap 1 sample_world).map
        (fun r => (r.1, flips r.2.trace, notifs r.2.trace)) =
      some (TRUE, [(9, some ⟨some 0, 7, 151⟩, 1)], []) ∧
    ∃ ret w' t,
      sna_present_flip sample_consts sample_env 0 7 151 sample_pixmap 1 sample_world =
        some (ret, w') ∧
      w'.trace = sample_world.trace ++ t ∧ notifs t = [] ∧ async_page_flips t = 0 ∧
      (sample_env.malloc = true →
        flips t = [(9, some ⟨some 0, 7, 151⟩,
          (sample_env.sna_page_flip sample_world.sna.mode 9 (some ⟨some 0, 7, 151⟩)).1)] ∧
        (ret = TRUE ↔
          (sample_env.sna_page_flip sample_world.sna.mode 9 (some ⟨some 0, 7, 151⟩)).1 ≠ 0) ∧
        (ret = FALSE ↔
          (sample_env.sna_page_flip sample_world.sna.mode 9 (some ⟨some 0, 7, 151⟩)).1 = 0)) ∧
      (sample_env.malloc = false → flips t = [] ∧ ret = FALSE) :=
  ⟨by decide, by decide, rfl, by decide, by decide, rfl,
   (sync_flip_serialized sample_consts sample_env 0 7 151 sample_pixmap 1 sample_world
      (by decide) (by decide)).2 rfl (by decide) 9 (by decide)⟩

/-- C6 as stated fails: with no flip outstanding, the CRTC check passed and
the buffer object 9 obtained, a synchronous flip submits no page flip at all
when the event record cannot be allocated. -/
theorem sync_flip_no_memory_counterexample :
    sample_world.sna.flags &&& sample_consts.SNA_TEAR_FREE = 0 ∧
    sample_world.sna.mode.flip_active = 0 ∧ check_flip__crtc sample_world.sna 0 = true ∧
    (get_flip_bo sample_consts no_memory_env sample_pixmap sample_world).1 = some 9 ∧
    (sna_present_flip sample_consts no_memory_env 0 7 151 sample_pixmap 1 sample_world).map
        (fun r => (r.1, r.2.trace)) =
      some (FALSE, [Effect.move_to_gpu sample_pixmap true, Effect.pin sample_pixmap 1,
        Effect.malloc false]) ∧
    page_flips [Effect.move_to_gpu sample_pixmap true, Effect.pin sample_pixmap 1,
        Effect.malloc false] = 0 := by
  decide

/-- C7, as amended: `sna_present_flip` with `sync_flip` clear on a device
without TearFree, the CRTC check passed and a buffer object obtained. The
test for outstanding flips applies to it as well: with a flip outstanding it
returns `FALSE` and submits nothing; with none it goes to `flip__async`,
which makes exactly one page flip without handler, returns `TRUE` iff that
succeeds and then notifies the event with the `target_msc` argument. -/
theorem async_flip_gated (K : Consts) (E : Env) (crtc event_id target_msc : Nat)
    (pixmap : Pixmap) (w : World) (bo : Nat)
    (htf : w.sna.flags &&& K.SNA_TEAR_FREE = 0)
    (hcheck : check_flip__crtc w.sna crtc = true)
    (hbo : (get_flip_bo K E pixmap w).1 = some bo) :
    (w.sna.mode.flip_active ≠ 0 →
      ∃ w' t, sna_present_flip K E crtc event_id target_msc pixmap 0 w = some (FALSE, w') ∧
        w'.trace = w.trace ++ t ∧ flips t = [] ∧ notifs t = []) ∧
    (w.sna.mode.flip_active = 0 →
      sna_present_flip K E crtc event_id target_msc pixmap 0 w =
        some (flip__async K E (some crtc) event_id target_msc bo (get_flip_bo K E pixmap w).2) ∧
      ∃ ret w' t, sna_present_flip K E crtc event_id target_msc pixmap 0 w = some (ret, w') ∧
        w'.trace = w.trace ++ t ∧
        flips t = [(bo, none, (E.sna_page_flip w.sna.mode bo none).1)] ∧
        (ret = TRUE ↔ (E.sna_page_flip w.sna.mode bo none).1 ≠ 0) ∧
        notifs t =
          if (E.sna_page_flip w.sna.mode bo none).1 = 0 then []
          else [(event_id, gettime_ust64 E E.clock_notify, target_msc)]) := by
  refine ⟨fun hfa => ?_, fun hfa => ?_⟩
  · obtain ⟨-, -, t, ht, hq⟩ := get_flip_bo_trace K E pixmap w
    rw [sna_present_flip_eq K E crtc event_id target_msc pixmap 0 w bo htf hcheck hbo, if_pos hfa]
    exact ⟨_, t, rfl, ht, flips_of_quiet t hq, notifs_of_quiet t hq⟩
  · obtain ⟨h0, ret, w', t, h1, h2, h3, -, h5, h6⟩ :=
      async_flip_idle K E crtc event_id target_msc pixmap w bo htf hcheck hbo hfa
    exact ⟨h0, ret, w', t, h1, h2, h3, h5, h6⟩

/-- C7 on the sample device: with no flip outstanding the asynchronous flip
is submitted without handler and completes at once. -/
theorem async_flip_gated_witness :
    sample_world.sna.flags &&& sample_consts.SNA_TEAR_FREE = 0 ∧
    check_flip__crtc sample_world.sna 0 = true ∧
    (get_flip_bo sample_consts sample_env sample_pixmap sample_world).1 = some 9 ∧
    sample_world.sna.mode.flip_active = 0 ∧
    sna_present_flip sample_consts sample_env 0 7 151 sample_pixmap 0 sample_world =
      some (flip__async sample_consts sample_env (some 0) 7 151 9
        (get_flip_bo sample_consts sample_env sample_pixmap sample_world).2) :=
  ⟨by decide, by decide, by decide, rfl,
   ((async_flip_gated sample_consts sample_env 0 7 151 sample_pixmap sample_world 9
      (by decide) (by decide) (by decide)).2 rfl).1⟩

/-- C7 as stated fails: with one flip outstanding, an asynchronous flip that
passed the CRTC check and obtained the buffer object 9 is rejected: `FALSE`,
no page flip, no notification. -/
theorem async_flip_busy_counterexample :
    busy_world.sna.flags &&& sample_consts.SNA_TEAR_FREE = 0 ∧
    check_flip__crtc busy_world.sna 0 = true ∧
    (get_flip_bo sample_consts sample_env sample_pixmap busy_world).1 = some 9 ∧
    busy_world.sna.mode.flip_active = 1 ∧
    (sna_present_flip sample_consts sample_env 0 7 151 sample_pixmap 0 busy_world).map
        (fun r => (r.1, flips r.2.trace, notifs r.2.trace)) = some (FALSE, [], []) :=
  ⟨by decide, by decide, by decide, rfl, rfl⟩

/-! ## The capability word -/

/-- The bits of `x &= ~mask` on 32 bits: those of `x` that are not in `mask`. -/
theorem clear32_testBit (x mask i : Nat) (hi : i < 32) :
    (clear32 x mask).testBit i = (x.testBit i && !mask.testBit i) := by
  unfold clear32 U32
  rw [Nat.testBit_and, Nat.testBit_xor, Nat.testBit_two_pow_sub_one, Nat.testBit_mod_two_pow]
  simp [hi]

/-- The bits of `x |= mask` on 32 bits: those of `x` and those of `mask`. -/
theorem set32_testBit (x mask i : Nat) (hi : i < 32) :
    ((x ||| mask) % U32).testBit i = (x.testBit i || mask.testBit i) := by
  unfold U32
  rw [Nat.testBit_mod_two_pow, Nat.testBit_or]
  simp [hi]

/-- Clearing bits sets none. -/
theorem clear32_not_raised (x mask i : Nat) (h : (clear32 x mask).testBit i = true) :
    x.testBit i = true := by
  simp [clear32, Nat.testBit_and] at h
  exact h.1

/-- An unchanged capability word has no new bit. -/
theorem caps_not_raised_of_eq (w w' : World) (h : w'.capabilities = w.capabilities) :
    caps_not_raised w w' := by
  intro i hi
  rw [h] at hi
  exact hi

/-- A capability word that is unchanged or has lost
`PresentCapabilityAsync` has no new bit. -/
theorem caps_not_raised_of_clear (K : Consts) (w w' : World)
    (h : w'.capabilities = w.capabilities ∨
      w'.capabilities = clear32 w.capabilities K.PresentCapabilityAsync) :
    caps_not_raised w w' := by
  rcases h with h | h
  · exact caps_not_raised_of_eq w w' h
  · intro i hi
    rw [h] at hi
    exact clear32_not_raised _ _ _ hi

/-- The capability word after `flip__async`: `PresentCapabilityAsync` is cleared
when the page flip fails, and the word is as before otherwise. -/
theorem flip__async_caps (K : Consts) (E : Env) (crtc : Option Nat)
    (event_id target_msc bo : Nat) (w : World) :
    (flip__async K E crtc event_id target_msc bo w).2.capabilities =
      if (E.sna_page_flip w.sna.mode bo none).1 = 0 then
        clear32 w.capabilities K.PresentCapabilityAsync
      else w.capabilities := by
  by_cases h : (E.sna_page_flip w.sna.mode bo none).1 = 0 <;>
    simp [flip__async, h, World.emit, World.set_mode]

/-- `flip` leaves the capability word alone. -/
theorem flip_caps (E : Env) (crtc : Option Nat) (event_id target_msc bo : Nat) (w : World) :
    (flip E crtc event_id target_msc bo w).2.capabilities = w.capabilities := by
  by_cases hm : E.malloc = true <;>
  by_cases h : (E.sna_page_flip w.sna.mode bo
      (some { crtc := crtc, event_id := event_id, target_msc := target_msc })).1 = 0 <;>
    simp [flip, hm, h, World.emit, World.set_mode]

/-- `sna_fake_vblank` leaves the capability word alone. -/
theorem sna_fake_vblank_caps (E : Env) (info : sna_present_event) (w : World) (b : Bool)
    (w' : World) (h : sna_fake_vblank E info w = some (b, w')) :
    w'.capabilities = w.capabilities := by
  cases hc : info.crtc with
  | none => simp [sna_fake_vblank, hc] at h
  | some c =>
    rcases sna_fake_vblank_cases E info w c hc with ⟨hn, -⟩ | hs | ⟨d, -, hs⟩
    · rw [hn] at h; cases h
    · rw [hs] at h; cases h; rfl
    · rw [hs] at h; cases h; rfl

/-- `sna_present_queue_vblank` leaves the capability word alone. -/
theorem queue_vblank_caps (E : Env) (crtc event_id msc : Nat) (w : World) (ret : Nat)
    (w' : World) (h : sna_present_queue_vblank E crtc event_id msc w = some (ret, w')) :
    w'.capabilities = w.capabilities := by
  by_cases hle : toI64 (sub64 msc (w.sna.mode.crtc crtc).swap.msc) ≤ 0
  · simp only [sna_present_queue_vblank, if_pos hle, World.emit, Option.some.injEq,
      Prod.mk.injEq] at h
    rw [← h.2]
  · rcases queue_vblank_cases E crtc event_id msc w hle with
      hr | hr | ⟨hr, _⟩ | hr | ⟨d, _, hr⟩ | ⟨d, _, hr⟩
    all_goals rw [hr] at h
    all_goals cases h
    all_goals rfl

/-- `sna_fake_vblank_handler` leaves the capability word alone. -/
theorem fake_vblank_handler_caps (E : Env) (info : sna_present_event) (w : World) (ret : Nat)
    (w' : World) (h : sna_fake_vblank_handler E info w = some (ret, w')) :
    w'.capabilities = w.capabilities := by
  unfold sna_fake_vblank_handler at h
  cases hc : info.crtc with
  | none => simp [hc] at h
  | some c =>
    simp only [hc, sna_wait_vblank, World.emit, fake_vblank_complete, World.set_crtc,
      World.set_mode] at h
    cases hk : E.drmIoctl_wait_vblank (DRM_VBLANK_RELATIVE ||| pipe_select (w.sna.mode.crtc c).pipe) 0 with
    | none =>
      simp only [hk] at h
      cases h; rfl
    | some reply =>
      simp only [hk] at h
      split at h
      · split at h
        · simp at h
        · split at h <;> (cases h; rfl)
      · cases h; rfl

/-- `sna_present_vblank_handler` leaves the capability word alone. -/
theorem vblank_handler_caps (E : Env) (event : drm_event_vblank) (info : sna_present_event)
    (w w' : World) (h : sna_present_vblank_handler E event info w = some w') :
    w'.capabilities = w.capabilities := by
  unfold sna_present_vblank_handler at h
  cases hc : info.crtc with
  | none => simp [hc] at h
  | some c =>
    simp only [hc, Option.some.injEq] at h
    rw [← h]; rfl

/-- `sna_present_get_ust_msc` leaves the capability word alone. -/
theorem get_ust_msc_caps (E : Env) (crtc : Nat) (w : World) :
    (sna_present_get_ust_msc E crtc w).world.capabilities = w.capabilities := by
  unfold sna_present_get_ust_msc
  simp only [sna_wait_vblank, World.emit]
  cases E.drmIoctl_wait_vblank _ _ <;> rfl

/-- `xchg` leaves the capability word alone. -/
theorem xchg_caps (E : Env) (crtc event_id target_msc : Nat) (pixmap : Pixmap)
    (sync_flip : Nat) (w : World) (ret : Nat) (w' : World)
    (h : xchg E crtc event_id target_msc pixmap sync_flip w = some (ret, w')) :
    w'.capabilities = w.capabilities := by
  unfold xchg at h
  by_cases hq : pixmap = w.sna.front
  · simp only [set_front, if_pos hq] at h
    cases hm : E.malloc
    · simp only [hm, if_true] at h
      cases h; rfl
    · simp only [hm, Bool.true_eq_false, if_false, sna_wait_vblank, World.emit] at h
      cases hk : E.drmIoctl_wait_vblank
          (DRM_VBLANK_ABSOLUTE ||| DRM_VBLANK_EVENT ||| DRM_VBLANK_NEXTONMISS |||
            pipe_select (w.sna.mode.crtc crtc).pipe) (target_msc % U32) with
      | some reply =>
        simp only [hk] at h
        cases h; rfl
      | none =>
        simp only [hk, Option.isSome_none] at h
        rcases sna_fake_vblank_cases E ⟨some crtc, event_id, target_msc⟩
          { w with trace := w.trace ++ [Effect.malloc true] ++
            [Effect.drmIoctl_wait_vblank
              (DRM_VBLANK_ABSOLUTE ||| DRM_VBLANK_EVENT ||| DRM_VBLANK_NEXTONMISS |||
                pipe_select (w.sna.mode.crtc crtc).pipe)
              (target_msc % U32) (some ⟨some crtc, event_id, target_msc⟩) false] } crtc rfl
          with ⟨hn, -⟩ | hs | ⟨d, hd, hs⟩
        · rw [hn] at h
          cases h
        · rw [hs] at h
          cases h; rfl
        · rw [hs] at h
          cases ht : E.TimerSet
          · simp only [ht, xchg_notify, World.emit] at h
            cases h; rfl
          · simp only [ht] at h
            cases h; rfl
  · simp only [set_front, if_neg hq, World.emit] at h
    cases hm : E.malloc
    · simp only [hm, if_true] at h
      cases h; rfl
    · simp only [hm, Bool.true_eq_false, if_false, if_true] at h
      cases h0 : w.sna.hook0 with
      | none =>
        simp only [h0] at h
        cases h; rfl
      | some nb0 =>
        cases h1 : w.sna.hook1 with
        | none =>
          simp only [h0, h1] at h
          cases h; rfl
        | some old =>
          simp only [h0, h1, run_notifier] at h
          cases hf : old.func with
          | other id =>
            simp only [hf, World.emit] at h
            cases h; rfl
          | xchg_handler =>
            simp only [hf, xchg_handler] at h
            cases hc : old.data.crtc with
            | none => simp [hc] at h
            | some c =>
              simp only [hc, World.emit] at h
              cases h; rfl

/-- `sna_present_flip` leaves the capability word alone or clears
`PresentCapabilityAsync` in it. -/
theorem sna_present_flip_caps (K : Consts) (E : Env) (crtc event_id target_msc : Nat)
    (pixmap : Pixmap) (sync_flip : Nat) (w : World) (ret : Nat) (w' : World)
    (h : sna_present_flip K E crtc event_id target_msc pixmap sync_flip w = some (ret, w')) :
    w'.capabilities = w.capabilities ∨
      w'.capabilities = clear32 w.capabilities K.PresentCapabilityAsync := by
  obtain ⟨-, hcaps, -⟩ := get_flip_bo_trace K E pixmap w
  unfold sna_present_flip at h
  by_cases hc : check_flip__crtc w.sna crtc = false
  · rw [if_pos hc] at h
    cases h; exact Or.inl rfl
  · rw [if_neg hc] at h
    rcases hg : get_flip_bo K E pixmap w with ⟨b, w1⟩
    rw [hg] at h hcaps
    simp only at h hcaps
    cases b with
    | none =>
      simp only at h
      cases h; exact Or.inl hcaps
    | some bo =>
      simp only at h
      by_cases h1 : w1.sna.flags &&& K.SNA_TEAR_FREE ≠ 0
      · rw [if_pos h1] at h
        exact Or.inl ((xchg_caps E _ _ _ _ _ _ _ _ h).trans hcaps)
      · rw [if_neg h1] at h
        by_cases h2 : w1.sna.mode.flip_active ≠ 0
        · rw [if_pos h2] at h
          cases h; exact Or.inl hcaps
        · rw [if_neg h2] at h
          by_cases h3 : sync_flip ≠ 0
          · rw [if_pos h3] at h
            have hf := flip_caps E (some crtc) event_id target_msc bo w1
            simp only [Option.some.injEq] at h
            rw [h] at hf
            exact Or.inl (hf.trans hcaps)
          · rw [if_neg h3] at h
            have hf := flip__async_caps K E (some crtc) event_id target_msc bo w1
            simp only [Option.some.injEq] at h
            rw [h, hcaps] at hf
            simp only at hf
            rw [hf]
            split_ifs
            · exact Or.inr rfl
            · exact Or.inl rfl

/-- `sna_present_unflip` leaves the capability word alone or clears
`PresentCapabilityAsync` in it. -/
theorem sna_present_unflip_caps (K : Consts) (E : Env) (event_id : Nat) (w : World) :
    (sna_present_unflip K E event_id w).capabilities = w.capabilities ∨
      (sna_present_unflip K E event_id w).capabilities =
        clear32 w.capabilities K.PresentCapabilityAsync := by
  unfold sna_present_unflip
  split_ifs with h1 h2 h3
  · exact Or.inl rfl
  · unfold set_front
    split_ifs <;> exact Or.inl rfl
  · exact Or.inl rfl
  · obtain ⟨-, hcaps, -⟩ := get_flip_bo_trace K E w.sna.screen_pixmap w
    rcases hg : get_flip_bo K E w.sna.screen_pixmap w with ⟨b, w1⟩
    rw [hg] at hcaps
    simp only at hcaps
    cases b with
    | none => exact Or.inl hcaps
    | some bo =>
      simp only
      by_cases hm : E.malloc = true <;>
      by_cases hf : w1.sna.flags &&& K.SNA_HAS_ASYNC_FLIP = 0 <;>
      by_cases hr1 : (E.sna_page_flip w1.sna.mode bo none).1 = 0 <;>
      by_cases hr2 : (E.sna_page_flip w1.sna.mode bo (some ⟨none, event_id, 0⟩)).1 = 0 <;>
      by_cases hr3 : (E.sna_page_flip (E.sna_page_flip w1.sna.mode bo none).2 bo
          (some ⟨none, event_id, 0⟩)).1 = 0 <;>
      simp [flip__async, flip, unflip_reset_mode, unflip_notify, World.emit, World.set_mode,
        hcaps, hm, hf, hr1, hr2, hr3, FALSE, TRUE]

/-- `present_flip_handler` leaves the capability word alone or clears
`PresentCapabilityAsync` in it. -/
theorem present_flip_handler_caps (K : Consts) (E : Env) (event : drm_event_vblank)
    (info : sna_present_event) (w : World) :
    (present_flip_handler K E event info w).capabilities = w.capabilities ∨
      (present_flip_handler K E event info w).capabilities =
        clear32 w.capabilities K.PresentCapabilityAsync := by
  unfold present_flip_handler
  simp only [World.emit]
  split_ifs with hu
  · exact sna_present_unflip_caps K E w.sna.present_unflip _
  · exact Or.inl rfl

/-- C8, as amended: when the page flip inside `flip__async` fails, the call
returns `FALSE`, notifies nothing, clears `PresentCapabilityAsync` in the
capability word and leaves every other bit and `sna->flags` as they were.
The revocation is not permanent: `sna_present_update` sets the bit again
whenever `SNA_HAS_ASYNC_FLIP` is set in `sna->flags` (and clears it
otherwise), and `sna_present_open` runs `sna_present_update`. No other
operation of the module ever sets a capability bit. -/
theorem async_capability_revocation (K : Consts) (E : Env) (crtc : Option Nat) (c : Nat)
    (event_id target_msc bo msc : Nat) (pixmap : Pixmap) (sync_flip : Nat)
    (event : drm_event_vblank) (info : sna_present_event) (w : World)
    (hfail : (E.sna_page_flip w.sna.mode bo none).1 = 0) :
    ((flip__async K E crtc event_id target_msc bo w).1 = FALSE ∧
     (flip__async K E crtc event_id target_msc bo w).2.capabilities =
        clear32 w.capabilities K.PresentCapabilityAsync ∧
     (∀ i, i < 32 →
        (flip__async K E crtc event_id target_msc bo w).2.capabilities.testBit i =
          (w.capabilities.testBit i && !K.PresentCapabilityAsync.testBit i)) ∧
     (flip__async K E crtc event_id target_msc bo w).2.sna.flags = w.sna.flags ∧
     (∃ t, (flip__async K E crtc event_id target_msc bo w).2.trace = w.trace ++ t ∧
        notifs t = [])) ∧
    (∀ w0 : World,
      (w0.sna.flags &&& K.SNA_HAS_ASYNC_FLIP ≠ 0 → ∀ i, i < 32 →
        (sna_present_update K w0).capabilities.testBit i =
          (w0.capabilities.testBit i || K.PresentCapabilityAsync.testBit i)) ∧
      (w0.sna.flags &&& K.SNA_HAS_ASYNC_FLIP = 0 → ∀ i, i < 32 →
        (sna_present_update K w0).capabilities.testBit i =
          (w0.capabilities.testBit i && !K.PresentCapabilityAsync.testBit i))) ∧
    (∀ w0 : World,
      (∀ ret w', sna_present_queue_vblank E c event_id msc w0 = some (ret, w') →
        caps_not_raised w0 w') ∧
      (∀ ret w', sna_fake_vblank_handler E info w0 = some (ret, w') → caps_not_raised w0 w') ∧
      (∀ w', sna_present_vblank_handler E event info w0 = some w' → caps_not_raised w0 w') ∧
      caps_not_raised w0 (sna_present_get_ust_msc E c w0).world ∧
      (∀ ret w', sna_present_flip K E c event_id target_msc pixmap sync_flip w0 = some (ret, w') →
        caps_not_raised w0 w') ∧
      caps_not_raised w0 (sna_present_unflip K E event_id w0) ∧
      caps_not_raised w0 (present_flip_handler K E event info w0) ∧
      caps_not_raised w0 (sna_present_abort_vblank crtc event_id msc w0) ∧
      caps_not_raised w0 (sna_present_flush E pixmap w0) ∧
      caps_not_raised w0 (sna_present_close w0) ∧
      (sna_present_open K E w0).2.capabilities =
        if w0.sna.mode.num_real_crtc = 0 then w0.capabilities
        else (sna_present_update K w0).capabilities) := by
  refine ⟨⟨?_, ?_, ?_, ?_, ?_⟩, fun w0 => ⟨?_, ?_⟩,
    fun w0 => ⟨?_, ?_, ?_, ?_, ?_, ?_, ?_, ?_, ?_, ?_, ?_⟩⟩
  · simp [flip__async, hfail]
  · rw [flip__async_caps, if_pos hfail]
  · intro i hi
    rw [flip__async_caps, if_pos hfail]
    exact clear32_testBit _ _ i hi
  · simp [flip__async, hfail, World.emit, World.set_mode]
  · obtain ⟨t, ht, hn⟩ := flip__async_notifications K E crtc event_id target_msc bo w
    rw [if_pos hfail] at hn
    exact ⟨t, ht, hn⟩
  · intro hf i hi
    simp only [sna_present_update, if_pos hf]
    exact set32_testBit _ _ i hi
  · intro hf i hi
    simp only [sna_present_update, hf, ne_eq, not_true_eq_false, if_false]
    exact clear32_testBit _ _ i hi
  · exact fun ret w' h => caps_not_raised_of_eq _ _ (queue_vblank_caps E c event_id msc w0 ret w' h)
  · exact fun ret w' h => caps_not_raised_of_eq _ _ (fake_vblank_handler_caps E info w0 ret w' h)
  · exact fun w' h => caps_not_raised_of_eq _ _ (vblank_handler_caps E event info w0 w' h)
  · exact caps_not_raised_of_eq _ _ (get_ust_msc_caps E c w0)
  · exact fun ret w' h => caps_not_raised_of_clear K _ _
      (sna_present_flip_caps K E c event_id target_msc pixmap sync_flip w0 ret w' h)
  · exact caps_not_raised_of_clear K _ _ (sna_present_unflip_caps K E event_id w0)
  · exact caps_not_raised_of_clear K _ _ (present_flip_handler_caps K E event info w0)
  · exact caps_not_raised_of_eq _ _ rfl
  · refine caps_not_raised_of_eq _ _ ?_
    unfold sna_present_flush
    cases E.sna_pixmap_move_to_gpu pixmap <;> rfl
  · exact caps_not_raised_of_eq _ _ rfl
  · unfold sna_present_open
    split_ifs <;> rfl

/-- C8 on the sample device with a kernel that refuses page flips: the
asynchronous flip fails and the capability word goes from 1 to 0. -/
theorem async_capability_revocation_witness :
    (no_flip_env.sna_page_flip sample_world.sna.mode 9 none).1 = 0 ∧
    (flip__async sample_consts no_flip_env (some 0) 7 151 9 sample_world).1 = FALSE ∧
    (flip__async sample_consts no_flip_env (some 0) 7 151 9 sample_world).2.capabilities =
      clear32 sample_world.capabilities sample_consts.PresentCapabilityAsync ∧
    clear32 sample_world.capabilities sample_consts.PresentCapabilityAsync = 0 :=
  ⟨rfl,
   (async_capability_revocation sample_consts no_flip_env (some 0) 0 7 151 9 151 sample_pixmap 0
      { sequence := 151, tv_sec := 2, tv_usec := 516000 }
      { crtc := some 0, event_id := 7, target_msc := 151 } sample_world rfl).1.1,
   (async_capability_revocation sample_consts no_flip_env (some 0) 0 7 151 9 151 sample_pixmap 0
      { sequence := 151, tv_sec := 2, tv_usec := 516000 }
      { crtc := some 0, event_id := 7, target_msc := 151 } sample_world rfl).1.2.1,
   by decide⟩

/-- C8 as stated fails: on the sample device the failed asynchronous flip
takes the capability word from 1 to 0 and leaves `SNA_HAS_ASYNC_FLIP` set,
and the next `sna_present_update` takes the word back to 1. -/
theorem capability_set_again_counterexample :
    sample_world.capabilities = 1 ∧
    (flip__async sample_consts no_flip_env (some 0) 7 151 9 sample_world).1 = FALSE ∧
    (flip__async sample_consts no_flip_env (some 0) 7 151 9 sample_world).2.capabilities = 0 ∧
    (sna_present_update sample_consts
      (flip__async sample_consts no_flip_env (some 0) 7 151 9 sample_world).2).capabilities = 1 ∧
    (1 : Nat) &&& sample_consts.PresentCapabilityAsync ≠ 0 :=
  ⟨rfl, by decide, by decide, by decide, by decide⟩

/-- The page flips of `sna_present_unflip` once it has a buffer object: the
first is made without handler when `SNA_HAS_ASYNC_FLIP` is set in
`sna->flags`; none is made without handler when the flag is clear. -/
theorem unflip_async_attempt (K : Consts) (E : Env) (event_id : Nat) (w : World) (ubo : Nat)
    (hfront : w.sna.mode.front_active ≠ 0) (hrr : w.sna.mode.rr_active = 0)
    (htf : w.sna.flags &&& K.SNA_TEAR_FREE = 0) (hfa : w.sna.mode.flip_active = 0)
    (hbo : (get_flip_bo K E w.sna.screen_pixmap w).1 = some ubo) :
    ∃ t, (sna_present_unflip K E event_id w).trace = w.trace ++ t ∧
      (w.sna.flags &&& K.SNA_HAS_ASYNC_FLIP ≠ 0 →
        ∃ rest, flips t = (ubo, none, (E.sna_page_flip w.sna.mode ubo none).1) :: rest) ∧
      (w.sna.flags &&& K.SNA_HAS_ASYNC_FLIP = 0 → async_page_flips t = 0) := by
  obtain ⟨hsna, -, t, ht, hq⟩ := get_flip_bo_trace K E w.sna.screen_pixmap w
  have hf := flips_of_quiet t hq
  have ha := quiet_async t hq
  unfold sna_present_unflip
  rw [if_neg (by simp [hfront, hrr]), if_neg (by simp [htf]), if_neg (by simp [hfa])]
  rcases hg : get_flip_bo K E w.sna.screen_pixmap w with ⟨b, w1⟩
  rw [hg] at hsna ht hbo
  simp only at hsna ht hbo
  subst hbo
  simp only
  by_cases hm : E.malloc = true <;>
  by_cases hfl : w.sna.flags &&& K.SNA_HAS_ASYNC_FLIP = 0 <;>
  by_cases hr1 : (E.sna_page_flip w.sna.mode ubo none).1 = 0 <;>
  by_cases hr2 : (E.sna_page_flip w.sna.mode ubo (some ⟨none, event_id, 0⟩)).1 = 0 <;>
  by_cases hr3 : (E.sna_page_flip (E.sna_page_flip w.sna.mode ubo none).2 ubo
      (some ⟨none, event_id, 0⟩)).1 = 0 <;>
  simp [flip__async, flip, unflip_reset_mode, unflip_notify, World.emit, World.set_mode, ht,
    hsna, flips_append, async_page_flips_append, hf, ha, flips_cons, flips_nil,
    async_page_flips_cons, async_page_flips_nil, hm, hfl, hr1, hr2, hr3, FALSE, TRUE]

/-- C9, as amended: in a state where the capability bit is clear (revoked),
without TearFree, with the CRTC check passed, a buffer object obtained and no
flip outstanding, a request with `sync_flip` clear still makes the page flip
without handler, and only a request with `sync_flip` set stays clear of it.
`sna_present_unflip` (front active, no RandR transform, buffer object
obtained) tries the page flip without handler first whenever
`SNA_HAS_ASYNC_FLIP` is set in `sna->flags`, which the revocation leaves
alone, and makes none when that flag is clear. `sna_present_check_flip`
answers an asynchronous request from `sna->flags` alone. -/
theorem revoked_capability_not_consulted (K : Consts) (E : Env)
    (crtc event_id target_msc : Nat) (pixmap : Pixmap) (w : World) (bo : Nat)
    (_hrev : w.capabilities &&& K.PresentCapabilityAsync = 0)
    (htf : w.sna.flags &&& K.SNA_TEAR_FREE = 0)
    (hcheck : check_flip__crtc w.sna crtc = true)
    (hbo : (get_flip_bo K E pixmap w).1 = some bo)
    (hfa : w.sna.mode.flip_active = 0) :
    (∃ ret w' t, sna_present_flip K E crtc event_id target_msc pixmap 0 w = some (ret, w') ∧
      w'.trace = w.trace ++ t ∧
      flips t = [(bo, none, (E.sna_page_flip w.sna.mode bo none).1)] ∧
      async_page_flips t = 1) ∧
    (∀ sync_flip, sync_flip ≠ 0 →
      ∃ ret w' t,
        sna_present_flip K E crtc event_id target_msc pixmap sync_flip w = some (ret, w') ∧
        w'.trace = w.trace ++ t ∧ async_page_flips t = 0) ∧
    (∀ ubo, w.sna.mode.front_active ≠ 0 → w.sna.mode.rr_active = 0 →
      (get_flip_bo K E w.sna.screen_pixmap w).1 = some ubo →
      ∃ t, (sna_present_unflip K E event_id w).trace = w.trace ++ t ∧
        (w.sna.flags &&& K.SNA_HAS_ASYNC_FLIP ≠ 0 →
          ∃ rest, flips t = (ubo, none, (E.sna_page_flip w.sna.mode ubo none).1) :: rest) ∧
        (w.sna.flags &&& K.SNA_HAS_ASYNC_FLIP = 0 → async_page_flips t = 0)) ∧
    (w.sna.vtSema = true → w.sna.flags &&& K.SNA_NO_FLIP = 0 →
      ∀ priv, E.sna_pixmap pixmap = some priv → ¬ (priv.cpu_bo = true ∧ priv.static_ptr = true) →
      (sna_present_check_flip K E w.sna crtc pixmap 0 = TRUE ↔
        w.sna.flags &&& K.SNA_HAS_ASYNC_FLIP ≠ 0)) := by
  refine ⟨?_, ?_, ?_, ?_⟩
  · obtain ⟨-, ret, w', t, h1, h2, h3, h4, -⟩ :=
      async_flip_idle K E crtc event_id target_msc pixmap w bo htf hcheck hbo hfa
    exact ⟨ret, w', t, h1, h2, h3, h4⟩
  · intro sync_flip hs
    obtain ⟨ret, w', t, h1, h2, -, h4, -⟩ :=
      sync_flip_idle K E crtc event_id target_msc pixmap sync_flip w bo hs htf hfa hcheck hbo
    exact ⟨ret, w', t, h1, h2, h4⟩
  · exact fun ubo hfront hrr hubo =>
      unflip_async_attempt K E event_id w ubo hfront hrr htf hfa hubo
  · intro hvt hnf priv hp hshm
    by_cases hfl : w.sna.flags &&& K.SNA_HAS_ASYNC_FLIP = 0 <;>
      simp [sna_present_check_flip, hvt, hnf, hp, hshm, hcheck, hfl, TRUE, FALSE]

/-- C9 on the sample device after revocation: the capability word is 0, and
an asynchronous request still makes the page flip without handler. -/
theorem revoked_capability_not_consulted_witness :
    revoked_world.capabilities &&& sample_consts.PresentCapabilityAsync = 0 ∧
    revoked_world.sna.flags &&& sample_consts.SNA_TEAR_FREE = 0 ∧
    check_flip__crtc revoked_world.sna 0 = true ∧
    (get_flip_bo sample_consts sample_env sample_pixmap revoked_world).1 = some 9 ∧
    revoked_world.sna.mode.flip_active = 0 ∧
    ∃ ret w' t,
      sna_present_flip sample_consts sample_env 0 8 152 sample_pixmap 0 revoked_world =
        some (ret, w') ∧
      w'.trace = revoked_world.trace ++ t ∧
      flips t = [(9, none, (sample_env.sna_page_flip revoked_world.sna.mode 9 none).1)] ∧
      async_page_flips t = 1 :=
  ⟨by decide, by decide, by decide, by decide, rfl,
   (revoked_capability_not_consulted sample_consts sample_env 0 8 152 sample_pixmap
      revoked_world 9 (by decide) (by decide) (by decide) (by decide) rfl).1⟩

/-- C9 as stated fails: on the sample device a first asynchronous flip
fails and revokes the capability (the word goes to 0), and the next
asynchronous request makes the page flip without handler all the same: the
two page flips of the trace are both without handler. -/
theorem async_retried_after_revocation_counterexample :
    (sna_present_flip sample_consts no_flip_env 0 7 151 sample_pixmap 0 sample_world).map
        (fun r => (r.1, r.2.capabilities)) = some (FALSE, 0) ∧
    ((sna_present_flip sample_consts no_flip_env 0 7 151 sample_pixmap 0 sample_world).bind
        fun r => sna_present_flip sample_consts sample_env 0 8 152 sample_pixmap 0 r.2).map
        (fun r => (r.1, flips r.2.trace)) =
      some (TRUE, [(9, none, 0), (9, none, 1)]) :=
  ⟨by decide, rfl⟩

/-! ## The queued unflip -/

/-- The second half of `get_flip_bo` does not read the unflip slot. -/
theorem get_flip_bo_tail_with_unflip (K : Consts) (E : Env) (pixmap : Pixmap)
    (priv : struct_sna_pixmap) (w : World) (u : Nat) :
    get_flip_bo_tail K E pixmap priv (w.with_unflip u) =
      ((get_flip_bo_tail K E pixmap priv w).1, (get_flip_bo_tail K E pixmap priv w).2.with_unflip u) := by
  unfold get_flip_bo_tail
  split_ifs
  · cases E.sna_pixmap_change_tiling pixmap priv K.I915_TILING_X <;> rfl
  · rfl

/-- `get_flip_bo` does not read the unflip slot. -/
theorem get_flip_bo_with_unflip (K : Consts) (E : Env) (pixmap : Pixmap) (w : World) (u : Nat) :
    get_flip_bo K E pixmap (w.with_unflip u) =
      ((get_flip_bo K E pixmap w).1, (get_flip_bo K E pixmap w).2.with_unflip u) := by
  unfold get_flip_bo
  cases E.sna_pixmap_move_to_gpu pixmap with
  | none => rfl
  | some priv =>
    simp only
    by_cases h : w.sna.flags &&& K.SNA_LINEAR_FB ≠ 0 ∧ priv.tiling ≠ 0
    · have h' : (w.with_unflip u).sna.flags &&& K.SNA_LINEAR_FB ≠ 0 ∧ priv.tiling ≠ 0 := h
      simp only [World.emit] at h h' ⊢
      rw [if_pos h, if_pos h']
      cases E.sna_pixmap_change_tiling pixmap priv K.I915_TILING_NONE with
      | none => rfl
      | some p =>
        exact get_flip_bo_tail_with_unflip K E pixmap p
          ((w.emit (Effect.move_to_gpu pixmap true)).emit
            (Effect.change_tiling pixmap K.I915_TILING_NONE true)) u
    · have h' : ¬ ((w.with_unflip u).sna.flags &&& K.SNA_LINEAR_FB ≠ 0 ∧ priv.tiling ≠ 0) := h
      simp only [World.emit] at h h' ⊢
      rw [if_neg h, if_neg h']
      exact get_flip_bo_tail_with_unflip K E pixmap priv (w.emit (Effect.move_to_gpu pixmap true)) u

/-- `flip` does not read the unflip slot. -/
theorem flip_with_unflip (E : Env) (crtc : Option Nat) (event_id target_msc bo : Nat)
    (w : World) (u : Nat) :
    flip E crtc event_id target_msc bo (w.with_unflip u) =
      ((flip E crtc event_id target_msc bo w).1,
        (flip E crtc event_id target_msc bo w).2.with_unflip u) := by
  by_cases hm : E.malloc = true <;>
  by_cases h : (E.sna_page_flip w.sna.mode bo
      (some { crtc := crtc, event_id := event_id, target_msc := target_msc })).1 = 0 <;>
    simp [flip, hm, h, World.emit, World.set_mode, World.with_unflip]

/-- `flip__async` does not read the unflip slot. -/
theorem flip__async_with_unflip (K : Consts) (E : Env) (crtc : Option Nat)
    (event_id target_msc bo : Nat) (w : World) (u : Nat) :
    flip__async K E crtc event_id target_msc bo (w.with_unflip u) =
      ((flip__async K E crtc event_id target_msc bo w).1,
        (flip__async K E crtc event_id target_msc bo w).2.with_unflip u) := by
  by_cases h : (E.sna_page_flip w.sna.mode bo none).1 = 0 <;>
    simp [flip__async, h, World.emit, World.set_mode, World.with_unflip]

/-- The calls `sna_present_unflip` makes do not depend on the unflip slot. -/
theorem unflip_trace_with_unflip (K : Consts) (E : Env) (event_id : Nat) (w : World) (u : Nat) :
    (sna_present_unflip K E event_id (w.with_unflip u)).trace =
      (sna_present_unflip K E event_id w).trace := by
  have e1 : (w.with_unflip u).sna.mode = w.sna.mode := rfl
  have e2 : (w.with_unflip u).sna.flags = w.sna.flags := rfl
  have e3 : (w.with_unflip u).sna.screen_pixmap = w.sna.screen_pixmap := rfl
  unfold sna_present_unflip
  rw [e1, e2, e3, get_flip_bo_with_unflip]
  split_ifs with h1 h2 h3
  · rfl
  · unfold set_front
    have e4 : (w.with_unflip u).sna.front = w.sna.front := rfl
    rw [e4]
    split_ifs <;> rfl
  · rfl
  · rcases hg : get_flip_bo K E w.sna.screen_pixmap w with ⟨b, w1⟩
    cases b with
    | none => rfl
    | some bo =>
      have e5 : (w1.with_unflip u).sna.flags = w1.sna.flags := rfl
      simp only [e5, flip__async_with_unflip, flip_with_unflip]
      by_cases hm : E.malloc = true <;>
      by_cases hf : w1.sna.flags &&& K.SNA_HAS_ASYNC_FLIP = 0 <;>
      by_cases hr1 : (E.sna_page_flip w1.sna.mode bo none).1 = 0 <;>
      by_cases hr2 : (E.sna_page_flip w1.sna.mode bo (some ⟨none, event_id, 0⟩)).1 = 0 <;>
      by_cases hr3 : (E.sna_page_flip (E.sna_page_flip w1.sna.mode bo none).2 bo
          (some ⟨none, event_id, 0⟩)).1 = 0 <;>
      simp [flip__async, flip, unflip_reset_mode, unflip_notify, World.emit, World.set_mode,
        World.with_unflip, hm, hf, hr1, hr2, hr3, FALSE, TRUE]

/-- `sna_fake_vblank` does not read the unflip slot. -/
theorem sna_fake_vblank_with_unflip (E : Env) (info : sna_present_event) (w : World) (u : Nat) :
    sna_fake_vblank E info (w.with_unflip u) =
      (sna_fake_vblank E info w).map fun r => (r.1, r.2.with_unflip u) := by
  unfold sna_fake_vblank
  cases info.crtc with
  | none => rfl
  | some c =>
    have e1 : (w.with_unflip u).sna.mode = w.sna.mode := rfl
    simp only [e1]
    cases (if (w.sna.mode.crtc c).swap.msc < info.target_msc then
        msc_to_delay E (w.sna.mode.crtc c) info.target_msc else some 0) with
    | none => rfl
    | some d =>
      simp only
      split_ifs <;> rfl

/-- `sna_present_queue_vblank` does not read the unflip slot. -/
theorem queue_vblank_with_unflip (E : Env) (crtc event_id msc : Nat) (w : World) (u : Nat) :
    sna_present_queue_vblank E crtc event_id msc (w.with_unflip u) =
      (sna_present_queue_vblank E crtc event_id msc w).map fun r => (r.1, r.2.with_unflip u) := by
  unfold sna_present_queue_vblank
  have e1 : (w.with_unflip u).sna.mode = w.sna.mode := rfl
  simp only [e1, sna_wait_vblank]
  split_ifs with h1 h2
  · rfl
  · rfl
  · have e2 : ((w.with_unflip u).emit (Effect.malloc true)).sna.mode = w.sna.mode := rfl
    have e3 : (w.emit (Effect.malloc true)).sna.mode = w.sna.mode := rfl
    simp only [e2, e3]
    cases hk : E.drmIoctl_wait_vblank
        (DRM_VBLANK_ABSOLUTE ||| DRM_VBLANK_EVENT ||| pipe_select (w.sna.mode.crtc crtc).pipe)
        (msc % U32) with
    | some reply => rfl
    | none =>
      simp only [Option.isSome_none]
      have := sna_fake_vblank_with_unflip E ⟨some crtc, event_id, msc⟩
        ((w.emit (Effect.malloc true)).emit (Effect.drmIoctl_wait_vblank
          (DRM_VBLANK_ABSOLUTE ||| DRM_VBLANK_EVENT ||| pipe_select (w.sna.mode.crtc crtc).pipe)
          (msc % U32) (some ⟨some crtc, event_id, msc⟩) false)) u
      simp only [World.emit, World.with_unflip] at this ⊢
      rw [this]
      rcases sna_fake_vblank E ⟨some crtc, event_id, msc⟩ _ with _ | ⟨b, w2⟩
      · rfl
      · cases b <;> rfl

/-- What `xchg` returns and calls does not depend on the unflip slot. -/
theorem xchg_with_unflip (E : Env) (crtc event_id target_msc : Nat) (pixmap : Pixmap)
    (sync_flip : Nat) (w : World) (u : Nat) :
    (xchg E crtc event_id target_msc pixmap sync_flip (w.with_unflip u)).map
        (fun r => (r.1, r.2.trace)) =
      (xchg E crtc event_id target_msc pixmap sync_flip w).map (fun r => (r.1, r.2.trace)) := by
  unfold xchg
  by_cases hq : pixmap = w.sna.front
  · have hq' : pixmap = (w.with_unflip u).sna.front := hq
    simp only [set_front, if_pos hq, if_pos hq']
    cases hm : E.malloc
    · rfl
    · simp only [Bool.true_eq_false, if_false, sna_wait_vblank]
      have e2 : ((w.with_unflip u).emit (Effect.malloc true)).sna.mode = w.sna.mode := rfl
      have e3 : (w.emit (Effect.malloc true)).sna.mode = w.sna.mode := rfl
      simp only [e2, e3]
      cases hk : E.drmIoctl_wait_vblank
          (DRM_VBLANK_ABSOLUTE ||| DRM_VBLANK_EVENT ||| DRM_VBLANK_NEXTONMISS |||
            pipe_select (w.sna.mode.crtc crtc).pipe) (target_msc % U32) with
      | some reply => rfl
      | none =>
        simp only [Option.isSome_none]
        have := sna_fake_vblank_with_unflip E ⟨some crtc, event_id, target_msc⟩
          ((w.emit (Effect.malloc true)).emit (Effect.drmIoctl_wait_vblank
            (DRM_VBLANK_ABSOLUTE ||| DRM_VBLANK_EVENT ||| DRM_VBLANK_NEXTONMISS |||
              pipe_select (w.sna.mode.crtc crtc).pipe)
            (target_msc % U32) (some ⟨some crtc, event_id, target_msc⟩) false)) u
        simp only [World.emit, World.with_unflip] at this ⊢
        rw [this]
        rcases sna_fake_vblank E ⟨some crtc, event_id, target_msc⟩ _ with _ | ⟨b, w2⟩
        · rfl
        · cases b <;> rfl
  · have hq' : ¬ pixmap = (w.with_unflip u).sna.front := hq
    simp only [set_front, if_neg hq, if_neg hq']
    cases hm : E.malloc
    · rfl
    · simp only [Bool.true_eq_false, if_false, if_true, World.emit, World.with_unflip]
      cases h0 : w.sna.hook0 with
      | none => rfl
      | some nb0 =>
        cases h1 : w.sna.hook1 with
        | none => rfl
        | some old =>
          simp only [run_notifier]
          cases hf : old.func with
          | other id => rfl
          | xchg_handler =>
            simp only [xchg_handler]
            cases hc : old.data.crtc with
            | none => rfl
            | some c => rfl

/-- What `sna_present_flip` returns and calls does not depend on the unflip
slot. -/
theorem sna_present_flip_with_unflip (K : Consts) (E : Env) (crtc event_id target_msc : Nat)
    (pixmap : Pixmap) (sync_flip : Nat) (w : World) (u : Nat) :
    (sna_present_flip K E crtc event_id target_msc pixmap sync_flip (w.with_unflip u)).map
        (fun r => (r.1, r.2.trace)) =
      (sna_present_flip K E crtc event_id target_msc pixmap sync_flip w).map
        (fun r => (r.1, r.2.trace)) := by
  have e0 : (w.with_unflip u).sna.mode = w.sna.mode := rfl
  unfold sna_present_flip
  simp only [check_flip__crtc, e0, get_flip_bo_with_unflip]
  split_ifs with h1 h2 h3
  all_goals try rfl
  all_goals
    rcases hg : get_flip_bo K E pixmap w with ⟨b, w1⟩
    cases b with
    | none => rfl
    | some bo =>
      have e1 : (w1.with_unflip u).sna.mode = w1.sna.mode := rfl
      have e2 : (w1.with_unflip u).sna.flags = w1.sna.flags := rfl
      simp only [e1, e2, flip_with_unflip, flip__async_with_unflip]
      split_ifs
      all_goals first
        | rfl
        | exact xchg_with_unflip E crtc event_id target_msc pixmap sync_flip w1 u

/-- What `present_flip_handler` does: it notifies the completed flip, then,
when an unflip is queued, calls `sna_present_unflip` with the queued id, and
frees the record; the slot is 0 afterwards. -/
theorem present_flip_handler_unflip (K : Consts) (E : Env) (event : drm_event_vblank)
    (info : sna_present_event) (w : World) :
    (present_flip_handler K E event info w).sna.present_unflip = 0 ∧
    (w.sna.present_unflip = 0 →
      present_flip_handler K E event info w =
        (w.emit (flip_completion E event info w)).emit (Effect.free_info info)) ∧
    (w.sna.present_unflip ≠ 0 →
      (present_flip_handler K E event info w).trace =
        (sna_present_unflip K E w.sna.present_unflip
          (w.emit (flip_completion E event info w))).trace ++ [Effect.free_info info]) := by
  unfold present_flip_handler flip_completion
  simp only [World.emit]
  refine ⟨?_, ?_, ?_⟩
  · split_ifs with hu
    · rfl
    · simpa using hu
  · intro hu
    simp [hu]
  · intro hu
    simp [hu]

/-- C10: a call of `sna_present_unflip` with the front active, no RandR
transform, no TearFree and flips outstanding only stores the event id in
`sna->present.unflip`: the trace is as before (no page flip, no mode
restore, no notification) and the rest of the state is untouched.
`present_flip_handler` notifies the completed flip first, then calls
`sna_present_unflip` with the stored id when the slot is non-zero, and
leaves the slot 0 in every case. No other entry point reads the slot: what
`sna_present_unflip`, `sna_present_flip` and `sna_present_queue_vblank`
return and call is the same whatever the slot holds. -/
theorem deferred_unflip (K : Consts) (E : Env) (event_id : Nat) (w : World)
    (hfront : w.sna.mode.front_active ≠ 0) (hrr : w.sna.mode.rr_active = 0)
    (htf : w.sna.flags &&& K.SNA_TEAR_FREE = 0) (hfa : w.sna.mode.flip_active ≠ 0) :
    sna_present_unflip K E event_id w = w.with_unflip event_id ∧
    (w.with_unflip event_id).trace = w.trace ∧
    (∀ (event : drm_event_vblank) (info : sna_present_event) (w0 : World),
      (present_flip_handler K E event info w0).sna.present_unflip = 0 ∧
      (w0.sna.present_unflip = 0 →
        present_flip_handler K E event info w0 =
          (w0.emit (flip_completion E event info w0)).emit (Effect.free_info info)) ∧
      (w0.sna.present_unflip ≠ 0 →
        (present_flip_handler K E event info w0).trace =
          (sna_present_unflip K E w0.sna.present_unflip
            (w0.emit (flip_completion E event info w0))).trace ++ [Effect.free_info info])) ∧
    (∀ (u id : Nat) (w0 : World),
      (sna_present_unflip K E id (w0.with_unflip u)).trace =
        (sna_present_unflip K E id w0).trace) ∧
    (∀ (u crtc id target_msc : Nat) (pixmap : Pixmap) (sync_flip : Nat) (w0 : World),
      (sna_present_flip K E crtc id target_msc pixmap sync_flip (w0.with_unflip u)).map
          (fun r => (r.1, r.2.trace)) =
        (sna_present_flip K E crtc id target_msc pixmap sync_flip w0).map
          (fun r => (r.1, r.2.trace))) ∧
    (∀ (u crtc id msc : Nat) (w0 : World),
      sna_present_queue_vblank E crtc id msc (w0.with_unflip u) =
        (sna_present_queue_vblank E crtc id msc w0).map fun r => (r.1, r.2.with_unflip u)) := by
  refine ⟨?_, rfl, fun event info w0 => present_flip_handler_unflip K E event info w0,
    fun u id w0 => unflip_trace_with_unflip K E id w0 u,
    fun u crtc id target_msc pixmap sync_flip w0 =>
      sna_present_flip_with_unflip K E crtc id target_msc pixmap sync_flip w0 u,
    fun u crtc id msc w0 => queue_vblank_with_unflip E crtc id msc w0 u⟩
  unfold sna_present_unflip
  rw [if_neg (by simp [hfront, hrr]), if_neg (by simp [htf]), if_pos hfa]
  rfl

/-- C10 on the sample device with one flip outstanding: the unflip of event
5 is stored and nothing is called; when the flip completes with the unflip
queued, the handler notifies the flip (event 7, sequence 150), runs the
unflip of event 5 and leaves the slot 0. -/
theorem deferred_unflip_witness :
    busy_world.sna.mode.front_active ≠ 0 ∧ busy_world.sna.mode.rr_active = 0 ∧
    busy_world.sna.flags &&& sample_consts.SNA_TEAR_FREE = 0 ∧
    busy_world.sna.mode.flip_active ≠ 0 ∧
    sna_present_unflip sample_consts sample_env 5 busy_world = busy_world.with_unflip 5 ∧
    (busy_world.with_unflip 5).sna.present_unflip = 5 ∧
    (busy_world.with_unflip 5).trace = [] ∧
    (present_flip_handler sample_consts sample_env
        { sequence := 151, tv_sec := 2, tv_usec := 516000 }
        { crtc := some 0, event_id := 7, target_msc := 151 }
        (sample_world.with_unflip 5)).sna.present_unflip = 0 ∧
    notifs (present_flip_handler sample_consts sample_env
        { sequence := 151, tv_sec := 2, tv_usec := 516000 }
        { crtc := some 0, event_id := 7, target_msc := 151 }
        (sample_world.with_unflip 5)).trace = [(7, 2500000, 150), (5, 2520000, 0)] :=
  ⟨by decide, rfl, by decide, by decide,
   (deferred_unflip sample_consts sample_env 5 busy_world (by decide) rfl (by decide)
      (by decide)).1,
   rfl, rfl, rfl, by decide⟩

/-! ## The delay of the software timer -/

end SnaPresent

namespace IntelDevice

/-! ## The reference counts of the device node -/

theorem int32_of_range (x : Int) (h1 : -2 ^ 31 ≤ x) (h2 : x < 2 ^ 31) : int32 x = x := by
  unfold int32
  omega

@[simp] theorem int32_zero : int32 0 = 0 := by decide

@[simp] theorem fd_closed_nil : fd_closed [] = false := rfl

@[simp] theorem dev_freed_nil : dev_freed [] = false := rfl

theorem put_device_cases (s : Scrn) (dev : intel_device) (he : s.entityList = true)
    (hp : s.ptr = some dev) (h1 : -2 ^ 31 < dev.open_count) (h2 : dev.open_count < 2 ^ 31) :
    (dev.open_count - 1 ≠ 0 ∧
      intel_put_device s
        = some { s with ptr := some { dev with open_count := dev.open_count - 1 } }) ∨
    (dev.open_count - 1 = 0 ∧
      intel_put_device s
        = some { s with
            ptr := none,
            trace := s.trace ++ ([Call.drmClose dev.fd]
              ++ (if dev.render_node ≠ dev.master_node then [Call.free_node dev.render_node]
                  else [])
              ++ [Call.free_node dev.master_node, Call.free_dev]) }) := by
  have e : int32 (dev.open_count - 1) = dev.open_count - 1 :=
    int32_of_range _ (by omega) (by omega)
  by_cases h : dev.open_count - 1 = 0
  · right
    refine ⟨h, ?_⟩
    by_cases hn : dev.render_node = dev.master_node <;>
      simp [intel_put_device, intel_device_of, he, hp, e, h, hn, Scrn.store, Scrn.emit,
        intel_set_device_null]
  · left
    refine ⟨h, ?_⟩
    simp [intel_put_device, intel_device_of, he, hp, e, h, Scrn.store]

theorem get_device_held (K : Kernel) (s : Scrn) (dev : intel_device) (he : s.entityList = true)
    (hp : s.ptr = some dev) (h1 : 1 ≤ dev.open_count) (h2 : dev.open_count < 2 ^ 31 - 1) :
    intel_get_device K s
      = some (dev.fd, { s with ptr := some { dev with open_count := dev.open_count + 1 } }) := by
  have e : int32 (dev.open_count + 1) = dev.open_count + 1 :=
    int32_of_range _ (by omega) (by omega)
  have h0 : dev.open_count ≠ 0 := by omega
  simp [intel_get_device, intel_device_of, he, hp, e, h0, Scrn.store]

/-- C12: `intel_put_device` on a present device decrements `open_count` by
one; it closes the fd, frees the record and clears the entity's pointer if
and only if the decremented count is zero; with `open_count >= 2` it makes no
call and leaves fd, `master_count`, the node names and the pointer as they
were; and with `open_count >= 1` an `intel_get_device` succeeds, returning the
fd, and the `intel_put_device` after it gives back the record as it was,
without any call. -/
theorem put_device_deferred_close (s : Scrn) (dev : intel_device) (he : s.entityList = true)
    (hp : s.ptr = some dev) (h1 : -2 ^ 31 < dev.open_count) (h2 : dev.open_count < 2 ^ 31) :
    ∃ s' t, intel_put_device s = some s' ∧ s'.trace = s.trace ++ t ∧
      (fd_closed t = true ↔ dev.open_count - 1 = 0) ∧
      (dev_freed t = true ↔ dev.open_count - 1 = 0) ∧
      (s'.ptr = none ↔ dev.open_count - 1 = 0) ∧
      (dev.open_count - 1 ≠ 0 →
        s'.ptr = some { dev with open_count := dev.open_count - 1 }) ∧
      (2 ≤ dev.open_count → t = [] ∧ ∃ d, s'.ptr = some d ∧
        d.open_count = dev.open_count - 1 ∧ d.fd = dev.fd ∧
        d.master_count = dev.master_count ∧ d.master_node = dev.master_node ∧
        d.render_node = dev.render_node) ∧
      (1 ≤ dev.open_count → dev.open_count < 2 ^ 31 - 1 → ∀ K : Kernel, ∃ s1 s2,
        intel_get_device K s = some (dev.fd, s1) ∧ intel_put_device s1 = some s2 ∧
        s2.ptr = some dev ∧ s2.trace = s.trace) := by
  have hpair : 1 ≤ dev.open_count → dev.open_count < 2 ^ 31 - 1 → ∀ K : Kernel, ∃ s1 s2,
      intel_get_device K s = some (dev.fd, s1) ∧ intel_put_device s1 = some s2 ∧
      s2.ptr = some dev ∧ s2.trace = s.trace := by
    intro g1 g2 K
    rcases put_device_cases { s with ptr := some { dev with open_count := dev.open_count + 1 } }
      { dev with open_count := dev.open_count + 1 } he rfl (by simp; omega) (by simp; omega)
      with ⟨_, h⟩ | ⟨h, _⟩
    · exact ⟨_, _, get_device_held K s dev he hp g1 g2, h, by simp, rfl⟩
    · simp at h
      omega
  rcases put_device_cases s dev he hp h1 h2 with ⟨h, hs⟩ | ⟨h, hs⟩
  · refine ⟨_, [], hs, by simp, by simp [h], by simp [h], by simp [h], fun _ => rfl, ?_, hpair⟩
    intro _
    exact ⟨rfl, _, rfl, rfl, rfl, rfl, rfl, rfl⟩
  · refine ⟨_, _, hs, rfl, ?_, ?_, by simp [h], fun hn => absurd h hn, ?_, hpair⟩
    · simp [h, fd_closed]
    · simp [h, dev_freed]
    · intro h2
      omega

/-- C12 at the sample device, opened twice. -/
theorem put_device_deferred_close_witness :
    ∃ s' t, intel_put_device sample_scrn = some s' ∧ s'.trace = sample_scrn.trace ++ t ∧
      (fd_closed t = true ↔ sample_dev.open_count - 1 = 0) ∧
      (dev_freed t = true ↔ sample_dev.open_count - 1 = 0) ∧
      (s'.ptr = none ↔ sample_dev.open_count - 1 = 0) ∧
      (sample_dev.open_count - 1 ≠ 0 →
        s'.ptr = some { sample_dev with open_count := sample_dev.open_count - 1 }) ∧
      (2 ≤ sample_dev.open_count → t = [] ∧ ∃ d, s'.ptr = some d ∧
        d.open_count = sample_dev.open_count - 1 ∧ d.fd = sample_dev.fd ∧
        d.master_count = sample_dev.master_count ∧ d.master_node = sample_dev.master_node ∧
        d.render_node = sample_dev.render_node) ∧
      (1 ≤ sample_dev.open_count → sample_dev.open_count < 2 ^ 31 - 1 → ∀ K : Kernel, ∃ s1 s2,
        intel_get_device K sample_scrn = some (sample_dev.fd, s1) ∧
        intel_put_device s1 = some s2 ∧
        s2.ptr = some sample_dev ∧ s2.trace = sample_scrn.trace) :=
  put_device_deferred_close sample_scrn sample_dev rfl rfl (by decide) (by decide)

@[simp] theorem set_master_attempted_nil : set_master_attempted [] = false := rfl

@[simp] theorem master_dropped_nil : master_dropped [] = false := rfl

theorem set_master_loop_trace (K : Kernel) (fd : Int) (n k : Nat) (s : Scrn) :
    ∃ t, (set_master_loop K fd n k s).2 = { s with trace := s.trace ++ t } ∧
      set_master_attempted t = true ∧ master_dropped t = false := by
  induction n generalizing k s with
  | zero =>
    by_cases h : K.drmSetMaster k = 0
    · exact ⟨[.drmSetMaster fd (K.drmSetMaster k)], by simp [set_master_loop, h, Scrn.emit],
        by simp [set_master_attempted], by simp [master_dropped]⟩
    · exact ⟨[.drmSetMaster fd (K.drmSetMaster k), .usleep 1000],
        by simp [set_master_loop, h, Scrn.emit], by simp [set_master_attempted],
        by simp [master_dropped]⟩
  | succ n ih =>
    by_cases h : K.drmSetMaster k = 0
    · exact ⟨[.drmSetMaster fd (K.drmSetMaster k)], by simp [set_master_loop, h, Scrn.emit],
        by simp [set_master_attempted], by simp [master_dropped]⟩
    · obtain ⟨t, ht, ha, hd⟩ := ih (k + 1)
        ((s.emit (.drmSetMaster fd (K.drmSetMaster k))).emit (.usleep 1000))
      refine ⟨[.drmSetMaster fd (K.drmSetMaster k), .usleep 1000] ++ t, ?_, ?_, ?_⟩
      · simp only [set_master_loop, h, if_false]
        rw [ht]
        simp [Scrn.emit]
      · simp [set_master_attempted]
      · simpa [master_dropped] using hd

/-- What one call of the master pair does to a screen that holds a device:
the record stays in place with the count moved by one, `drmSetMaster` is
attempted exactly by a get that found the count at 0, `drmDropMaster` is
called exactly by a put that left the count at 0. -/
theorem master_step_spec (s : Scrn) (dev : intel_device) (c : MasterOp × Kernel)
    (hd : intel_device_of s = some dev) :
    ∃ s' dev' t, master_step s c = some s' ∧ intel_device_of s' = some dev' ∧
      s'.trace = s.trace ++ t ∧
      (c.1 = .get → dev'.master_count = int32 (dev.master_count + 1) ∧
        (set_master_attempted t = true ↔ dev.master_count = 0) ∧ master_dropped t = false) ∧
      (c.1 = .put → dev'.master_count = int32 (dev.master_count - 1) ∧
        (master_dropped t = true ↔ dev'.master_count = 0) ∧ set_master_attempted t = false) := by
  obtain ⟨op, K⟩ := c
  have he : s.entityList = true := by
    unfold intel_device_of at hd
    by_cases h : s.entityList = false
    · simp [h] at hd
    · simpa using h
  have hp : s.ptr = some dev := by simpa [intel_device_of, he] using hd
  cases op with
  | get =>
    by_cases h0 : dev.master_count = 0
    · obtain ⟨t, ht, ha, hdr⟩ := set_master_loop_trace K dev.fd 1999 0
        (s.store { dev with master_count := int32 (dev.master_count + 1) })
      refine ⟨(set_master_loop K dev.fd 1999 0
          (s.store { dev with master_count := int32 (dev.master_count + 1) })).2,
        { dev with master_count := int32 (dev.master_count + 1) }, t,
        by simp [master_step, intel_get_master, hd, h0], ?_, ?_, ?_, ?_⟩
      · rw [ht]; simp [intel_device_of, he, Scrn.store]
      · rw [ht]; simp [Scrn.store]
      · intro _
        exact ⟨rfl, by simp [ha, h0], hdr⟩
      · intro h; cases h
    · refine ⟨_, { dev with master_count := int32 (dev.master_count + 1) }, [],
        by simp [master_step, intel_get_master, hd, h0]; rfl, ?_, by simp [Scrn.store], ?_, ?_⟩
      · simp [intel_device_of, he, Scrn.store]
      · intro _
        exact ⟨rfl, by simp [h0], rfl⟩
      · intro h; cases h
  | put =>
    by_cases h0 : int32 (dev.master_count - 1) = 0
    · refine ⟨_, { dev with master_count := int32 (dev.master_count - 1) },
        [.drmDropMaster dev.fd K.drmDropMaster],
        by simp [master_step, intel_put_master, hd, h0]; rfl, ?_, by simp [Scrn.store, Scrn.emit],
        ?_, ?_⟩
      · simp [intel_device_of, he, Scrn.store, Scrn.emit, h0]
      · intro h; cases h
      · intro _
        exact ⟨rfl, by simp [h0, master_dropped], by simp [set_master_attempted]⟩
    · refine ⟨_, { dev with master_count := int32 (dev.master_count - 1) }, [],
        by simp [master_step, intel_put_master, hd, h0]; rfl, ?_, by simp [Scrn.store], ?_, ?_⟩
      · simp [intel_device_of, he, Scrn.store]
      · intro h; cases h
      · intro _
        exact ⟨rfl, by simp [h0], rfl⟩

theorem master_run_total (cs : List (MasterOp × Kernel)) (s : Scrn) (dev : intel_device)
    (hd : intel_device_of s = some dev) :
    ∃ s' dev', master_run cs s = some s' ∧ intel_device_of s' = some dev' := by
  induction cs generalizing s dev with
  | nil => exact ⟨s, dev, rfl, hd⟩
  | cons c cs ih =>
    obtain ⟨s1, dev1, _, h1, hd1, _⟩ := master_step_spec s dev c hd
    obtain ⟨s2, dev2, h2, hd2⟩ := ih s1 dev1 hd1
    exact ⟨s2, dev2, by simp [master_run, h1, h2], hd2⟩

theorem master_run_append (pre post : List (MasterOp × Kernel)) (s : Scrn) :
    master_run (pre ++ post) s = (master_run pre s).bind (master_run post) := by
  induction pre generalizing s with
  | nil => simp [master_run]
  | cons c cs ih =>
    cases h : master_step s c with
    | none => simp [master_run, h]
    | some s1 => simp [master_run, h, ih]

theorem master_pair_held (s : Scrn) (dev : intel_device) (K1 K2 : Kernel)
    (hd : intel_device_of s = some dev) (h1 : 1 ≤ dev.master_count)
    (h2 : dev.master_count < 2 ^ 31 - 1) :
    master_run [(.get, K1), (.put, K2)] s = some { s with ptr := some dev } := by
  have he : s.entityList = true := by
    unfold intel_device_of at hd
    by_cases h : s.entityList = false
    · simp [h] at hd
    · simpa using h
  have e1 : int32 (dev.master_count + 1) = dev.master_count + 1 :=
    int32_of_range _ (by omega) (by omega)
  have e2 : int32 dev.master_count = dev.master_count :=
    int32_of_range _ (by omega) (by omega)
  have h0 : dev.master_count ≠ 0 := by omega
  have hp : s.ptr = some dev := by simpa [intel_device_of, he] using hd
  simp [master_run, master_step, intel_get_master, intel_put_master, hp, h0, e1, e2,
    intel_device_of, he, Scrn.store]

/-- C13: in every sequence of `intel_get_master` and `intel_put_master` calls
on a screen that holds a device, whatever the kernel answers, every call
returns; a get attempts `drmSetMaster` exactly when it found `master_count`
at 0 and never drops master; a put calls `drmDropMaster` exactly when its
decrement left `master_count` at 0 and never attempts `drmSetMaster`; and a
get directly followed by a put, entered with `master_count >= 1`, makes no
call at all and leaves the record as it found it. -/
theorem nested_master_counting (s0 : Scrn) (dev0 : intel_device)
    (hd : intel_device_of s0 = some dev0) (cs : List (MasterOp × Kernel)) :
    (∃ s', master_run cs s0 = some s') ∧
    (∀ pre c post, cs = pre ++ c :: post →
      ∃ s dev s' dev' t, master_run pre s0 = some s ∧ intel_device_of s = some dev ∧
        master_step s c = some s' ∧ intel_device_of s' = some dev' ∧
        s'.trace = s.trace ++ t ∧
        (c.1 = .get → dev'.master_count = int32 (dev.master_count + 1) ∧
          (set_master_attempted t = true ↔ dev.master_count = 0) ∧
          master_dropped t = false) ∧
        (c.1 = .put → dev'.master_count = int32 (dev.master_count - 1) ∧
          (master_dropped t = true ↔ dev'.master_count = 0) ∧
          set_master_attempted t = false)) ∧
    (∀ pre K1 K2 post, cs = pre ++ (.get, K1) :: (.put, K2) :: post →
      ∃ s dev, master_run pre s0 = some s ∧ intel_device_of s = some dev ∧
        (1 ≤ dev.master_count → dev.master_count < 2 ^ 31 - 1 →
          ∃ s2, master_run (pre ++ [(.get, K1), (.put, K2)]) s0 = some s2 ∧
            intel_device_of s2 = some dev ∧ s2.trace = s.trace)) := by
  refine ⟨?_, ?_, ?_⟩
  · obtain ⟨s', _, h, _⟩ := master_run_total cs s0 dev0 hd
    exact ⟨s', h⟩
  · intro pre c post _
    obtain ⟨s, dev, hs, hdev⟩ := master_run_total pre s0 dev0 hd
    obtain ⟨s', dev', t, h1, h2, h3, h4, h5⟩ := master_step_spec s dev c hdev
    exact ⟨s, dev, s', dev', t, hs, hdev, h1, h2, h3, h4, h5⟩
  · intro pre K1 K2 post _
    obtain ⟨s, dev, hs, hdev⟩ := master_run_total pre s0 dev0 hd
    refine ⟨s, dev, hs, hdev, ?_⟩
    intro h1 h2
    refine ⟨{ s with ptr := some dev }, ?_, ?_, rfl⟩
    · rw [master_run_append, hs]
      exact master_pair_held s dev K1 K2 hdev h1 h2
    · unfold intel_device_of at hdev ⊢
      by_cases h : s.entityList = false
      · simp [h] at hdev
      · simp [h]

/-- C13 at the sample device, master held once: two gets, then three puts, the
last of which drops master. -/
theorem nested_master_counting_witness :
    (∃ s', master_run [(.get, willing_kernel), (.get, willing_kernel), (.put, willing_kernel),
        (.put, willing_kernel), (.put, willing_kernel)] sample_scrn = some s') ∧
    (∀ pre c post, [(MasterOp.get, willing_kernel), (.get, willing_kernel),
        (.put, willing_kernel), (.put, willing_kernel), (.put, willing_kernel)]
        = pre ++ c :: post →
      ∃ s dev s' dev' t, master_run pre sample_scrn = some s ∧ intel_device_of s = some dev ∧
        master_step s c = some s' ∧ intel_device_of s' = some dev' ∧
        s'.trace = s.trace ++ t ∧
        (c.1 = .get → dev'.master_count = int32 (dev.master_count + 1) ∧
          (set_master_attempted t = true ↔ dev.master_count = 0) ∧
          master_dropped t = false) ∧
        (c.1 = .put → dev'.master_count = int32 (dev.master_count - 1) ∧
          (master_dropped t = true ↔ dev'.master_count = 0) ∧
          set_master_attempted t = false)) ∧
    (∀ pre K1 K2 post, [(MasterOp.get, willing_kernel), (.get, willing_kernel),
        (.put, willing_kernel), (.put, willing_kernel), (.put, willing_kernel)]
        = pre ++ (.get, K1) :: (.put, K2) :: post →
      ∃ s dev, master_run pre sample_scrn = some s ∧ intel_device_of s = some dev ∧
        (1 ≤ dev.master_count → dev.master_count < 2 ^ 31 - 1 →
          ∃ s2, master_run (pre ++ [(.get, K1), (.put, K2)]) sample_scrn = some s2 ∧
            intel_device_of s2 = some dev ∧ s2.trace = s.trace)) :=
  nested_master_counting sample_scrn sample_dev rfl _

end IntelDevice

namespace I830

/-! ## The memory checks of `I830PreInit` -/

theorem I830ReduceMMSize_floor (P : Params) (hP : 0 < P.GTT_PAGE_SIZE) (s : PreInit) :
    I830ReduceMMSize P (P.I830_MM_MINPAGES * P.GTT_PAGE_SIZE) s
      = { s with mmSize := 0, trace := s.trace ++ [.xf86DrvMsg .mm_disabled] } := by
  have h : ROUND_DOWN_TO (P.I830_MM_MINPAGES * P.GTT_PAGE_SIZE) P.GTT_PAGE_SIZE / P.GTT_PAGE_SIZE
      = P.I830_MM_MINPAGES := by
    unfold ROUND_DOWN_TO
    rw [Nat.mul_div_cancel _ hP, Nat.mul_div_cancel _ hP]
  simp [I830ReduceMMSize, h, PreInit.emit]

theorem not_above_floor_zero (P : Params) (s : PreInit) (h : s.mmSize = 0) :
    ¬ above_floor P s := by
  unfold above_floor KB
  rw [h]
  simp
  positivity

@[simp] theorem tiled_runs_nil : tiled_runs [] = [] := rfl

@[simp] theorem untiled_runs_nil : untiled_runs [] = [] := rfl

@[simp] theorem tiled_runs_msg (m : Msg) (t : List Event) :
    tiled_runs (.xf86DrvMsg m :: t) = tiled_runs t := rfl

@[simp] theorem untiled_runs_msg (m : Msg) (t : List Event) :
    untiled_runs (.xf86DrvMsg m :: t) = untiled_runs t := rfl

@[simp] theorem tiled_runs_tiled (f : List alloc_flag) (r : dry_run) (t : List Event) :
    tiled_runs (.dry_run f [.ALLOCATE_DRY_RUN] r :: t) = r :: tiled_runs t := by
  simp [tiled_runs]

@[simp] theorem untiled_runs_tiled (f : List alloc_flag) (r : dry_run) (t : List Event) :
    untiled_runs (.dry_run f [.ALLOCATE_DRY_RUN] r :: t) = untiled_runs t := by
  simp [untiled_runs]

@[simp] theorem tiled_runs_untiled (f : List alloc_flag) (r : dry_run) (t : List Event) :
    tiled_runs (.dry_run f [.ALLOCATE_DRY_RUN, .ALLOC_NO_TILING] r :: t) = tiled_runs t := by
  simp [tiled_runs]

@[simp] theorem untiled_runs_untiled (f : List alloc_flag) (r : dry_run) (t : List Event) :
    untiled_runs (.dry_run f [.ALLOCATE_DRY_RUN, .ALLOC_NO_TILING] r :: t)
      = r :: untiled_runs t := by
  simp [untiled_runs]

theorem tiled_runs_append (a b : List Event) :
    tiled_runs (a ++ b) = tiled_runs a ++ tiled_runs b := by
  induction a with
  | nil => rfl
  | cons e a ih =>
    cases e with
    | xf86DrvMsg m => simpa using ih
    | dry_run f2 f3 r =>
      by_cases h : f3 = [.ALLOCATE_DRY_RUN] <;> simp [tiled_runs, h, ih]

theorem untiled_runs_append (a b : List Event) :
    untiled_runs (a ++ b) = untiled_runs a ++ untiled_runs b := by
  induction a with
  | nil => rfl
  | cons e a ih =>
    cases e with
    | xf86DrvMsg m => simpa using ih
    | dry_run f2 f3 r =>
      by_cases h : f3 = [.ALLOCATE_DRY_RUN, .ALLOC_NO_TILING] <;> simp [untiled_runs, h, ih]

/-- One pass through `retry_dryrun` that does not jump back. -/
theorem retry_dryrun_once (P : Params) (A : Allocator) (d : Int) (s : PreInit)
    (r : dry_run) (hr : A.run s [.ALLOCATE_DRY_RUN, .ALLOC_INITIAL] [.ALLOCATE_DRY_RUN] = r)
    (h : ¬ (r.allocated = true ∧ r.aperture < 0 ∧ above_floor P s)) :
    ∃ t, tiled_runs t = [r] ∧ untiled_runs t = [] ∧
      ∀ fuel, retry_dryrun P A d (fuel + 1) s
        = some
          (if r.allocated then r.excess else 0,
           { s with
              MemoryAperture_Size := r.aperture,
              displayWidth := if r.allocated && r.over then d else s.displayWidth,
              allowPageFlip := if r.allocated && r.over then false else s.allowPageFlip,
              trace := s.trace ++ t }) := by
  by_cases hf : (P.I830_MM_MINPAGES : Int) * (P.GTT_PAGE_SIZE : Int) < KB s.mmSize
  · have hn : ¬ (r.allocated = true ∧ r.aperture < 0) :=
      fun ⟨a, b⟩ => h ⟨a, b, by simpa [above_floor] using hf⟩
    by_cases h2 : r.Allocate2D = true <;> by_cases h3 : r.Allocate3D = true <;>
      by_cases he : r.excess > 0 <;> by_cases ha : r.aperture < 0 <;>
      by_cases hw : s.displayWidth = d <;>
      simp [dry_run.allocated, h2, h3, ha] at hn <;>
      simp [retry_dryrun, hr, h2, h3, he, ha, hw, hf, PreInit.emit, dry_run.allocated,
        dry_run.over]
  · by_cases h2 : r.Allocate2D = true <;> by_cases h3 : r.Allocate3D = true <;>
      by_cases he : r.excess > 0 <;> by_cases ha : r.aperture < 0 <;>
      by_cases hw : s.displayWidth = d <;>
      simp [retry_dryrun, hr, h2, h3, he, ha, hw, hf, PreInit.emit, dry_run.allocated,
        dry_run.over]

/-- The pass through `retry_dryrun` that jumps back. -/
theorem retry_dryrun_jump (P : Params) (A : Allocator) (d : Int) (fuel : Nat) (s : PreInit)
    (r : dry_run) (hr : A.run s [.ALLOCATE_DRY_RUN, .ALLOC_INITIAL] [.ALLOCATE_DRY_RUN] = r)
    (h : r.allocated = true ∧ r.aperture < 0 ∧ above_floor P s) :
    retry_dryrun P A d (fuel + 1) s
      = retry_dryrun P A d fuel
          (I830ReduceMMSize P (P.I830_MM_MINPAGES * P.GTT_PAGE_SIZE)
            { s with
              MemoryAperture_Size := r.aperture,
              trace := s.trace
                ++ (.dry_run [.ALLOCATE_DRY_RUN, .ALLOC_INITIAL] [.ALLOCATE_DRY_RUN] r
                  :: if r.excess > 0
                    then [.xf86DrvMsg (.tiling_needs (Int.tdiv (r.excess + 1023) 1024))]
                    else []) }) := by
  obtain ⟨h1, ha, hf⟩ := h
  have hf' : (P.I830_MM_MINPAGES : Int) * (P.GTT_PAGE_SIZE : Int) < KB s.mmSize := by
    simpa [above_floor] using hf
  have h2 : r.Allocate2D = true := by
    simp [dry_run.allocated] at h1; exact h1.1
  have h3 : r.Allocate3D = true := by
    simp [dry_run.allocated] at h1; exact h1.2
  by_cases he : r.excess > 0 <;>
    simp [retry_dryrun, hr, h2, h3, he, ha, hf', PreInit.emit]

/-- What `retry_dryrun` does, given fuel for two passes: it returns, after one
dry run, or after two with the reservation above the floor before the first
and at zero for the second; the last dry run `r` decides `memNeeded`,
`displayWidth` and `allowPageFlip`. -/
theorem retry_dryrun_spec (P : Params) (A : Allocator) (d : Int) (s : PreInit)
    (hP : 0 < P.GTT_PAGE_SIZE) :
    ∃ (t : List Event) (r : dry_run) (mm : Int),
      (∀ fuel, retry_dryrun P A d (fuel + 2) s
        = some
          (if r.allocated then r.excess else 0,
           { s with
              MemoryAperture_Size := r.aperture,
              displayWidth := if r.allocated && r.over then d else s.displayWidth,
              allowPageFlip := if r.allocated && r.over then false else s.allowPageFlip,
              mmSize := mm,
              trace := s.trace ++ t })) ∧
      untiled_runs t = [] ∧
      ((tiled_runs t = [r] ∧ mm = s.mmSize) ∨
        (∃ r1, tiled_runs t = [r1, r] ∧ mm = 0 ∧ above_floor P s ∧ r1.allocated = true ∧
          r1.aperture < 0)) := by
  by_cases hj : (A.run s [.ALLOCATE_DRY_RUN, .ALLOC_INITIAL] [.ALLOCATE_DRY_RUN]).allocated = true
      ∧ (A.run s [.ALLOCATE_DRY_RUN, .ALLOC_INITIAL] [.ALLOCATE_DRY_RUN]).aperture < 0
      ∧ above_floor P s
  · generalize hr1 : A.run s [.ALLOCATE_DRY_RUN, .ALLOC_INITIAL] [.ALLOCATE_DRY_RUN] = r1 at hj
    generalize hs2 : I830ReduceMMSize P (P.I830_MM_MINPAGES * P.GTT_PAGE_SIZE)
        { s with
          MemoryAperture_Size := r1.aperture,
          trace := s.trace
            ++ (.dry_run [.ALLOCATE_DRY_RUN, .ALLOC_INITIAL] [.ALLOCATE_DRY_RUN] r1
              :: if r1.excess > 0
                then [.xf86DrvMsg (.tiling_needs (Int.tdiv (r1.excess + 1023) 1024))]
                else []) } = s2
    have hs2' := hs2
    rw [I830ReduceMMSize_floor P hP] at hs2'
    have hfl : ¬ above_floor P s2 := not_above_floor_zero P s2 (by rw [← hs2'])
    generalize hr2 : A.run s2 [.ALLOCATE_DRY_RUN, .ALLOC_INITIAL] [.ALLOCATE_DRY_RUN] = r2
    obtain ⟨t2, ht2, hu2, h2⟩ := retry_dryrun_once P A d s2 r2 hr2 (fun h => hfl h.2.2)
    refine ⟨(.dry_run [.ALLOCATE_DRY_RUN, .ALLOC_INITIAL] [.ALLOCATE_DRY_RUN] r1
        :: if r1.excess > 0
          then [.xf86DrvMsg (.tiling_needs (Int.tdiv (r1.excess + 1023) 1024))]
          else []) ++ [.xf86DrvMsg .mm_disabled] ++ t2, r2, 0, ?_, ?_, ?_⟩
    · intro fuel
      rw [retry_dryrun_jump P A d (fuel + 1) s r1 hr1 hj, hs2, h2 fuel, ← hs2']
      simp
    · by_cases he : r1.excess > 0 <;> simp [untiled_runs_append, he, hu2]
    · right
      refine ⟨r1, ?_, rfl, hj.2.2, hj.1, hj.2.1⟩
      by_cases he : r1.excess > 0 <;> simp [tiled_runs_append, he, ht2]
  · generalize hr1 : A.run s [.ALLOCATE_DRY_RUN, .ALLOC_INITIAL] [.ALLOCATE_DRY_RUN] = r1 at hj
    obtain ⟨t, ht, hu, h⟩ := retry_dryrun_once P A d s r1 hr1 hj
    exact ⟨t, r1, s.mmSize, fun fuel => h (fuel + 1), hu, Or.inl ⟨ht, rfl⟩⟩

/-- One pass through `retry_dryrun2` that does not jump back. -/
theorem retry_dryrun2_once (P : Params) (A : Allocator) (s : PreInit)
    (r : dry_run)
    (hr : A.run s [.ALLOCATE_DRY_RUN, .ALLOC_INITIAL] [.ALLOCATE_DRY_RUN, .ALLOC_NO_TILING] = r)
    (h : ¬ (r.allocated = true ∧ r.aperture < 0 ∧ above_floor P s)) :
    ∃ t, untiled_runs t = [r] ∧ tiled_runs t = [] ∧
      ∀ fuel, retry_dryrun2 P A (fuel + 1) s
        = some
           { s with
              MemoryAperture_Size := r.aperture,
              mmSize := if r.allocated && r.over then 0 else s.mmSize,
              directRenderingDisabled :=
                if r.allocated && r.over then true else s.directRenderingDisabled,
              trace := s.trace ++ t } := by
  by_cases hf : (P.I830_MM_MINPAGES : Int) * (P.GTT_PAGE_SIZE : Int) < KB s.mmSize
  · have hn : ¬ (r.allocated = true ∧ r.aperture < 0) :=
      fun ⟨a, b⟩ => h ⟨a, b, by simpa [above_floor] using hf⟩
    by_cases h2 : r.Allocate2D = true <;> by_cases h3 : r.Allocate3D = true <;>
      by_cases he : r.excess > 0 <;> by_cases ha : r.aperture < 0 <;>
      simp [dry_run.allocated, h2, h3, ha] at hn <;>
      simp [retry_dryrun2, hr, h2, h3, he, ha, hf, PreInit.emit, dry_run.allocated,
        dry_run.over]
  · by_cases h2 : r.Allocate2D = true <;> by_cases h3 : r.Allocate3D = true <;>
      by_cases he : r.excess > 0 <;> by_cases ha : r.aperture < 0 <;>
      simp [retry_dryrun2, hr, h2, h3, he, ha, hf, PreInit.emit, dry_run.allocated,
        dry_run.over]

/-- The pass through `retry_dryrun2` that jumps back. -/
theorem retry_dryrun2_jump (P : Params) (A : Allocator) (fuel : Nat) (s : PreInit)
    (r : dry_run)
    (hr : A.run s [.ALLOCATE_DRY_RUN, .ALLOC_INITIAL] [.ALLOCATE_DRY_RUN, .ALLOC_NO_TILING] = r)
    (h : r.allocated = true ∧ r.aperture < 0 ∧ above_floor P s) :
    retry_dryrun2 P A (fuel + 1) s
      = retry_dryrun2 P A fuel
          (I830ReduceMMSize P (P.I830_MM_MINPAGES * P.GTT_PAGE_SIZE)
            { s with
              MemoryAperture_Size := r.aperture,
              trace := s.trace
                ++ (.dry_run [.ALLOCATE_DRY_RUN, .ALLOC_INITIAL]
                    [.ALLOCATE_DRY_RUN, .ALLOC_NO_TILING] r
                  :: if r.excess > 0
                    then [.xf86DrvMsg (.dri_needs (Int.tdiv (r.excess + 1023) 1024))]
                    else []) }) := by
  obtain ⟨h1, ha, hf⟩ := h
  have hf' : (P.I830_MM_MINPAGES : Int) * (P.GTT_PAGE_SIZE : Int) < KB s.mmSize := by
    simpa [above_floor] using hf
  have h2 : r.Allocate2D = true := by
    simp [dry_run.allocated] at h1; exact h1.1
  have h3 : r.Allocate3D = true := by
    simp [dry_run.allocated] at h1; exact h1.2
  by_cases he : r.excess > 0 <;>
    simp [retry_dryrun2, hr, h2, h3, he, ha, hf', PreInit.emit]

/-- What `retry_dryrun2` does, given fuel for two passes: it returns, after
one dry run, or after two with the reservation above the floor before the
first and at zero for the second; the last dry run `r` decides whether DRI is
disabled. -/
theorem retry_dryrun2_spec (P : Params) (A : Allocator) (s : PreInit)
    (hP : 0 < P.GTT_PAGE_SIZE) :
    ∃ (t : List Event) (r : dry_run) (mm : Int),
      (∀ fuel, retry_dryrun2 P A (fuel + 2) s
        = some
           { s with
              MemoryAperture_Size := r.aperture,
              mmSize := if r.allocated && r.over then 0 else mm,
              directRenderingDisabled :=
                if r.allocated && r.over then true else s.directRenderingDisabled,
              trace := s.trace ++ t }) ∧
      tiled_runs t = [] ∧
      (untiled_runs t).head?
        = some (A.run s [.ALLOCATE_DRY_RUN, .ALLOC_INITIAL]
            [.ALLOCATE_DRY_RUN, .ALLOC_NO_TILING]) ∧
      ((untiled_runs t = [r] ∧ mm = s.mmSize) ∨
        (∃ r1, untiled_runs t = [r1, r] ∧ mm = 0 ∧ above_floor P s ∧ r1.allocated = true ∧
          r1.aperture < 0)) := by
  by_cases hj : (A.run s [.ALLOCATE_DRY_RUN, .ALLOC_INITIAL]
        [.ALLOCATE_DRY_RUN, .ALLOC_NO_TILING]).allocated = true
      ∧ (A.run s [.ALLOCATE_DRY_RUN, .ALLOC_INITIAL]
        [.ALLOCATE_DRY_RUN, .ALLOC_NO_TILING]).aperture < 0
      ∧ above_floor P s
  · generalize hr1 : A.run s [.ALLOCATE_DRY_RUN, .ALLOC_INITIAL]
      [.ALLOCATE_DRY_RUN, .ALLOC_NO_TILING] = r1 at hj
    generalize hs2 : I830ReduceMMSize P (P.I830_MM_MINPAGES * P.GTT_PAGE_SIZE)
        { s with
          MemoryAperture_Size := r1.aperture,
          trace := s.trace
            ++ (.dry_run [.ALLOCATE_DRY_RUN, .ALLOC_INITIAL]
                [.ALLOCATE_DRY_RUN, .ALLOC_NO_TILING] r1
              :: if r1.excess > 0
                then [.xf86DrvMsg (.dri_needs (Int.tdiv (r1.excess + 1023) 1024))]
                else []) } = s2
    have hs2' := hs2
    rw [I830ReduceMMSize_floor P hP] at hs2'
    have hfl : ¬ above_floor P s2 := not_above_floor_zero P s2 (by rw [← hs2'])
    generalize hr2 : A.run s2 [.ALLOCATE_DRY_RUN, .ALLOC_INITIAL]
      [.ALLOCATE_DRY_RUN, .ALLOC_NO_TILING] = r2
    obtain ⟨t2, ht2, hu2, h2⟩ := retry_dryrun2_once P A s2 r2 hr2 (fun h => hfl h.2.2)
    refine ⟨(.dry_run [.ALLOCATE_DRY_RUN, .ALLOC_INITIAL]
          [.ALLOCATE_DRY_RUN, .ALLOC_NO_TILING] r1
        :: if r1.excess > 0
          then [.xf86DrvMsg (.dri_needs (Int.tdiv (r1.excess + 1023) 1024))]
          else []) ++ [.xf86DrvMsg .mm_disabled] ++ t2, r2, 0, ?_, ?_, ?_, ?_⟩
    · intro fuel
      rw [retry_dryrun2_jump P A (fuel + 1) s r1 hr1 hj, hs2, h2 fuel, ← hs2']
      simp
    · by_cases he : r1.excess > 0 <;> simp [tiled_runs_append, he, hu2]
    · simp [hr1]
    · right
      refine ⟨r1, ?_, rfl, hj.2.2, hj.1, hj.2.1⟩
      by_cases he : r1.excess > 0 <;> simp [untiled_runs_append, he, ht2]
  · generalize hr1 : A.run s [.ALLOCATE_DRY_RUN, .ALLOC_INITIAL]
      [.ALLOCATE_DRY_RUN, .ALLOC_NO_TILING] = r1 at hj
    obtain ⟨t, ht, hu, h⟩ := retry_dryrun2_once P A s r1 hr1 hj
    exact ⟨t, r1, s.mmSize, fun fuel => h (fuel + 1), hu, by simp [ht, hr1], Or.inl ⟨ht, rfl⟩⟩

/-- The `for` loop over `pitches`: up to 8192 it stops at the least pitch
that is at least the width and leaves that pitch; above 8192 it runs to the
end of the table and leaves the width alone. -/
theorem pitch_loop_spec (w : Int) :
    (w ≤ 8192 →
      (pitch_loop w pitches 0).2 = pitches.getD (pitch_loop w pitches 0).1 0 ∧
      (pitch_loop w pitches 0).2 ∈ [(1024 : Int), 2048, 4096, 8192] ∧
      w ≤ (pitch_loop w pitches 0).2 ∧
      ∀ p ∈ [(1024 : Int), 2048, 4096, 8192], w ≤ p → (pitch_loop w pitches 0).2 ≤ p) ∧
    (8192 < w →
      (pitch_loop w pitches 0).2 = w ∧
      (pitch_loop w pitches 0).2 ≠ pitches.getD (pitch_loop w pitches 0).1 0) := by
  constructor
  · intro h
    by_cases h1 : w ≤ 1024
    · simp [pitch_loop, pitches, h1]
    · by_cases h2 : w ≤ 2048
      · simp [pitch_loop, pitches, h1, h2]
      · by_cases h3 : w ≤ 4096
        · simp [pitch_loop, pitches, h1, h2, h3]
        · simp [pitch_loop, pitches, h1, h2, h3, h]
  · intro h
    have h1 : ¬ w ≤ 1024 := by omega
    have h2 : ¬ w ≤ 2048 := by omega
    have h3 : ¬ w ≤ 4096 := by omega
    have h4 : ¬ w ≤ 8192 := by omega
    simp [pitch_loop, pitches, h1, h2, h3, h4]
    omega

/-- The dry runs of `I830PreInit` on a width above 8192: no dry run with
tiling; the second stage runs when the aperture size was negative already. -/
theorem dry_runs_no_attempt (P : Params) (A : Allocator) (s : PreInit)
    (hd : s.directRenderingDisabled = false) (hw : 8192 < s.displayWidth) (fuel : Nat) :
    I830PreInit_dry_runs P A true fuel s
      = if s.MemoryAperture_Size < 0
        then retry_dryrun2 P A fuel { s with XvEnabled := !s.XvDisabled, disableTiling := true }
        else some { s with XvEnabled := !s.XvDisabled } := by
  obtain ⟨h1, h2⟩ := (pitch_loop_spec s.displayWidth).2 hw
  simp only [I830PreInit_dry_runs, hd, Bool.not_false, Bool.and_self, if_true]
  rw [if_neg h2, h1]
  by_cases ha : s.MemoryAperture_Size < 0 <;> simp [ha]

/-- The dry runs of `I830PreInit` on a width of at most 8192: the first
stage ends with a dry run `r` with tiling, the second stage runs when `r`
allocated and reported excess, or left a negative aperture size. -/
theorem dry_runs_attempt (P : Params) (A : Allocator) (s : PreInit)
    (hP : 0 < P.GTT_PAGE_SIZE)
    (hd : s.directRenderingDisabled = false) (hw : s.displayWidth ≤ 8192) :
    ∃ (t : List Event) (r : dry_run) (mm : Int),
      untiled_runs t = [] ∧
      ((tiled_runs t = [r] ∧ mm = s.mmSize) ∨
        (∃ r1, tiled_runs t = [r1, r] ∧ mm = 0 ∧ above_floor P s ∧ r1.allocated = true ∧
          r1.aperture < 0)) ∧
      ∀ fuel, I830PreInit_dry_runs P A true (fuel + 2) s
        = if (r.allocated = true ∧ 0 < r.excess) ∨ r.aperture < 0
          then retry_dryrun2 P A (fuel + 2)
            { s with
              XvEnabled := !s.XvDisabled,
              MemoryAperture_Size := r.aperture,
              displayWidth := if r.allocated && r.over then s.displayWidth
                else (pitch_loop s.displayWidth pitches 0).2,
              allowPageFlip := if r.allocated && r.over then false else s.allowPageFlip,
              mmSize := s.mmSize,
              disableTiling := true,
              trace := s.trace ++ t }
          else some
            { s with
              XvEnabled := !s.XvDisabled,
              MemoryAperture_Size := r.aperture,
              displayWidth := if r.allocated && r.over then s.displayWidth
                else (pitch_loop s.displayWidth pitches 0).2,
              allowPageFlip := if r.allocated && r.over then false else s.allowPageFlip,
              mmSize := mm,
              trace := s.trace ++ t } := by
  obtain ⟨h1, _, _, _⟩ := (pitch_loop_spec s.displayWidth).1 hw
  obtain ⟨t, r, mm, hrun, hu, ht⟩ := retry_dryrun_spec P A s.displayWidth
    { s with XvEnabled := !s.XvDisabled, displayWidth := (pitch_loop s.displayWidth pitches 0).2 }
    hP
  refine ⟨t, r, mm, hu, ?_, ?_⟩
  · simpa [above_floor] using ht
  · intro fuel
    have e := hrun fuel
    simp only [hd] at e
    simp only [I830PreInit_dry_runs, hd, Bool.not_false, Bool.and_self, if_true]
    rw [if_pos h1, e]
    by_cases ha : r.allocated = true <;> by_cases he : 0 < r.excess <;>
      by_cases hn : r.aperture < 0 <;>
      simp [ha, he, hn]

theorem I830PreInit_limits_spec (s : PreInit) :
    ∃ m, (I830PreInit_limits s).trace = s.trace ++ m ∧ tiled_runs m = [] ∧
      untiled_runs m = [] ∧
      (I830PreInit_limits s).displayWidth = s.displayWidth ∧
      (I830PreInit_limits s).allowPageFlip = s.allowPageFlip ∧
      (I830PreInit_limits s).mmSize = s.mmSize ∧
      (I830PreInit_limits s).directRenderingDisabled = s.directRenderingDisabled ∧
      ((I830PreInit_limits s).disableTiling = true
        ↔ s.disableTiling = true ∨ s.displayWidth * s.cpp > 8192) := by
  by_cases h1 : s.displayWidth * s.cpp > 8192 <;> by_cases h2 : s.virtualY > 2048 <;>
    simp [I830PreInit_limits, h1, h2, PreInit.emit]

/-- What the dry runs of `I830PreInit` do on the primary head with DRI not
disabled, given fuel for two passes of each loop. `t1` are the events of the
first stage, `t2` those of the second, `second` tells whether the second stage
runs. -/
theorem dry_runs_spec (P : Params) (A : Allocator) (s : PreInit) (hP : 0 < P.GTT_PAGE_SIZE)
    (hd : s.directRenderingDisabled = false) :
    ∃ (s' : PreInit) (t1 t2 : List Event) (second : Bool),
      (∀ fuel, I830PreInit_dry_runs P A true (fuel + 2) s = some s') ∧
      s'.trace = s.trace ++ (t1 ++ t2) ∧ untiled_runs t1 = [] ∧ tiled_runs t2 = [] ∧
      s'.cpp = s.cpp ∧
      ((8192 < s.displayWidth ∧ tiled_runs t1 = [] ∧ s'.displayWidth = s.displayWidth ∧
          s'.allowPageFlip = s.allowPageFlip ∧
          (second = true ↔ s.MemoryAperture_Size < 0)) ∨
        (s.displayWidth ≤ 8192 ∧ ∃ r,
          (tiled_runs t1 = [r] ∨ ∃ r1, tiled_runs t1 = [r1, r] ∧ above_floor P s ∧
            r1.allocated = true ∧ r1.aperture < 0) ∧
          s'.displayWidth = (if r.allocated && r.over then s.displayWidth
            else (pitch_loop s.displayWidth pitches 0).2) ∧
          s'.allowPageFlip = (if r.allocated && r.over then false else s.allowPageFlip) ∧
          (second = true ↔ (r.allocated = true ∧ 0 < r.excess) ∨ r.aperture < 0))) ∧
      (second = false → t2 = [] ∧ s'.disableTiling = s.disableTiling ∧
        s'.directRenderingDisabled = false ∧ (s'.mmSize = s.mmSize ∨ s'.mmSize = 0)) ∧
      (second = true → s'.disableTiling = true ∧ ∃ r' s2, s2.mmSize = s.mmSize ∧
        s2.disableTiling = true ∧ s2.trace = s.trace ++ t1 ∧
        (untiled_runs t2).head?
          = some (A.run s2 [.ALLOCATE_DRY_RUN, .ALLOC_INITIAL]
              [.ALLOCATE_DRY_RUN, .ALLOC_NO_TILING]) ∧
        (untiled_runs t2 = [r'] ∨ ∃ r1, untiled_runs t2 = [r1, r'] ∧ above_floor P s ∧
          r1.allocated = true ∧ r1.aperture < 0) ∧
        s'.directRenderingDisabled = (r'.allocated && r'.over) ∧
        (s'.directRenderingDisabled = true → s'.mmSize = 0) ∧
        (s'.directRenderingDisabled = false → s'.mmSize = s.mmSize ∨ s'.mmSize = 0)) := by
  by_cases hw : s.displayWidth ≤ 8192
  · obtain ⟨t1, r, mm, hu, ht, hrun⟩ := dry_runs_attempt P A s hP hd hw
    have hmm : mm = s.mmSize ∨ mm = 0 := by
      rcases ht with ⟨_, h⟩ | ⟨_, _, h, _⟩
      · exact Or.inl h
      · exact Or.inr h
    have ht' : tiled_runs t1 = [r] ∨ ∃ r1, tiled_runs t1 = [r1, r] ∧ above_floor P s ∧
        r1.allocated = true ∧ r1.aperture < 0 := by
      rcases ht with ⟨h, _⟩ | ⟨r1, h, _, h3⟩
      · exact Or.inl h
      · exact Or.inr ⟨r1, h, h3⟩
    by_cases hc : (r.allocated = true ∧ 0 < r.excess) ∨ r.aperture < 0
    · simp only [if_pos hc] at hrun
      obtain ⟨t2, r', mm2, hrun2, ht2, hh2, hu2⟩ := retry_dryrun2_spec P A
        { s with
          XvEnabled := !s.XvDisabled,
          MemoryAperture_Size := r.aperture,
          displayWidth := if r.allocated && r.over then s.displayWidth
            else (pitch_loop s.displayWidth pitches 0).2,
          allowPageFlip := if r.allocated && r.over then false else s.allowPageFlip,
          mmSize := s.mmSize,
          disableTiling := true,
          trace := s.trace ++ t1 } hP
      refine ⟨_, t1, t2, true, fun fuel => (hrun fuel).trans (hrun2 fuel), by simp, hu, ht2,
        rfl, Or.inr ⟨hw, r, ht', rfl, rfl, by simp [hc]⟩, by simp, ?_⟩
      intro _
      refine ⟨rfl, r',
        { s with
          XvEnabled := !s.XvDisabled,
          MemoryAperture_Size := r.aperture,
          displayWidth := if r.allocated && r.over then s.displayWidth
            else (pitch_loop s.displayWidth pitches 0).2,
          allowPageFlip := if r.allocated && r.over then false else s.allowPageFlip,
          mmSize := s.mmSize,
          disableTiling := true,
          trace := s.trace ++ t1 }, rfl, rfl, rfl, hh2, ?_, by simp [hd], ?_, ?_⟩
      · rcases hu2 with ⟨h, _⟩ | ⟨r1, h, _, h3⟩
        · exact Or.inl h
        · exact Or.inr ⟨r1, h, by simpa [above_floor] using h3⟩
      · intro h
        by_cases hb : (r'.allocated && r'.over) = true
        · simp [hb]
        · simp [hb, hd] at h
      · intro h
        have hmm2 : mm2 = s.mmSize ∨ mm2 = 0 := by
          rcases hu2 with ⟨_, h⟩ | ⟨_, _, h, _⟩
          · exact Or.inl h
          · exact Or.inr h
        by_cases hb : (r'.allocated && r'.over) = true
        · simp [hb] at h
        · simpa [hb] using hmm2
    · simp only [if_neg hc] at hrun
      refine ⟨_, t1, [], false, hrun, by simp, hu, rfl, rfl,
        Or.inr ⟨hw, r, ht', rfl, rfl, by simp [hc]⟩, ?_, by simp⟩
      intro _
      exact ⟨rfl, rfl, hd, hmm⟩
  · have hw' : 8192 < s.displayWidth := by omega
    have hrun := dry_runs_no_attempt P A s hd hw'
    by_cases hc : s.MemoryAperture_Size < 0
    · simp only [if_pos hc] at hrun
      obtain ⟨t2, r', mm2, hrun2, ht2, hh2, hu2⟩ := retry_dryrun2_spec P A
        { s with XvEnabled := !s.XvDisabled, disableTiling := true } hP
      refine ⟨_, [], t2, true, fun fuel => (hrun (fuel + 2)).trans (hrun2 fuel), by simp, rfl,
        ht2, rfl, Or.inl ⟨hw', rfl, rfl, rfl, by simp [hc]⟩, by simp, ?_⟩
      intro _
      refine ⟨rfl, r', { s with XvEnabled := !s.XvDisabled, disableTiling := true },
        rfl, rfl, by simp, hh2, ?_, by simp [hd], ?_, ?_⟩
      · rcases hu2 with ⟨h, _⟩ | ⟨r1, h, _, h3⟩
        · exact Or.inl h
        · exact Or.inr ⟨r1, h, by simpa [above_floor] using h3⟩
      · intro h
        by_cases hb : (r'.allocated && r'.over) = true
        · simp [hb]
        · simp [hb, hd] at h
      · intro h
        have hmm2 : mm2 = s.mmSize ∨ mm2 = 0 := by
          rcases hu2 with ⟨_, h⟩ | ⟨_, _, h, _⟩
          · exact Or.inl h
          · exact Or.inr h
        by_cases hb : (r'.allocated && r'.over) = true
        · simp [hb] at h
        · simpa [hb] using hmm2
    · simp only [if_neg hc] at hrun
      refine ⟨_, [], [], false, fun fuel => hrun (fuel + 2), by simp, rfl, rfl, rfl,
        Or.inl ⟨hw', rfl, rfl, rfl, by simp [hc]⟩, ?_, by simp⟩
      intro _
      exact ⟨rfl, rfl, hd, Or.inl rfl⟩

theorem memory_of_dry_runs (P : Params) (A : Allocator) (primary : Bool) (fuel : Nat)
    (s s' : PreInit) (h : I830PreInit_dry_runs P A primary fuel s = some s') :
    I830PreInit_memory P A primary fuel s = some (I830PreInit_limits s') := by
  simp [I830PreInit_memory, h]

/-- C17: on the primary head with DRI not disabled, the memory checks of
`I830PreInit` return; above 8192 they make no dry run with tiling and leave
`displayWidth` alone; up to 8192 the candidate is the least of 1024, 2048,
4096 and 8192 that is at least the width, the final `displayWidth` is the
width or the candidate, and the last dry run with tiling decides which: the
width when its allocation succeeded and reported excess or a negative aperture
size, the candidate when its allocation succeeded and fit, and the candidate
as well when its allocation failed. -/
theorem pitch_widening (P : Params) (A : Allocator) (s : PreInit) (hP : 0 < P.GTT_PAGE_SIZE)
    (hd : s.directRenderingDisabled = false) :
    ∃ s' t, (∀ fuel, I830PreInit_memory P A true (fuel + 2) s = some s') ∧
      s'.trace = s.trace ++ t ∧
      (8192 < s.displayWidth → tiled_runs t = [] ∧ s'.displayWidth = s.displayWidth) ∧
      (s.displayWidth ≤ 8192 → ∃ c r,
        c ∈ [(1024 : Int), 2048, 4096, 8192] ∧ s.displayWidth ≤ c ∧
        (∀ p ∈ [(1024 : Int), 2048, 4096, 8192], s.displayWidth ≤ p → c ≤ p) ∧
        (s'.displayWidth = s.displayWidth ∨ s'.displayWidth = c) ∧
        (tiled_runs t).getLast? = some r ∧
        (r.allocated = true → r.over = true → s'.displayWidth = s.displayWidth) ∧
        (r.allocated = true → r.over = false → s'.displayWidth = c) ∧
        (r.allocated = false → s'.displayWidth = c)) := by
  obtain ⟨s', t1, t2, second, hrun, htr, hu1, ht2, _, hfirst, _, _⟩ := dry_runs_spec P A s hP hd
  obtain ⟨m, hm, hmt, _, hmw, _⟩ := I830PreInit_limits_spec s'
  refine ⟨I830PreInit_limits s', t1 ++ t2 ++ m,
    fun fuel => memory_of_dry_runs P A true _ s s' (hrun fuel),
    by rw [hm, htr]; simp, ?_, ?_⟩
  · intro hw
    rcases hfirst with ⟨_, h1, h2, _⟩ | ⟨h, _⟩
    · exact ⟨by simp [tiled_runs_append, h1, ht2, hmt], by rw [hmw, h2]⟩
    · omega
  · intro hw
    rcases hfirst with ⟨h, _⟩ | ⟨_, r, hr, hwd, _⟩
    · omega
    · obtain ⟨_, hc1, hc2, hc3⟩ := (pitch_loop_spec s.displayWidth).1 hw
      have hlast : (tiled_runs (t1 ++ t2 ++ m)).getLast? = some r := by
        rcases hr with h | ⟨r1, h, _⟩ <;> simp [tiled_runs_append, h, ht2, hmt]
      refine ⟨(pitch_loop s.displayWidth pitches 0).2, r, hc1, hc2, hc3, ?_, hlast, ?_, ?_, ?_⟩
      · rw [hmw, hwd]
        by_cases hb : (r.allocated && r.over) = true <;> simp [hb]
      · intro ha ho
        rw [hmw, hwd]; simp [ha, ho]
      · intro ha ho
        rw [hmw, hwd]; simp [ha, ho]
      · intro ha
        rw [hmw, hwd]; simp [ha]

/-- C17 at the sample state, 1300 pixels wide, with room for everything. -/
theorem pitch_widening_witness :
    ∃ s' t, (∀ fuel, I830PreInit_memory sample_params roomy_allocator true (fuel + 2)
        sample_pre_init = some s') ∧
      s'.trace = sample_pre_init.trace ++ t ∧
      (8192 < sample_pre_init.displayWidth →
        tiled_runs t = [] ∧ s'.displayWidth = sample_pre_init.displayWidth) ∧
      (sample_pre_init.displayWidth ≤ 8192 → ∃ c r,
        c ∈ [(1024 : Int), 2048, 4096, 8192] ∧ sample_pre_init.displayWidth ≤ c ∧
        (∀ p ∈ [(1024 : Int), 2048, 4096, 8192], sample_pre_init.displayWidth ≤ p → c ≤ p) ∧
        (s'.displayWidth = sample_pre_init.displayWidth ∨ s'.displayWidth = c) ∧
        (tiled_runs t).getLast? = some r ∧
        (r.allocated = true → r.over = true → s'.displayWidth = sample_pre_init.displayWidth) ∧
        (r.allocated = true → r.over = false → s'.displayWidth = c) ∧
        (r.allocated = false → s'.displayWidth = c)) :=
  pitch_widening sample_params roomy_allocator sample_pre_init (by decide) rfl

/-- C17 fails as stated: at 1300 pixels, with an allocator whose dry-run
allocation fails, `displayWidth` ends at the widened 2048 although no dry run
succeeded. -/
theorem pitch_kept_after_failure_counterexample :
    ∃ s', I830PreInit_memory sample_params failing_allocator true 2 sample_pre_init = some s' ∧
      sample_pre_init.displayWidth = 1300 ∧ s'.displayWidth = 2048 ∧
      tiled_runs s'.trace
        = [{ Allocate2D := false, Allocate3D := false, excess := 0, aperture := 4096 }] :=
  ⟨_, rfl, rfl, rfl, rfl⟩

/-- C18: with 32 pages of 4096 bytes as the minimum, the call
`I830ReduceMMSize(pScrn, I830_MM_MINPAGES * GTT_PAGE_SIZE, ...)` of the retry
loops leaves `mmSize` at 0, with the message that the memory manager will be
disabled, and not at the floor of 128 KiB: the quotient 32 is not greater than
`I830_MM_MINPAGES`. -/
theorem reduce_to_floor_disables :
    I830ReduceMMSize sample_params
        (sample_params.I830_MM_MINPAGES * sample_params.GTT_PAGE_SIZE) sample_pre_init
      = { sample_pre_init with mmSize := 0, trace := [.xf86DrvMsg .mm_disabled] } ∧
    sample_pre_init.mmSize = 32768 ∧
    sample_params.I830_MM_MINPAGES * sample_params.GTT_PAGE_SIZE / 1024 = 128 :=
  ⟨I830ReduceMMSize_floor sample_params (by decide) sample_pre_init, rfl, rfl⟩

/-- C19: whatever the reservation and whatever the allocator answers, each of
the two retry loops returns once it has fuel for two passes, and with the
same result for any more fuel; it makes at most two dry runs, and two only
when `KB(mmSize)` was above `I830_MM_MINPAGES * GTT_PAGE_SIZE` on entry; after
the `I830ReduceMMSize` call that precedes the jump that test is false; and the
memory checks as a whole return as well. -/
theorem retry_loops_bounded (P : Params) (A : Allocator) (s : PreInit) (d : Int)
    (hP : 0 < P.GTT_PAGE_SIZE) :
    (∃ m s' t, (∀ fuel, 2 ≤ fuel → retry_dryrun P A d fuel s = some (m, s')) ∧
      s'.trace = s.trace ++ t ∧ (tiled_runs t).length ≤ 2 ∧ untiled_runs t = [] ∧
      ((tiled_runs t).length = 2 → above_floor P s)) ∧
    (∃ s' t, (∀ fuel, 2 ≤ fuel → retry_dryrun2 P A fuel s = some s') ∧
      s'.trace = s.trace ++ t ∧ (untiled_runs t).length ≤ 2 ∧ tiled_runs t = [] ∧
      ((untiled_runs t).length = 2 → above_floor P s)) ∧
    (∀ s0, ¬ above_floor P
      (I830ReduceMMSize P (P.I830_MM_MINPAGES * P.GTT_PAGE_SIZE) s0)) ∧
    (∀ primary, ∃ s', ∀ fuel, 2 ≤ fuel → I830PreInit_memory P A primary fuel s = some s') := by
  refine ⟨?_, ?_, ?_, ?_⟩
  · obtain ⟨t, r, mm, hrun, hu, ht⟩ := retry_dryrun_spec P A d s hP
    refine ⟨if r.allocated then r.excess else 0,
      { s with
        MemoryAperture_Size := r.aperture,
        displayWidth := if r.allocated && r.over then d else s.displayWidth,
        allowPageFlip := if r.allocated && r.over then false else s.allowPageFlip,
        mmSize := mm,
        trace := s.trace ++ t }, t, ?_, ?_, ?_, hu, ?_⟩
    · intro fuel hf
      obtain ⟨k, rfl⟩ := Nat.exists_eq_add_of_le hf
      rw [Nat.add_comm]
      exact hrun k
    · rfl
    · rcases ht with ⟨h, _⟩ | ⟨r1, h, _⟩ <;> simp [h]
    · rcases ht with ⟨h, _⟩ | ⟨r1, h, _, h3, _⟩
      · simp [h]
      · exact fun _ => h3
  · obtain ⟨t, r, mm, hrun, ht, _, hu⟩ := retry_dryrun2_spec P A s hP
    refine ⟨{ s with
        MemoryAperture_Size := r.aperture,
        mmSize := if r.allocated && r.over then 0 else mm,
        directRenderingDisabled :=
          if r.allocated && r.over then true else s.directRenderingDisabled,
        trace := s.trace ++ t }, t, ?_, ?_, ?_, ht, ?_⟩
    · intro fuel hf
      obtain ⟨k, rfl⟩ := Nat.exists_eq_add_of_le hf
      rw [Nat.add_comm]
      exact hrun k
    · rfl
    · rcases hu with ⟨h, _⟩ | ⟨r1, h, _⟩ <;> simp [h]
    · rcases hu with ⟨h, _⟩ | ⟨r1, h, _, h3, _⟩
      · simp [h]
      · exact fun _ => h3
  · intro s0
    rw [I830ReduceMMSize_floor P hP]
    exact not_above_floor_zero P _ rfl
  · intro primary
    by_cases hc : primary = true ∧ s.directRenderingDisabled = false
    · obtain ⟨hp, hd⟩ := hc
      subst hp
      obtain ⟨s', _, _, _, hrun, _⟩ := dry_runs_spec P A s hP hd
      refine ⟨I830PreInit_limits s', ?_⟩
      intro fuel hf
      obtain ⟨k, rfl⟩ := Nat.exists_eq_add_of_le hf
      rw [Nat.add_comm]
      exact memory_of_dry_runs P A true _ s s' (hrun k)
    · refine ⟨I830PreInit_limits { s with disableTiling := true }, ?_⟩
      intro fuel _
      apply memory_of_dry_runs
      have : (primary && !s.directRenderingDisabled) = false := by
        cases primary <;> cases hdd : s.directRenderingDisabled <;> simp_all
      simp [I830PreInit_dry_runs, this]

/-- C19 at the sample state, with an allocator that never has room. -/
theorem retry_loops_bounded_witness :
    (∃ m s' t, (∀ fuel, 2 ≤ fuel →
        retry_dryrun sample_params cramped_allocator 1300 fuel sample_pre_init = some (m, s')) ∧
      s'.trace = sample_pre_init.trace ++ t ∧ (tiled_runs t).length ≤ 2 ∧ untiled_runs t = [] ∧
      ((tiled_runs t).length = 2 → above_floor sample_params sample_pre_init)) ∧
    (∃ s' t, (∀ fuel, 2 ≤ fuel →
        retry_dryrun2 sample_params cramped_allocator fuel sample_pre_init = some s') ∧
      s'.trace = sample_pre_init.trace ++ t ∧ (untiled_runs t).length ≤ 2 ∧ tiled_runs t = [] ∧
      ((untiled_runs t).length = 2 → above_floor sample_params sample_pre_init)) ∧
    (∀ s0, ¬ above_floor sample_params
      (I830ReduceMMSize sample_params
        (sample_params.I830_MM_MINPAGES * sample_params.GTT_PAGE_SIZE) s0)) ∧
    (∀ primary, ∃ s', ∀ fuel, 2 ≤ fuel →
      I830PreInit_memory sample_params cramped_allocator primary fuel sample_pre_init
        = some s') :=
  retry_loops_bounded sample_params cramped_allocator sample_pre_init 1300 (by decide)

/-- C20: on the primary head with DRI not disabled, with the allocator an
arbitrary oracle, the dry runs of `I830PreInit` return, and: if the last dry
run with tiling allocated and reported excess, or left a negative aperture
size, then `disableTiling` is set, `allowPageFlip` is cleared when that
allocation succeeded and left alone when it failed, and the first dry run
without tiling is made with `mmSize` restored and tiling disabled;
`directRenderingDisabled` is set only with `mmSize = 0`, tiling disabled, and a
last dry run without tiling that allocated and reported excess or a negative
aperture size; when the last dry run with tiling allocated and fit, no dry
run without tiling is made and neither flag is touched; the tests that follow
leave `directRenderingDisabled` alone and set `disableTiling` exactly when the
stride exceeds 8192. -/
theorem degradation_cascade (P : Params) (A : Allocator) (s : PreInit)
    (hP : 0 < P.GTT_PAGE_SIZE) (hd : s.directRenderingDisabled = false) :
    ∃ s' t, (∀ fuel, I830PreInit_dry_runs P A true (fuel + 2) s = some s') ∧
      s'.trace = s.trace ++ t ∧
      (∀ r, (tiled_runs t).getLast? = some r →
        ((r.allocated = true ∧ 0 < r.excess) ∨ r.aperture < 0) →
        s'.disableTiling = true ∧
        (r.allocated = true → s'.allowPageFlip = false) ∧
        (r.allocated = false → s'.allowPageFlip = s.allowPageFlip) ∧
        ∃ s2, s2.mmSize = s.mmSize ∧ s2.disableTiling = true ∧
          (untiled_runs t).head?
            = some (A.run s2 [.ALLOCATE_DRY_RUN, .ALLOC_INITIAL]
                [.ALLOCATE_DRY_RUN, .ALLOC_NO_TILING])) ∧
      (s'.directRenderingDisabled = true →
        s'.mmSize = 0 ∧ s'.disableTiling = true ∧
        ∃ r', (untiled_runs t).getLast? = some r' ∧ r'.allocated = true ∧ r'.over = true) ∧
      (∀ r, (tiled_runs t).getLast? = some r → r.allocated = true → r.over = false →
        untiled_runs t = [] ∧ s'.disableTiling = s.disableTiling ∧
        s'.directRenderingDisabled = false) ∧
      (I830PreInit_limits s').directRenderingDisabled = s'.directRenderingDisabled ∧
      ((I830PreInit_limits s').disableTiling = true
        ↔ s'.disableTiling = true ∨ s'.displayWidth * s'.cpp > 8192) := by
  obtain ⟨s', t1, t2, second, hrun, htr, hu1, ht2, _, hfirst, hno, hyes⟩ :=
    dry_runs_spec P A s hP hd
  obtain ⟨_, _, _, _, _, _, _, hld, hlt⟩ := I830PreInit_limits_spec s'
  have hlast : ∀ r, (tiled_runs (t1 ++ t2)).getLast? = some r →
      s.displayWidth ≤ 8192 ∧
      s'.allowPageFlip = (if r.allocated && r.over then false else s.allowPageFlip) ∧
      (second = true ↔ (r.allocated = true ∧ 0 < r.excess) ∨ r.aperture < 0) := by
    intro r hr
    rcases hfirst with ⟨_, h1, _⟩ | ⟨hw, r0, h0, _, hap, hsec⟩
    · simp [tiled_runs_append, h1, ht2] at hr
    · have : r0 = r := by
        rcases h0 with h | ⟨r1, h, _⟩ <;> simpa [tiled_runs_append, h, ht2] using hr
      subst this
      exact ⟨hw, hap, hsec⟩
  refine ⟨s', t1 ++ t2, hrun, htr, ?_, ?_, ?_, hld, hlt⟩
  · intro r hr hc
    obtain ⟨_, hap, hsec⟩ := hlast r hr
    obtain ⟨hdt, r', s2, h1, h2, _, hh, _⟩ := hyes (hsec.2 hc)
    refine ⟨hdt, ?_, ?_, s2, h1, h2, ?_⟩
    · intro ha
      have ho : r.over = true := by
        rcases hc with ⟨_, h⟩ | h <;> simp [dry_run.over, h]
      rw [hap]; simp [ha, ho]
    · intro ha
      rw [hap]; simp [ha]
    · simpa [untiled_runs_append, hu1] using hh
  · intro hdr
    cases hs : second with
    | false =>
      have := (hno hs).2.2.1
      rw [this] at hdr
      cases hdr
    | true =>
      obtain ⟨hdt, r', s2, _, _, _, _, hu, hdd, hmm, _⟩ := hyes hs
      rw [hdd] at hdr
      have hb : r'.allocated = true ∧ r'.over = true := by simpa using hdr
      refine ⟨hmm (by rw [hdd]; exact hdr), hdt, r', ?_, hb.1, hb.2⟩
      rcases hu with h | ⟨r1, h, _⟩ <;> simp [untiled_runs_append, hu1, h]
  · intro r hr ha ho
    obtain ⟨_, _, hsec⟩ := hlast r hr
    have hs : second = false := by
      cases hs : second with
      | false => rfl
      | true =>
        rcases hsec.1 hs with ⟨_, h⟩ | h <;> simp [dry_run.over, h] at ho
    obtain ⟨h1, h2, h3, _⟩ := hno hs
    exact ⟨by simp [untiled_runs_append, hu1, h1], h2, h3⟩

/-- C20 at the sample state, with an allocator that never has room: tiling
and then DRI are given up. -/
theorem degradation_cascade_witness :
    ∃ s' t, (∀ fuel, I830PreInit_dry_runs sample_params cramped_allocator true (fuel + 2)
        sample_pre_init = some s') ∧
      s'.trace = sample_pre_init.trace ++ t ∧
      (∀ r, (tiled_runs t).getLast? = some r →
        ((r.allocated = true ∧ 0 < r.excess) ∨ r.aperture < 0) →
        s'.disableTiling = true ∧
        (r.allocated = true → s'.allowPageFlip = false) ∧
        (r.allocated = false → s'.allowPageFlip = sample_pre_init.allowPageFlip) ∧
        ∃ s2, s2.mmSize = sample_pre_init.mmSize ∧ s2.disableTiling = true ∧
          (untiled_runs t).head?
            = some (cramped_allocator.run s2 [.ALLOCATE_DRY_RUN, .ALLOC_INITIAL]
                [.ALLOCATE_DRY_RUN, .ALLOC_NO_TILING])) ∧
      (s'.directRenderingDisabled = true →
        s'.mmSize = 0 ∧ s'.disableTiling = true ∧
        ∃ r', (untiled_runs t).getLast? = some r' ∧ r'.allocated = true ∧ r'.over = true) ∧
      (∀ r, (tiled_runs t).getLast? = some r → r.allocated = true → r.over = false →
        untiled_runs t = [] ∧ s'.disableTiling = sample_pre_init.disableTiling ∧
        s'.directRenderingDisabled = false) ∧
      (I830PreInit_limits s').directRenderingDisabled = s'.directRenderingDisabled ∧
      ((I830PreInit_limits s').disableTiling = true
        ↔ s'.disableTiling = true ∨ s'.displayWidth * s'.cpp > 8192) :=
  degradation_cascade sample_params cramped_allocator sample_pre_init (by decide) rfl

/-- C20 fails as stated: with an allocator whose dry-run allocation fails and
leaves a negative aperture size, the dry run with tiling ends with a negative
aperture size and tiling is disabled, but `allowPageFlip` stays TRUE. -/
theorem page_flip_kept_counterexample :
    ∃ s', I830PreInit_dry_runs sample_params stuck_allocator true 2 sample_pre_init = some s' ∧
      (tiled_runs s'.trace).getLast?
        = some { Allocate2D := false, Allocate3D := false, excess := 0, aperture := -4096 } ∧
      s'.disableTiling = true ∧ sample_pre_init.allowPageFlip = true ∧
      s'.allowPageFlip = true :=
  ⟨_, rfl, rfl, rfl, rfl, rfl⟩

/-! ## `SaveHWState` and `RestoreHWState` -/

theorem OUTREGs_nil (h : HW) : OUTREGs h [] = h := rfl

theorem OUTREGs_cons (h : HW) (w : Nat × Nat) (ws : List (Nat × Nat)) :
    OUTREGs h (w :: ws) = OUTREGs (OUTREG h w.1 w.2) ws := rfl

theorem OUTREGs_append (h : HW) (a b : List (Nat × Nat)) :
    OUTREGs h (a ++ b) = OUTREGs (OUTREGs h a) b := by
  simp [OUTREGs, List.foldl_append]

theorem OUTREGs_saved (h : HW) (ws : List (Nat × Nat)) : (OUTREGs h ws).saved = h.saved := by
  induction ws generalizing h with
  | nil => rfl
  | cons w ws ih => rw [OUTREGs_cons, ih]; rfl

theorem OUTREGs_trace (h : HW) (ws : List (Nat × Nat)) :
    (OUTREGs h ws).trace = h.trace ++ ws.map fun w => HwEvent.OUTREG w.1 w.2 := by
  induction ws generalizing h with
  | nil => simp [OUTREGs_nil]
  | cons w ws ih => rw [OUTREGs_cons, ih]; simp [OUTREG]

/-- After a run of `OUTREG` statements that write to every register of `S`
they touch the value `g` has there, a register of `S` that was written, or
held that value already, holds it. -/
theorem OUTREGs_regs (S : Nat → Prop) (g : Nat → Nat) (ws : List (Nat × Nat)) (h : HW)
    (hf : ∀ w ∈ ws, S w.1 → w.2 = g w.1) (a : Nat) (ha : S a)
    (hw : a ∈ ws.map Prod.fst ∨ h.regs a = g a) : (OUTREGs h ws).regs a = g a := by
  induction ws generalizing h with
  | nil =>
    rcases hw with hw | hw
    · simp at hw
    · exact hw
  | cons w ws ih =>
    rw [OUTREGs_cons]
    apply ih _ (fun w' hw' => hf w' (List.mem_cons_of_mem _ hw'))
    by_cases hin : a ∈ ws.map Prod.fst
    · exact Or.inl hin
    · right
      by_cases haw : a = w.1
      · subst haw
        simp [OUTREG, hf w (List.mem_cons_self _ _) ha]
      · rcases hw with hw | hw
        · simp at hw hin
          rcases hw with hw | hw
          · exact absurd hw.symm (fun e => haw e.symm)
          · obtain ⟨b, hb⟩ := hw
            exact absurd hb (hin b)
        · simp [OUTREG, Function.update_noteq haw, hw]

theorem HW.call_trace (h : HW) (e : HwEvent) (f : (Nat → Nat) → Nat → Nat) :
    (h.call e f).trace = h.trace ++ [e] := rfl

theorem restore_outputs_regs (H : Helpers) (D : Device) (S : List Nat) (hk : H.keep S)
    (h : HW) (a : Nat) (ha : a ∈ S) : (restore_outputs H D h).regs a = h.regs a := by
  unfold restore_outputs
  induction D.num_outputs generalizing h with
  | zero => rfl
  | succ n ih =>
    rw [List.range_succ, List.foldl_append]
    simp only [List.foldl_cons, List.foldl_nil, HW.call]
    rw [(hk _ a ha).2.1 n]
    exact ih h

theorem restore_outputs_saved (H : Helpers) (D : Device) (h : HW) :
    (restore_outputs H D h).saved = h.saved := by
  unfold restore_outputs
  induction D.num_outputs generalizing h with
  | zero => rfl
  | succ n ih =>
    rw [List.range_succ, List.foldl_append]
    simp only [List.foldl_cons, List.foldl_nil, HW.call]
    exact ih h

theorem restore_outputs_trace (H : Helpers) (D : Device) (h : HW) :
    (restore_outputs H D h).trace
      = h.trace ++ (List.range D.num_outputs).map fun i => HwEvent.output_restore i := by
  unfold restore_outputs
  induction D.num_outputs generalizing h with
  | zero => simp
  | succ n ih =>
    rw [List.range_succ, List.foldl_append]
    simp only [List.foldl_cons, List.foldl_nil, List.map_append, List.map_cons, List.map_nil]
    rw [HW.call_trace, ih h, List.append_assoc]

theorem pre_set_mode_outputs_saved (H : Helpers) (D : Device) (h : HW) :
    (pre_set_mode_outputs H D h).saved = h.saved := by
  unfold pre_set_mode_outputs
  induction D.num_outputs generalizing h with
  | zero => rfl
  | succ n ih =>
    rw [List.range_succ, List.foldl_append]
    simp only [List.foldl_cons, List.foldl_nil, HW.call]
    exact ih h

theorem pre_set_mode_outputs_trace (H : Helpers) (D : Device) (h : HW) :
    (pre_set_mode_outputs H D h).trace
      = h.trace
        ++ (List.range D.num_outputs).map fun i => HwEvent.output_pre_set_mode i true := by
  unfold pre_set_mode_outputs
  induction D.num_outputs generalizing h with
  | zero => simp
  | succ n ih =>
    rw [List.range_succ, List.foldl_append]
    simp only [List.foldl_cons, List.foldl_nil, List.map_append, List.map_cons, List.map_nil]
    rw [HW.call_trace, ih h, List.append_assoc]

theorem save_outputs_saved (H : Helpers) (D : Device) (h : HW) :
    (save_outputs H D h).saved = h.saved := by
  unfold save_outputs
  induction D.num_outputs generalizing h with
  | zero => rfl
  | succ n ih =>
    rw [List.range_succ, List.foldl_append]
    simp only [List.foldl_cons, List.foldl_nil]
    cases H.output_save n with
    | none => exact ih h
    | some f => exact ih h

theorem restore_disable_saved (R : RegMap) (H : Helpers) (D : Device) (h : HW) :
    (restore_disable R H D h).saved = h.saved := by
  simp [restore_disable, HW.call, pre_set_mode_outputs_saved, OUTREG]

theorem restore_disable_trace (R : RegMap) (H : Helpers) (D : Device) (h : HW) :
    ∃ a b c d, (restore_disable R H D h).trace
      = h.trace ++ [.I830DRISetVBlankInterrupt false, .vgaHWRestore, .vgaHWLock]
        ++ [.OUTREG R.DSPACNTR (and_not a R.DISPLAY_PLANE_ENABLE),
            .OUTREG R.DSPBCNTR (and_not b R.DISPLAY_PLANE_ENABLE)]
        ++ [.OUTREG R.PIPEACONF (and_not c R.PIPEACONF_ENABLE),
            .OUTREG R.PIPEBCONF (and_not d R.PIPEBCONF_ENABLE)]
        ++ ((List.range D.num_outputs).map fun i => HwEvent.output_pre_set_mode i true)
        ++ [.i830WaitForVblank] := by
  let r3 := H.vgaHWLock (H.vgaHWRestore (H.I830DRISetVBlankInterrupt false h.regs))
  let r4 := Function.update r3 R.DSPACNTR (and_not (r3 R.DSPACNTR) R.DISPLAY_PLANE_ENABLE)
  let r5 := Function.update r4 R.DSPBCNTR (and_not (r4 R.DSPBCNTR) R.DISPLAY_PLANE_ENABLE)
  let r6 := Function.update r5 R.PIPEACONF (and_not (r5 R.PIPEACONF) R.PIPEACONF_ENABLE)
  refine ⟨r3 R.DSPACNTR, r4 R.DSPBCNTR, r5 R.PIPEACONF, r6 R.PIPEBCONF, ?_⟩
  simp only [restore_disable, HW.call_trace, pre_set_mode_outputs_trace]
  simp [OUTREG, HW.call, INREG, r3, r4, r5, r6]

/-- `RestoreHWState` as its parts: the disabling part, the writes of the
timings, the `restore` hooks, the writes of the tail, the comparison. -/
theorem RestoreHWState_eq (R : RegMap) (H : Helpers) (D : Device) (h : HW) :
    RestoreHWState R H D h
      = (OUTREGs (restore_outputs H D
          (OUTREGs (restore_disable R H D h) (restore_timings R D h.saved)))
          (restore_tail R D h.saved)).call
        .i830CompareRegsToSnapshot H.i830CompareRegsToSnapshot := by
  by_cases hp : D.num_pipes = 2 <;>
    simp [RestoreHWState, restore_timings, hp, OUTREGs_append, OUTREGs_saved,
      restore_disable_saved, restore_outputs_saved, OUTREGs_cons, OUTREGs_nil, OUTREG]

theorem SaveHWState_fields (R : RegMap) (H : Helpers) (D : Device) (h : HW) (s : Saved)
    (c : Nat → Nat) (hs : s = (SaveHWState R H D h).saved)
    (hc : c = H.i830TakeRegSnapshot h.regs) :
    (s.saveDSPACNTR = c R.DSPACNTR ∧ s.savePIPEACONF = c R.PIPEACONF ∧
    s.savePIPEASRC = c R.PIPEASRC ∧ s.saveFPA0 = c R.FPA0 ∧ s.saveFPA1 = c R.FPA1 ∧
    s.saveDPLL_A = c R.DPLL_A ∧ s.saveHTOTAL_A = c R.HTOTAL_A ∧
    s.saveHBLANK_A = c R.HBLANK_A ∧ s.saveHSYNC_A = c R.HSYNC_A ∧
    s.saveVTOTAL_A = c R.VTOTAL_A ∧ s.saveVBLANK_A = c R.VBLANK_A ∧
    s.saveVSYNC_A = c R.VSYNC_A ∧ s.saveDSPASTRIDE = c R.DSPASTRIDE ∧
    s.saveDSPASIZE = c R.DSPASIZE ∧ s.saveDSPAPOS = c R.DSPAPOS ∧
    s.saveDSPABASE = c R.DSPABASE ∧
    (∀ i, i < 256 → s.savePaletteA i = c (R.PALETTE_A + (i <<< 2)))) ∧
    (D.is_i965g = true → s.saveDPLL_A_MD = c R.DPLL_A_MD ∧ s.saveDSPASURF = c R.DSPASURF ∧
      s.saveDSPBSURF = c R.DSPBSURF) ∧
    (s.saveVCLK_DIVISOR_VGA0 = c R.VCLK_DIVISOR_VGA0 ∧
    s.saveVCLK_DIVISOR_VGA1 = c R.VCLK_DIVISOR_VGA1 ∧
    s.saveVCLK_POST_DIV = c R.VCLK_POST_DIV ∧ s.saveVGACNTRL = c R.VGACNTRL ∧
    (∀ i, i < 7 → s.saveSWF i = c (R.SWF0 + (i <<< 2))) ∧
    (∀ i, i < 7 → s.saveSWF (i + 7) = c (R.SWF00 + (i <<< 2))) ∧
    s.saveSWF 14 = c R.SWF30 ∧ s.saveSWF 15 = c R.SWF31 ∧ s.saveSWF 16 = c R.SWF32 ∧
    s.savePFIT_CONTROL = c R.PFIT_CONTROL) ∧
    (D.num_pipes = 2 →
      s.saveDSPBCNTR = c R.DSPBCNTR ∧ s.savePIPEBCONF = c R.PIPEBCONF ∧
      s.savePIPEBSRC = c R.PIPEBSRC ∧ s.saveFPB0 = c R.FPB0 ∧ s.saveFPB1 = c R.FPB1 ∧
      s.saveDPLL_B = c R.DPLL_B ∧ s.saveHTOTAL_B = c R.HTOTAL_B ∧
      s.saveHBLANK_B = c R.HBLANK_B ∧ s.saveHSYNC_B = c R.HSYNC_B ∧
      s.saveVTOTAL_B = c R.VTOTAL_B ∧ s.saveVBLANK_B = c R.VBLANK_B ∧
      s.saveVSYNC_B = c R.VSYNC_B ∧ s.saveDSPBSTRIDE = c R.DSPBSTRIDE ∧
      s.saveDSPBSIZE = c R.DSPBSIZE ∧ s.saveDSPBPOS = c R.DSPBPOS ∧
      s.saveDSPBBASE = c R.DSPBBASE ∧
      (∀ i, i < 256 → s.savePaletteB i = c (R.PALETTE_B + (i <<< 2))) ∧
      (D.is_i965g = true → s.saveDPLL_B_MD = c R.DPLL_B_MD)) := by
  by_cases hi : D.is_i965g = true <;> by_cases hp : D.num_pipes = 2 <;>
    simp [SaveHWState, save_outputs_saved, HW.call, INREG, hi, hp] at hs <;>
    subst hs hc <;>
    refine ⟨⟨rfl, rfl, rfl, rfl, rfl, rfl, rfl, rfl, rfl, rfl, rfl, rfl, rfl, rfl, rfl, rfl,
      fun i h256 => by simp [h256]⟩, by simp [hi],
      ⟨rfl, rfl, rfl, rfl, fun i h7 => by simp [h7], fun i h7 => by simp [h7], rfl, rfl, rfl,
        rfl⟩, ?_⟩
  · intro _
    exact ⟨rfl, rfl, rfl, rfl, rfl, rfl, rfl, rfl, rfl, rfl, rfl, rfl, rfl, rfl, rfl, rfl,
      fun i h256 => by simp [h256], fun _ => rfl⟩
  · intro h2; exact absurd h2 hp
  · intro _
    exact ⟨rfl, rfl, rfl, rfl, rfl, rfl, rfl, rfl, rfl, rfl, rfl, rfl, rfl, rfl, rfl, rfl,
      fun i h256 => by simp [h256], fun h9 => absurd h9 hi⟩
  · intro h2; exact absurd h2 hp

/-- Every value `RestoreHWState` writes after the wait is the one the
register held when `SaveHWState` read it, except for `PIPEBCONF` and
`DSPBCNTR` on a device without a second pipe, whose save fields
`SaveHWState` leaves alone. -/
theorem restore_faithful (R : RegMap) (H : Helpers) (D : Device) (h : HW) (s : Saved)
    (c : Nat → Nat) (hs : s = (SaveHWState R H D h).saved)
    (hc : c = H.i830TakeRegSnapshot h.regs) :
    (∀ w ∈ restore_timings R D s, w.2 = c w.1) ∧
    (∀ w ∈ restore_tail R D s,
      (D.num_pipes ≠ 2 → w.1 ≠ R.PIPEBCONF ∧ w.1 ≠ R.DSPBCNTR) → w.2 = c w.1) := by
  obtain ⟨⟨a1, a2, a3, a4, a5, a6, a7, a8, a9, a10, a11, a12, a13, a14, a15, a16, a17⟩, h965,
    ⟨v1, v2, v3, v4, w1, w2, w3, w4, w5, w6⟩, hB⟩ := SaveHWState_fields R H D h s c hs hc
  clear hs hc
  constructor
  · by_cases hi : D.is_i965g = true <;> by_cases hp : D.num_pipes = 2
    · obtain ⟨b1, b2, b3, b4, b5, b6, b7, b8, b9, b10, b11, b12, b13, b14, b15, b16, b17, b18⟩ :=
        hB hp
      obtain ⟨m1, m2, m3⟩ := h965 hi
      have b19 := b18 hi
      simp only [restore_timings, restore_pipe_A, restore_pipe_B, hi, hp, if_true,
        List.forall_mem_append, List.forall_mem_cons, List.forall_mem_map, List.mem_range]
      simp [*]
      exact ⟨a17, b17⟩
    · obtain ⟨m1, m2, m3⟩ := h965 hi
      simp only [restore_timings, restore_pipe_A, restore_pipe_B, hi, hp, if_true, if_false,
        List.forall_mem_append, List.forall_mem_cons, List.forall_mem_map, List.mem_range]
      simp [*]
      exact a17
    · obtain ⟨b1, b2, b3, b4, b5, b6, b7, b8, b9, b10, b11, b12, b13, b14, b15, b16, b17, b18⟩ :=
        hB hp
      simp only [restore_timings, restore_pipe_A, restore_pipe_B, hi, hp, if_true, if_false,
        List.forall_mem_append, List.forall_mem_cons, List.forall_mem_map, List.mem_range]
      simp [*]
      exact ⟨a17, b17⟩
    · simp only [restore_timings, restore_pipe_A, restore_pipe_B, hi, hp, if_true, if_false,
        List.forall_mem_append, List.forall_mem_cons, List.forall_mem_map, List.mem_range]
      simp [*]
      exact a17
  · have s0 := w1 0 (by decide)
    have s1 := w1 1 (by decide)
    have s2 := w1 2 (by decide)
    have s3 := w1 3 (by decide)
    have s4 := w1 4 (by decide)
    have s5 := w1 5 (by decide)
    have s6 := w1 6 (by decide)
    have s7 := w2 0 (by decide)
    have s8 := w2 1 (by decide)
    have s9 := w2 2 (by decide)
    have s10 := w2 3 (by decide)
    have s11 := w2 4 (by decide)
    have s12 := w2 5 (by decide)
    have s13 := w2 6 (by decide)
    simp only [Nat.zero_add, Nat.reduceAdd] at s7 s8 s9 s10 s11 s12 s13
    by_cases hi : D.is_i965g = true <;> by_cases hp : D.num_pipes = 2
    · obtain ⟨b1, b2, _⟩ := hB hp
      obtain ⟨m1, m2, m3⟩ := h965 hi
      simp only [restore_tail, hi, hp, if_true, List.forall_mem_append, List.forall_mem_cons,
        List.flatMap_cons, List.flatMap_nil, List.append_nil]
      simp [*]
    · obtain ⟨m1, m2, m3⟩ := h965 hi
      simp only [restore_tail, hi, hp, if_true, List.forall_mem_append, List.forall_mem_cons,
        List.flatMap_cons, List.flatMap_nil, List.append_nil]
      simp [*]
    · obtain ⟨b1, b2, _⟩ := hB hp
      simp only [restore_tail, hi, hp, if_false, List.forall_mem_append, List.forall_mem_cons,
        List.flatMap_cons, List.flatMap_nil, List.append_nil]
      simp [*]
    · simp only [restore_tail, hi, hp, if_false, List.forall_mem_append, List.forall_mem_cons,
        List.flatMap_cons, List.flatMap_nil, List.append_nil]
      simp [*]

theorem mem_restore_timings_A (R : RegMap) (D : Device) (s : Saved) (x : Nat)
    (h : x ∈ (restore_pipe_A R D s).map Prod.fst) :
    x ∈ (restore_timings R D s).map Prod.fst := by
  simp only [restore_timings, List.map_append, List.mem_append]
  exact Or.inl (Or.inl h)

theorem mem_restore_timings_B (R : RegMap) (D : Device) (s : Saved) (x : Nat)
    (hp : D.num_pipes = 2) (h : x ∈ (restore_pipe_B R D s).map Prod.fst) :
    x ∈ (restore_timings R D s).map Prod.fst := by
  simp only [restore_timings, List.map_append, List.mem_append, hp, if_true]
  exact Or.inl (Or.inr h)

theorem palette_A_mem (R : RegMap) (D : Device) (s : Saved) (j : Nat) (hj : j ∈ List.range 256) :
    R.PALETTE_A + (j <<< 2) ∈ (restore_pipe_A R D s).map Prod.fst := by
  simp only [restore_pipe_A, List.map_append, List.mem_append]
  exact Or.inr (List.mem_map.2 ⟨(R.PALETTE_A + (j <<< 2), s.savePaletteA j),
    List.mem_map.2 ⟨j, hj, rfl⟩, rfl⟩)

theorem palette_B_mem (R : RegMap) (D : Device) (s : Saved) (j : Nat) (hj : j ∈ List.range 256) :
    R.PALETTE_B + (j <<< 2) ∈ (restore_pipe_B R D s).map Prod.fst := by
  simp only [restore_pipe_B, List.map_append, List.mem_append]
  exact Or.inr (List.mem_map.2 ⟨(R.PALETTE_B + (j <<< 2), s.savePaletteB j),
    List.mem_map.2 ⟨j, hj, rfl⟩, rfl⟩)

set_option maxHeartbeats 1000000 in
/-- Every register `SaveHWState` captured is written by `RestoreHWState`
after the wait. -/
theorem restore_covers (R : RegMap) (D : Device) (s : Saved) :
    ∀ a ∈ captured R D,
      a ∈ (restore_tail R D s).map Prod.fst ∨ a ∈ (restore_timings R D s).map Prod.fst := by
  intro a ha
  simp only [captured, List.mem_append] at ha
  rcases ha with ((((((hA | hPA) | hB) | h965) | hV) | hS) | hT)
  · revert a
    simp only [List.forall_mem_cons, List.forall_mem_nil, and_true]
    (repeat' apply And.intro) <;>
    first
      | exact fun x hx => absurd hx (List.not_mem_nil x)
      | (left; simp [restore_tail]; done)
      | (right; apply mem_restore_timings_A; simp [restore_pipe_A])
  · obtain ⟨j, hj, rfl⟩ := List.mem_map.1 hPA
    exact Or.inr (mem_restore_timings_A R D s _ (palette_A_mem R D s j hj))
  · by_cases hp : D.num_pipes = 2
    · simp only [hp, if_true, List.mem_append] at hB
      rcases hB with hB | hPB
      · revert a
        simp only [List.forall_mem_cons, List.forall_mem_nil, and_true]
        (repeat' apply And.intro) <;>
        first
          | exact fun x hx => absurd hx (List.not_mem_nil x)
          | (left; simp [restore_tail]; done)
          | (right; apply mem_restore_timings_B _ _ _ _ hp; simp [restore_pipe_B])
      · obtain ⟨j, hj, rfl⟩ := List.mem_map.1 hPB
        exact Or.inr (mem_restore_timings_B R D s _ hp (palette_B_mem R D s j hj))
    · simp [hp] at hB
  · by_cases hi : D.is_i965g = true
    · by_cases hp : D.num_pipes = 2
      · simp only [hi, hp, if_true, List.mem_append] at h965
        rcases h965 with (h | h) | h
        · simp only [List.mem_singleton] at h
          subst h
          exact Or.inr (mem_restore_timings_A R D s _ (by simp [restore_pipe_A, hi]))
        · simp only [List.mem_singleton] at h
          subst h
          exact Or.inr (mem_restore_timings_B R D s _ hp (by simp [restore_pipe_B, hi]))
        · revert a
          simp only [List.forall_mem_cons, List.forall_mem_nil, and_true]
          (repeat' apply And.intro) <;>
          first
            | exact fun x hx => absurd hx (List.not_mem_nil x)
            | (left; simp [restore_tail, hi])
      · simp only [hi, hp, if_true, if_false, List.mem_append, List.append_nil] at h965
        rcases h965 with h | h
        · simp only [List.mem_singleton] at h
          subst h
          exact Or.inr (mem_restore_timings_A R D s _ (by simp [restore_pipe_A, hi]))
        · revert a
          simp only [List.forall_mem_cons, List.forall_mem_nil, and_true]
          (repeat' apply And.intro) <;>
          first
            | exact fun x hx => absurd hx (List.not_mem_nil x)
            | (left; simp [restore_tail, hi])
    · simp [hi] at h965
  · revert a
    simp only [List.forall_mem_cons, List.forall_mem_nil, and_true]
    (repeat' apply And.intro) <;>
    first
      | exact fun x hx => absurd hx (List.not_mem_nil x)
      | (left; simp [restore_tail])
  · revert a
    simp only [List.flatMap_cons, List.flatMap_nil, List.append_nil, List.forall_mem_append,
      List.forall_mem_cons, List.forall_mem_nil, and_true]
    (repeat' apply And.intro) <;>
    first
      | exact fun x hx => absurd hx (List.not_mem_nil x)
      | (left; simp [restore_tail])
  · revert a
    simp only [List.forall_mem_cons, List.forall_mem_nil, and_true]
    (repeat' apply And.intro) <;>
    first
      | exact fun x hx => absurd hx (List.not_mem_nil x)
      | (left; simp [restore_tail]; done)
      | (right; simp [restore_timings])

/-- The round trip: after `SaveHWState`, any run of register writes and
`RestoreHWState`, a captured register holds what it held before. -/
theorem round_trip (R : RegMap) (H : Helpers) (D : Device) (h : HW) (ws : List (Nat × Nat))
    (hk : H.keep (captured R D))
    (hB : D.num_pipes ≠ 2 → R.PIPEBCONF ∉ captured R D ∧ R.DSPBCNTR ∉ captured R D)
    (a : Nat) (ha : a ∈ captured R D) :
    (RestoreHWState R H D (OUTREGs (SaveHWState R H D h) ws)).regs a = h.regs a := by
  obtain ⟨F1, F2⟩ := restore_faithful R H D h (SaveHWState R H D h).saved
    (H.i830TakeRegSnapshot h.regs) rfl rfl
  have hc : H.i830TakeRegSnapshot h.regs a = h.regs a := (hk h.regs a ha).1
  rw [RestoreHWState_eq, OUTREGs_saved, ← hc]
  show H.i830CompareRegsToSnapshot _ a = _
  rw [(hk _ a ha).2.2]
  apply OUTREGs_regs (fun x => x ∈ captured R D) (H.i830TakeRegSnapshot h.regs) _ _ _ a ha
  · rcases restore_covers R D (SaveHWState R H D h).saved a ha with h1 | h1
    · exact Or.inl h1
    · right
      rw [restore_outputs_regs H D (captured R D) hk _ a ha]
      exact OUTREGs_regs (fun _ => True) (H.i830TakeRegSnapshot h.regs) _ _
        (fun w hw _ => F1 w hw) a trivial (Or.inl h1)
  · intro w hw hcap
    apply F2 w hw
    intro hne
    exact ⟨fun e => (hB hne).1 (e ▸ hcap), fun e => (hB hne).2 (e ▸ hcap)⟩

theorem and_not_clears (x mask i : Nat) (hi : i < 32) (hm : mask.testBit i = true) :
    (and_not x mask).testBit i = false := by
  unfold and_not
  rw [Nat.testBit_and, Nat.testBit_xor, Nat.testBit_two_pow_sub_one, Nat.testBit_mod_two_pow]
  simp [hi, hm]

/-- The hardware actions of `RestoreHWState`, in order. -/
theorem RestoreHWState_trace (R : RegMap) (H : Helpers) (D : Device) (h : HW) :
    ∃ a b c d, (RestoreHWState R H D h).trace
      = h.trace ++ [.I830DRISetVBlankInterrupt false, .vgaHWRestore, .vgaHWLock]
        ++ [.OUTREG R.DSPACNTR (and_not a R.DISPLAY_PLANE_ENABLE),
            .OUTREG R.DSPBCNTR (and_not b R.DISPLAY_PLANE_ENABLE)]
        ++ [.OUTREG R.PIPEACONF (and_not c R.PIPEACONF_ENABLE),
            .OUTREG R.PIPEBCONF (and_not d R.PIPEBCONF_ENABLE)]
        ++ ((List.range D.num_outputs).map fun i => HwEvent.output_pre_set_mode i true)
        ++ [.i830WaitForVblank]
        ++ ((restore_timings R D h.saved).map fun w => HwEvent.OUTREG w.1 w.2)
        ++ ((List.range D.num_outputs).map fun i => HwEvent.output_restore i)
        ++ ((restore_tail R D h.saved).map fun w => HwEvent.OUTREG w.1 w.2)
        ++ [.i830CompareRegsToSnapshot] := by
  obtain ⟨a, b, c, d, hd⟩ := restore_disable_trace R H D h
  refine ⟨a, b, c, d, ?_⟩
  rw [RestoreHWState_eq, HW.call_trace, OUTREGs_trace, restore_outputs_trace, OUTREGs_trace, hd]

/-- C15: the hardware actions of every call of `RestoreHWState` are, in this
order: the vblank interrupt off, the VGA state restored and locked; the writes
that clear the plane-enable bits of `DSPACNTR` and `DSPBCNTR`; the writes that
clear the pipe-enable bits of `PIPEACONF` and `PIPEBCONF`; `pre_set_mode` with
a NULL mode for every output; the vblank wait; for pipe A, and for pipe B when
there are two pipes, the timing registers, then stride, size, position and
base of the plane and the source size of the pipe, then the palette; then
`PFIT_CONTROL`; the `restore` hook of every output; and only then the rest of
the saved registers (`DSPxSURF` on an I965G, the VGA clock, `PIPExCONF`,
`VGACNTRL`, `DSPxCNTR`, the SWF registers), before the comparison with the
snapshot. -/
theorem restore_ordering (R : RegMap) (H : Helpers) (D : Device) (h : HW) :
    (∃ a b c d, (RestoreHWState R H D h).trace
      = h.trace ++ [.I830DRISetVBlankInterrupt false, .vgaHWRestore, .vgaHWLock]
        ++ [.OUTREG R.DSPACNTR (and_not a R.DISPLAY_PLANE_ENABLE),
            .OUTREG R.DSPBCNTR (and_not b R.DISPLAY_PLANE_ENABLE)]
        ++ [.OUTREG R.PIPEACONF (and_not c R.PIPEACONF_ENABLE),
            .OUTREG R.PIPEBCONF (and_not d R.PIPEBCONF_ENABLE)]
        ++ ((List.range D.num_outputs).map fun i => HwEvent.output_pre_set_mode i true)
        ++ [.i830WaitForVblank]
        ++ ((restore_timings R D h.saved).map fun w => HwEvent.OUTREG w.1 w.2)
        ++ ((List.range D.num_outputs).map fun i => HwEvent.output_restore i)
        ++ ((restore_tail R D h.saved).map fun w => HwEvent.OUTREG w.1 w.2)
        ++ [.i830CompareRegsToSnapshot]) ∧
    restore_timings R D h.saved
      = ([(R.FPA0, h.saved.saveFPA0), (R.FPA1, h.saved.saveFPA1), (R.DPLL_A, h.saved.saveDPLL_A)]
          ++ (if D.is_i965g then [(R.DPLL_A_MD, h.saved.saveDPLL_A_MD)] else [])
          ++ [(R.HTOTAL_A, h.saved.saveHTOTAL_A), (R.HBLANK_A, h.saved.saveHBLANK_A),
              (R.HSYNC_A, h.saved.saveHSYNC_A), (R.VTOTAL_A, h.saved.saveVTOTAL_A),
              (R.VBLANK_A, h.saved.saveVBLANK_A), (R.VSYNC_A, h.saved.saveVSYNC_A)]
          ++ [(R.DSPASTRIDE, h.saved.saveDSPASTRIDE), (R.DSPASIZE, h.saved.saveDSPASIZE),
              (R.DSPAPOS, h.saved.saveDSPAPOS), (R.DSPABASE, h.saved.saveDSPABASE),
              (R.PIPEASRC, h.saved.savePIPEASRC)]
          ++ ((List.range 256).map fun i => (R.PALETTE_A + (i <<< 2), h.saved.savePaletteA i)))
        ++ (if D.num_pipes = 2 then
          [(R.FPB0, h.saved.saveFPB0), (R.FPB1, h.saved.saveFPB1), (R.DPLL_B, h.saved.saveDPLL_B)]
            ++ (if D.is_i965g then [(R.DPLL_B_MD, h.saved.saveDPLL_B_MD)] else [])
            ++ [(R.HTOTAL_B, h.saved.saveHTOTAL_B), (R.HBLANK_B, h.saved.saveHBLANK_B),
                (R.HSYNC_B, h.saved.saveHSYNC_B), (R.VTOTAL_B, h.saved.saveVTOTAL_B),
                (R.VBLANK_B, h.saved.saveVBLANK_B), (R.VSYNC_B, h.saved.saveVSYNC_B)]
            ++ [(R.DSPBSTRIDE, h.saved.saveDSPBSTRIDE), (R.DSPBSIZE, h.saved.saveDSPBSIZE),
                (R.DSPBPOS, h.saved.saveDSPBPOS), (R.DSPBBASE, h.saved.saveDSPBBASE),
                (R.PIPEBSRC, h.saved.savePIPEBSRC)]
            ++ ((List.range 256).map fun i => (R.PALETTE_B + (i <<< 2), h.saved.savePaletteB i))
          else [])
        ++ [(R.PFIT_CONTROL, h.saved.savePFIT_CONTROL)] ∧
    (HwEvent.OUTREG R.PIPEACONF h.saved.savePIPEACONF ∈
        (restore_tail R D h.saved).map fun w => HwEvent.OUTREG w.1 w.2) ∧
    (HwEvent.OUTREG R.DSPACNTR h.saved.saveDSPACNTR ∈
        (restore_tail R D h.saved).map fun w => HwEvent.OUTREG w.1 w.2) ∧
    (∀ x mask i, i < 32 → mask.testBit i = true → (and_not x mask).testBit i = false) := by
  refine ⟨RestoreHWState_trace R H D h, ?_, ?_, ?_, and_not_clears⟩
  · simp [restore_timings, restore_pipe_A, restore_pipe_B]
  · apply List.mem_map.2
    exact ⟨(R.PIPEACONF, h.saved.savePIPEACONF), by simp [restore_tail], rfl⟩
  · apply List.mem_map.2
    exact ⟨(R.DSPACNTR, h.saved.saveDSPACNTR), by simp [restore_tail], rfl⟩

/-- C15 fails as stated: on the sample device, after a `SaveHWState`, the
`restore` hook of output 0 is called before the saved value of `PIPEACONF` is
written back. -/
theorem restore_hook_before_pipeconf_counterexample :
    ∃ pre post,
      (RestoreHWState sample_regmap sample_helpers sample_device
        (SaveHWState sample_regmap sample_helpers sample_device sample_hw)).trace
        = pre ++ [.output_restore 0] ++ post ∧
      (SaveHWState sample_regmap sample_helpers sample_device sample_hw).saved.savePIPEACONF
        = 0x80070008 ∧
      HwEvent.OUTREG sample_regmap.PIPEACONF 0x80070008 ∈ post := by
  obtain ⟨a, b, c, d, ht⟩ := RestoreHWState_trace sample_regmap sample_helpers sample_device
    (SaveHWState sample_regmap sample_helpers sample_device sample_hw)
  have hs : (SaveHWState sample_regmap sample_helpers sample_device sample_hw).saved.savePIPEACONF
      = 0x80070008 := by
    simp [SaveHWState, save_outputs_saved, HW.call, INREG, sample_device, sample_helpers,
      sample_hw, sample_regmap]
  refine ⟨(SaveHWState sample_regmap sample_helpers sample_device sample_hw).trace
      ++ [.I830DRISetVBlankInterrupt false, .vgaHWRestore, .vgaHWLock]
      ++ [.OUTREG sample_regmap.DSPACNTR (and_not a sample_regmap.DISPLAY_PLANE_ENABLE),
          .OUTREG sample_regmap.DSPBCNTR (and_not b sample_regmap.DISPLAY_PLANE_ENABLE)]
      ++ [.OUTREG sample_regmap.PIPEACONF (and_not c sample_regmap.PIPEACONF_ENABLE),
          .OUTREG sample_regmap.PIPEBCONF (and_not d sample_regmap.PIPEBCONF_ENABLE)]
      ++ ((List.range sample_device.num_outputs).map
          fun i => HwEvent.output_pre_set_mode i true)
      ++ [.i830WaitForVblank]
      ++ ((restore_timings sample_regmap sample_device
          (SaveHWState sample_regmap sample_helpers sample_device sample_hw).saved).map
          fun w => HwEvent.OUTREG w.1 w.2),
    ((restore_tail sample_regmap sample_device
          (SaveHWState sample_regmap sample_helpers sample_device sample_hw).saved).map
          fun w => HwEvent.OUTREG w.1 w.2)
      ++ [.i830CompareRegsToSnapshot], ?_, hs, ?_⟩
  · rw [ht]
    have : (List.range sample_device.num_outputs).map (fun i => HwEvent.output_restore i)
        = [HwEvent.output_restore 0] := rfl
    rw [this]
    simp only [List.append_assoc]
  · apply List.mem_append_left
    apply List.mem_map.2
    refine ⟨(sample_regmap.PIPEACONF, 0x80070008), ?_, rfl⟩
    rw [← hs]
    simp [restore_tail]

/-- C16: in the register file, for every device and every register map, if
the snapshot helpers and the `restore` hooks write no captured register, and,
on a device without a second pipe, `PIPEBCONF` and `DSPBCNTR` are not among the
captured registers, then after `SaveHWState`, any run of register writes and
`RestoreHWState`, every register `SaveHWState` captured holds the value it had
when `SaveHWState` was entered. -/
theorem restore_completeness (R : RegMap) (H : Helpers) (D : Device) (h : HW)
    (ws : List (Nat × Nat)) (hk : H.keep (captured R D))
    (hB : D.num_pipes ≠ 2 → R.PIPEBCONF ∉ captured R D ∧ R.DSPBCNTR ∉ captured R D) :
    ∀ a ∈ captured R D,
      (RestoreHWState R H D (OUTREGs (SaveHWState R H D h) ws)).regs a = h.regs a :=
  fun a ha => round_trip R H D h ws hk hB a ha

theorem sample_DSPACNTR_captured :
    sample_regmap.DSPACNTR ∈ captured sample_regmap sample_device := by
  unfold captured
  simp

/-- C16 at the sample device: `DSPACNTR`, overwritten with zero between the
save and the restore, holds its old value again. -/
theorem restore_completeness_witness :
    sample_regmap.DSPACNTR ∈ captured sample_regmap sample_device ∧
      (RestoreHWState sample_regmap sample_helpers sample_device
        (OUTREGs (SaveHWState sample_regmap sample_helpers sample_device sample_hw)
          [(0x70180, 0), (0x70008, 0), (0x70184, 0), (0xa000, 0)])).regs sample_regmap.DSPACNTR
        = sample_hw.regs sample_regmap.DSPACNTR :=
  ⟨sample_DSPACNTR_captured,
    restore_completeness sample_regmap sample_helpers sample_device sample_hw
      [(0x70180, 0), (0x70008, 0), (0x70184, 0), (0xa000, 0)]
      (fun _ _ _ => ⟨rfl, fun _ => rfl, rfl⟩) (fun h => absurd rfl h)
      sample_regmap.DSPACNTR sample_DSPACNTR_captured⟩

/-! ## The state saving of `I830EnterVT` -/

theorem saves_append (a b : List HwEvent) : saves (a ++ b) = saves a + saves b := by
  simp [saves]

theorem save_outputs_saves (H : Helpers) (D : Device) (h : HW) :
    saves (save_outputs H D h).trace = saves h.trace := by
  unfold save_outputs
  induction D.num_outputs generalizing h with
  | zero => rfl
  | succ n ih =>
    rw [List.range_succ, List.foldl_append]
    simp only [List.foldl_cons, List.foldl_nil]
    cases H.output_save n with
    | none => exact ih h
    | some f =>
      simp only [HW.call_trace, saves_append]
      rw [ih h]
      simp [saves]

theorem SaveHWState_saves (R : RegMap) (H : Helpers) (D : Device) (h : HW) :
    saves (SaveHWState R H D h).trace = saves h.trace + 1 := by
  by_cases hp : D.num_pipes = 2 <;>
    simp [SaveHWState, HW.call_trace, saves_append, save_outputs_saves, HW.call, hp] <;>
    simp [saves]

theorem int_to_ulong_ne (x : Int) (g : Nat) (h1 : -2 ^ 31 ≤ x) (h2 : x < 2 ^ 31)
    (hg : g < 2 ^ 31) : int_to_ulong x ≠ g ↔ x ≠ (g : Int) := by
  unfold int_to_ulong
  omega

theorem to_int_small (g : Nat) (hg : g < 2 ^ 31) : to_int g = (g : Int) := by
  unfold to_int
  omega

/-- One `I830EnterVT`: `SaveHWState` runs exactly when `SaveGeneration`
differs from `serverGeneration`, and the two are equal afterwards. -/
theorem I830EnterVT_spec (R : RegMap) (H : Helpers) (D : Device) (g : Nat) (hg : g < 2 ^ 31)
    (rest : (Nat → Nat) → Bool × (Nat → Nat)) (v : VT)
    (h1 : -2 ^ 31 ≤ v.SaveGeneration) (h2 : v.SaveGeneration < 2 ^ 31) :
    saves (I830EnterVT R H D g rest v).2.hw.trace
        = saves v.hw.trace + (if v.SaveGeneration ≠ (g : Int) then 1 else 0) ∧
      (I830EnterVT R H D g rest v).2.SaveGeneration = (g : Int) := by
  have e := int_to_ulong_ne v.SaveGeneration g h1 h2 hg
  by_cases hne : v.SaveGeneration ≠ (g : Int)
  · have hne' : int_to_ulong v.SaveGeneration ≠ g := e.2 hne
    simp [I830EnterVT, hne, hne', SaveHWState_saves, to_int_small g hg]
  · have hne' : ¬ int_to_ulong v.SaveGeneration ≠ g := fun h => hne (e.1 h)
    have heq : v.SaveGeneration = (g : Int) := not_not.1 hne
    simp only [ne_eq, not_not] at hne'
    rw [heq] at hne'
    simp [I830EnterVT, hne', heq]

theorem enter_run_saved (R : RegMap) (H : Helpers) (D : Device) (g : Nat) (hg : g < 2 ^ 31)
    (rests : List ((Nat → Nat) → Bool × (Nat → Nat))) (v : VT)
    (hv : v.SaveGeneration = (g : Int)) :
    saves (enter_run R H D g rests v).hw.trace = saves v.hw.trace := by
  induction rests generalizing v with
  | nil => rfl
  | cons rest rests ih =>
    obtain ⟨e1, e2⟩ := I830EnterVT_spec R H D g hg rest v (by omega) (by omega)
    rw [enter_run, ih _ e2, e1]
    simp [hv]

/-- C14: `I830PreInit` leaves `SaveGeneration` at -1; for a server generation
below 2^31, an `I830EnterVT` calls `SaveHWState` if and only if
`SaveGeneration` differs from `serverGeneration` on entry, and leaves the two
equal; so in every sequence of `I830EnterVT` calls of one generation after
`I830PreInit`, `SaveHWState` runs in the first call and in no later one. -/
theorem save_once_per_generation (R : RegMap) (H : Helpers) (D : Device) (g : Nat)
    (hg : g < 2 ^ 31) :
    (∀ v, (I830PreInit_SaveGeneration v).SaveGeneration = -1) ∧
    (∀ rest v, -2 ^ 31 ≤ v.SaveGeneration → v.SaveGeneration < 2 ^ 31 →
      saves (I830EnterVT R H D g rest v).2.hw.trace
          = saves v.hw.trace + (if v.SaveGeneration ≠ (g : Int) then 1 else 0) ∧
        (I830EnterVT R H D g rest v).2.SaveGeneration = (g : Int)) ∧
    (∀ rest rests v,
      saves (I830EnterVT R H D g rest (I830PreInit_SaveGeneration v)).2.hw.trace
          = saves v.hw.trace + 1 ∧
        saves (enter_run R H D g (rest :: rests) (I830PreInit_SaveGeneration v)).hw.trace
          = saves v.hw.trace + 1) := by
  refine ⟨fun _ => rfl, fun rest v h1 h2 => I830EnterVT_spec R H D g hg rest v h1 h2, ?_⟩
  intro rest rests v
  obtain ⟨e1, e2⟩ := I830EnterVT_spec R H D g hg rest (I830PreInit_SaveGeneration v)
    (by simp [I830PreInit_SaveGeneration]) (by simp [I830PreInit_SaveGeneration])
  have hne : (I830PreInit_SaveGeneration v).SaveGeneration ≠ (g : Int) := by
    simp only [I830PreInit_SaveGeneration]
    omega
  rw [if_pos hne] at e1
  have e0 : (I830PreInit_SaveGeneration v).hw = v.hw := rfl
  rw [e0] at e1
  refine ⟨e1, ?_⟩
  rw [enter_run, enter_run_saved R H D g hg rests _ e2, e1]

/-- C14 at the sample device, in the first server generation. -/
theorem save_once_per_generation_witness :
    (∀ v, (I830PreInit_SaveGeneration v).SaveGeneration = -1) ∧
    (∀ rest v, -2 ^ 31 ≤ v.SaveGeneration → v.SaveGeneration < 2 ^ 31 →
      saves (I830EnterVT sample_regmap sample_helpers sample_device 1 rest v).2.hw.trace
          = saves v.hw.trace + (if v.SaveGeneration ≠ ((1 : Nat) : Int) then 1 else 0) ∧
        (I830EnterVT sample_regmap sample_helpers sample_device 1 rest v).2.SaveGeneration
          = ((1 : Nat) : Int)) ∧
    (∀ rest rests v,
      saves (I830EnterVT sample_regmap sample_helpers sample_device 1 rest
          (I830PreInit_SaveGeneration v)).2.hw.trace
          = saves v.hw.trace + 1 ∧
        saves (enter_run sample_regmap sample_helpers sample_device 1 (rest :: rests)
          (I830PreInit_SaveGeneration v)).hw.trace
          = saves v.hw.trace + 1) :=
  save_once_per_generation sample_regmap sample_helpers sample_device 1 (by decide)

end I830

namespace SnaPresent

/-! ## An unflip queued while the handler runs -/

end SnaPresent

namespace IntelDevice

/-! ## A failed `intel_get_master` -/

/-- Against a kernel that refuses every `drmSetMaster`, the retry loop
returns a non-zero value and leaves the stored record as it found it. -/
theorem set_master_loop_refused (K : Kernel) (h : ∀ k, K.drmSetMaster k ≠ 0) (fd : Int)
    (n k : Nat) (s : Scrn) :
    (set_master_loop K fd n k s).1 ≠ 0 ∧ (set_master_loop K fd n k s).2.ptr = s.ptr ∧
      (set_master_loop K fd n k s).2.entityList = s.entityList := by
  induction n generalizing k s with
  | zero => simp [set_master_loop, h, Scrn.emit]
  | succ n ih =>
    simp only [set_master_loop, h, if_false]
    obtain ⟨h1, h2, h3⟩ := ih (k + 1)
      ((s.emit (.drmSetMaster fd (K.drmSetMaster k))).emit (.usleep 1000))
    exact ⟨h1, by rw [h2]; rfl, by rw [h3]; rfl⟩

/-- With `master_count` 0 on entry and every `drmSetMaster` refused,
`intel_get_master` returns non-zero and leaves `master_count` at 1. -/
theorem get_master_refused (K : Kernel) (h : ∀ k, K.drmSetMaster k ≠ 0) (s : Scrn)
    (dev : intel_device) (hd : intel_device_of s = some dev) (h0 : dev.master_count = 0) :
    ∃ r s1, intel_get_master K s = some (r, s1) ∧ r ≠ 0 ∧
      s1.ptr = some { dev with master_count := 1 } ∧ s1.entityList = s.entityList := by
  have e : int32 (dev.master_count + 1) = 1 := by rw [h0]; rfl
  obtain ⟨h1, h2, h3⟩ := set_master_loop_refused K h dev.fd 1999 0
    (s.store { dev with master_count := 1 })
  refine ⟨(set_master_loop K dev.fd 1999 0 (s.store { dev with master_count := 1 })).1,
    (set_master_loop K dev.fd 1999 0 (s.store { dev with master_count := 1 })).2,
    ?_, h1, by rw [h2]; rfl, by rw [h3]; rfl⟩
  simp only [intel_get_master, hd, e]
  rw [if_pos h0]

/-- C29: on a device that holds no master, with a kernel that refuses all
2000 `drmSetMaster` attempts, `intel_get_master` returns non-zero and leaves
`master_count` at 1, not at the 0 it had before the call; the next
`intel_get_master` then returns 0 without attempting `drmSetMaster`, even
against a kernel that would grant it. -/
theorem failed_get_master_keeps_increment :
    idle_dev.master_count = 0 ∧
    ∃ r s1, intel_get_master refusing_kernel idle_scrn = some (r, s1) ∧ r ≠ 0 ∧
      s1.ptr = some { idle_dev with master_count := 1 } ∧
      ∃ s2, intel_get_master willing_kernel { s1 with trace := [] } = some (0, s2) ∧
        set_master_attempted s2.trace = false ∧
        s2.ptr = some { idle_dev with master_count := 2 } := by
  obtain ⟨r, s1, h1, h2, h3, h4⟩ := get_master_refused refusing_kernel (fun _ => by simp [refusing_kernel])
    idle_scrn idle_dev rfl rfl
  refine ⟨rfl, r, s1, h1, h2, h3, ?_⟩
  have h5 : intel_device_of { s1 with trace := [] } = some { idle_dev with master_count := 1 } := by
    simp [intel_device_of, h3, h4, idle_scrn]
  refine ⟨_, by simp only [intel_get_master, h5]; rfl, ?_, ?_⟩
  · simp [Scrn.store, set_master_attempted]
  · simp [Scrn.store, int32]

end IntelDevice
namespace I915XvMC

/-! ## The status of a subpicture -/

/-- With a non-NULL `stat` the first test of `XvMCGetSubpictureStatus`
succeeds: the call returns `BadValue` and stores nothing. -/
theorem status_rejects_stat (K : XConsts) (error_base : Int) (display : Bool)
    (subpicture : Option XvMCSubpicture) (v : Int) :
    XvMCGetSubpictureStatus K error_base display subpicture (some v) =
      some (K.BadValue, some v) := by
  simp [XvMCGetSubpictureStatus]

/-- With a NULL `stat` and the other two pointers non-NULL the call stores
through the NULL pointer. -/
theorem status_null_stat (K : XConsts) (error_base : Int) (sp : XvMCSubpicture) :
    XvMCGetSubpictureStatus K error_base true (some sp) none = none := by
  simp [XvMCGetSubpictureStatus]

/-- C26: for a valid subpicture whose last rendering is not completed, a
non-NULL display and a non-NULL `stat` that holds 85,
`XvMCGetSubpictureStatus` returns `BadValue` (2) and leaves 85 behind `stat`,
where `Success` and `XVMC_RENDERING` are expected; for a subpicture whose
rendering is completed it does the same, and `XvMCSyncSubpicture` returns
`BadValue` after one pass. -/
theorem subpicture_status_bad_value :
    XvMCGetSubpictureStatus sample_xconsts 0 true (some rendering_subpicture) (some 85) =
      some (2, some 85) ∧
    XvMCGetSubpictureStatus sample_xconsts 0 true (some idle_subpicture) (some 85) =
      some (2, some 85) ∧
    XvMCSyncSubpicture sample_xconsts 0 true (some idle_subpicture) 1 = some 2 ∧
    Success = 0 ∧ sample_xconsts.XVMC_RENDERING = 1 := by
  refine ⟨status_rejects_stat _ _ _ _ _, status_rejects_stat _ _ _ _ _, ?_, rfl, rfl⟩
  simp [XvMCSyncSubpicture, sync_loop, status_rejects_stat, sample_xconsts]

end I915XvMC

namespace I830

/-! ## The default `videoRam` -/

/-- On the primary head of a shared entity with DRI not disabled, and a
stolen size in kB that does not exceed the sum, the default is
`I830_DEFAULT_VIDEOMEM_3D + I830_DEFAULT_VIDEOMEM_2D`. -/
theorem default_videoRam_shared_3D (D : VideoMem) (stolen : Int)
    (h : Int.tdiv stolen 1024 ≤ D.I830_DEFAULT_VIDEOMEM_3D + D.I830_DEFAULT_VIDEOMEM_2D)
    (hr : as_int (D.I830_DEFAULT_VIDEOMEM_3D + D.I830_DEFAULT_VIDEOMEM_2D)
      = D.I830_DEFAULT_VIDEOMEM_3D + D.I830_DEFAULT_VIDEOMEM_2D) :
    default_videoRam D true false true true stolen =
      D.I830_DEFAULT_VIDEOMEM_3D + D.I830_DEFAULT_VIDEOMEM_2D := by
  simp [default_videoRam, hr, not_lt.2 h]

/-- C27: with 8192 kB and 32768 kB as the two defaults, on the primary head
of a shared entity with DRI not disabled and 8 MB of stolen memory the default
`videoRam` is 40960 kB, the 3D default plus the 2D default, and not the 65536
kB of the comment; the other three defaults are 8192, 32768 and 16384 kB. -/
theorem shared_3D_default_not_doubled :
    default_videoRam sample_video_mem true false true true 8122368 = 40960 ∧
    default_videoRam sample_video_mem true true false true 8122368 = 8192 ∧
    default_videoRam sample_video_mem true false false true 8122368 = 32768 ∧
    default_videoRam sample_video_mem true true true true 8122368 = 16384 ∧
    2 * sample_video_mem.I830_DEFAULT_VIDEOMEM_3D = 65536 := by
  refine ⟨?_, ?_, ?_, ?_, ?_⟩ <;> decide

/-! ## The stolen-memory range -/

/-- After the initialisation and the clamp, `End` is `Size` and `Start` is
`mem_skip`: `End - Start` falls short of `Size` by `Start`. -/
theorem StolenMemory_end (is_i965g : Bool) (FbMapSize : Nat) (detected TotalVideoRam : Int) :
    (StolenMemory_clamp TotalVideoRam (StolenMemory_init is_i965g FbMapSize detected)).End =
      (StolenMemory_clamp TotalVideoRam (StolenMemory_init is_i965g FbMapSize detected)).Size ∧
    (StolenMemory_clamp TotalVideoRam (StolenMemory_init is_i965g FbMapSize detected)).Start =
      (if is_i965g = true then as_int ((FbMapSize >>> 10 : Nat) : Int) else 0) := by
  have hc : ∀ m : MemRange, m.End = m.Size →
      (StolenMemory_clamp TotalVideoRam m).End = (StolenMemory_clamp TotalVideoRam m).Size ∧
      (StolenMemory_clamp TotalVideoRam m).Start = m.Start := by
    intro m hm
    unfold StolenMemory_clamp
    split <;> simp [hm]
  obtain ⟨h1, h2⟩ := hc (StolenMemory_init is_i965g FbMapSize detected) rfl
  exact ⟨h1, by rw [h2]; cases is_i965g <;> rfl⟩

/-- C24: on an I965G with a 256 MB aperture and 8 MB of stolen memory, of
which `I830DetectMemory` returns 8122368 bytes, `StolenMemory` is
`Start = 262144`, `End = 7860224`, `Size = 7860224` after the initialisation,
and the clamp to a `TotalVideoRam` of 32 MB leaves it so: `Size` is not
`End - Start`, which is 7598080. On the same device without the I965G skip the
three fields are 0, 8122368 and 8122368. -/
theorem stolen_range_965 :
    StolenMemory_clamp 33554432 (StolenMemory_init true 0x10000000 8122368) =
      { Start := 262144, End := 7860224, Size := 7860224 } ∧
    (StolenMemory_clamp 33554432 (StolenMemory_init true 0x10000000 8122368)).Size ≠
      (StolenMemory_clamp 33554432 (StolenMemory_init true 0x10000000 8122368)).End -
        (StolenMemory_clamp 33554432 (StolenMemory_init true 0x10000000 8122368)).Start ∧
    StolenMemory_clamp 33554432 (StolenMemory_init false 0x10000000 8122368) =
      { Start := 0, End := 8122368, Size := 8122368 } := by
  refine ⟨?_, ?_, ?_⟩ <;> decide

/-! ## The Rotate option -/

/-- The `switch` at the end of `I830ScreenInit` sets `rotation` from
`InitialRotation` alone, whatever the generation. -/
theorem ScreenInit_rotation_value (is_i965g : Bool) (minor : Int) (s : Rotation) :
    (I830ScreenInit_rotation is_i965g minor s).rotation =
      (if s.InitialRotation = 90 then RR_Rotate_90
       else if s.InitialRotation = 180 then RR_Rotate_180
       else if s.InitialRotation = 270 then RR_Rotate_270
       else RR_Rotate_0) := by
  unfold I830ScreenInit_rotation
  by_cases h0 : s.InitialRotation = 0
  · by_cases hm : minor ≥ 1 <;> cases is_i965g <;> simp [h0, hm]
  · by_cases h90 : s.InitialRotation = 90
    · by_cases hm : minor ≥ 1 <;> cases is_i965g <;> simp [h90, hm]
    · by_cases h180 : s.InitialRotation = 180
      · by_cases hm : minor ≥ 1 <;> cases is_i965g <;> simp [h180, hm]
      · by_cases h270 : s.InitialRotation = 270
        · by_cases hm : minor ≥ 1 <;> cases is_i965g <;> simp [h270, hm]
        · by_cases hm : minor ≥ 1 <;> cases is_i965g <;> simp [h0, h90, h180, h270, hm]

/-- On an I965G with a new enough libshadow, `RR_Rotate_0` is the one set
of rotations offered to RandR. -/
theorem ScreenInit_advertised_965 (minor : Int) (hm : minor ≥ 1) (s : Rotation) :
    advertised (I830ScreenInit_rotation true minor s).trace =
      advertised s.trace ++ [RR_Rotate_0] := by
  unfold I830ScreenInit_rotation
  by_cases h0 : s.InitialRotation = 0
  · simp [h0, hm, advertised, List.filterMap_append]
  · by_cases h90 : s.InitialRotation = 90
    · simp [h90, hm, advertised, List.filterMap_append]
    · by_cases h180 : s.InitialRotation = 180
      · simp [h180, hm, advertised, List.filterMap_append]
      · by_cases h270 : s.InitialRotation = 270
        · simp [h270, hm, advertised, List.filterMap_append]
        · simp [h0, h90, h180, h270, hm, advertised, List.filterMap_append]

/-- C21: on an I965G with the option `Rotate` set to `CW`, `I830PreInit`
leaves `InitialRotation` at 270 and `I830ScreenInit`, which offers only
`RR_Rotate_0` to RandR, ends with `rotation = RR_Rotate_270`, as it does on
the other generations; with `CCW` it ends with `RR_Rotate_90` and with `180`
with `RR_Rotate_180`. -/
theorem rotate_option_on_965 :
    (I830PreInit_rotate exact_names (some "CW") fresh_rotation).InitialRotation = 270 ∧
    (I830ScreenInit_rotation true 1
      (I830PreInit_rotate exact_names (some "CW") fresh_rotation)).rotation = RR_Rotate_270 ∧
    advertised (I830ScreenInit_rotation true 1
      (I830PreInit_rotate exact_names (some "CW") fresh_rotation)).trace = [RR_Rotate_0] ∧
    (I830ScreenInit_rotation false 1
      (I830PreInit_rotate exact_names (some "CW") fresh_rotation)).rotation = RR_Rotate_270 ∧
    (I830ScreenInit_rotation true 1
      (I830PreInit_rotate exact_names (some "CCW") fresh_rotation)).rotation = RR_Rotate_90 ∧
    (I830ScreenInit_rotation true 1
      (I830PreInit_rotate exact_names (some "180") fresh_rotation)).rotation = RR_Rotate_180 ∧
    (I830ScreenInit_rotation true 1
      (I830PreInit_rotate exact_names none fresh_rotation)).rotation = RR_Rotate_0 := by
  refine ⟨?_, ?_, ?_, ?_, ?_, ?_, ?_⟩ <;> decide

end I830
namespace I830

/-! ## The pipe assignment -/

theorem Pipes.set_output (s : Pipes) (i : Nat) (o : Output) (j : Nat) :
    (s.set i o).output j = if j = i then o else s.output j := rfl

theorem i830PipeInUse_trace (s : Pipes) (tr : List PipeEvent) (p : Int) :
    i830PipeInUse { s with trace := tr } p = i830PipeInUse s p := rfl

theorem assign_output_frame (d : Nat → detect_status) (i : Nat) (t : Pipes) :
    (assign_output d i t).num_outputs = t.num_outputs ∧
    (assign_output d i t).num_pipes = t.num_pipes ∧
    (assign_output d i t).pipes_enabled = t.pipes_enabled ∧
    ∀ j, j ≠ i → (assign_output d i t).output j = t.output j := by
  unfold assign_output
  simp only [Pipes.set, if_true]
  cases (t.output i).type <;> simp only [] <;> (repeat' split) <;>
    exact ⟨by simp, by simp, by simp, fun j hj => by simp [hj]⟩

theorem assign_output_at (d : Nat → detect_status) (i : Nat) (t : Pipes)
    (hD : ∀ p, i830PipeInUse (t.set i { t.output i with enabled := false }) p = claimed t i p) :
    (assign_output d i t).output i =
      assign_value t.num_pipes (t.output i) (d i) (claimed t i 0) (claimed t i 1) := by
  unfold assign_output assign_value
  simp only [i830PipeInUse_trace, hD, Pipes.set_output, if_true]
  cases h : (t.output i).type <;> simp only [] <;> (repeat' split) <;>
    simp_all [Pipes.set_output, Pipes.set]

theorem assign_outputs_succ (d : Nat → detect_status) (n : Nat) (s : Pipes) :
    assign_outputs d (n + 1) s = assign_output d n (assign_outputs d n s) := by
  simp [assign_outputs, List.range_succ, List.foldl_append]

theorem assign_outputs_frame (d : Nat → detect_status) (n : Nat) (s : Pipes) :
    (assign_outputs d n s).num_outputs = s.num_outputs ∧
    (assign_outputs d n s).num_pipes = s.num_pipes ∧
    (assign_outputs d n s).pipes_enabled = s.pipes_enabled ∧
    ∀ j, n ≤ j → (assign_outputs d n s).output j = s.output j := by
  induction n with
  | zero => simp [assign_outputs]
  | succ n ih =>
    rw [assign_outputs_succ]
    obtain ⟨a, b, c, e⟩ := assign_output_frame d n (assign_outputs d n s)
    obtain ⟨a', b', c', e'⟩ := ih
    exact ⟨a.trans a', b.trans b', c.trans c',
      fun j hj => (e j (by omega)).trans (e' j (by omega))⟩

/-- Once output `j` has been processed, the rest of the loop leaves it alone. -/
theorem assign_outputs_stable (d : Nat → detect_status) (s : Pipes) (j m : Nat) (hm : j < m) :
    (assign_outputs d m s).output j = (assign_outputs d (j + 1) s).output j := by
  induction m with
  | zero => omega
  | succ m ih =>
    by_cases h : j = m
    · subst h; rfl
    · rw [assign_outputs_succ, (assign_output_frame d m (assign_outputs d m s)).2.2.2 j h]
      exact ih (by omega)

/-- While the outputs after `i` are disabled, a pipe is in use at the tests
of output `i` exactly when an output before `i` is enabled on it. -/
theorem in_use_claimed (t : Pipes) (i : Nat) (hi : i < t.num_outputs)
    (hlater : ∀ j, i < j → j < t.num_outputs → (t.output j).enabled = false) (p : Int) :
    i830PipeInUse (t.set i { t.output i with enabled := false }) p = claimed t i p := by
  rw [Bool.eq_iff_iff]
  unfold i830PipeInUse claimed
  simp only [List.any_eq_true, List.mem_range, Pipes.set_output, Bool.and_eq_true,
    decide_eq_true_eq]
  constructor
  · rintro ⟨j, hj, hf⟩
    by_cases hji : j = i
    · simp [hji] at hf
    · simp only [hji, if_false] at hf
      rcases Nat.lt_or_gt_of_ne hji with hlt | hgt
      · exact ⟨j, hlt, hf⟩
      · have := hlater j hgt hj
        rw [this] at hf
        simp at hf
  · rintro ⟨j, hj, hf⟩
    have hji : j ≠ i := by omega
    exact ⟨j, by show j < t.num_outputs; omega, by simpa [hji] using hf⟩

theorem claimed_congr (a b : Pipes) (i : Nat) (h : ∀ j, j < i → a.output j = b.output j)
    (p : Int) : claimed a i p = claimed b i p := by
  rw [Bool.eq_iff_iff]
  unfold claimed
  simp only [List.any_eq_true, List.mem_range]
  constructor
  · rintro ⟨j, hj, hf⟩
    exact ⟨j, hj, by rw [← h j hj]; exact hf⟩
  · rintro ⟨j, hj, hf⟩
    exact ⟨j, hj, by rw [h j hj]; exact hf⟩

/-- What the assignment leaves in `output[i]`, when no output was enabled
before it. -/
theorem pipes_output (d : Nat → detect_status) (s : Pipes)
    (h0 : ∀ j, j < s.num_outputs → (s.output j).enabled = false) (i : Nat)
    (hi : i < s.num_outputs) :
    (I830PreInit_pipes d s).output i =
      assign_value s.num_pipes (s.output i) (d i) (claimed (I830PreInit_pipes d s) i 0)
        (claimed (I830PreInit_pipes d s) i 1) := by
  have hr : (I830PreInit_pipes d s).output = (assign_outputs d s.num_outputs s).output := rfl
  obtain ⟨fa, fb, _, fe⟩ := assign_outputs_frame d i s
  have hc : ∀ p, claimed (I830PreInit_pipes d s) i p = claimed (assign_outputs d i s) i p := by
    intro p
    apply claimed_congr
    intro j hj
    rw [hr, assign_outputs_stable d s j s.num_outputs (by omega),
      assign_outputs_stable d s j i hj]
  have hD := in_use_claimed (assign_outputs d i s) i (by rw [fa]; exact hi)
    (fun j hj hjn => by rw [fe j (by omega)]; exact h0 j (by rw [← fa]; exact hjn))
  rw [hr, assign_outputs_stable d s i s.num_outputs hi, assign_outputs_succ,
    assign_output_at d i _ hD, fb, fe i (le_refl i), hc 0, hc 1]

/-- The loop over the pipes: `pipes[i].enabled` of an existing pipe tells
whether some enabled output is assigned to it. -/
theorem pipes_enabled_spec (d : Nat → detect_status) (s : Pipes) (i : Nat)
    (hi : i < s.num_pipes) :
    (I830PreInit_pipes d s).pipes_enabled i =
      claimed (I830PreInit_pipes d s) s.num_outputs (i : Int) := by
  obtain ⟨fa, fb, _, _⟩ := assign_outputs_frame d s.num_outputs s
  simp only [I830PreInit_pipes, fb, hi, if_true]
  unfold i830PipeInUse claimed
  rw [fa]

/-- C22: with no output enabled before the loop, the assignment leaves each
output `i` as follows, where a pipe is claimed when an output before `i` is
enabled on it. An LVDS output is enabled on pipe `num_pipes - 1`. An analog,
DVO or SDVO output that does not report disconnected is enabled on pipe 0
when pipe 0 is not claimed; on a device with two pipes it is enabled on pipe
1 when pipe 0 is claimed and pipe 1 is not, and it is left disabled exactly
when both pipes are claimed. An analog, DVO or SDVO output that reports
disconnected is left disabled with its `pipe` as before. A TV-out output,
whatever its detection would answer, is enabled on pipe 0 when pipe 0 is not
claimed and is left disabled with its `pipe` as before when pipe 0 is
claimed. -/
theorem pipe_assignment (d : Nat → detect_status) (s : Pipes)
    (h0 : ∀ j, j < s.num_outputs → (s.output j).enabled = false) (i : Nat)
    (hi : i < s.num_outputs) :
    ((I830PreInit_pipes d s).output i).type = (s.output i).type ∧
    ((s.output i).type = .I830_OUTPUT_LVDS →
      ((I830PreInit_pipes d s).output i).enabled = true ∧
      ((I830PreInit_pipes d s).output i).pipe = (s.num_pipes : Int) - 1) ∧
    ((s.output i).type = .I830_OUTPUT_ANALOG ∨ (s.output i).type = .I830_OUTPUT_DVO ∨
        (s.output i).type = .I830_OUTPUT_SDVO →
      (d i ≠ .OUTPUT_STATUS_DISCONNECTED →
        (claimed (I830PreInit_pipes d s) i 0 = false →
          ((I830PreInit_pipes d s).output i).enabled = true ∧
          ((I830PreInit_pipes d s).output i).pipe = 0) ∧
        (s.num_pipes = 2 → claimed (I830PreInit_pipes d s) i 0 = true →
          claimed (I830PreInit_pipes d s) i 1 = false →
          ((I830PreInit_pipes d s).output i).enabled = true ∧
          ((I830PreInit_pipes d s).output i).pipe = 1) ∧
        (s.num_pipes = 2 →
          (((I830PreInit_pipes d s).output i).enabled = false ↔
            claimed (I830PreInit_pipes d s) i 0 = true ∧
            claimed (I830PreInit_pipes d s) i 1 = true))) ∧
      (d i = .OUTPUT_STATUS_DISCONNECTED →
        ((I830PreInit_pipes d s).output i).enabled = false ∧
        ((I830PreInit_pipes d s).output i).pipe = (s.output i).pipe)) ∧
    ((s.output i).type = .I830_OUTPUT_TVOUT →
      (claimed (I830PreInit_pipes d s) i 0 = false →
        ((I830PreInit_pipes d s).output i).enabled = true ∧
        ((I830PreInit_pipes d s).output i).pipe = 0) ∧
      (claimed (I830PreInit_pipes d s) i 0 = true →
        ((I830PreInit_pipes d s).output i).enabled = false ∧
        ((I830PreInit_pipes d s).output i).pipe = (s.output i).pipe)) := by
  rw [pipes_output d s h0 i hi]
  generalize claimed (I830PreInit_pipes d s) i 0 = c0
  generalize claimed (I830PreInit_pipes d s) i 1 = c1
  unfold assign_value
  refine ⟨?_, ?_, ?_, ?_⟩
  · cases (s.output i).type <;> simp only [] <;> (repeat' split) <;> rfl
  · intro h
    simp [h]
  · intro h
    by_cases hd : d i = .OUTPUT_STATUS_DISCONNECTED <;>
      rcases h with h | h | h <;> cases c0 <;> cases c1 <;> simp [h, hd]
  · intro h
    cases c0 <;> simp [h]

/-- C22 on a device with two pipes, an analog output and a TV-out output,
both connected: the TV-out output, second in the list, finds pipe 0 claimed
and is left disabled. -/
theorem pipe_assignment_witness :
    (∀ j, j < (pipes_of 2 [.I830_OUTPUT_ANALOG, .I830_OUTPUT_TVOUT]).num_outputs →
      ((pipes_of 2 [.I830_OUTPUT_ANALOG, .I830_OUTPUT_TVOUT]).output j).enabled = false) ∧
    1 < (pipes_of 2 [.I830_OUTPUT_ANALOG, .I830_OUTPUT_TVOUT]).num_outputs ∧
    claimed (I830PreInit_pipes all_connected
      (pipes_of 2 [.I830_OUTPUT_ANALOG, .I830_OUTPUT_TVOUT])) 1 0 = true ∧
    ((I830PreInit_pipes all_connected
      (pipes_of 2 [.I830_OUTPUT_ANALOG, .I830_OUTPUT_TVOUT])).output 1).enabled = false :=
  ⟨fun _ _ => rfl, by decide, by decide,
    (((pipe_assignment all_connected (pipes_of 2 [.I830_OUTPUT_ANALOG, .I830_OUTPUT_TVOUT])
      (fun _ _ => rfl) 1 (by decide)).2.2.2 rfl).2 (by decide)).1⟩

/-- C22 as stated fails: on a device with two pipes, with an analog output
on pipe 0 before it, a TV-out output that does not report disconnected is
left disabled although pipe 1 is claimed by no output. -/
theorem tv_out_left_disabled_counterexample :
    (pipes_of 2 [.I830_OUTPUT_ANALOG, .I830_OUTPUT_TVOUT]).num_pipes = 2 ∧
    ((pipes_of 2 [.I830_OUTPUT_ANALOG, .I830_OUTPUT_TVOUT]).output 1).type
      = .I830_OUTPUT_TVOUT ∧
    all_connected 1 ≠ .OUTPUT_STATUS_DISCONNECTED ∧
    claimed (I830PreInit_pipes all_connected
      (pipes_of 2 [.I830_OUTPUT_ANALOG, .I830_OUTPUT_TVOUT])) 1 1 = false ∧
    claimed (I830PreInit_pipes all_connected
      (pipes_of 2 [.I830_OUTPUT_ANALOG, .I830_OUTPUT_TVOUT])) 2 1 = false ∧
    ((I830PreInit_pipes all_connected
      (pipes_of 2 [.I830_OUTPUT_ANALOG, .I830_OUTPUT_TVOUT])).output 1).enabled = false := by
  refine ⟨rfl, rfl, ?_, ?_, ?_, ?_⟩ <;> decide

/-- C30: on a device with one pipe and two connected outputs, analog and
DVO, the DVO output is enabled with `pipe = 1`, which is not below
`num_pipes = 1`; `pipes[0].enabled` is TRUE for the analog output on pipe 0. -/
theorem second_output_on_missing_pipe :
    choose_num_pipes false false false = 1 ∧
    (I830PreInit_pipes all_connected
      (pipes_of 1 [.I830_OUTPUT_ANALOG, .I830_OUTPUT_DVO])).num_pipes = 1 ∧
    (I830PreInit_pipes all_connected
      (pipes_of 1 [.I830_OUTPUT_ANALOG, .I830_OUTPUT_DVO])).output 0
        = { type := .I830_OUTPUT_ANALOG, pipe := 0, enabled := true } ∧
    (I830PreInit_pipes all_connected
      (pipes_of 1 [.I830_OUTPUT_ANALOG, .I830_OUTPUT_DVO])).output 1
        = { type := .I830_OUTPUT_DVO, pipe := 1, enabled := true } ∧
    (I830PreInit_pipes all_connected
      (pipes_of 1 [.I830_OUTPUT_ANALOG, .I830_OUTPUT_DVO])).pipes_enabled 0 = true := by
  refine ⟨rfl, rfl, ?_, ?_, ?_⟩ <;> decide

end I830

namespace I830

/-! ## `I830DisplayPowerManagementSet` -/

/-- The bits of the value written to a plane control register. -/
theorem plane_value_bits (R : PlaneRegs) (mode : Int) (x k : Nat) (hk : k < 32) :
    (plane_value R mode x).testBit k =
      if R.DISPLAY_PLANE_ENABLE.testBit k = true then decide (mode = DPMSModeOn)
      else x.testBit k := by
  unfold plane_value
  by_cases hm : mode = DPMSModeOn
  · rw [if_pos hm, Nat.testBit_mod_two_pow, Nat.testBit_or]
    by_cases he : R.DISPLAY_PLANE_ENABLE.testBit k = true <;> simp [hk, he, hm]
  · rw [if_neg hm]
    unfold and_not
    rw [Nat.testBit_and, Nat.testBit_xor, Nat.testBit_two_pow_sub_one, Nat.testBit_mod_two_pow]
    by_cases he : R.DISPLAY_PLANE_ENABLE.testBit k = true <;> simp [hk, he, hm]

theorem dpms_outputs_fold (H : DpmsHooks) (mode : Int) (n : Nat) (s : Dpms) :
    ∃ regs, (List.range n).foldl
        (fun s i => s.call (.output_dpms i mode) (H.output_dpms i mode)) s =
      { s with regs := regs,
               trace := s.trace ++ (List.range n).map fun i => DpmsEvent.output_dpms i mode } ∧
      ∀ a, (∀ i m r, H.output_dpms i m r a = r a) → regs a = s.regs a := by
  induction n with
  | zero => exact ⟨s.regs, by simp, fun _ _ => rfl⟩
  | succ n ih =>
    obtain ⟨regs, h1, h2⟩ := ih
    refine ⟨H.output_dpms n mode regs, ?_, fun a ha => by rw [ha, h2 a ha]⟩
    rw [List.range_succ, List.foldl_append, h1]
    simp [Dpms.call]

theorem dpms_outputs_spec (H : DpmsHooks) (mode : Int) (s : Dpms) :
    ∃ regs, dpms_outputs H mode s =
      { s with regs := regs,
               trace := s.trace ++
                 (List.range s.num_outputs).map fun i => DpmsEvent.output_dpms i mode } ∧
      ∀ a, (∀ i m r, H.output_dpms i m r a = r a) → regs a = s.regs a :=
  dpms_outputs_fold H mode s.num_outputs s

theorem dpms_pipe_on (R : PlaneRegs) (mode : Int) (s : Dpms) (i : Nat)
    (h : s.pipes_enabled i = true) :
    dpms_pipe R mode s i =
      { s with regs := Function.update s.regs (plane_ctrl R i)
                 (plane_value R mode (s.regs (plane_ctrl R i))),
               trace := s.trace ++
                 [DpmsEvent.OUTREG (plane_ctrl R i) (plane_value R mode (s.regs (plane_ctrl R i))),
                  DpmsEvent.OUTREG (plane_base R i)
                    (Function.update s.regs (plane_ctrl R i)
                      (plane_value R mode (s.regs (plane_ctrl R i))) (plane_base R i))] } := by
  simp [dpms_pipe, h, Dpms.OUTREG]

theorem dpms_pipe_off (R : PlaneRegs) (mode : Int) (s : Dpms) (i : Nat)
    (h : s.pipes_enabled i = false) : dpms_pipe R mode s i = s := by
  simp [dpms_pipe, h]

theorem dpms_pipe_fields (R : PlaneRegs) (mode : Int) (s : Dpms) (i : Nat) :
    (dpms_pipe R mode s i).num_outputs = s.num_outputs ∧
    (dpms_pipe R mode s i).num_pipes = s.num_pipes ∧
    (dpms_pipe R mode s i).pipes_enabled = s.pipes_enabled ∧
    (dpms_pipe R mode s i).CursorInfoRec = s.CursorInfoRec ∧
    (dpms_pipe R mode s i).SWCursor = s.SWCursor ∧
    (dpms_pipe R mode s i).cursorOn = s.cursorOn := by
  by_cases h : s.pipes_enabled i = true
  · rw [dpms_pipe_on R mode s i h]
    exact ⟨rfl, rfl, rfl, rfl, rfl, rfl⟩
  · rw [dpms_pipe_off R mode s i (by simpa using h)]
    exact ⟨rfl, rfl, rfl, rfl, rfl, rfl⟩

/-- One pass of the loop over the pipes: for an enabled pipe the plane
control register receives the new value and the base register the value it
holds; for a disabled pipe nothing is written. -/
theorem dpms_pipe_step (R : PlaneRegs) (mode : Int) (s : Dpms) (i : Nat) :
    ∃ t, (dpms_pipe R mode s i).trace = s.trace ++ t ∧
      (s.pipes_enabled i = true →
        (dpms_pipe R mode s i).regs =
          Function.update s.regs (plane_ctrl R i) (plane_value R mode (s.regs (plane_ctrl R i))) ∧
        ∃ v b, t = [DpmsEvent.OUTREG (plane_ctrl R i) v, DpmsEvent.OUTREG (plane_base R i) b]) ∧
      (s.pipes_enabled i = false → (dpms_pipe R mode s i).regs = s.regs ∧ t = []) := by
  by_cases h : s.pipes_enabled i = true
  · rw [dpms_pipe_on R mode s i h]
    refine ⟨_, rfl, fun _ => ⟨rfl, _, _, rfl⟩, fun hf => ?_⟩
    rw [h] at hf
    cases hf
  · have hf : s.pipes_enabled i = false := by simpa using h
    rw [dpms_pipe_off R mode s i hf]
    exact ⟨[], by simp, fun ht => absurd ht h, fun _ => ⟨rfl, rfl⟩⟩

theorem dpms_pipes_fields (R : PlaneRegs) (mode : Int) (s : Dpms) :
    (dpms_pipes R mode s).num_outputs = s.num_outputs ∧
    (dpms_pipes R mode s).num_pipes = s.num_pipes ∧
    (dpms_pipes R mode s).pipes_enabled = s.pipes_enabled ∧
    (dpms_pipes R mode s).CursorInfoRec = s.CursorInfoRec ∧
    (dpms_pipes R mode s).SWCursor = s.SWCursor ∧
    (dpms_pipes R mode s).cursorOn = s.cursorOn := by
  have key : ∀ n : Nat,
      (List.foldl (dpms_pipe R mode) s (List.range n)).num_outputs = s.num_outputs ∧
      (List.foldl (dpms_pipe R mode) s (List.range n)).num_pipes = s.num_pipes ∧
      (List.foldl (dpms_pipe R mode) s (List.range n)).pipes_enabled = s.pipes_enabled ∧
      (List.foldl (dpms_pipe R mode) s (List.range n)).CursorInfoRec = s.CursorInfoRec ∧
      (List.foldl (dpms_pipe R mode) s (List.range n)).SWCursor = s.SWCursor ∧
      (List.foldl (dpms_pipe R mode) s (List.range n)).cursorOn = s.cursorOn := by
    intro n
    induction n with
    | zero => exact ⟨rfl, rfl, rfl, rfl, rfl, rfl⟩
    | succ n ih =>
      rw [List.range_succ, List.foldl_append]
      obtain ⟨a1, a2, a3, a4, a5, a6⟩ := ih
      obtain ⟨b1, b2, b3, b4, b5, b6⟩ :=
        dpms_pipe_fields R mode (List.foldl (dpms_pipe R mode) s (List.range n)) n
      exact ⟨b1.trans a1, b2.trans a2, b3.trans a3, b4.trans a4, b5.trans a5, b6.trans a6⟩
  exact key s.num_pipes

/-- The loop over at most two pipes: the plane control register of an
enabled pipe holds the new value, the registers that are not the plane
control register of an enabled pipe are as before, and every write goes to the
control or the base register of an enabled pipe. -/
theorem dpms_pipes_spec (R : PlaneRegs) (mode : Int) (s : Dpms) (hn : s.num_pipes ≤ 2)
    (hAB : R.DSPACNTR ≠ R.DSPBCNTR) :
    (∀ i, i < s.num_pipes → s.pipes_enabled i = true →
      (dpms_pipes R mode s).regs (plane_ctrl R i) =
        plane_value R mode (s.regs (plane_ctrl R i))) ∧
    (∀ a, (∀ i, i < s.num_pipes → s.pipes_enabled i = true → a ≠ plane_ctrl R i) →
      (dpms_pipes R mode s).regs a = s.regs a) ∧
    ∃ t, (dpms_pipes R mode s).trace = s.trace ++ t ∧
      ∀ e, e ∈ t → ∃ i v, i < s.num_pipes ∧ s.pipes_enabled i = true ∧
        (e = DpmsEvent.OUTREG (plane_ctrl R i) v ∨ e = DpmsEvent.OUTREG (plane_base R i) v) := by
  have h01 : plane_ctrl R 0 = R.DSPACNTR := rfl
  have h11 : plane_ctrl R 1 = R.DSPBCNTR := rfl
  have hcases : s.num_pipes = 0 ∨ s.num_pipes = 1 ∨ s.num_pipes = 2 := by omega
  rcases hcases with h | h | h
  · have key : dpms_pipes R mode s = s := by
      unfold dpms_pipes
      rw [h]
      rfl
    rw [key]
    refine ⟨fun i hi => by omega, fun _ _ => rfl, [], by simp, by simp⟩
  · have key : dpms_pipes R mode s = dpms_pipe R mode s 0 := by
      unfold dpms_pipes
      rw [h]
      rfl
    rw [key]
    obtain ⟨t, ht, hon, hoff⟩ := dpms_pipe_step R mode s 0
    by_cases e0 : s.pipes_enabled 0 = true
    · obtain ⟨hregs, v, b, hv⟩ := hon e0
      refine ⟨?_, ?_, t, ht, ?_⟩
      · intro i hi _
        have : i = 0 := by omega
        subst this
        rw [hregs, Function.update_same]
      · intro a ha
        rw [hregs, Function.update_noteq (ha 0 (by omega) e0)]
      · intro e he
        rw [hv] at he
        simp only [List.mem_cons, List.mem_singleton, List.not_mem_nil, or_false] at he
        rcases he with he | he
        · exact ⟨0, _, by omega, e0, Or.inl he⟩
        · exact ⟨0, _, by omega, e0, Or.inr he⟩
    · have e0f : s.pipes_enabled 0 = false := by simpa using e0
      obtain ⟨hregs, hv⟩ := hoff e0f
      refine ⟨?_, fun a _ => by rw [hregs], t, ht, by simp [hv]⟩
      intro i hi hei
      have : i = 0 := by omega
      subst this
      exact absurd hei e0
  · have key : dpms_pipes R mode s = dpms_pipe R mode (dpms_pipe R mode s 0) 1 := by
      unfold dpms_pipes
      rw [h]
      rfl
    rw [key]
    obtain ⟨t0, ht0, hon0, hoff0⟩ := dpms_pipe_step R mode s 0
    obtain ⟨t1, ht1, hon1, hoff1⟩ := dpms_pipe_step R mode (dpms_pipe R mode s 0) 1
    have hpe : (dpms_pipe R mode s 0).pipes_enabled = s.pipes_enabled :=
      (dpms_pipe_fields R mode s 0).2.2.1
    rw [hpe] at hon1 hoff1
    have htr : (dpms_pipe R mode (dpms_pipe R mode s 0) 1).trace = s.trace ++ (t0 ++ t1) := by
      rw [ht1, ht0, List.append_assoc]
    by_cases e0 : s.pipes_enabled 0 = true <;> by_cases e1 : s.pipes_enabled 1 = true
    · obtain ⟨hr0, v0, b0, hv0⟩ := hon0 e0
      obtain ⟨hr1, v1, b1, hv1⟩ := hon1 e1
      refine ⟨?_, ?_, t0 ++ t1, htr, ?_⟩
      · intro i hi _
        have : i = 0 ∨ i = 1 := by omega
        rcases this with rfl | rfl
        · rw [hr1, hr0, h01, h11, Function.update_noteq hAB, Function.update_same]
        · rw [hr1, hr0, h11, h01, Function.update_same, Function.update_noteq (Ne.symm hAB)]
      · intro a ha
        rw [hr1, hr0, Function.update_noteq (ha 1 (by omega) e1),
          Function.update_noteq (ha 0 (by omega) e0)]
      · intro e he
        rw [hv0, hv1] at he
        simp only [List.mem_cons, List.mem_append, List.mem_singleton, List.not_mem_nil,
          or_false] at he
        rcases he with (he | he) | (he | he)
        · exact ⟨0, _, by omega, e0, Or.inl he⟩
        · exact ⟨0, _, by omega, e0, Or.inr he⟩
        · exact ⟨1, _, by omega, e1, Or.inl he⟩
        · exact ⟨1, _, by omega, e1, Or.inr he⟩
    · have e1f : s.pipes_enabled 1 = false := by simpa using e1
      obtain ⟨hr0, v0, b0, hv0⟩ := hon0 e0
      obtain ⟨hr1, hv1⟩ := hoff1 e1f
      refine ⟨?_, ?_, t0 ++ t1, htr, ?_⟩
      · intro i hi hei
        have : i = 0 ∨ i = 1 := by omega
        rcases this with rfl | rfl
        · rw [hr1, hr0, Function.update_same]
        · exact absurd hei e1
      · intro a ha
        rw [hr1, hr0, Function.update_noteq (ha 0 (by omega) e0)]
      · intro e he
        rw [hv0, hv1] at he
        simp only [List.mem_cons, List.mem_append, List.mem_singleton, List.not_mem_nil,
          or_false] at he
        rcases he with he | he
        · exact ⟨0, _, by omega, e0, Or.inl he⟩
        · exact ⟨0, _, by omega, e0, Or.inr he⟩
    · have e0f : s.pipes_enabled 0 = false := by simpa using e0
      obtain ⟨hr0, hv0⟩ := hoff0 e0f
      obtain ⟨hr1, v1, b1, hv1⟩ := hon1 e1
      refine ⟨?_, ?_, t0 ++ t1, htr, ?_⟩
      · intro i hi hei
        have : i = 0 ∨ i = 1 := by omega
        rcases this with rfl | rfl
        · exact absurd hei e0
        · rw [hr1, hr0, Function.update_same]
      · intro a ha
        rw [hr1, hr0, Function.update_noteq (ha 1 (by omega) e1)]
      · intro e he
        rw [hv0, hv1] at he
        simp only [List.mem_cons, List.mem_append, List.mem_singleton, List.not_mem_nil,
          or_false, false_or] at he
        rcases he with he | he
        · exact ⟨1, _, by omega, e1, Or.inl he⟩
        · exact ⟨1, _, by omega, e1, Or.inr he⟩
    · have e0f : s.pipes_enabled 0 = false := by simpa using e0
      have e1f : s.pipes_enabled 1 = false := by simpa using e1
      obtain ⟨hr0, hv0⟩ := hoff0 e0f
      obtain ⟨hr1, hv1⟩ := hoff1 e1f
      refine ⟨?_, fun a _ => by rw [hr1, hr0], t0 ++ t1, htr, by simp [hv0, hv1]⟩
      intro i hi hei
      have : i = 0 ∨ i = 1 := by omega
      rcases this with rfl | rfl
      · exact absurd hei e0
      · exact absurd hei e1

/-- The cursor statement: the hook that is called, the flag, and the
registers the hooks keep. -/
theorem dpms_cursor_spec (H : DpmsHooks) (mode : Int) (s : Dpms) :
    (dpms_cursor H mode s).trace = s.trace ++
      (if s.CursorInfoRec = true ∧ s.SWCursor = false ∧ s.cursorOn = true then
        (if mode = DPMSModeOn then [DpmsEvent.ShowCursor] else [DpmsEvent.HideCursor])
       else []) ∧
    (dpms_cursor H mode s).cursorOn =
      (if s.CursorInfoRec = true ∧ s.SWCursor = false ∧ s.cursorOn = true then true
       else s.cursorOn) ∧
    ∀ a, H.keep a → (dpms_cursor H mode s).regs a = s.regs a := by
  unfold dpms_cursor
  by_cases hc : s.CursorInfoRec = true ∧ s.SWCursor = false ∧ s.cursorOn = true
  · by_cases hm : mode = DPMSModeOn
    · simp only [hc, hm, and_self, if_true, Dpms.call]
      refine ⟨?_, ?_, fun a ha => ha.2.1 s.regs⟩ <;> trivial
    · simp only [hc, hm, and_self, if_true, if_false, Dpms.call]
      refine ⟨?_, ?_, fun a ha => ha.2.2 s.regs⟩ <;> trivial
  · simp only [hc, if_false]
    refine ⟨?_, ?_, ?_⟩ <;> first | trivial | rfl | simp

/-- C23: on a device with at most two pipes whose plane control registers
differ from each other and from the base register of the other plane, with
hooks that leave the two plane control registers alone,
`I830DisplayPowerManagementSet` first calls the `dpms` hook of every output
with the mode, in order; then writes only control and base registers of
enabled pipes; then calls `ShowCursor` (mode `DPMSModeOn`) or `HideCursor`
(any other mode) when there is a hardware cursor that is on, and no cursor
hook otherwise. Afterwards the plane control register of every enabled pipe
holds the value it had with the bits of `DISPLAY_PLANE_ENABLE` set when the
mode is `DPMSModeOn` and cleared otherwise, all its other bits as before; the
plane control register of a disabled pipe is not written; and `cursorOn` is
TRUE when the cursor hook was called and as before otherwise. -/
theorem dpms_set (R : PlaneRegs) (H : DpmsHooks) (mode : Int) (s : Dpms)
    (hn : s.num_pipes ≤ 2) (hAB : R.DSPACNTR ≠ R.DSPBCNTR) (hAb : R.DSPACNTR ≠ R.DSPBADDR)
    (hBa : R.DSPBCNTR ≠ R.DSPABASE) (hkA : H.keep R.DSPACNTR) (hkB : H.keep R.DSPBCNTR) :
    (∃ t, dpms_actions s (I830DisplayPowerManagementSet R H mode s) =
        ((List.range s.num_outputs).map fun i => DpmsEvent.output_dpms i mode) ++ t ++
          (if s.CursorInfoRec = true ∧ s.SWCursor = false ∧ s.cursorOn = true then
            (if mode = DPMSModeOn then [DpmsEvent.ShowCursor] else [DpmsEvent.HideCursor])
           else []) ∧
      ∀ e, e ∈ t → ∃ i v, i < s.num_pipes ∧ s.pipes_enabled i = true ∧
        (e = DpmsEvent.OUTREG (plane_ctrl R i) v ∨ e = DpmsEvent.OUTREG (plane_base R i) v)) ∧
    (∀ i, i < s.num_pipes → s.pipes_enabled i = true →
      (I830DisplayPowerManagementSet R H mode s).regs (plane_ctrl R i) =
        plane_value R mode (s.regs (plane_ctrl R i)) ∧
      ∀ k, k < 32 →
        ((I830DisplayPowerManagementSet R H mode s).regs (plane_ctrl R i)).testBit k =
          if R.DISPLAY_PLANE_ENABLE.testBit k = true then decide (mode = DPMSModeOn)
          else (s.regs (plane_ctrl R i)).testBit k) ∧
    (∀ i, i < s.num_pipes → s.pipes_enabled i = false → ∀ v,
      DpmsEvent.OUTREG (plane_ctrl R i) v ∉
        dpms_actions s (I830DisplayPowerManagementSet R H mode s)) ∧
    (I830DisplayPowerManagementSet R H mode s).cursorOn =
      (if s.CursorInfoRec = true ∧ s.SWCursor = false ∧ s.cursorOn = true then true
       else s.cursorOn) := by
  obtain ⟨regs1, h1, hregs1⟩ := dpms_outputs_spec H mode s
  obtain ⟨f1, f2, f3, f4, f5, f6⟩ := dpms_pipes_fields R mode (dpms_outputs H mode s)
  have g2 : (dpms_outputs H mode s).num_pipes = s.num_pipes := by rw [h1]
  have g3 : (dpms_outputs H mode s).pipes_enabled = s.pipes_enabled := by rw [h1]
  have g4 : (dpms_outputs H mode s).CursorInfoRec = s.CursorInfoRec := by rw [h1]
  have g5 : (dpms_outputs H mode s).SWCursor = s.SWCursor := by rw [h1]
  have g6 : (dpms_outputs H mode s).cursorOn = s.cursorOn := by rw [h1]
  have gt : (dpms_outputs H mode s).trace = s.trace ++
      (List.range s.num_outputs).map fun i => DpmsEvent.output_dpms i mode := by rw [h1]
  have gr : (dpms_outputs H mode s).regs = regs1 := by rw [h1]
  obtain ⟨p1, p2, t, pt, pe⟩ := dpms_pipes_spec R mode (dpms_outputs H mode s)
    (by rw [g2]; exact hn) hAB
  rw [g2, g3] at p1 p2 pe
  rw [gr] at p1 p2
  rw [gt] at pt
  obtain ⟨c1, c2, c3⟩ := dpms_cursor_spec H mode (dpms_pipes R mode (dpms_outputs H mode s))
  rw [f4, f5, f6, g4, g5, g6] at c1 c2
  rw [pt] at c1
  have hact : dpms_actions s (I830DisplayPowerManagementSet R H mode s) =
      ((List.range s.num_outputs).map fun i => DpmsEvent.output_dpms i mode) ++ t ++
        (if s.CursorInfoRec = true ∧ s.SWCursor = false ∧ s.cursorOn = true then
          (if mode = DPMSModeOn then [DpmsEvent.ShowCursor] else [DpmsEvent.HideCursor])
         else []) := by
    unfold dpms_actions I830DisplayPowerManagementSet
    rw [c1, List.append_assoc, List.append_assoc, List.drop_left, List.append_assoc]
  have hkeep : ∀ i, H.keep (plane_ctrl R i) := by
    intro i
    unfold plane_ctrl
    split
    · exact hkA
    · exact hkB
  have hval : ∀ i, i < s.num_pipes → s.pipes_enabled i = true →
      (I830DisplayPowerManagementSet R H mode s).regs (plane_ctrl R i) =
        plane_value R mode (s.regs (plane_ctrl R i)) := by
    intro i hi he
    unfold I830DisplayPowerManagementSet
    rw [c3 _ (hkeep i), p1 i hi he, hregs1 _ (hkeep i).1]
  refine ⟨⟨t, hact, pe⟩, fun i hi he => ⟨hval i hi he, fun k hk => ?_⟩, ?_, c2⟩
  · rw [hval i hi he]
    exact plane_value_bits R mode _ k hk
  · intro i hi he v hmem
    rw [hact] at hmem
    simp only [List.mem_append, List.mem_map, List.mem_range] at hmem
    rcases hmem with (⟨j, _, hj⟩ | hmem) | hmem
    · cases hj
    · obtain ⟨j, w, hj, hje, hw⟩ := pe _ hmem
      have hij : i ≠ j := by
        intro h
        rw [h, hje] at he
        cases he
      have hi2 : i = 0 ∨ i = 1 := by omega
      have hj2 : j = 0 ∨ j = 1 := by omega
      rcases hi2 with rfl | rfl <;> rcases hj2 with rfl | rfl
      · exact hij rfl
      · rcases hw with hw | hw
        · injection hw with hw _
          exact hAB hw
        · injection hw with hw _
          exact hAb hw
      · rcases hw with hw | hw
        · injection hw with hw _
          exact hAB hw.symm
        · injection hw with hw _
          exact hBa hw
      · exact hij rfl
    · split at hmem
      · split at hmem <;> simp at hmem
      · simp at hmem

/-- C23 on the sample device, with the mode 3 (off): pipe A is enabled and
its plane control register goes from 0x81000000 to 0x01000000, pipe B is
disabled and its register is not written, and `cursorOn` stays TRUE. -/
theorem dpms_set_witness :
    sample_dpms.num_pipes ≤ 2 ∧
    sample_plane_regs.DSPACNTR ≠ sample_plane_regs.DSPBCNTR ∧
    sample_plane_regs.DSPACNTR ≠ sample_plane_regs.DSPBADDR ∧
    sample_plane_regs.DSPBCNTR ≠ sample_plane_regs.DSPABASE ∧
    quiet_hooks.keep sample_plane_regs.DSPACNTR ∧
    quiet_hooks.keep sample_plane_regs.DSPBCNTR ∧
    (I830DisplayPowerManagementSet sample_plane_regs quiet_hooks 3 sample_dpms).regs
        (plane_ctrl sample_plane_regs 0) =
      plane_value sample_plane_regs 3 (sample_dpms.regs (plane_ctrl sample_plane_regs 0)) ∧
    plane_value sample_plane_regs 3 (sample_dpms.regs (plane_ctrl sample_plane_regs 0))
      = 0x01000000 ∧
    (I830DisplayPowerManagementSet sample_plane_regs quiet_hooks 3 sample_dpms).cursorOn
      = true :=
  ⟨by decide, by decide, by decide, by decide,
    ⟨fun _ _ _ => rfl, fun _ => rfl, fun _ => rfl⟩, ⟨fun _ _ _ => rfl, fun _ => rfl, fun _ => rfl⟩,
    ((dpms_set sample_plane_regs quiet_hooks 3 sample_dpms (by decide) (by decide) (by decide)
      (by decide) ⟨fun _ _ _ => rfl, fun _ => rfl, fun _ => rfl⟩
      ⟨fun _ _ _ => rfl, fun _ => rfl, fun _ => rfl⟩).2.1 0 (by decide) rfl).1,
    by decide,
    (dpms_set sample_plane_regs quiet_hooks 3 sample_dpms (by decide) (by decide) (by decide)
      (by decide) ⟨fun _ _ _ => rfl, fun _ => rfl, fun _ => rfl⟩
      ⟨fun _ _ _ => rfl, fun _ => rfl, fun _ => rfl⟩).2.2.2⟩

end I830
namespace MemoryAllocator

/-! ## The invariant of the allocator -/

theorem le_round_up (x a : Nat) : x ≤ round_up x a := by
  unfold round_up
  split
  · exact le_refl x
  · rename_i ha
    have h1 := Nat.div_add_mod (x + a - 1) a
    have h2 := Nat.mod_lt (x + a - 1) (Nat.pos_of_ne_zero ha)
    rw [Nat.mul_comm]
    omega

/-- The live ranges are stacked: each starts at or above the end of every
older one, and each has `start + size = finish`. -/
theorem stacked_finish_le_top (l : List MemoryRange)
    (hc : l.Pairwise fun a b => b.finish ≤ a.start)
    (hs : ∀ r, r ∈ l → r.start + r.size = r.finish) :
    ∀ r, r ∈ l → r.finish ≤ top l := by
  intro r hr
  cases l with
  | nil => cases hr
  | cons a l =>
    rcases List.mem_cons.1 hr with h | h
    · rw [h]; exact le_refl _
    · have h1 := (List.pairwise_cons.1 hc).1 r h
      have h2 := hs a (List.mem_cons_self a l)
      show r.finish ≤ a.finish
      omega

theorem stacked_sum_le_top (l : List MemoryRange)
    (hc : l.Pairwise fun a b => b.finish ≤ a.start)
    (hs : ∀ r, r ∈ l → r.start + r.size = r.finish) :
    (l.map fun r => r.size).sum ≤ top l := by
  induction l with
  | nil => simp [top]
  | cons a l ih =>
    have hc' := (List.pairwise_cons.1 hc).2
    have hs' : ∀ r, r ∈ l → r.start + r.size = r.finish :=
      fun r hr => hs r (List.mem_cons_of_mem a hr)
    have h1 := ih hc' hs'
    have h2 := hs a (List.mem_cons_self a l)
    have h3 : top l ≤ a.start := by
      cases l with
      | nil => exact Nat.zero_le _
      | cons b l => exact (List.pairwise_cons.1 hc).1 b (List.mem_cons_self b l)
    simp only [List.map_cons, List.sum_cons]
    show a.size + _ ≤ a.finish
    omega

theorem place_stacked (l : List MemoryRange) (q : Request)
    (hc : l.Pairwise fun a b => b.finish ≤ a.start)
    (hs : ∀ r, r ∈ l → r.start + r.size = r.finish) :
    (place l q).Pairwise (fun a b => b.finish ≤ a.start) ∧
    ∀ r, r ∈ place l q → r.start + r.size = r.finish := by
  unfold place
  refine ⟨List.pairwise_cons.2 ⟨fun b hb => ?_, hc⟩, fun r hr => ?_⟩
  · exact le_trans (stacked_finish_le_top l hc hs b hb) (le_round_up _ _)
  · rcases List.mem_cons.1 hr with h | h
    · rw [h]
    · exact hs r h

theorem place_all_stacked (qs : List Request) (l : List MemoryRange)
    (hc : l.Pairwise fun a b => b.finish ≤ a.start)
    (hs : ∀ r, r ∈ l → r.start + r.size = r.finish) :
    (qs.foldl place l).Pairwise (fun a b => b.finish ≤ a.start) ∧
    ∀ r, r ∈ qs.foldl place l → r.start + r.size = r.finish := by
  induction qs generalizing l with
  | nil => exact ⟨hc, hs⟩
  | cons q qs ih =>
    obtain ⟨h1, h2⟩ := place_stacked l q hc hs
    exact ih (place l q) h1 h2

theorem place_flexible_stacked (capacity : Nat) (l : List MemoryRange) (q : Request)
    (hc : l.Pairwise fun a b => b.finish ≤ a.start)
    (hs : ∀ r, r ∈ l → r.start + r.size = r.finish) (ht : top l ≤ capacity) :
    (place_flexible capacity l q).Pairwise (fun a b => b.finish ≤ a.start) ∧
    (∀ r, r ∈ place_flexible capacity l q → r.start + r.size = r.finish) ∧
    top (place_flexible capacity l q) ≤ capacity := by
  unfold place_flexible
  by_cases hg : min q.size (capacity - round_up (top l) q.alignment) = 0
  · simp only [hg, if_true]
    exact ⟨hc, hs, ht⟩
  · simp only [hg, if_false]
    refine ⟨List.pairwise_cons.2 ⟨fun b hb => ?_, hc⟩, fun r hr => ?_, ?_⟩
    · exact le_trans (stacked_finish_le_top l hc hs b hb) (le_round_up _ _)
    · rcases List.mem_cons.1 hr with h | h
      · rw [h]
      · exact hs r h
    · show round_up (top l) q.alignment + min q.size (capacity - round_up (top l) q.alignment)
        ≤ capacity
      omega

theorem place_all_flexible_stacked (capacity : Nat) (qs : List Request) (l : List MemoryRange)
    (hc : l.Pairwise fun a b => b.finish ≤ a.start)
    (hs : ∀ r, r ∈ l → r.start + r.size = r.finish) (ht : top l ≤ capacity) :
    (qs.foldl (place_flexible capacity) l).Pairwise (fun a b => b.finish ≤ a.start) ∧
    (∀ r, r ∈ qs.foldl (place_flexible capacity) l → r.start + r.size = r.finish) ∧
    top (qs.foldl (place_flexible capacity) l) ≤ capacity := by
  induction qs generalizing l with
  | nil => exact ⟨hc, hs, ht⟩
  | cons q qs ih =>
    obtain ⟨h1, h2, h3⟩ := place_flexible_stacked capacity l q hc hs ht
    exact ih (place_flexible capacity l q) h1 h2 h3

/-- The invariant that the calls keep: the live ranges are stacked below the
capacity. -/
theorem allocate_stacked (p : Pool) (reqs : List Request) (mode : Mode)
    (hc : p.live.Pairwise fun a b => b.finish ≤ a.start)
    (hs : ∀ r, r ∈ p.live → r.start + r.size = r.finish) (ht : top p.live ≤ p.capacity) :
    (allocate p reqs mode).2.capacity = p.capacity ∧
    (allocate p reqs mode).2.live.Pairwise (fun a b => b.finish ≤ a.start) ∧
    (∀ r, r ∈ (allocate p reqs mode).2.live → r.start + r.size = r.finish) ∧
    top (allocate p reqs mode).2.live ≤ p.capacity := by
  unfold allocate
  by_cases hf : top ((reqs.filter fun q => !q.flexible).foldl place p.live) ≤ p.capacity
  · simp only [hf, if_true]
    by_cases hd : mode.DRY_RUN = true
    · simp only [hd, if_true]
      exact ⟨trivial, hc, hs, ht⟩
    · simp only [hd, if_false]
      obtain ⟨h1, h2⟩ := place_all_stacked (reqs.filter fun q => !q.flexible) p.live hc hs
      obtain ⟨g1, g2, g3⟩ := place_all_flexible_stacked p.capacity
        (reqs.filter fun q => q.flexible) _ h1 h2 hf
      exact ⟨rfl, g1, g2, g3⟩
  · simp only [hf, if_false]
    exact ⟨trivial, hc, hs, ht⟩

theorem free_stacked (p : Pool) (x : MemoryRange)
    (hc : p.live.Pairwise fun a b => b.finish ≤ a.start)
    (hs : ∀ r, r ∈ p.live → r.start + r.size = r.finish) (ht : top p.live ≤ p.capacity) :
    (free p x).capacity = p.capacity ∧
    (free p x).live.Pairwise (fun a b => b.finish ≤ a.start) ∧
    (∀ r, r ∈ (free p x).live → r.start + r.size = r.finish) ∧
    top (free p x).live ≤ p.capacity := by
  unfold free
  refine ⟨rfl, hc.sublist (List.erase_sublist x p.live),
    fun r hr => hs r (List.mem_of_mem_erase hr), ?_⟩
  show top (p.live.erase x) ≤ p.capacity
  cases h : p.live.erase x with
  | nil => exact Nat.zero_le _
  | cons a l =>
    have ha : a ∈ p.live := List.mem_of_mem_erase (by rw [h]; exact List.mem_cons_self a l)
    exact le_trans (stacked_finish_le_top p.live hc hs a ha) ht

theorem step_stacked (s : Pools) (op : Op)
    (h1 : s.stolen.live.Pairwise (fun a b => b.finish ≤ a.start) ∧
      (∀ r, r ∈ s.stolen.live → r.start + r.size = r.finish) ∧
      top s.stolen.live ≤ s.stolen.capacity)
    (h2 : s.aperture.live.Pairwise (fun a b => b.finish ≤ a.start) ∧
      (∀ r, r ∈ s.aperture.live → r.start + r.size = r.finish) ∧
      top s.aperture.live ≤ s.aperture.capacity) :
    ((step s op).stolen.capacity = s.stolen.capacity ∧
      (step s op).aperture.capacity = s.aperture.capacity) ∧
    ((step s op).stolen.live.Pairwise (fun a b => b.finish ≤ a.start) ∧
      (∀ r, r ∈ (step s op).stolen.live → r.start + r.size = r.finish) ∧
      top (step s op).stolen.live ≤ (step s op).stolen.capacity) ∧
    ((step s op).aperture.live.Pairwise (fun a b => b.finish ≤ a.start) ∧
      (∀ r, r ∈ (step s op).aperture.live → r.start + r.size = r.finish) ∧
      top (step s op).aperture.live ≤ (step s op).aperture.capacity) := by
  cases op with
  | reset_allocations =>
    exact ⟨⟨rfl, rfl⟩, ⟨List.Pairwise.nil, (fun r hr => by cases hr), Nat.zero_le _⟩,
      ⟨List.Pairwise.nil, (fun r hr => by cases hr), Nat.zero_le _⟩⟩
  | allocate in_stolen reqs mode =>
    cases in_stolen with
    | true =>
      obtain ⟨a, b, c, d⟩ := allocate_stacked s.stolen reqs mode h1.1 h1.2.1 h1.2.2
      exact ⟨⟨a, rfl⟩, ⟨b, c, by show _ ≤ (allocate s.stolen reqs mode).2.capacity; rw [a]; exact d⟩,
        h2⟩
    | false =>
      obtain ⟨a, b, c, d⟩ := allocate_stacked s.aperture reqs mode h2.1 h2.2.1 h2.2.2
      exact ⟨⟨rfl, a⟩, h1,
        ⟨b, c, by show _ ≤ (allocate s.aperture reqs mode).2.capacity; rw [a]; exact d⟩⟩
  | free in_stolen x =>
    cases in_stolen with
    | true =>
      obtain ⟨a, b, c, d⟩ := free_stacked s.stolen x h1.1 h1.2.1 h1.2.2
      exact ⟨⟨a, rfl⟩, ⟨b, c, d⟩, h2⟩
    | false =>
      obtain ⟨a, b, c, d⟩ := free_stacked s.aperture x h2.1 h2.2.1 h2.2.2
      exact ⟨⟨rfl, a⟩, h1, ⟨b, c, d⟩⟩

theorem run_stacked (ops : List Op) (s : Pools)
    (h1 : s.stolen.live.Pairwise (fun a b => b.finish ≤ a.start) ∧
      (∀ r, r ∈ s.stolen.live → r.start + r.size = r.finish) ∧
      top s.stolen.live ≤ s.stolen.capacity)
    (h2 : s.aperture.live.Pairwise (fun a b => b.finish ≤ a.start) ∧
      (∀ r, r ∈ s.aperture.live → r.start + r.size = r.finish) ∧
      top s.aperture.live ≤ s.aperture.capacity) :
    ((run ops s).stolen.capacity = s.stolen.capacity ∧
      (run ops s).aperture.capacity = s.aperture.capacity) ∧
    ((run ops s).stolen.live.Pairwise (fun a b => b.finish ≤ a.start) ∧
      (∀ r, r ∈ (run ops s).stolen.live → r.start + r.size = r.finish) ∧
      top (run ops s).stolen.live ≤ (run ops s).stolen.capacity) ∧
    ((run ops s).aperture.live.Pairwise (fun a b => b.finish ≤ a.start) ∧
      (∀ r, r ∈ (run ops s).aperture.live → r.start + r.size = r.finish) ∧
      top (run ops s).aperture.live ≤ (run ops s).aperture.capacity) := by
  induction ops generalizing s with
  | nil => exact ⟨⟨rfl, rfl⟩, h1, h2⟩
  | cons op ops ih =>
    obtain ⟨⟨c1, c2⟩, g1, g2⟩ := step_stacked s op h1 h2
    obtain ⟨⟨d1, d2⟩, k1, k2⟩ := ih (step s op) g1 g2
    exact ⟨⟨d1.trans c1, d2.trans c2⟩, k1, k2⟩

theorem stacked_well_formed (p : Pool)
    (h : p.live.Pairwise (fun a b => b.finish ≤ a.start) ∧
      (∀ r, r ∈ p.live → r.start + r.size = r.finish) ∧ top p.live ≤ p.capacity) :
    p.well_formed := by
  obtain ⟨hc, hs, ht⟩ := h
  refine ⟨fun r hr => ?_, hc.imp (fun h => Or.inr h), ?_⟩
  · have := hs r hr
    omega
  · exact le_trans (stacked_sum_le_top p.live hc hs) ht

/-- C25: in the allocator as the specification describes it, after every
sequence of `reset_allocations`, `allocate` and `free` calls on two pools that
start empty, both pools are well formed: every live range has
`size = end - start`, no two live ranges of a pool overlap, and the sizes of
the live ranges of a pool sum to at most its capacity, which no call changes.
In a pool of 32 MB the tiled 1920x1080x32bpp front buffer at a pitch of 8192
bytes, the 64x64x32bpp cursor and the ring buffer of 128 KB are allocated at
offsets 0, 8847360 and 8863744. -/
theorem allocation_non_overlap (stolen_capacity aperture_capacity : Nat) (ops : List Op) :
    (run ops (fresh stolen_capacity aperture_capacity)).stolen.well_formed ∧
    (run ops (fresh stolen_capacity aperture_capacity)).aperture.well_formed ∧
    (run ops (fresh stolen_capacity aperture_capacity)).stolen.capacity = stolen_capacity ∧
    (run ops (fresh stolen_capacity aperture_capacity)).aperture.capacity = aperture_capacity ∧
    allocate { capacity := 32 * 1024 * 1024, live := [] } scenario
        { DRY_RUN := false, INITIAL := true, NO_TILING := false } =
      (.success, { capacity := 32 * 1024 * 1024, live :=
        [{ purpose := 2, start := 8863744, finish := 8994816, size := 131072,
           alignment := 4096 },
         { purpose := 1, start := 8847360, finish := 8863744, size := 16384,
           alignment := 4096 },
         { purpose := 0, start := 0, finish := 8847360, size := 8847360,
           alignment := 4096 }] }) := by
  obtain ⟨⟨c1, c2⟩, g1, g2⟩ := run_stacked ops (fresh stolen_capacity aperture_capacity)
    ⟨List.Pairwise.nil, (fun r hr => by cases hr), Nat.zero_le _⟩
    ⟨List.Pairwise.nil, (fun r hr => by cases hr), Nat.zero_le _⟩
  exact ⟨stacked_well_formed _ g1, stacked_well_formed _ g2, c1, c2, by decide⟩

end MemoryAllocator

namespace SnaPresent

/-! ## A queued unflip when the flip completes -/

end SnaPresent
